import Mathlib

/-!
# E-commerce data-access layer (users, products, orders, cart) over a MySQL connection

A shallow embedding of `database.c`, `user_operations.c`, `product_operations.c`,
`order_operations.c` and `cart_operations.c`.

* C strings are lists of byte values (`CStr`), record text fields are byte buffers of the
  declared capacity, `int` is `Int` reduced to 32 bits where the code converts.
* `double` is an abstract type `D` with the two libc conversions the code uses
  (`atof`, `printf "%.2f"`) collected in `FloatOps`; every theorem holds for every choice.
* The MySQL client library is an interface (`Server`): a statement text goes in, a `Reply`
  comes out.  `World` is the process state around one connection: the server state, the
  pending result, the allocator and a log of the library calls made.
* `ref_server` is a reference store: a relational model that recognises the statements this
  program sends and executes them on tables of rows.
-/

namespace Shop

/-! ## libc: strings, integers, printf -/

/-- The bytes of a C string, without the terminating NUL. -/
abbrev CStr := List Nat

/-- The bytes of an ASCII literal. -/
def bytes (s : String) : CStr := s.toList.map Char.toNat

/-- Test of `isdigit`. -/
def is_digit (b : Nat) : Bool := decide (48 ≤ b) && decide (b ≤ 57)

/-- Test of `isspace`. -/
def is_space (b : Nat) : Bool := decide (b = 32) || (decide (9 ≤ b) && decide (b ≤ 13))

/-- Decimal digits of a natural number, most significant first (`fuel` bounds the recursion). -/
def nat_digits_fuel : Nat → Nat → CStr
  | 0, _ => []
  | fuel + 1, n =>
      if n < 10 then [48 + n] else nat_digits_fuel fuel (n / 10) ++ [48 + n % 10]

/-- Decimal digits of a natural number. -/
def nat_digits (n : Nat) : CStr := nat_digits_fuel (n + 1) n

/-- Text of `printf "%d"`. -/
def fmt_d (i : Int) : CStr :=
  if i < 0 then 45 :: nat_digits i.natAbs else nat_digits i.toNat

/-- Value of a run of decimal digits. -/
def digits_val (ds : CStr) : Nat := ds.foldl (fun v b => 10 * v + (b - 48)) 0

/-- Conversion to a 32-bit `int` (two's complement wrap-around). -/
def wrap32 (i : Int) : Int := (i + 2147483648) % 4294967296 - 2147483648

/-- Range of a C `int`. -/
def is_int (i : Int) : Prop := -2147483648 ≤ i ∧ i ≤ 2147483647

instance (i : Int) : Decidable (is_int i) := by unfold is_int; infer_instance

/-- Saturation of `strtol` to the range of `long`. -/
def clamp_long (i : Int) : Int :=
  if i < -9223372036854775808 then -9223372036854775808
  else if 9223372036854775807 < i then 9223372036854775807 else i

/-- Base-10 `strtol`: leading white space, an optional sign, then the digits. -/
def strtol (s : CStr) : Int :=
  match s.dropWhile is_space with
  | 45 :: t => clamp_long (-(digits_val (t.takeWhile is_digit) : Int))
  | 43 :: t => clamp_long (digits_val (t.takeWhile is_digit))
  | t => clamp_long (digits_val (t.takeWhile is_digit))

/-- Function `atoi`: `(int) strtol(s, NULL, 10)`. -/
def atoi (s : CStr) : Int := wrap32 (strtol s)

/-- The C string held in a buffer: the bytes before the first NUL. -/
def cstr (buf : List Nat) : CStr := buf.takeWhile (fun b => b ≠ 0)

/-- Function `strncpy(dest, src, n)`: the first `n` bytes of `dest` become the bytes of `src`
before its first NUL, at most `n` of them, padded with NUL when they are fewer than `n`; the
bytes of `dest` from `n` on are untouched. -/
def strncpy (dest : List Nat) (src : List Nat) (n : Nat) : List Nat :=
  ((cstr src).take n ++ List.replicate (n - (cstr src).length) 0) ++ dest.drop n

/-- The conversions of `double` the code uses. -/
structure FloatOps (D : Type) where
  /-- The constant `0.0`. -/
  zero : D
  /-- Function `atof`. -/
  atof : CStr → D
  /-- Text of `printf "%.2f"`. -/
  fmt_2f : D → CStr

/-- One variadic argument of `snprintf`. -/
inductive Arg where
  /-- A `char*` argument for `%s`. -/
  | s (v : CStr)
  /-- An `int` (or `bool`) argument for `%d`. -/
  | d (v : Int)
  /-- A `double` argument for `%.2f`, carried as the text `%.2f` prints for it. -/
  | f (v : CStr)

/-- Expansion of a `printf` format: `%%`, `%s`, `%d` and `%.2f` are the conversions used. -/
def vformat : CStr → List Arg → CStr
  | [], _ => []
  | 37 :: 37 :: fmt, args => 37 :: vformat fmt args
  | 37 :: 115 :: fmt, Arg.s v :: args => v ++ vformat fmt args
  | 37 :: 100 :: fmt, Arg.d v :: args => fmt_d v ++ vformat fmt args
  | 37 :: 46 :: 50 :: 102 :: fmt, Arg.f v :: args => v ++ vformat fmt args
  | c :: fmt, args => c :: vformat fmt args

/-- Function `snprintf(buf, size, fmt, ...)`: the C string left in `buf`, cut to `size - 1`
bytes. -/
def snprintf (size : Nat) (fmt : String) (args : List Arg) : CStr :=
  (vformat (bytes fmt) args).take (size - 1)

/-- The `%d` argument for a `bool`. -/
def bool_int (b : Bool) : Int := if b then 1 else 0

/-! ## The MySQL client library -/

/-- A result row `MYSQL_ROW`: one nullable C string per column. -/
abbrev MYSQL_ROW := List (Option CStr)

/-- Answer of the server to one statement. -/
inductive Reply where
  /-- The statement failed; `msg` is the text of `mysql_error`. -/
  | error (msg : CStr)
  /-- The statement succeeded: the identifier `mysql_insert_id` reports and the result set
  `mysql_store_result` gives (`none` when it gives `NULL`). -/
  | ok (insert_id : Nat) (result : Option (List MYSQL_ROW))
deriving DecidableEq

/-- A store behind the connection: a state and its reaction to a statement text. -/
structure Server where
  /-- State of the store. -/
  State : Type
  /-- Execution of one statement. -/
  exec : State → CStr → Reply × State

/-- Calls observable from outside the process. -/
inductive Event where
  /-- A statement sent with `mysql_query`. -/
  | query (q : CStr)
  /-- A line written to `stderr`. -/
  | diag (msg : CStr)
  /-- A result set handed out by `mysql_store_result`. -/
  | store_result (res : Nat)
  /-- A result set released by `mysql_free_result`. -/
  | free_result (res : Nat)
  /-- A block handed out by `malloc`. -/
  | malloc (blk : Nat)
  /-- A call of `malloc` that returned `NULL`. -/
  | malloc_failed
  /-- A block released by `free`. -/
  | free (blk : Nat)
deriving DecidableEq

/-- The process state around one connection `MYSQL* conn`. -/
structure World (S : Server) where
  /-- State of the store. -/
  db : S.State
  /-- Value `mysql_insert_id` reports. -/
  insert_id : Nat
  /-- Message `mysql_error` reports. -/
  error : CStr
  /-- Result of the last statement, not yet fetched by `mysql_store_result`. -/
  pending : Option (List MYSQL_ROW)
  /-- Outcomes of the coming `malloc` calls (`false`: returns `NULL`); all succeed once the
  list is used up. -/
  oracle : List Bool
  /-- Content of fresh memory, by offset. -/
  junk : Nat → Nat
  /-- Identifier of the next block or result set. -/
  next_block : Nat
  /-- The calls made so far. -/
  log : List Event

/-- A stored result set `MYSQL_RES*` with its read cursor. -/
structure MYSQL_RES where
  /-- Identifier of the result set. -/
  id : Nat
  /-- All rows. -/
  rows : List MYSQL_ROW
  /-- The rows not yet fetched. -/
  rest : List MYSQL_ROW

variable {S : Server}

/-- Function `mysql_query`: 0 on success. -/
def mysql_query (w : World S) (q : CStr) : Nat × World S :=
  match S.exec w.db q with
  | (Reply.error msg, db1) =>
      (1, { w with db := db1, error := msg, pending := none, log := w.log ++ [Event.query q] })
  | (Reply.ok id res, db1) =>
      (0, { w with db := db1, insert_id := id, pending := res, log := w.log ++ [Event.query q] })

/-- Function `mysql_store_result`. -/
def mysql_store_result (w : World S) : Option MYSQL_RES × World S :=
  match w.pending with
  | none => (none, w)
  | some rows =>
      (some { id := w.next_block, rows := rows, rest := rows },
       { w with pending := none, next_block := w.next_block + 1,
                log := w.log ++ [Event.store_result w.next_block] })

/-- Function `mysql_fetch_row`. -/
def mysql_fetch_row (r : MYSQL_RES) : Option MYSQL_ROW × MYSQL_RES :=
  match r.rest with
  | [] => (none, r)
  | row :: rest => (some row, { r with rest := rest })

/-- Function `mysql_num_rows`. -/
def mysql_num_rows (r : MYSQL_RES) : Nat := r.rows.length

/-- Function `mysql_free_result`. -/
def mysql_free_result (w : World S) (r : MYSQL_RES) : World S :=
  { w with log := w.log ++ [Event.free_result r.id] }

/-- Function `mysql_insert_id`. -/
def mysql_insert_id (w : World S) : Nat := w.insert_id

/-- Function `fprintf(stderr, ...)`. -/
def fprintf_stderr (w : World S) (msg : CStr) : World S :=
  { w with log := w.log ++ [Event.diag msg] }

/-- Function `malloc`: the identifier of the new block, or `none` for `NULL`. -/
def malloc (w : World S) : Option Nat × World S :=
  match w.oracle with
  | false :: o => (none, { w with oracle := o, log := w.log ++ [Event.malloc_failed] })
  | true :: o =>
      (some w.next_block, { w with oracle := o, next_block := w.next_block + 1,
                                   log := w.log ++ [Event.malloc w.next_block] })
  | [] =>
      (some w.next_block, { w with next_block := w.next_block + 1,
                                   log := w.log ++ [Event.malloc w.next_block] })

/-- Function `free`. -/
def free (w : World S) (blk : Nat) : World S :=
  { w with log := w.log ++ [Event.free blk] }

/-- A fresh buffer of `cap` bytes. -/
def junk_buf (junk : Nat → Nat) (cap : Nat) : List Nat := (List.range cap).map junk

/-! ## database.c -/

/-- Function `execute_query` of database.c. -/
def execute_query (w : World S) (query : CStr) : Bool × World S :=
  match mysql_query w query with
  | (rc, w1) =>
      if rc ≠ 0 then (false, fprintf_stderr w1 (bytes "Query failed: " ++ (w1.error ++ [10])))
      else (true, w1)

/-- Function `execute_select_query` of database.c. -/
def execute_select_query (w : World S) (query : CStr) : Option MYSQL_RES × World S :=
  match mysql_query w query with
  | (rc, w1) =>
      if rc ≠ 0 then (none, fprintf_stderr w1 (bytes "Query failed: " ++ (w1.error ++ [10])))
      else
        match mysql_store_result w1 with
        | (none, w2) =>
            (none,
             fprintf_stderr w2 (bytes "mysql_store_result() failed: " ++ (w2.error ++ [10])))
        | (some result, w2) => (some result, w2)

/-! ## Records of database.h

Text fields are the byte buffers of the declared capacity. -/

/-- Record `User`. -/
structure User where
  user_id : Int
  username : List Nat
  email : List Nat
  password_hash : List Nat
  first_name : List Nat
  last_name : List Nat
  phone : List Nat
  created_at : List Nat
  updated_at : List Nat
  is_active : Bool
deriving DecidableEq

/-- Record `Product`. -/
structure Product (D : Type) where
  product_id : Int
  product_name : List Nat
  description : List Nat
  price : D
  stock_quantity : Int
  category_id : Int
  sku : List Nat
  weight : D
  dimensions : List Nat
  created_at : List Nat
  updated_at : List Nat
  is_active : Bool
deriving DecidableEq

/-- Record `Order`. -/
structure Order (D : Type) where
  order_id : Int
  user_id : Int
  order_date : List Nat
  status : List Nat
  total_amount : D
  shipping_address_id : Int
  billing_address_id : Int
  payment_method : List Nat
  shipping_cost : D
  tax_amount : D
  notes : List Nat
deriving DecidableEq

/-- Record `OrderItem`. -/
structure OrderItem (D : Type) where
  order_item_id : Int
  order_id : Int
  product_id : Int
  quantity : Int
  unit_price : D
  total_price : D
deriving DecidableEq

/-- Record `CartItem`. -/
structure CartItem where
  cart_item_id : Int
  user_id : Int
  product_id : Int
  quantity : Int
  added_at : List Nat
deriving DecidableEq

/-- The block `malloc(sizeof(User))` returns, before any field is written. -/
def fresh_user (junk : Nat → Nat) : User :=
  { user_id := junk 0, username := junk_buf junk 51, email := junk_buf junk 101,
    password_hash := junk_buf junk 256, first_name := junk_buf junk 51,
    last_name := junk_buf junk 51, phone := junk_buf junk 21,
    created_at := junk_buf junk 20, updated_at := junk_buf junk 20,
    is_active := decide (junk 0 ≠ 0) }

/-- The block `malloc(sizeof(Product))` returns, before any field is written. -/
def fresh_product {D : Type} (F : FloatOps D) (junk : Nat → Nat) : Product D :=
  { product_id := junk 0, product_name := junk_buf junk 201, description := junk_buf junk 1024,
    price := F.zero, stock_quantity := junk 0, category_id := junk 0, sku := junk_buf junk 51,
    weight := F.zero, dimensions := junk_buf junk 101, created_at := junk_buf junk 20,
    updated_at := junk_buf junk 20, is_active := decide (junk 0 ≠ 0) }

/-- The block `malloc(sizeof(Order))` returns, before any field is written. -/
def fresh_order {D : Type} (F : FloatOps D) (junk : Nat → Nat) : Order D :=
  { order_id := junk 0, user_id := junk 0, order_date := junk_buf junk 20,
    status := junk_buf junk 20, total_amount := F.zero, shipping_address_id := junk 0,
    billing_address_id := junk 0, payment_method := junk_buf junk 51, shipping_cost := F.zero,
    tax_amount := F.zero, notes := junk_buf junk 1024 }

/-- The block `malloc(sizeof(OrderItem))` returns, before any field is written. -/
def fresh_order_item {D : Type} (F : FloatOps D) (junk : Nat → Nat) : OrderItem D :=
  { order_item_id := junk 0, order_id := junk 0, product_id := junk 0, quantity := junk 0,
    unit_price := F.zero, total_price := F.zero }

/-- The block `malloc(sizeof(CartItem))` returns, before any field is written. -/
def fresh_cart_item (junk : Nat → Nat) : CartItem :=
  { cart_item_id := junk 0, user_id := junk 0, product_id := junk 0, quantity := junk 0,
    added_at := junk_buf junk 20 }

/-! ## Column reads -/

/-- Whether the reads of a row mapping over the columns `0 .. n-1` are defined: the row has
these columns, and `row[0]`, which every mapping hands to `atoi` unchecked, is not null. -/
def row_ok (n : Nat) (row : MYSQL_ROW) : Bool :=
  decide (n ≤ row.length) &&
    (match row with
     | some _ :: _ => true
     | _ => false)

/-- Expression `atoi(row[i])`, for a column that is not null. -/
def col_atoi (row : MYSQL_ROW) (i : Nat) : Int :=
  match row.get? i with
  | some (some s) => atoi s
  | _ => 0

/-- Expression `row[i] ? atoi(row[i]) : 0`. -/
def col_int (row : MYSQL_ROW) (i : Nat) : Int :=
  match row.get? i with
  | some (some s) => atoi s
  | _ => 0

/-- Expression `row[i] ? atof(row[i]) : 0.0`. -/
def col_dbl {D : Type} (F : FloatOps D) (row : MYSQL_ROW) (i : Nat) : D :=
  match row.get? i with
  | some (some s) => F.atof s
  | _ => F.zero

/-- Expression `row[i] ? row[i] : ""`. -/
def col_str (row : MYSQL_ROW) (i : Nat) : CStr :=
  match row.get? i with
  | some (some s) => s
  | _ => []

/-- Expression `(row[i] && atoi(row[i]) == 1)`. -/
def col_bool (row : MYSQL_ROW) (i : Nat) : Bool :=
  match row.get? i with
  | some (some s) => decide (atoi s = 1)
  | _ => false

/-! ## The loops of the multi-row fetches

Every multi-row fetch of the four modules is the same code around its own statement and its
own row mapping `fill`; a mapping gives `none` where its reads are undefined. -/

/-- The loop `while ((row = mysql_fetch_row(result)) != NULL)`: `arr` is the block of the
pointer array, `blks` the blocks of the records built so far, `acc` those records.  When
`malloc` fails the records, the array and the result set are released and the result is
`NULL`. -/
def fetch_loop {T : Type} (fill : MYSQL_ROW → (Nat → Nat) → Option T) (arr : Nat)
    (result : MYSQL_RES) :
    World S → List MYSQL_ROW → List Nat → List T → Option (Option (List T) × World S)
  | w, [], _, acc => some (some acc, w)
  | w, row :: rest, blks, acc =>
      match malloc w with
      | (none, w1) => some (none, mysql_free_result (free (blks.foldl free w1) arr) result)
      | (some blk, w1) =>
          match fill row w.junk with
          | none => none
          | some t => fetch_loop fill arr result w1 rest (blks ++ [blk]) (acc ++ [t])

/-- Body of a multi-row fetch after its statement is built: the sequence (`none` for
`NULL`), the value stored in `*count`, and the state afterwards. -/
def fetch_all {T : Type} (fill : MYSQL_ROW → (Nat → Nat) → Option T) (w : World S)
    (query : CStr) : Option (Option (List T) × Int × World S) :=
  match execute_select_query w query with
  | (none, w1) => some (none, 0, w1)
  | (some result, w1) =>
      if wrap32 (mysql_num_rows result) = 0 then some (none, 0, mysql_free_result w1 result)
      else
        match malloc w1 with
        | (none, w2) => some (none, 0, mysql_free_result w2 result)
        | (some arr, w2) =>
            match fetch_loop fill arr result w2 result.rest [] [] with
            | none => none
            | some (none, w3) => some (none, 0, w3)
            | some (some recs, w3) =>
                some (some recs, wrap32 (mysql_num_rows result), mysql_free_result w3 result)

/-- Body of a single-row lookup after its statement is built. -/
def fetch_one {T : Type} (fill : MYSQL_ROW → (Nat → Nat) → Option T) (w : World S)
    (query : CStr) : Option (Option T × World S) :=
  match execute_select_query w query with
  | (none, w1) => some (none, w1)
  | (some result, w1) =>
      match mysql_fetch_row result with
      | (none, result1) => some (none, mysql_free_result w1 result1)
      | (some row, result1) =>
          match malloc w1 with
          | (none, w2) => some (none, mysql_free_result w2 result1)
          | (some _, w2) =>
              match fill row w1.junk with
              | none => none
              | some t => some (some t, mysql_free_result w2 result1)

/-! ## user_operations.c -/

/-- Statement of `create_user`. -/
def create_user_query (user : User) : CStr :=
  snprintf 1024
    "INSERT INTO users (username, email, password_hash, first_name, last_name, phone, is_active) VALUES ('%s', '%s', '%s', '%s', '%s', '%s', %d)"
    [Arg.s (cstr user.username), Arg.s (cstr user.email), Arg.s (cstr user.password_hash),
     Arg.s (cstr user.first_name), Arg.s (cstr user.last_name), Arg.s (cstr user.phone),
     Arg.d (bool_int user.is_active)]

/-- Function `create_user`. -/
def create_user (w : World S) (user : User) : Int × World S :=
  match execute_query w (create_user_query user) with
  | (false, w1) => (-1, w1)
  | (true, w1) => (wrap32 (mysql_insert_id w1), w1)

/-- Row mapping of `get_user_by_id` (lines 42-51). -/
def get_user_by_id_fill (row : MYSQL_ROW) (junk : Nat → Nat) : Option User :=
  let user := fresh_user junk
  if row_ok 10 row then
    some { user_id := col_atoi row 0,
           username := strncpy user.username (col_str row 1) 50,
           email := strncpy user.email (col_str row 2) 100,
           password_hash := strncpy user.password_hash (col_str row 3) 255,
           first_name := strncpy user.first_name (col_str row 4) 50,
           last_name := strncpy user.last_name (col_str row 5) 50,
           phone := strncpy user.phone (col_str row 6) 20,
           created_at := strncpy user.created_at (col_str row 7) 19,
           updated_at := strncpy user.updated_at (col_str row 8) 19,
           is_active := col_bool row 9 }
  else none

/-- Statement of `get_user_by_id`. -/
def get_user_by_id_query (user_id : Int) : CStr :=
  snprintf 256 "SELECT * FROM users WHERE user_id = %d" [Arg.d user_id]

/-- Function `get_user_by_id`. -/
def get_user_by_id (w : World S) (user_id : Int) : Option (Option User × World S) :=
  fetch_one get_user_by_id_fill w (get_user_by_id_query user_id)

/-- Statement of `update_user`. -/
def update_user_query (user : User) : CStr :=
  snprintf 1024
    "UPDATE users SET username='%s', email='%s', password_hash='%s', first_name='%s', last_name='%s', phone='%s', is_active=%d WHERE user_id=%d"
    [Arg.s (cstr user.username), Arg.s (cstr user.email), Arg.s (cstr user.password_hash),
     Arg.s (cstr user.first_name), Arg.s (cstr user.last_name), Arg.s (cstr user.phone),
     Arg.d (bool_int user.is_active), Arg.d user.user_id]

/-- Function `update_user`. -/
def update_user (w : World S) (user : User) : Bool × World S :=
  execute_query w (update_user_query user)

/-- Statement of `delete_user`. -/
def delete_user_query (user_id : Int) : CStr :=
  snprintf 256 "DELETE FROM users WHERE user_id = %d" [Arg.d user_id]

/-- Function `delete_user`. -/
def delete_user (w : World S) (user_id : Int) : Bool × World S :=
  execute_query w (delete_user_query user_id)

/-- Row mapping of `get_all_users` (lines 186-195). -/
def get_all_users_fill (row : MYSQL_ROW) (junk : Nat → Nat) : Option User :=
  let user := fresh_user junk
  if row_ok 10 row then
    some { user_id := col_atoi row 0,
           username := strncpy user.username (col_str row 1) 50,
           email := strncpy user.email (col_str row 2) 100,
           password_hash := strncpy user.password_hash (col_str row 3) 255,
           first_name := strncpy user.first_name (col_str row 4) 50,
           last_name := strncpy user.last_name (col_str row 5) 50,
           phone := strncpy user.phone (col_str row 6) 20,
           created_at := strncpy user.created_at (col_str row 7) 19,
           updated_at := strncpy user.updated_at (col_str row 8) 19,
           is_active := col_bool row 9 }
  else none

/-- Function `get_all_users`. -/
def get_all_users (w : World S) : Option (Option (List User) × Int × World S) :=
  fetch_all get_all_users_fill w (bytes "SELECT * FROM users ORDER BY user_id")

/-! ## product_operations.c -/

/-- Statement of `create_product`. -/
def create_product_query {D : Type} (F : FloatOps D) (product : Product D) : CStr :=
  snprintf 2048
    "INSERT INTO products (product_name, description, price, stock_quantity, category_id, sku, weight, dimensions, is_active) VALUES ('%s', '%s', %.2f, %d, %d, '%s', %.2f, '%s', %d)"
    [Arg.s (cstr product.product_name), Arg.s (cstr product.description),
     Arg.f (F.fmt_2f product.price), Arg.d product.stock_quantity, Arg.d product.category_id,
     Arg.s (cstr product.sku), Arg.f (F.fmt_2f product.weight),
     Arg.s (cstr product.dimensions), Arg.d (bool_int product.is_active)]

/-- Function `create_product`. -/
def create_product {D : Type} (F : FloatOps D) (w : World S) (product : Product D) : Int × World S :=
  match execute_query w (create_product_query F product) with
  | (false, w1) => (-1, w1)
  | (true, w1) => (wrap32 (mysql_insert_id w1), w1)

/-- Row mapping of `get_product_by_id` (lines 42-53). -/
def get_product_by_id_fill {D : Type} (F : FloatOps D) (row : MYSQL_ROW) (junk : Nat → Nat) :
    Option (Product D) :=
  let product := fresh_product F junk
  if row_ok 12 row then
    some { product_id := col_atoi row 0,
           product_name := strncpy product.product_name (col_str row 1) 200,
           description := strncpy product.description (col_str row 2) 1023,
           price := col_dbl F row 3,
           stock_quantity := col_int row 4,
           category_id := col_int row 5,
           sku := strncpy product.sku (col_str row 6) 50,
           weight := col_dbl F row 7,
           dimensions := strncpy product.dimensions (col_str row 8) 100,
           created_at := strncpy product.created_at (col_str row 9) 19,
           updated_at := strncpy product.updated_at (col_str row 10) 19,
           is_active := col_bool row 11 }
  else none

/-- Statement of `get_product_by_id`. -/
def get_product_by_id_query (product_id : Int) : CStr :=
  snprintf 256 "SELECT * FROM products WHERE product_id = %d" [Arg.d product_id]

/-- Function `get_product_by_id`. -/
def get_product_by_id {D : Type} (F : FloatOps D) (w : World S) (product_id : Int) :
    Option (Option (Product D) × World S) :=
  fetch_one (get_product_by_id_fill F) w (get_product_by_id_query product_id)

/-- Statement of `update_product`. -/
def update_product_query {D : Type} (F : FloatOps D) (product : Product D) : CStr :=
  snprintf 2048
    "UPDATE products SET product_name='%s', description='%s', price=%.2f, stock_quantity=%d, category_id=%d, sku='%s', weight=%.2f, dimensions='%s', is_active=%d WHERE product_id=%d"
    [Arg.s (cstr product.product_name), Arg.s (cstr product.description),
     Arg.f (F.fmt_2f product.price), Arg.d product.stock_quantity, Arg.d product.category_id,
     Arg.s (cstr product.sku), Arg.f (F.fmt_2f product.weight),
     Arg.s (cstr product.dimensions), Arg.d (bool_int product.is_active),
     Arg.d product.product_id]

/-- Function `update_product`. -/
def update_product {D : Type} (F : FloatOps D) (w : World S) (product : Product D) : Bool × World S :=
  execute_query w (update_product_query F product)

/-- Statement of `delete_product`. -/
def delete_product_query (product_id : Int) : CStr :=
  snprintf 256 "DELETE FROM products WHERE product_id = %d" [Arg.d product_id]

/-- Function `delete_product`. -/
def delete_product (w : World S) (product_id : Int) : Bool × World S :=
  execute_query w (delete_product_query product_id)

/-- Row mapping of `get_all_products` (lines 154-165). -/
def get_all_products_fill {D : Type} (F : FloatOps D) (row : MYSQL_ROW) (junk : Nat → Nat) :
    Option (Product D) :=
  let product := fresh_product F junk
  if row_ok 12 row then
    some { product_id := col_atoi row 0,
           product_name := strncpy product.product_name (col_str row 1) 200,
           description := strncpy product.description (col_str row 2) 1023,
           price := col_dbl F row 3,
           stock_quantity := col_int row 4,
           category_id := col_int row 5,
           sku := strncpy product.sku (col_str row 6) 50,
           weight := col_dbl F row 7,
           dimensions := strncpy product.dimensions (col_str row 8) 100,
           created_at := strncpy product.created_at (col_str row 9) 19,
           updated_at := strncpy product.updated_at (col_str row 10) 19,
           is_active := col_bool row 11 }
  else none

/-- Function `get_all_products`. -/
def get_all_products {D : Type} (F : FloatOps D) (w : World S) :
    Option (Option (List (Product D)) × Int × World S) :=
  fetch_all (get_all_products_fill F) w (bytes "SELECT * FROM products ORDER BY product_id")

/-- Row mapping of `get_products_by_category` (lines 213-224). -/
def get_products_by_category_fill {D : Type} (F : FloatOps D) (row : MYSQL_ROW) (junk : Nat → Nat) :
    Option (Product D) :=
  let product := fresh_product F junk
  if row_ok 12 row then
    some { product_id := col_atoi row 0,
           product_name := strncpy product.product_name (col_str row 1) 200,
           description := strncpy product.description (col_str row 2) 1023,
           price := col_dbl F row 3,
           stock_quantity := col_int row 4,
           category_id := col_int row 5,
           sku := strncpy product.sku (col_str row 6) 50,
           weight := col_dbl F row 7,
           dimensions := strncpy product.dimensions (col_str row 8) 100,
           created_at := strncpy product.created_at (col_str row 9) 19,
           updated_at := strncpy product.updated_at (col_str row 10) 19,
           is_active := col_bool row 11 }
  else none

/-- Statement of `get_products_by_category`. -/
def get_products_by_category_query (category_id : Int) : CStr :=
  snprintf 256 "SELECT * FROM products WHERE category_id = %d ORDER BY product_id" [Arg.d category_id]

/-- Function `get_products_by_category`. -/
def get_products_by_category {D : Type} (F : FloatOps D) (w : World S) (category_id : Int) :
    Option (Option (List (Product D)) × Int × World S) :=
  fetch_all (get_products_by_category_fill F) w (get_products_by_category_query category_id)

/-- Row mapping of `search_products_by_name` (lines 273-284). -/
def search_products_by_name_fill {D : Type} (F : FloatOps D) (row : MYSQL_ROW) (junk : Nat → Nat) :
    Option (Product D) :=
  let product := fresh_product F junk
  if row_ok 12 row then
    some { product_id := col_atoi row 0,
           product_name := strncpy product.product_name (col_str row 1) 200,
           description := strncpy product.description (col_str row 2) 1023,
           price := col_dbl F row 3,
           stock_quantity := col_int row 4,
           category_id := col_int row 5,
           sku := strncpy product.sku (col_str row 6) 50,
           weight := col_dbl F row 7,
           dimensions := strncpy product.dimensions (col_str row 8) 100,
           created_at := strncpy product.created_at (col_str row 9) 19,
           updated_at := strncpy product.updated_at (col_str row 10) 19,
           is_active := col_bool row 11 }
  else none

/-- Statement of `search_products_by_name`. -/
def search_products_by_name_query (search_term : CStr) : CStr :=
  snprintf 512 "SELECT * FROM products WHERE product_name LIKE '%%%s%%' ORDER BY product_id"
    [Arg.s search_term]

/-- Function `search_products_by_name`. -/
def search_products_by_name {D : Type} (F : FloatOps D) (w : World S) (search_term : CStr) :
    Option (Option (List (Product D)) × Int × World S) :=
  fetch_all (search_products_by_name_fill F) w (search_products_by_name_query search_term)

/-- Statement of `update_product_stock`. -/
def update_product_stock_query (product_id new_stock : Int) : CStr :=
  snprintf 256 "UPDATE products SET stock_quantity = %d WHERE product_id = %d"
    [Arg.d new_stock, Arg.d product_id]

/-- Function `update_product_stock`. -/
def update_product_stock (w : World S) (product_id new_stock : Int) : Bool × World S :=
  execute_query w (update_product_stock_query product_id new_stock)

/-- Row mapping of `get_products_by_price_range` (lines 343-354). -/
def get_products_by_price_range_fill {D : Type} (F : FloatOps D) (row : MYSQL_ROW) (junk : Nat → Nat) :
    Option (Product D) :=
  let product := fresh_product F junk
  if row_ok 12 row then
    some { product_id := col_atoi row 0,
           product_name := strncpy product.product_name (col_str row 1) 200,
           description := strncpy product.description (col_str row 2) 1023,
           price := col_dbl F row 3,
           stock_quantity := col_int row 4,
           category_id := col_int row 5,
           sku := strncpy product.sku (col_str row 6) 50,
           weight := col_dbl F row 7,
           dimensions := strncpy product.dimensions (col_str row 8) 100,
           created_at := strncpy product.created_at (col_str row 9) 19,
           updated_at := strncpy product.updated_at (col_str row 10) 19,
           is_active := col_bool row 11 }
  else none

/-- Statement of `get_products_by_price_range`. -/
def get_products_by_price_range_query {D : Type} (F : FloatOps D) (min_price max_price : D) :
    CStr :=
  snprintf 512 "SELECT * FROM products WHERE price >= %.2f AND price <= %.2f ORDER BY price"
    [Arg.f (F.fmt_2f min_price), Arg.f (F.fmt_2f max_price)]

/-- Function `get_products_by_price_range`. -/
def get_products_by_price_range {D : Type} (F : FloatOps D) (w : World S)
    (min_price max_price : D) : Option (Option (List (Product D)) × Int × World S) :=
  fetch_all (get_products_by_price_range_fill F) w
    (get_products_by_price_range_query F min_price max_price)

/-! ## order_operations.c -/

/-- Statement of `create_order`. -/
def create_order_query {D : Type} (F : FloatOps D) (order : Order D) : CStr :=
  snprintf 2048
    "INSERT INTO orders (user_id, status, total_amount, shipping_address_id, billing_address_id, payment_method, shipping_cost, tax_amount, notes) VALUES (%d, '%s', %.2f, %d, %d, '%s', %.2f, %.2f, '%s')"
    [Arg.d order.user_id, Arg.s (cstr order.status), Arg.f (F.fmt_2f order.total_amount),
     Arg.d order.shipping_address_id, Arg.d order.billing_address_id,
     Arg.s (cstr order.payment_method), Arg.f (F.fmt_2f order.shipping_cost),
     Arg.f (F.fmt_2f order.tax_amount), Arg.s (cstr order.notes)]

/-- Function `create_order`. -/
def create_order {D : Type} (F : FloatOps D) (w : World S) (order : Order D) : Int × World S :=
  match execute_query w (create_order_query F order) with
  | (false, w1) => (-1, w1)
  | (true, w1) => (wrap32 (mysql_insert_id w1), w1)

/-- Row mapping of `get_order_by_id` (lines 44-54). -/
def get_order_by_id_fill {D : Type} (F : FloatOps D) (row : MYSQL_ROW) (junk : Nat → Nat) :
    Option (Order D) :=
  let order := fresh_order F junk
  if row_ok 11 row then
    some { order_id := col_atoi row 0,
           user_id := col_int row 1,
           order_date := strncpy order.order_date (col_str row 2) 19,
           status := strncpy order.status (col_str row 3) 19,
           total_amount := col_dbl F row 4,
           shipping_address_id := col_int row 5,
           billing_address_id := col_int row 6,
           payment_method := strncpy order.payment_method (col_str row 7) 50,
           shipping_cost := col_dbl F row 8,
           tax_amount := col_dbl F row 9,
           notes := strncpy order.notes (col_str row 10) 1023 }
  else none

/-- Statement of `get_order_by_id`. -/
def get_order_by_id_query (order_id : Int) : CStr :=
  snprintf 256 "SELECT * FROM orders WHERE order_id = %d" [Arg.d order_id]

/-- Function `get_order_by_id`. -/
def get_order_by_id {D : Type} (F : FloatOps D) (w : World S) (order_id : Int) :
    Option (Option (Order D) × World S) :=
  fetch_one (get_order_by_id_fill F) w (get_order_by_id_query order_id)

/-- Statement of `update_order`. -/
def update_order_query {D : Type} (F : FloatOps D) (order : Order D) : CStr :=
  snprintf 2048
    "UPDATE orders SET user_id=%d, status='%s', total_amount=%.2f, shipping_address_id=%d, billing_address_id=%d, payment_method='%s', shipping_cost=%.2f, tax_amount=%.2f, notes='%s' WHERE order_id=%d"
    [Arg.d order.user_id, Arg.s (cstr order.status), Arg.f (F.fmt_2f order.total_amount),
     Arg.d order.shipping_address_id, Arg.d order.billing_address_id,
     Arg.s (cstr order.payment_method), Arg.f (F.fmt_2f order.shipping_cost),
     Arg.f (F.fmt_2f order.tax_amount), Arg.s (cstr order.notes), Arg.d order.order_id]

/-- Function `update_order`. -/
def update_order {D : Type} (F : FloatOps D) (w : World S) (order : Order D) : Bool × World S :=
  execute_query w (update_order_query F order)

/-- Statement of `delete_order`. -/
def delete_order_query (order_id : Int) : CStr :=
  snprintf 256 "DELETE FROM orders WHERE order_id = %d" [Arg.d order_id]

/-- Function `delete_order`. -/
def delete_order (w : World S) (order_id : Int) : Bool × World S :=
  execute_query w (delete_order_query order_id)

/-- Row mapping of `get_orders_by_user` (lines 118-128). -/
def get_orders_by_user_fill {D : Type} (F : FloatOps D) (row : MYSQL_ROW) (junk : Nat → Nat) :
    Option (Order D) :=
  let order := fresh_order F junk
  if row_ok 11 row then
    some { order_id := col_atoi row 0,
           user_id := col_int row 1,
           order_date := strncpy order.order_date (col_str row 2) 19,
           status := strncpy order.status (col_str row 3) 19,
           total_amount := col_dbl F row 4,
           shipping_address_id := col_int row 5,
           billing_address_id := col_int row 6,
           payment_method := strncpy order.payment_method (col_str row 7) 50,
           shipping_cost := col_dbl F row 8,
           tax_amount := col_dbl F row 9,
           notes := strncpy order.notes (col_str row 10) 1023 }
  else none

/-- Statement of `get_orders_by_user`. -/
def get_orders_by_user_query (user_id : Int) : CStr :=
  snprintf 256 "SELECT * FROM orders WHERE user_id = %d ORDER BY order_date DESC" [Arg.d user_id]

/-- Function `get_orders_by_user`. -/
def get_orders_by_user {D : Type} (F : FloatOps D) (w : World S) (user_id : Int) :
    Option (Option (List (Order D)) × Int × World S) :=
  fetch_all (get_orders_by_user_fill F) w (get_orders_by_user_query user_id)

/-- Row mapping of `get_all_orders` (lines 175-185). -/
def get_all_orders_fill {D : Type} (F : FloatOps D) (row : MYSQL_ROW) (junk : Nat → Nat) :
    Option (Order D) :=
  let order := fresh_order F junk
  if row_ok 11 row then
    some { order_id := col_atoi row 0,
           user_id := col_int row 1,
           order_date := strncpy order.order_date (col_str row 2) 19,
           status := strncpy order.status (col_str row 3) 19,
           total_amount := col_dbl F row 4,
           shipping_address_id := col_int row 5,
           billing_address_id := col_int row 6,
           payment_method := strncpy order.payment_method (col_str row 7) 50,
           shipping_cost := col_dbl F row 8,
           tax_amount := col_dbl F row 9,
           notes := strncpy order.notes (col_str row 10) 1023 }
  else none

/-- Function `get_all_orders`. -/
def get_all_orders {D : Type} (F : FloatOps D) (w : World S) :
    Option (Option (List (Order D)) × Int × World S) :=
  fetch_all (get_all_orders_fill F) w (bytes "SELECT * FROM orders ORDER BY order_date DESC")

/-- Row mapping of `get_orders_by_status` (lines 241-251). -/
def get_orders_by_status_fill {D : Type} (F : FloatOps D) (row : MYSQL_ROW) (junk : Nat → Nat) :
    Option (Order D) :=
  let order := fresh_order F junk
  if row_ok 11 row then
    some { order_id := col_atoi row 0,
           user_id := col_int row 1,
           order_date := strncpy order.order_date (col_str row 2) 19,
           status := strncpy order.status (col_str row 3) 19,
           total_amount := col_dbl F row 4,
           shipping_address_id := col_int row 5,
           billing_address_id := col_int row 6,
           payment_method := strncpy order.payment_method (col_str row 7) 50,
           shipping_cost := col_dbl F row 8,
           tax_amount := col_dbl F row 9,
           notes := strncpy order.notes (col_str row 10) 1023 }
  else none

/-- Statement of `get_orders_by_status`. -/
def get_orders_by_status_query (status : CStr) : CStr :=
  snprintf 256 "SELECT * FROM orders WHERE status = '%s' ORDER BY order_date DESC"
    [Arg.s status]

/-- Function `get_orders_by_status`. -/
def get_orders_by_status {D : Type} (F : FloatOps D) (w : World S) (status : CStr) :
    Option (Option (List (Order D)) × Int × World S) :=
  fetch_all (get_orders_by_status_fill F) w (get_orders_by_status_query status)

/-- Statement of `create_order_item`. -/
def create_order_item_query {D : Type} (F : FloatOps D) (item : OrderItem D) : CStr :=
  snprintf 512
    "INSERT INTO order_items (order_id, product_id, quantity, unit_price, total_price) VALUES (%d, %d, %d, %.2f, %.2f)"
    [Arg.d item.order_id, Arg.d item.product_id, Arg.d item.quantity,
     Arg.f (F.fmt_2f item.unit_price), Arg.f (F.fmt_2f item.total_price)]

/-- Function `create_order_item`. -/
def create_order_item {D : Type} (F : FloatOps D) (w : World S) (item : OrderItem D) : Int × World S :=
  match execute_query w (create_order_item_query F item) with
  | (false, w1) => (-1, w1)
  | (true, w1) => (wrap32 (mysql_insert_id w1), w1)

/-- Row mapping of `get_order_item_by_id` (lines 296-301). -/
def get_order_item_by_id_fill {D : Type} (F : FloatOps D) (row : MYSQL_ROW) (_junk : Nat → Nat) :
    Option (OrderItem D) :=
  if row_ok 6 row then
    some { order_item_id := col_atoi row 0,
           order_id := col_int row 1,
           product_id := col_int row 2,
           quantity := col_int row 3,
           unit_price := col_dbl F row 4,
           total_price := col_dbl F row 5 }
  else none

/-- Statement of `get_order_item_by_id`. -/
def get_order_item_by_id_query (order_item_id : Int) : CStr :=
  snprintf 256 "SELECT * FROM order_items WHERE order_item_id = %d" [Arg.d order_item_id]

/-- Function `get_order_item_by_id`. -/
def get_order_item_by_id {D : Type} (F : FloatOps D) (w : World S) (order_item_id : Int) :
    Option (Option (OrderItem D) × World S) :=
  fetch_one (get_order_item_by_id_fill F) w (get_order_item_by_id_query order_item_id)

/-- Statement of `update_order_item`. -/
def update_order_item_query {D : Type} (F : FloatOps D) (item : OrderItem D) : CStr :=
  snprintf 512
    "UPDATE order_items SET order_id=%d, product_id=%d, quantity=%d, unit_price=%.2f, total_price=%.2f WHERE order_item_id=%d"
    [Arg.d item.order_id, Arg.d item.product_id, Arg.d item.quantity,
     Arg.f (F.fmt_2f item.unit_price), Arg.f (F.fmt_2f item.total_price),
     Arg.d item.order_item_id]

/-- Function `update_order_item`. -/
def update_order_item {D : Type} (F : FloatOps D) (w : World S) (item : OrderItem D) : Bool × World S :=
  execute_query w (update_order_item_query F item)

/-- Statement of `delete_order_item`. -/
def delete_order_item_query (order_item_id : Int) : CStr :=
  snprintf 256 "DELETE FROM order_items WHERE order_item_id = %d" [Arg.d order_item_id]

/-- Function `delete_order_item`. -/
def delete_order_item (w : World S) (order_item_id : Int) : Bool × World S :=
  execute_query w (delete_order_item_query order_item_id)

/-- Row mapping of `get_order_items_by_order` (lines 362-367). -/
def get_order_items_by_order_fill {D : Type} (F : FloatOps D) (row : MYSQL_ROW) (_junk : Nat → Nat) :
    Option (OrderItem D) :=
  if row_ok 6 row then
    some { order_item_id := col_atoi row 0,
           order_id := col_int row 1,
           product_id := col_int row 2,
           quantity := col_int row 3,
           unit_price := col_dbl F row 4,
           total_price := col_dbl F row 5 }
  else none

/-- Statement of `get_order_items_by_order`. -/
def get_order_items_by_order_query (order_id : Int) : CStr :=
  snprintf 256 "SELECT * FROM order_items WHERE order_id = %d" [Arg.d order_id]

/-- Function `get_order_items_by_order`. -/
def get_order_items_by_order {D : Type} (F : FloatOps D) (w : World S) (order_id : Int) :
    Option (Option (List (OrderItem D)) × Int × World S) :=
  fetch_all (get_order_items_by_order_fill F) w (get_order_items_by_order_query order_id)

/-! ## cart_operations.c -/

/-- Statement of `add_to_cart`. -/
def add_to_cart_query (item : CartItem) : CStr :=
  snprintf 512
    "INSERT INTO cart_items (user_id, product_id, quantity) VALUES (%d, %d, %d) ON DUPLICATE KEY UPDATE quantity = quantity + %d"
    [Arg.d item.user_id, Arg.d item.product_id, Arg.d item.quantity, Arg.d item.quantity]

/-- Function `add_to_cart`. -/
def add_to_cart (w : World S) (item : CartItem) : Int × World S :=
  match execute_query w (add_to_cart_query item) with
  | (false, w1) => (-1, w1)
  | (true, w1) => (wrap32 (mysql_insert_id w1), w1)

/-- Row mapping of `get_cart_item_by_id` (lines 41-45). -/
def get_cart_item_by_id_fill (row : MYSQL_ROW) (junk : Nat → Nat) : Option CartItem :=
  let item := fresh_cart_item junk
  if row_ok 5 row then
    some { cart_item_id := col_atoi row 0,
           user_id := col_int row 1,
           product_id := col_int row 2,
           quantity := col_int row 3,
           added_at := strncpy item.added_at (col_str row 4) 19 }
  else none

/-- Statement of `get_cart_item_by_id`. -/
def get_cart_item_by_id_query (cart_item_id : Int) : CStr :=
  snprintf 256 "SELECT * FROM cart_items WHERE cart_item_id = %d" [Arg.d cart_item_id]

/-- Function `get_cart_item_by_id`. -/
def get_cart_item_by_id (w : World S) (cart_item_id : Int) : Option (Option CartItem × World S) :=
  fetch_one get_cart_item_by_id_fill w (get_cart_item_by_id_query cart_item_id)

/-- Statement of `update_cart_item`. -/
def update_cart_item_query (item : CartItem) : CStr :=
  snprintf 512
    "UPDATE cart_items SET user_id=%d, product_id=%d, quantity=%d WHERE cart_item_id=%d"
    [Arg.d item.user_id, Arg.d item.product_id, Arg.d item.quantity, Arg.d item.cart_item_id]

/-- Function `update_cart_item`. -/
def update_cart_item (w : World S) (item : CartItem) : Bool × World S :=
  execute_query w (update_cart_item_query item)

/-- Statement of `remove_from_cart`. -/
def remove_from_cart_query (cart_item_id : Int) : CStr :=
  snprintf 256 "DELETE FROM cart_items WHERE cart_item_id = %d" [Arg.d cart_item_id]

/-- Function `remove_from_cart`. -/
def remove_from_cart (w : World S) (cart_item_id : Int) : Bool × World S :=
  execute_query w (remove_from_cart_query cart_item_id)

/-- Row mapping of `get_cart_items_by_user` (lines 112-116). -/
def get_cart_items_by_user_fill (row : MYSQL_ROW) (junk : Nat → Nat) : Option CartItem :=
  let item := fresh_cart_item junk
  if row_ok 5 row then
    some { cart_item_id := col_atoi row 0,
           user_id := col_int row 1,
           product_id := col_int row 2,
           quantity := col_int row 3,
           added_at := strncpy item.added_at (col_str row 4) 19 }
  else none

/-- Statement of `get_cart_items_by_user`. -/
def get_cart_items_by_user_query (user_id : Int) : CStr :=
  snprintf 256 "SELECT * FROM cart_items WHERE user_id = %d ORDER BY added_at DESC" [Arg.d user_id]

/-- Function `get_cart_items_by_user`. -/
def get_cart_items_by_user (w : World S) (user_id : Int) : Option (Option (List CartItem) × Int × World S) :=
  fetch_all get_cart_items_by_user_fill w (get_cart_items_by_user_query user_id)

/-- Statement of `calculate_cart_total`. -/
def calculate_cart_total_query (user_id : Int) : CStr :=
  snprintf 512
    "SELECT SUM(c.quantity * p.price) FROM cart_items c JOIN products p ON c.product_id = p.product_id WHERE c.user_id = %d"
    [Arg.d user_id]

/-- Function `calculate_cart_total`; `none` where `row[0]` reads outside the row. -/
def calculate_cart_total {D : Type} (F : FloatOps D) (w : World S) (user_id : Int) :
    Option (D × World S) :=
  match execute_select_query w (calculate_cart_total_query user_id) with
  | (none, w1) => some (F.zero, w1)
  | (some result, w1) =>
      match mysql_fetch_row result with
      | (none, result1) => some (F.zero, mysql_free_result w1 result1)
      | (some row, result1) =>
          match row.get? 0 with
          | none => none
          | some none => some (F.zero, mysql_free_result w1 result1)
          | some (some s) => some (F.atof s, mysql_free_result w1 result1)

/-! ## The reference store

A relational model of the store behind the connection.  It reads a statement the way the
server's lexer reads the literals in it (quoted strings with their escapes, integers,
decimals), recognises the statement forms this program sends and executes them on tables of
rows.  Columns are numbered in the order the row mappings read them.  Column defaults and
the collation are part of the state; a text that is no statement of the catalogue is
rejected as a syntax error. -/

/-- A column value. -/
inductive Val where
  /-- SQL `NULL`. -/
  | null
  /-- An integer. -/
  | int (v : Int)
  /-- A decimal with two fraction digits, in hundredths. -/
  | dec (v : Int)
  /-- A text. -/
  | text (v : CStr)
deriving DecidableEq

/-- A table: its rows in storage order, the `AUTO_INCREMENT` counter of column 0 and the
column defaults. -/
structure Table where
  rows : List (List Val)
  auto_inc : Nat
  dflt : List Val

/-- The tables the program uses. -/
inductive TableName where
  | users
  | products
  | orders
  | order_items
  | cart_items
deriving DecidableEq

/-- State of the reference store. -/
structure DB where
  users : Table
  products : Table
  orders : Table
  order_items : Table
  cart_items : Table
  /-- Collation: the key under which a byte of a text is compared. -/
  coll : Nat → Nat

/-- Table by name. -/
def DB.get (db : DB) : TableName → Table
  | TableName.users => db.users
  | TableName.products => db.products
  | TableName.orders => db.orders
  | TableName.order_items => db.order_items
  | TableName.cart_items => db.cart_items

/-- Replacement of one table. -/
def DB.set (db : DB) (n : TableName) (t : Table) : DB :=
  match n with
  | TableName.users => { db with users := t }
  | TableName.products => { db with products := t }
  | TableName.orders => { db with orders := t }
  | TableName.order_items => { db with order_items := t }
  | TableName.cart_items => { db with cart_items := t }

/-- Text of a decimal given in hundredths. -/
def fmt_dec (c : Int) : CStr :=
  (if c < 0 then [45] else []) ++
    (nat_digits (c.natAbs / 100) ++ [46, 48 + c.natAbs % 100 / 10, 48 + c.natAbs % 10])

/-- The text the server sends for a value (`none`: a null column). -/
def Val.show : Val → Option CStr
  | Val.null => none
  | Val.int v => some (fmt_d v)
  | Val.dec v => some (fmt_dec v)
  | Val.text v => some v

/-- A stored row as the client receives it. -/
def show_row (r : List Val) : MYSQL_ROW := r.map Val.show

/-- Column `i` of a stored row. -/
def cell (r : List Val) (i : Nat) : Val := r.getD i Val.null

/-! ### Reading a statement -/

/-- Removal of a literal text from the front of the input. -/
def strip_lit : CStr → CStr → Option CStr
  | [], s => some s
  | _ :: _, [] => none
  | a :: l, b :: s => if a = b then strip_lit l s else none

/-- An integer literal: an optional minus sign and a maximal run of digits. -/
def scan_int (s : CStr) : Option (Int × CStr) :=
  match s with
  | 45 :: t =>
      match t.span is_digit with
      | ([], _) => none
      | (ds, r) => some (-(digits_val ds : Int), r)
  | t =>
      match t.span is_digit with
      | ([], _) => none
      | (ds, r) => some ((digits_val ds : Int), r)

/-- The digits of a decimal literal with two fraction digits, as hundredths. -/
def scan_dec_abs (s : CStr) : Option (Nat × CStr) :=
  match s.span is_digit with
  | ([], _) => none
  | (ds, 46 :: r) =>
      match r.span is_digit with
      | ([a, b], r1) => some (100 * digits_val ds + (10 * (a - 48) + (b - 48)), r1)
      | _ => none
  | _ => none

/-- A decimal literal with two fraction digits, as hundredths. -/
def scan_dec (s : CStr) : Option (Int × CStr) :=
  match s with
  | 45 :: t =>
      match scan_dec_abs t with
      | none => none
      | some (v, r) => some (-(v : Int), r)
  | t =>
      match scan_dec_abs t with
      | none => none
      | some (v, r) => some ((v : Int), r)

/-- The bytes an escape sequence `\c` of a string literal stands for. -/
def unescape (c : Nat) : CStr :=
  if c = 48 then [0]
  else if c = 98 then [8]
  else if c = 110 then [10]
  else if c = 114 then [13]
  else if c = 116 then [9]
  else if c = 90 then [26]
  else if c = 37 then [92, 37]
  else if c = 95 then [92, 95]
  else [c]

/-- The body of a quoted string literal after the opening quote: up to the closing quote,
with `''` and the backslash escapes decoded. -/
def scan_str_body : CStr → Option (CStr × CStr)
  | [] => none
  | 92 :: c :: t =>
      match scan_str_body t with
      | none => none
      | some (v, r) => some (unescape c ++ v, r)
  | 39 :: 39 :: t =>
      match scan_str_body t with
      | none => none
      | some (v, r) => some (39 :: v, r)
  | 39 :: t => some ([], t)
  | c :: t =>
      match scan_str_body t with
      | none => none
      | some (v, r) => some (c :: v, r)

/-- A quoted string literal. -/
def scan_str (s : CStr) : Option (CStr × CStr) :=
  match s with
  | 39 :: t => scan_str_body t
  | _ => none

/-- One piece of a statement form. -/
inductive Piece where
  /-- A fixed text. -/
  | lit (l : CStr)
  /-- A quoted string literal. -/
  | str
  /-- An integer literal. -/
  | int
  /-- A decimal literal. -/
  | dec

/-- Reading a whole statement against a form: the values of its literals. -/
def scan : List Piece → CStr → Option (List Val)
  | [], [] => some []
  | [], _ :: _ => none
  | Piece.lit l :: ps, s =>
      match strip_lit l s with
      | none => none
      | some t => scan ps t
  | Piece.str :: ps, s =>
      match scan_str s with
      | none => none
      | some (v, t) =>
          match scan ps t with
          | none => none
          | some vs => some (Val.text v :: vs)
  | Piece.int :: ps, s =>
      match scan_int s with
      | none => none
      | some (v, t) =>
          match scan ps t with
          | none => none
          | some vs => some (Val.int v :: vs)
  | Piece.dec :: ps, s =>
      match scan_dec s with
      | none => none
      | some (v, t) =>
          match scan ps t with
          | none => none
          | some vs => some (Val.dec v :: vs)

/-- The text of a statement form filled with values. -/
def render : List Piece → List Val → CStr
  | [], _ => []
  | Piece.lit l :: ps, vs => l ++ render ps vs
  | Piece.str :: ps, Val.text v :: vs => 39 :: (v ++ 39 :: render ps vs)
  | Piece.int :: ps, Val.int v :: vs => fmt_d v ++ render ps vs
  | Piece.dec :: ps, Val.dec v :: vs => fmt_dec v ++ render ps vs
  | _ :: _, _ => []

/-! ### Comparing values -/

/-- A number in hundredths. -/
def num_key : Val → Option Int
  | Val.int v => some (100 * v)
  | Val.dec v => some v
  | _ => none

/-- Comparison `a = b` of a `WHERE` clause between a column and a literal of its kind:
numbers by value, texts under the collation; a comparison with `NULL` does not hold. -/
def val_eq (coll : Nat → Nat) (a b : Val) : Bool :=
  match a, b with
  | Val.int x, Val.int y => decide (x = y)
  | Val.dec x, Val.dec y => decide (x = y)
  | Val.text x, Val.text y => decide (x.map coll = y.map coll)
  | _, _ => false

/-- Comparison `a <= b` of a `WHERE` clause on numbers. -/
def num_le (a b : Val) : Bool :=
  match num_key a, num_key b with
  | some x, some y => decide (x ≤ y)
  | _, _ => false

/-- The order of `ORDER BY`: `NULL` first, then numbers by value, then texts by their bytes. -/
def val_le (a b : Val) : Bool :=
  match a, b with
  | Val.null, _ => true
  | _, Val.null => false
  | Val.text x, Val.text y => decide (x ≤ y)
  | Val.text _, _ => false
  | _, Val.text _ => true
  | _, _ => num_le a b

/-- Pattern match of `LIKE`: `%` stands for any run of bytes, `_` for any one byte, a
backslash takes the next byte literally; other bytes are compared under the collation. -/
def like_match (coll : Nat → Nat) : CStr → CStr → Bool
  | [], s => s.isEmpty
  | 37 :: p, s => s.tails.any (fun t => like_match coll p t)
  | 95 :: p, s =>
      match s with
      | [] => false
      | _ :: t => like_match coll p t
  | 92 :: c :: p, s =>
      match s with
      | [] => false
      | x :: t => decide (coll x = coll c) && like_match coll p t
  | c :: p, s =>
      match s with
      | [] => false
      | x :: t => decide (coll x = coll c) && like_match coll p t

/-- Condition `column LIKE pattern`. -/
def val_like (coll : Nat → Nat) (a pat : Val) : Bool :=
  match a, pat with
  | Val.text x, Val.text p => like_match coll p x
  | _, _ => false

/-! ### Executing a statement -/

/-- The conjunction `column = value AND ...` of a `WHERE` clause. -/
def conds_hold (coll : Nat → Nat) (conds : List (Nat × Val)) (r : List Val) : Bool :=
  conds.all (fun c => val_eq coll (cell r c.1) c.2)

/-- The rows in the order an `ORDER BY column [DESC]` clause asks for. -/
def order_rows (ord : Option (Nat × Bool)) (rows : List (List Val)) : List (List Val) :=
  match ord with
  | none => rows
  | some (k, false) => rows.insertionSort (fun a b => val_le (cell a k) (cell b k) = true)
  | some (k, true) => rows.insertionSort (fun a b => val_le (cell b k) (cell a k) = true)

/-- The identifier `AUTO_INCREMENT` gives the next row: above the counter and above every
identifier in the table. -/
def Table.next_id (t : Table) : Nat :=
  t.rows.foldl
    (fun m r =>
      match cell r 0 with
      | Val.int v => max m (v.toNat + 1)
      | _ => m)
    (max t.auto_inc 1)

/-- The row an `INSERT` builds: the new identifier in column 0, the listed columns from the
statement, the others from the defaults. -/
def new_row (t : Table) (ncols : Nat) (assign : List (Nat × Val)) : List Val :=
  (List.range ncols).map (fun i =>
    if i = 0 then Val.int t.next_id
    else
      match assign.lookup i with
      | some v => v
      | none => t.dflt.getD i Val.null)

/-- Statement `INSERT INTO t (columns) VALUES (values)`. -/
def Table.insert (t : Table) (ncols : Nat) (assign : List (Nat × Val)) : Table :=
  { t with rows := t.rows ++ [new_row t ncols assign], auto_inc := t.next_id + 1 }

/-- The assignments `column = value, ...` of a `SET` clause applied to a row. -/
def set_cols (assign : List (Nat × Val)) (r : List Val) : List Val :=
  assign.foldl (fun r a => r.set a.1 a.2) r

/-- Statement `UPDATE t SET ... WHERE ...`. -/
def Table.update (t : Table) (p : List Val → Bool) (f : List Val → List Val) : Table :=
  { t with rows := t.rows.map (fun r => if p r then f r else r) }

/-- Statement `DELETE FROM t WHERE ...`. -/
def Table.delete (t : Table) (p : List Val → Bool) : Table :=
  { t with rows := t.rows.filter (fun r => !p r) }

/-- Reply to a statement that returns rows. -/
def reply_rows (rows : List (List Val)) : Reply := Reply.ok 0 (some (rows.map show_row))

/-- Reply to a statement the store cannot read. -/
def reply_malformed : Reply := Reply.error (bytes "You have an error in your SQL syntax")

/-- Form `INSERT INTO t (cols) VALUES (...)`. -/
def run_insert (t : TableName) (ncols : Nat) (cols : List Nat) (vals : List Val) (db : DB) :
    Reply × DB :=
  if vals.length = cols.length then
    (Reply.ok (db.get t).next_id none, db.set t ((db.get t).insert ncols (cols.zip vals)))
  else (reply_malformed, db)

/-- Form `SELECT * FROM t WHERE c1 = v1 AND ... [ORDER BY ...]`. -/
def run_select (t : TableName) (conds : List Nat) (ord : Option (Nat × Bool))
    (vals : List Val) (db : DB) : Reply × DB :=
  if vals.length = conds.length then
    (reply_rows (order_rows ord ((db.get t).rows.filter (conds_hold db.coll (conds.zip vals)))),
     db)
  else (reply_malformed, db)

/-- Form `UPDATE t SET c1 = v1, ... WHERE key = v`: the last value is the key. -/
def run_update (t : TableName) (cols : List Nat) (key : Nat) (vals : List Val) (db : DB) :
    Reply × DB :=
  if vals.length = cols.length + 1 then
    (Reply.ok 0 none,
     db.set t ((db.get t).update
       (fun r => val_eq db.coll (cell r key) (vals.getD cols.length Val.null))
       (set_cols (cols.zip vals))))
  else (reply_malformed, db)

/-- Form `DELETE FROM t WHERE c1 = v1 AND ...`. -/
def run_delete (t : TableName) (conds : List Nat) (vals : List Val) (db : DB) : Reply × DB :=
  if vals.length = conds.length then
    (Reply.ok 0 none, db.set t ((db.get t).delete (conds_hold db.coll (conds.zip vals))))
  else (reply_malformed, db)

/-- Form `SELECT user_id FROM users WHERE username = .. AND password_hash = .. AND
is_active = 1`. -/
def run_verify (vals : List Val) (db : DB) : Reply × DB :=
  match vals with
  | [u, h] =>
      (reply_rows ((db.users.rows.filter
          (conds_hold db.coll [(1, u), (3, h), (9, Val.int 1)])).map (fun r => [cell r 0])),
       db)
  | _ => (reply_malformed, db)

/-- Form `SELECT * FROM products WHERE product_name LIKE .. ORDER BY product_id`. -/
def run_search (vals : List Val) (db : DB) : Reply × DB :=
  match vals with
  | [pat] =>
      (reply_rows (order_rows (some (0, false))
          (db.products.rows.filter (fun r => val_like db.coll (cell r 1) pat))),
       db)
  | _ => (reply_malformed, db)

/-- Form `SELECT * FROM products WHERE price >= .. AND price <= .. ORDER BY price`. -/
def run_price_range (vals : List Val) (db : DB) : Reply × DB :=
  match vals with
  | [lo, hi] =>
      (reply_rows (order_rows (some (3, false))
          (db.products.rows.filter (fun r => num_le lo (cell r 3) && num_le (cell r 3) hi))),
       db)
  | _ => (reply_malformed, db)

/-- Expression `quantity + n` assigned to the column `quantity`, an `INT` column as the field
`int quantity` of the program: `none` when the sum is outside the range of the column, which
the server refuses (strict mode, its default). -/
def val_add (a b : Val) : Option Val :=
  match a, b with
  | Val.int x, Val.int y => if is_int (x + y) then some (Val.int (x + y)) else none
  | _, _ => some Val.null

/-- Form `INSERT INTO cart_items (user_id, product_id, quantity) VALUES (..) ON DUPLICATE KEY
UPDATE quantity = quantity + ..`, the pair (user_id, product_id) being a unique key: a row
with the same pair has its quantity raised, else a row is inserted.  In the first case the
identifier reported is that of the row raised, and the statement fails and changes nothing
when a raised quantity is outside the range of the column. -/
def run_upsert (vals : List Val) (db : DB) : Reply × DB :=
  match vals with
  | [u, p, q, n] =>
      let dup := fun r => val_eq db.coll (cell r 1) u && val_eq db.coll (cell r 2) p
      match db.cart_items.rows.find? dup with
      | some r0 =>
          if (db.cart_items.rows.filter dup).all (fun r => (val_add (cell r 3) n).isSome) then
            (Reply.ok (match cell r0 0 with
                       | Val.int v => v.toNat
                       | _ => 0) none,
             { db with cart_items :=
                 (db.cart_items.update dup
                   (fun r => r.set 3 ((val_add (cell r 3) n).getD Val.null))) })
          else (Reply.error (bytes "Out of range value for column 'quantity' at row 1"), db)
      | none =>
          (Reply.ok db.cart_items.next_id none,
           { db with cart_items := db.cart_items.insert 5 [(1, u), (2, p), (3, q)] })
  | _ => (reply_malformed, db)

/-- The terms `c.quantity * p.price` of the join of the cart rows of user `u` with the
products of the same product_id, in hundredths; a term with a `NULL` factor is left out, as
`SUM` leaves it out. -/
def cart_terms (db : DB) (u : Val) : List Int :=
  ((db.cart_items.rows.filter (fun c => val_eq db.coll (cell c 1) u)).map (fun c =>
    (db.products.rows.filter (fun p => val_eq db.coll (cell c 2) (cell p 0))).filterMap
      (fun p =>
        match cell c 3, cell p 3 with
        | Val.int q, Val.dec x => some (q * x)
        | _, _ => none))).flatten

/-- Form `SELECT SUM(c.quantity * p.price) FROM cart_items c JOIN products p ON c.product_id
= p.product_id WHERE c.user_id = ..`: one row, `NULL` when there is no term. -/
def run_cart_total (vals : List Val) (db : DB) : Reply × DB :=
  match vals with
  | [u] =>
      (reply_rows [[if cart_terms db u = [] then Val.null else Val.dec (cart_terms db u).sum]],
       db)
  | _ => (reply_malformed, db)

/-- Form `SELECT COUNT(*) FROM cart_items WHERE user_id = ..`. -/
def run_cart_count (vals : List Val) (db : DB) : Reply × DB :=
  match vals with
  | [u] =>
      (reply_rows
        [[Val.int (db.cart_items.rows.filter (fun c => val_eq db.coll (cell c 1) u)).length]],
       db)
  | _ => (reply_malformed, db)

/-- A statement form of the catalogue: its leading text, the rest of its pieces and its
execution on the values read. -/
structure Entry where
  head : String
  rest : List Piece
  run : List Val → DB → Reply × DB

/-- A fixed text between two literals. -/
def lit (s : String) : Piece := Piece.lit (bytes s)

/-- Statement form of `create_user`. -/
def stmt_create_user : Entry :=
  { head := "INSERT INTO users (username, email, password_hash, first_name, last_name, phone, is_active) VALUES ("
    rest := [Piece.str, lit ", ", Piece.str, lit ", ", Piece.str, lit ", ", Piece.str, lit ", ", Piece.str, lit ", ", Piece.str, lit ", ", Piece.int, lit ")"]
    run := run_insert TableName.users 10 [1, 2, 3, 4, 5, 6, 9] }

/-- Statement form of `get_user_by_id`. -/
def stmt_get_user_by_id : Entry :=
  { head := "SELECT * FROM users WHERE user_id = "
    rest := [Piece.int]
    run := run_select TableName.users [0] none }

/-- Statement form of `get_user_by_username`. -/
def stmt_get_user_by_username : Entry :=
  { head := "SELECT * FROM users WHERE username = "
    rest := [Piece.str]
    run := run_select TableName.users [1] none }

/-- Statement form of `get_user_by_email`. -/
def stmt_get_user_by_email : Entry :=
  { head := "SELECT * FROM users WHERE email = "
    rest := [Piece.str]
    run := run_select TableName.users [2] none }

/-- Statement form of `update_user`. -/
def stmt_update_user : Entry :=
  { head := "UPDATE users SET username="
    rest := [Piece.str, lit ", email=", Piece.str, lit ", password_hash=", Piece.str, lit ", first_name=", Piece.str, lit ", last_name=", Piece.str, lit ", phone=", Piece.str, lit ", is_active=", Piece.int, lit " WHERE user_id=", Piece.int]
    run := run_update TableName.users [1, 2, 3, 4, 5, 6, 9] 0 }

/-- Statement form of `delete_user`. -/
def stmt_delete_user : Entry :=
  { head := "DELETE FROM users WHERE user_id = "
    rest := [Piece.int]
    run := run_delete TableName.users [0] }

/-- Statement form of `get_all_users`. -/
def stmt_get_all_users : Entry :=
  { head := "SELECT * FROM users ORDER BY user_id"
    rest := []
    run := run_select TableName.users [] (some (0, false)) }

/-- Statement form of `verify_user_credentials`. -/
def stmt_verify_user_credentials : Entry :=
  { head := "SELECT user_id FROM users WHERE username = "
    rest := [Piece.str, lit " AND password_hash = ", Piece.str, lit " AND is_active = 1"]
    run := run_verify }

/-- Statement form of `create_product`. -/
def stmt_create_product : Entry :=
  { head := "INSERT INTO products (product_name, description, price, stock_quantity, category_id, sku, weight, dimensions, is_active) VALUES ("
    rest := [Piece.str, lit ", ", Piece.str, lit ", ", Piece.dec, lit ", ", Piece.int, lit ", ", Piece.int, lit ", ", Piece.str, lit ", ", Piece.dec, lit ", ", Piece.str, lit ", ", Piece.int, lit ")"]
    run := run_insert TableName.products 12 [1, 2, 3, 4, 5, 6, 7, 8, 11] }

/-- Statement form of `get_product_by_id`. -/
def stmt_get_product_by_id : Entry :=
  { head := "SELECT * FROM products WHERE product_id = "
    rest := [Piece.int]
    run := run_select TableName.products [0] none }

/-- Statement form of `get_product_by_sku`. -/
def stmt_get_product_by_sku : Entry :=
  { head := "SELECT * FROM products WHERE sku = "
    rest := [Piece.str]
    run := run_select TableName.products [6] none }

/-- Statement form of `update_product`. -/
def stmt_update_product : Entry :=
  { head := "UPDATE products SET product_name="
    rest := [Piece.str, lit ", description=", Piece.str, lit ", price=", Piece.dec, lit ", stock_quantity=", Piece.int, lit ", category_id=", Piece.int, lit ", sku=", Piece.str, lit ", weight=", Piece.dec, lit ", dimensions=", Piece.str, lit ", is_active=", Piece.int, lit " WHERE product_id=", Piece.int]
    run := run_update TableName.products [1, 2, 3, 4, 5, 6, 7, 8, 11] 0 }

/-- Statement form of `delete_product`. -/
def stmt_delete_product : Entry :=
  { head := "DELETE FROM products WHERE product_id = "
    rest := [Piece.int]
    run := run_delete TableName.products [0] }

/-- Statement form of `get_all_products`. -/
def stmt_get_all_products : Entry :=
  { head := "SELECT * FROM products ORDER BY product_id"
    rest := []
    run := run_select TableName.products [] (some (0, false)) }

/-- Statement form of `get_products_by_category`. -/
def stmt_get_products_by_category : Entry :=
  { head := "SELECT * FROM products WHERE category_id = "
    rest := [Piece.int, lit " ORDER BY product_id"]
    run := run_select TableName.products [5] (some (0, false)) }

/-- Statement form of `search_products_by_name`. -/
def stmt_search_products_by_name : Entry :=
  { head := "SELECT * FROM products WHERE product_name LIKE "
    rest := [Piece.str, lit " ORDER BY product_id"]
    run := run_search }

/-- Statement form of `update_product_stock`. -/
def stmt_update_product_stock : Entry :=
  { head := "UPDATE products SET stock_quantity = "
    rest := [Piece.int, lit " WHERE product_id = ", Piece.int]
    run := run_update TableName.products [4] 0 }

/-- Statement form of `get_products_by_price_range`. -/
def stmt_get_products_by_price_range : Entry :=
  { head := "SELECT * FROM products WHERE price >= "
    rest := [Piece.dec, lit " AND price <= ", Piece.dec, lit " ORDER BY price"]
    run := run_price_range }

/-- Statement form of `create_order`. -/
def stmt_create_order : Entry :=
  { head := "INSERT INTO orders (user_id, status, total_amount, shipping_address_id, billing_address_id, payment_method, shipping_cost, tax_amount, notes) VALUES ("
    rest := [Piece.int, lit ", ", Piece.str, lit ", ", Piece.dec, lit ", ", Piece.int, lit ", ", Piece.int, lit ", ", Piece.str, lit ", ", Piece.dec, lit ", ", Piece.dec, lit ", ", Piece.str, lit ")"]
    run := run_insert TableName.orders 11 [1, 3, 4, 5, 6, 7, 8, 9, 10] }

/-- Statement form of `get_order_by_id`. -/
def stmt_get_order_by_id : Entry :=
  { head := "SELECT * FROM orders WHERE order_id = "
    rest := [Piece.int]
    run := run_select TableName.orders [0] none }

/-- Statement form of `update_order`. -/
def stmt_update_order : Entry :=
  { head := "UPDATE orders SET user_id="
    rest := [Piece.int, lit ", status=", Piece.str, lit ", total_amount=", Piece.dec, lit ", shipping_address_id=", Piece.int, lit ", billing_address_id=", Piece.int, lit ", payment_method=", Piece.str, lit ", shipping_cost=", Piece.dec, lit ", tax_amount=", Piece.dec, lit ", notes=", Piece.str, lit " WHERE order_id=", Piece.int]
    run := run_update TableName.orders [1, 3, 4, 5, 6, 7, 8, 9, 10] 0 }

/-- Statement form of `delete_order`. -/
def stmt_delete_order : Entry :=
  { head := "DELETE FROM orders WHERE order_id = "
    rest := [Piece.int]
    run := run_delete TableName.orders [0] }

/-- Statement form of `get_orders_by_user`. -/
def stmt_get_orders_by_user : Entry :=
  { head := "SELECT * FROM orders WHERE user_id = "
    rest := [Piece.int, lit " ORDER BY order_date DESC"]
    run := run_select TableName.orders [1] (some (2, true)) }

/-- Statement form of `get_all_orders`. -/
def stmt_get_all_orders : Entry :=
  { head := "SELECT * FROM orders ORDER BY order_date DESC"
    rest := []
    run := run_select TableName.orders [] (some (2, true)) }

/-- Statement form of `update_order_status`. -/
def stmt_update_order_status : Entry :=
  { head := "UPDATE orders SET status = "
    rest := [Piece.str, lit " WHERE order_id = ", Piece.int]
    run := run_update TableName.orders [3] 0 }

/-- Statement form of `get_orders_by_status`. -/
def stmt_get_orders_by_status : Entry :=
  { head := "SELECT * FROM orders WHERE status = "
    rest := [Piece.str, lit " ORDER BY order_date DESC"]
    run := run_select TableName.orders [3] (some (2, true)) }

/-- Statement form of `create_order_item`. -/
def stmt_create_order_item : Entry :=
  { head := "INSERT INTO order_items (order_id, product_id, quantity, unit_price, total_price) VALUES ("
    rest := [Piece.int, lit ", ", Piece.int, lit ", ", Piece.int, lit ", ", Piece.dec, lit ", ", Piece.dec, lit ")"]
    run := run_insert TableName.order_items 6 [1, 2, 3, 4, 5] }

/-- Statement form of `get_order_item_by_id`. -/
def stmt_get_order_item_by_id : Entry :=
  { head := "SELECT * FROM order_items WHERE order_item_id = "
    rest := [Piece.int]
    run := run_select TableName.order_items [0] none }

/-- Statement form of `update_order_item`. -/
def stmt_update_order_item : Entry :=
  { head := "UPDATE order_items SET order_id="
    rest := [Piece.int, lit ", product_id=", Piece.int, lit ", quantity=", Piece.int, lit ", unit_price=", Piece.dec, lit ", total_price=", Piece.dec, lit " WHERE order_item_id=", Piece.int]
    run := run_update TableName.order_items [1, 2, 3, 4, 5] 0 }

/-- Statement form of `delete_order_item`. -/
def stmt_delete_order_item : Entry :=
  { head := "DELETE FROM order_items WHERE order_item_id = "
    rest := [Piece.int]
    run := run_delete TableName.order_items [0] }

/-- Statement form of `get_order_items_by_order`. -/
def stmt_get_order_items_by_order : Entry :=
  { head := "SELECT * FROM order_items WHERE order_id = "
    rest := [Piece.int]
    run := run_select TableName.order_items [1] none }

/-- Statement form of `add_to_cart`. -/
def stmt_add_to_cart : Entry :=
  { head := "INSERT INTO cart_items (user_id, product_id, quantity) VALUES ("
    rest := [Piece.int, lit ", ", Piece.int, lit ", ", Piece.int, lit ") ON DUPLICATE KEY UPDATE quantity = quantity + ", Piece.int]
    run := run_upsert }

/-- Statement form of `get_cart_item_by_id`. -/
def stmt_get_cart_item_by_id : Entry :=
  { head := "SELECT * FROM cart_items WHERE cart_item_id = "
    rest := [Piece.int]
    run := run_select TableName.cart_items [0] none }

/-- Statement form of `update_cart_item`. -/
def stmt_update_cart_item : Entry :=
  { head := "UPDATE cart_items SET user_id="
    rest := [Piece.int, lit ", product_id=", Piece.int, lit ", quantity=", Piece.int, lit " WHERE cart_item_id=", Piece.int]
    run := run_update TableName.cart_items [1, 2, 3] 0 }

/-- Statement form of `remove_from_cart`. -/
def stmt_remove_from_cart : Entry :=
  { head := "DELETE FROM cart_items WHERE cart_item_id = "
    rest := [Piece.int]
    run := run_delete TableName.cart_items [0] }

/-- Statement form of `get_cart_items_by_user`. -/
def stmt_get_cart_items_by_user : Entry :=
  { head := "SELECT * FROM cart_items WHERE user_id = "
    rest := [Piece.int, lit " ORDER BY added_at DESC"]
    run := run_select TableName.cart_items [1] (some (4, true)) }

/-- Statement form of `update_cart_item_quantity`. -/
def stmt_update_cart_item_quantity : Entry :=
  { head := "UPDATE cart_items SET quantity = "
    rest := [Piece.int, lit " WHERE cart_item_id = ", Piece.int]
    run := run_update TableName.cart_items [3] 0 }

/-- Statement form of `calculate_cart_total`. -/
def stmt_calculate_cart_total : Entry :=
  { head := "SELECT SUM(c.quantity * p.price) FROM cart_items c JOIN products p ON c.product_id = p.product_id WHERE c.user_id = "
    rest := [Piece.int]
    run := run_cart_total }

/-- Statement form of `get_cart_item_count`. -/
def stmt_get_cart_item_count : Entry :=
  { head := "SELECT COUNT(*) FROM cart_items WHERE user_id = "
    rest := [Piece.int]
    run := run_cart_count }

/-- Statement form of `remove_from_cart_by_user_product`. -/
def stmt_remove_from_cart_by_user_product : Entry :=
  { head := "DELETE FROM cart_items WHERE user_id = "
    rest := [Piece.int, lit " AND product_id = ", Piece.int]
    run := run_delete TableName.cart_items [1, 2] }

/-- Statement form of `clear_cart`. -/
def stmt_clear_cart : Entry :=
  { head := "DELETE FROM cart_items WHERE user_id = "
    rest := [Piece.int]
    run := run_delete TableName.cart_items [1] }

/-- The statement forms of the program, one per function that sends a statement. -/
def catalogue : List Entry :=
  [stmt_create_user, stmt_get_user_by_id, stmt_get_user_by_username, stmt_get_user_by_email,
   stmt_update_user, stmt_delete_user, stmt_get_all_users, stmt_verify_user_credentials,
   stmt_create_product, stmt_get_product_by_id, stmt_get_product_by_sku,
   stmt_update_product, stmt_delete_product, stmt_get_all_products,
   stmt_get_products_by_category, stmt_search_products_by_name,
   stmt_update_product_stock, stmt_get_products_by_price_range, stmt_create_order,
   stmt_get_order_by_id, stmt_update_order, stmt_delete_order, stmt_get_orders_by_user,
   stmt_get_all_orders, stmt_update_order_status, stmt_get_orders_by_status,
   stmt_create_order_item, stmt_get_order_item_by_id, stmt_update_order_item,
   stmt_delete_order_item, stmt_get_order_items_by_order, stmt_add_to_cart,
   stmt_get_cart_item_by_id, stmt_update_cart_item, stmt_remove_from_cart,
   stmt_get_cart_items_by_user, stmt_update_cart_item_quantity,
   stmt_calculate_cart_total, stmt_get_cart_item_count,
   stmt_remove_from_cart_by_user_product, stmt_clear_cart]

/-- The pieces of a statement form. -/
def Entry.pieces (e : Entry) : List Piece := Piece.lit (bytes e.head) :: e.rest

/-- One attempt to read a statement as a form and execute it. -/
def try_entry (q : CStr) (db : DB) (e : Entry) : Option (Reply × DB) :=
  match scan e.pieces q with
  | none => none
  | some vals => some (e.run vals db)

/-- Execution of a statement text by the reference store. -/
def ref_exec (db : DB) (q : CStr) : Reply × DB :=
  match catalogue.findSome? (try_entry q db) with
  | some r => r
  | none => (reply_malformed, db)

/-- The reference store as a server. -/
@[reducible] def ref_server : Server := { State := DB, exec := ref_exec }

/-- A decimal fixed-point stand-in for `double`, the value in hundredths: used to run the
definitions on examples. -/
def fixed_point : FloatOps Int :=
  { zero := 0
    atof := fun s =>
      match scan_dec s with
      | some (v, _) => v
      | none => 100 * strtol s
    fmt_2f := fmt_dec }

/-! ## Notions used to state the properties -/

/-- A text that holds no quote and no backslash. -/
def clean (v : CStr) : Prop := ∀ b ∈ v, b ≠ 39 ∧ b ≠ 92

instance (v : CStr) : Decidable (clean v) := by unfold clean; infer_instance

/-- A text field of capacity `cap` whose string is clean and leaves two bytes of the field
free. -/
def text_ok (cap : Nat) (field : List Nat) : Prop :=
  (cstr field).length + 2 ≤ cap ∧ clean (cstr field)

instance (cap : Nat) (field : List Nat) : Decidable (text_ok cap field) := by
  unfold text_ok; infer_instance

/-- A `double` that `%.2f` prints as a decimal numeral with two fraction digits, of at most
20 bytes, and that `atof` reads back from that numeral. -/
def dec_ok {D : Type} (F : FloatOps D) (x : D) : Prop :=
  ∃ c : Int, F.fmt_2f x = fmt_dec c ∧ (fmt_dec c).length ≤ 20 ∧ F.atof (fmt_dec c) = x

/-- Whether the piece after a literal value starts with a byte that ends the value. -/
def next_ok (bad : Nat → Bool) : List Piece → Bool
  | [] => true
  | Piece.lit (c :: _) :: _ => !bad c
  | _ => false

/-- Whether every literal value of a form is delimited by what follows it. -/
def pieces_ok : List Piece → Bool
  | [] => true
  | Piece.lit _ :: ps => pieces_ok ps
  | Piece.str :: ps => next_ok (fun c => decide (c = 39)) ps && pieces_ok ps
  | Piece.int :: ps => next_ok is_digit ps && pieces_ok ps
  | Piece.dec :: ps => next_ok is_digit ps && pieces_ok ps

/-- The values fill the form: one value of the right kind per literal piece, the texts
clean. -/
def fits : List Piece → List Val → Prop
  | [], [] => True
  | [], _ :: _ => False
  | Piece.lit _ :: ps, vs => fits ps vs
  | Piece.str :: ps, Val.text v :: vs => clean v ∧ fits ps vs
  | Piece.str :: _, _ => False
  | Piece.int :: ps, Val.int _ :: vs => fits ps vs
  | Piece.int :: _, _ => False
  | Piece.dec :: ps, Val.dec _ :: vs => fits ps vs
  | Piece.dec :: _, _ => False

/-- Whether neither text starts with the other. -/
def apart : CStr → CStr → Bool
  | a :: l, b :: m => if a = b then apart l m else true
  | _, _ => false

/-- A user record whose text fields are clean and leave two bytes free. -/
def User.valid (u : User) : Prop :=
  text_ok 51 u.username ∧ text_ok 101 u.email ∧ text_ok 256 u.password_hash ∧
  text_ok 51 u.first_name ∧ text_ok 51 u.last_name ∧ text_ok 21 u.phone

/-- A product record whose text fields are clean and leave two bytes free, whose integers
are `int` values and whose amounts are kept by `%.2f`. -/
def Product.valid {D : Type} (F : FloatOps D) (p : Product D) : Prop :=
  text_ok 201 p.product_name ∧ text_ok 1024 p.description ∧ dec_ok F p.price ∧
  is_int p.stock_quantity ∧ is_int p.category_id ∧ text_ok 51 p.sku ∧ dec_ok F p.weight ∧
  text_ok 101 p.dimensions

/-- An order record whose text fields are clean and leave two bytes free, whose integers
are `int` values and whose amounts are kept by `%.2f`. -/
def Order.valid {D : Type} (F : FloatOps D) (o : Order D) : Prop :=
  is_int o.user_id ∧ text_ok 20 o.status ∧ dec_ok F o.total_amount ∧
  is_int o.shipping_address_id ∧ is_int o.billing_address_id ∧
  text_ok 51 o.payment_method ∧ dec_ok F o.shipping_cost ∧ dec_ok F o.tax_amount ∧
  text_ok 1024 o.notes

/-- An order line whose integers are `int` values and whose amounts are kept by `%.2f`. -/
def OrderItem.valid {D : Type} (F : FloatOps D) (i : OrderItem D) : Prop :=
  is_int i.order_id ∧ is_int i.product_id ∧ is_int i.quantity ∧ dec_ok F i.unit_price ∧
  dec_ok F i.total_price

/-- Record `g` holds what record `r` has in every field the statements of the user module
write: every field but the identifier, created_at and updated_at. -/
def User.written_eq (r g : User) : Prop :=
  cstr g.username = cstr r.username ∧ cstr g.email = cstr r.email ∧
  cstr g.password_hash = cstr r.password_hash ∧ cstr g.first_name = cstr r.first_name ∧
  cstr g.last_name = cstr r.last_name ∧ cstr g.phone = cstr r.phone ∧
  g.is_active = r.is_active

/-- Record `g` holds what record `r` has in every field the statements of the product module
write: every field but the identifier, created_at and updated_at. -/
def Product.written_eq {D : Type} (r g : Product D) : Prop :=
  cstr g.product_name = cstr r.product_name ∧ cstr g.description = cstr r.description ∧
  g.price = r.price ∧ g.stock_quantity = r.stock_quantity ∧ g.category_id = r.category_id ∧
  cstr g.sku = cstr r.sku ∧ g.weight = r.weight ∧ cstr g.dimensions = cstr r.dimensions ∧
  g.is_active = r.is_active

/-- Record `g` holds what record `r` has in every field the statements of the order module
write: every field but the identifier and order_date. -/
def Order.written_eq {D : Type} (r g : Order D) : Prop :=
  g.user_id = r.user_id ∧ cstr g.status = cstr r.status ∧ g.total_amount = r.total_amount ∧
  g.shipping_address_id = r.shipping_address_id ∧
  g.billing_address_id = r.billing_address_id ∧
  cstr g.payment_method = cstr r.payment_method ∧ g.shipping_cost = r.shipping_cost ∧
  g.tax_amount = r.tax_amount ∧ cstr g.notes = cstr r.notes

/-- Record `g` holds what record `r` has in every field but the identifier. -/
def OrderItem.written_eq {D : Type} (r g : OrderItem D) : Prop :=
  g.order_id = r.order_id ∧ g.product_id = r.product_id ∧ g.quantity = r.quantity ∧
  g.unit_price = r.unit_price ∧ g.total_price = r.total_price

/-- A cart line whose integers are `int` values. -/
def CartItem.valid (c : CartItem) : Prop :=
  is_int c.user_id ∧ is_int c.product_id ∧ is_int c.quantity

/-- Record `g` holds what record `r` has in every field `update_cart_item` writes: every
field but the identifier and added_at. -/
def CartItem.written_eq (r g : CartItem) : Prop :=
  g.user_id = r.user_id ∧ g.product_id = r.product_id ∧ g.quantity = r.quantity

/-- Bytes of a form that are not bytes of a value: the fixed texts and the quotes. -/
def lit_len : List Piece → Nat
  | [] => 0
  | Piece.lit l :: ps => l.length + lit_len ps
  | Piece.str :: ps => 2 + lit_len ps
  | _ :: ps => lit_len ps

/-- Bytes a value takes in a statement. -/
def val_len : Val → Nat
  | Val.null => 0
  | Val.int v => (fmt_d v).length
  | Val.dec v => (fmt_dec v).length
  | Val.text v => v.length

/-- Whether the next call of `malloc` succeeds. -/
def alloc_ok (w : World S) : Bool :=
  match w.oracle with
  | false :: _ => false
  | _ => true

/-- What a single-row lookup returns, by the reply of the store to its statement: absent
when the statement fails, when no result set can be stored, when the result set is empty and
when the record cannot be allocated; else the record mapped from the first row (`none`
where that mapping is undefined). -/
def lookup_spec {T : Type} (fill : MYSQL_ROW → (Nat → Nat) → Option T) (junk : Nat → Nat)
    (reply : Reply) (alloc : Bool) : Option (Option T) :=
  match reply with
  | Reply.error _ => some none
  | Reply.ok _ none => some none
  | Reply.ok _ (some []) => some none
  | Reply.ok _ (some (row :: _)) =>
      if alloc then
        match fill row junk with
        | none => none
        | some t => some (some t)
      else some none

/-- What a create operation returns, by the reply of the store to its statement. -/
def create_spec (reply : Reply) : Int :=
  match reply with
  | Reply.error _ => -1
  | Reply.ok id _ => wrap32 id

/-- Whether the statement `q` succeeds in state `w` with a result set of zero rows. -/
def zero_rows (w : World S) (q : CStr) : Bool :=
  match (S.exec w.db q).1 with
  | Reply.ok _ (some []) => true
  | _ => false

/-- A multi-row fetch returned the null sequence with count 0, and on the way it sent `q`,
stored the result set and released it, writing nothing to `stderr`. -/
def returns_empty {T : Type} (w : World S) (q : CStr)
    (out : Option (Option (List T) × Int × World S)) : Prop :=
  ∃ w1, out = some (none, 0, w1) ∧
    w1.log = w.log ++ [Event.query q, Event.store_result w.next_block,
                       Event.free_result w.next_block]

/-- What `calculate_cart_total` returns, by the reply of the store to its statement: 0.0
when the statement fails, when no result set can be stored, when the result set is empty
and when the sum is null; else `atof` of the sum (`none` where the row has no column). -/
def total_spec {D : Type} (F : FloatOps D) (reply : Reply) : Option D :=
  match reply with
  | Reply.error _ => some F.zero
  | Reply.ok _ none => some F.zero
  | Reply.ok _ (some []) => some F.zero
  | Reply.ok _ (some (row :: _)) =>
      match row.get? 0 with
      | none => none
      | some none => some F.zero
      | some (some s) => some (F.atof s)

/-- The cart rows of user `u`. -/
def cart_rows_of (db : DB) (u : Int) : List (List Val) :=
  db.cart_items.rows.filter (fun c => decide (cell c 1 = Val.int u))

/-- The product rows with the product_id of cart row `c`. -/
def products_of (db : DB) (c : List Val) : List (List Val) :=
  db.products.rows.filter (fun p => val_eq db.coll (cell c 2) (cell p 0))

/-- The quantity of cart row `c` times the price of each product row it references, in
hundredths; a null quantity or price gives no term. -/
def line_terms (db : DB) (c : List Val) : List Int :=
  (products_of db c).filterMap (fun p =>
    match cell c 3, cell p 3 with
    | Val.int q, Val.dec x => some (q * x)
    | _, _ => none)

/-- What cart row `c` adds to the total, in hundredths: its quantity times the price of the
product it references, and nothing when it references no product row. -/
def line_total (db : DB) (c : List Val) : Int := (line_terms db c).sum

/-- The sum, over the cart rows of user `u`, of quantity times price of the referenced
product, in hundredths. -/
def cart_sum (db : DB) (u : Int) : Int := ((cart_rows_of db u).map (line_total db)).sum

/-- Whether some cart row of user `u` references a product row and has a quantity and a
price. -/
def has_line (db : DB) (u : Int) : Bool :=
  (cart_rows_of db u).any (fun c => !(line_terms db c).isEmpty)

/-- Whether every cart row of user `u` has an integer quantity and references exactly one
product row, which has a decimal price. -/
def cart_wf (db : DB) (u : Int) : Bool :=
  (cart_rows_of db u).all (fun c =>
    (match cell c 3 with
     | Val.int _ => true
     | _ => false) &&
    (match products_of db c with
     | [p] =>
         (match cell p 3 with
          | Val.dec _ => true
          | _ => false)
     | _ => false))

/-- Whether the product_name of product row `r` contains `t` as a substring, bytes compared
under the collation. -/
def name_contains (coll : Nat → Nat) (t : CStr) (r : List Val) : Bool :=
  match cell r 1 with
  | Val.text x => decide (t.map coll <:+: x.map coll)
  | _ => false

/-- A search term without quote, backslash, percent sign and underscore. -/
def plain (t : CStr) : Prop := ∀ b ∈ t, b ≠ 39 ∧ b ≠ 92 ∧ b ≠ 37 ∧ b ≠ 95

instance (t : CStr) : Decidable (plain t) := by unfold plain; infer_instance

/-! ## Sample data -/

/-- A store that gives the same reply to every statement. -/
def stub_server (r : Reply) : Server := { State := Unit, exec := fun _ _ => (r, ()) }

/-- A process that has just connected to a store in state `db`. -/
def boot {S : Server} (db : S.State) (oracle : List Bool) : World S :=
  { db := db, insert_id := 0, error := [], pending := none, oracle := oracle,
    junk := fun _ => 170, next_block := 0, log := [] }

/-- A text field of `cap` bytes holding `s`. -/
def buf (cap : Nat) (s : String) : List Nat := bytes s ++ List.replicate (cap - s.length) 0

/-- A table without rows. -/
def empty_table : Table := { rows := [], auto_inc := 1, dflt := [] }

/-- A store without rows, with the binary collation. -/
def empty_db : DB :=
  { users := empty_table, products := empty_table, orders := empty_table,
    order_items := empty_table, cart_items := empty_table, coll := fun b => b }

/-- A user record. -/
def sample_user : User :=
  { user_id := 0, username := buf 51 "alice", email := buf 101 "alice@example.org",
    password_hash := buf 256 "5f4dcc3b", first_name := buf 51 "Alice",
    last_name := buf 51 "Liddell", phone := buf 21 "555-0100",
    created_at := buf 20 "2020-01-01 00:00:00", updated_at := buf 20 "", is_active := true }

/-- A product record (amounts in hundredths). -/
def sample_product : Product Int :=
  { product_id := 0, product_name := buf 201 "Widget", description := buf 1024 "A widget",
    price := 999, stock_quantity := 100, category_id := 3, sku := buf 51 "W-1",
    weight := 250, dimensions := buf 101 "1x2x3", created_at := buf 20 "",
    updated_at := buf 20 "", is_active := true }

/-- An order record (amounts in hundredths). -/
def sample_order : Order Int :=
  { order_id := 0, user_id := 1, order_date := buf 20 "", status := buf 20 "pending",
    total_amount := 1998, shipping_address_id := 1, billing_address_id := 1,
    payment_method := buf 51 "card", shipping_cost := 500, tax_amount := 160,
    notes := buf 1024 "" }

/-- An order line (amounts in hundredths). -/
def sample_order_item : OrderItem Int :=
  { order_item_id := 0, order_id := 1, product_id := 1, quantity := 2, unit_price := 999,
    total_price := 1998 }

/-- A cart line. -/
def sample_cart_item : CartItem :=
  { cart_item_id := 0, user_id := 1, product_id := 5, quantity := 2, added_at := buf 20 "" }

/-- Whether the statement `q` succeeds in state `w` with a result set of exactly one row. -/
def one_row (w : World S) (q : CStr) : Bool :=
  match (S.exec w.db q).1 with
  | Reply.ok _ (some [_]) => true
  | _ => false

/-- The store after `create_user` of the sample user on the store without rows. -/
def one_user_db : DB := (ref_exec empty_db (create_user_query sample_user)).2

/-- A store without rows whose next product gets the identifier 42. -/
def db_41 : DB := { empty_db with products := { rows := [], auto_inc := 42, dflt := [] } }

/-- The store after `create_product` of the sample product (Widget, 9.99, stock 100) as
product 42. -/
def widget_db : DB := (ref_exec db_41 (create_product_query fixed_point sample_product)).2

/-- The record `get_product_by_id` gives for product 42 of `widget_db`. -/
def widget : Product Int :=
  { product_id := 42
    product_name := strncpy (junk_buf (fun _ => 170) 201) (bytes "Widget") 200
    description := strncpy (junk_buf (fun _ => 170) 1024) (bytes "A widget") 1023
    price := 999
    stock_quantity := 100
    category_id := 3
    sku := strncpy (junk_buf (fun _ => 170) 51) (bytes "W-1") 50
    weight := 250
    dimensions := strncpy (junk_buf (fun _ => 170) 101) (bytes "1x2x3") 100
    created_at := strncpy (junk_buf (fun _ => 170) 20) [] 19
    updated_at := strncpy (junk_buf (fun _ => 170) 20) [] 19
    is_active := true }

/-- The product rows whose product_name contains `t`, in the order of product_id. -/
def search_rows (db : DB) (t : CStr) : List (List Val) :=
  order_rows (some (0, false)) (db.products.rows.filter (name_contains db.coll t))

/-- The store after `create_order` of the sample order on the store without rows. -/
def one_order_db : DB := (ref_exec empty_db (create_order_query fixed_point sample_order)).2

/-- The store after `create_order_item` of the sample order line on the store without
rows. -/
def one_item_db : DB :=
  (ref_exec empty_db (create_order_item_query fixed_point sample_order_item)).2

/-- The store after `add_to_cart` of the sample cart line on the store without rows. -/
def one_cart_db : DB := (ref_exec empty_db (add_to_cart_query sample_cart_item)).2

/-- The store `widget_db` with two cart lines of user 1, both for product 42: 2 pieces and
3 pieces. -/
def cart_db : DB :=
  { widget_db with
    cart_items :=
      { rows := [[Val.int 1, Val.int 1, Val.int 42, Val.int 2, Val.null],
                 [Val.int 2, Val.int 1, Val.int 42, Val.int 3, Val.null]],
        auto_inc := 3, dflt := [] } }

/-- The store `widget_db` with a second product, the sample product as product 43, and two
cart lines of user 1: 2 pieces of product 42 and 3 pieces of product 43. -/
def two_product_db : DB :=
  { (ref_exec widget_db (create_product_query fixed_point sample_product)).2 with
    cart_items :=
      { rows := [[Val.int 1, Val.int 1, Val.int 42, Val.int 2, Val.null],
                 [Val.int 2, Val.int 1, Val.int 43, Val.int 3, Val.null]],
        auto_inc := 3, dflt := [] } }

/-- The store `two_product_db` after `delete_product` of product 43: the cart line for
product 43 is still there and references no product row. -/
def orphan_db : DB := (ref_exec two_product_db (delete_product_query 43)).2

/-! ## Further functions of user_operations.c -/

/-- Row mapping of `get_user_by_username` (lines 78-87). -/
def get_user_by_username_fill (row : MYSQL_ROW) (junk : Nat → Nat) : Option User :=
  let user := fresh_user junk
  if row_ok 10 row then
    some { user_id := col_atoi row 0,
           username := strncpy user.username (col_str row 1) 50,
           email := strncpy user.email (col_str row 2) 100,
           password_hash := strncpy user.password_hash (col_str row 3) 255,
           first_name := strncpy user.first_name (col_str row 4) 50,
           last_name := strncpy user.last_name (col_str row 5) 50,
           phone := strncpy user.phone (col_str row 6) 20,
           created_at := strncpy user.created_at (col_str row 7) 19,
           updated_at := strncpy user.updated_at (col_str row 8) 19,
           is_active := col_bool row 9 }
  else none

/-- Statement of `get_user_by_username`. -/
def get_user_by_username_query (username : CStr) : CStr :=
  snprintf 256 "SELECT * FROM users WHERE username = '%s'" [Arg.s username]

/-- Function `get_user_by_username`. -/
def get_user_by_username (w : World S) (username : CStr) : Option (Option User × World S) :=
  fetch_one get_user_by_username_fill w (get_user_by_username_query username)

/-- Row mapping of `get_user_by_email` (lines 114-123). -/
def get_user_by_email_fill (row : MYSQL_ROW) (junk : Nat → Nat) : Option User :=
  let user := fresh_user junk
  if row_ok 10 row then
    some { user_id := col_atoi row 0,
           username := strncpy user.username (col_str row 1) 50,
           email := strncpy user.email (col_str row 2) 100,
           password_hash := strncpy user.password_hash (col_str row 3) 255,
           first_name := strncpy user.first_name (col_str row 4) 50,
           last_name := strncpy user.last_name (col_str row 5) 50,
           phone := strncpy user.phone (col_str row 6) 20,
           created_at := strncpy user.created_at (col_str row 7) 19,
           updated_at := strncpy user.updated_at (col_str row 8) 19,
           is_active := col_bool row 9 }
  else none

/-- Statement of `get_user_by_email`. -/
def get_user_by_email_query (email : CStr) : CStr :=
  snprintf 256 "SELECT * FROM users WHERE email = '%s'" [Arg.s email]

/-- Function `get_user_by_email`. -/
def get_user_by_email (w : World S) (email : CStr) : Option (Option User × World S) :=
  fetch_one get_user_by_email_fill w (get_user_by_email_query email)

/-- Statement of `verify_user_credentials`. -/
def verify_user_credentials_query (username password_hash : CStr) : CStr :=
  snprintf 512
    "SELECT user_id FROM users WHERE username = '%s' AND password_hash = '%s' AND is_active = 1"
    [Arg.s username, Arg.s password_hash]

/-- Function `verify_user_credentials`. -/
def verify_user_credentials (w : World S) (username password_hash : CStr) : Bool × World S :=
  match execute_select_query w (verify_user_credentials_query username password_hash) with
  | (none, w1) => (false, w1)
  | (some result, w1) =>
      match mysql_fetch_row result with
      | (row, result1) => (row.isSome, mysql_free_result w1 result1)

/-! ## Further functions of product_operations.c -/

/-- Row mapping of `get_product_by_sku` (lines 80-91). -/
def get_product_by_sku_fill {D : Type} (F : FloatOps D) (row : MYSQL_ROW) (junk : Nat → Nat) :
    Option (Product D) :=
  let product := fresh_product F junk
  if row_ok 12 row then
    some { product_id := col_atoi row 0,
           product_name := strncpy product.product_name (col_str row 1) 200,
           description := strncpy product.description (col_str row 2) 1023,
           price := col_dbl F row 3,
           stock_quantity := col_int row 4,
           category_id := col_int row 5,
           sku := strncpy product.sku (col_str row 6) 50,
           weight := col_dbl F row 7,
           dimensions := strncpy product.dimensions (col_str row 8) 100,
           created_at := strncpy product.created_at (col_str row 9) 19,
           updated_at := strncpy product.updated_at (col_str row 10) 19,
           is_active := col_bool row 11 }
  else none

/-- Statement of `get_product_by_sku`. -/
def get_product_by_sku_query (sku : CStr) : CStr :=
  snprintf 256 "SELECT * FROM products WHERE sku = '%s'" [Arg.s sku]

/-- Function `get_product_by_sku`. -/
def get_product_by_sku {D : Type} (F : FloatOps D) (w : World S) (sku : CStr) :
    Option (Option (Product D) × World S) :=
  fetch_one (get_product_by_sku_fill F) w (get_product_by_sku_query sku)

/-! ## Further functions of order_operations.c -/

/-- Statement of `update_order_status`. -/
def update_order_status_query (order_id : Int) (status : CStr) : CStr :=
  snprintf 256 "UPDATE orders SET status = '%s' WHERE order_id = %d"
    [Arg.s status, Arg.d order_id]

/-- Function `update_order_status`. -/
def update_order_status (w : World S) (order_id : Int) (status : CStr) : Bool × World S :=
  execute_query w (update_order_status_query order_id status)

/-! ## Further functions of cart_operations.c -/

/-- Statement of `remove_from_cart_by_user_product`. -/
def remove_from_cart_by_user_product_query (user_id product_id : Int) : CStr :=
  snprintf 256 "DELETE FROM cart_items WHERE user_id = %d AND product_id = %d"
    [Arg.d user_id, Arg.d product_id]

/-- Function `remove_from_cart_by_user_product`. -/
def remove_from_cart_by_user_product (w : World S) (user_id product_id : Int) :
    Bool × World S :=
  execute_query w (remove_from_cart_by_user_product_query user_id product_id)

/-- Statement of `clear_cart`. -/
def clear_cart_query (user_id : Int) : CStr :=
  snprintf 256 "DELETE FROM cart_items WHERE user_id = %d" [Arg.d user_id]

/-- Function `clear_cart`. -/
def clear_cart (w : World S) (user_id : Int) : Bool × World S :=
  execute_query w (clear_cart_query user_id)

/-- Statement of `update_cart_item_quantity`. -/
def update_cart_item_quantity_query (cart_item_id new_quantity : Int) : CStr :=
  snprintf 256 "UPDATE cart_items SET quantity = %d WHERE cart_item_id = %d"
    [Arg.d new_quantity, Arg.d cart_item_id]

/-- Function `update_cart_item_quantity`. -/
def update_cart_item_quantity (w : World S) (cart_item_id new_quantity : Int) :
    Bool × World S :=
  execute_query w (update_cart_item_quantity_query cart_item_id new_quantity)

/-- Statement of `get_cart_item_count`. -/
def get_cart_item_count_query (user_id : Int) : CStr :=
  snprintf 256 "SELECT COUNT(*) FROM cart_items WHERE user_id = %d" [Arg.d user_id]

/-- Function `get_cart_item_count`; `none` where `row[0]` reads outside the row. -/
def get_cart_item_count (w : World S) (user_id : Int) : Option (Int × World S) :=
  match execute_select_query w (get_cart_item_count_query user_id) with
  | (none, w1) => some (0, w1)
  | (some result, w1) =>
      match mysql_fetch_row result with
      | (none, result1) => some (0, mysql_free_result w1 result1)
      | (some row, result1) =>
          match row.get? 0 with
          | none => none
          | some none => some (0, mysql_free_result w1 result1)
          | some (some s) => some (atoi s, mysql_free_result w1 result1)

/-! ## Connection management of database.c

The client library calls of `db_connect` and `db_disconnect` on a process of their own: which
handles are live, and the calls made. -/

/-- A call of the client library or a line on `stderr`. -/
inductive Call where
  /-- Call `mysql_init(NULL)`. -/
  | init
  /-- Call `mysql_real_connect` with host, user, password and database. -/
  | real_connect (host user password db : String)
  /-- Call `mysql_set_character_set` with the character set. -/
  | set_character_set (cs : String)
  /-- Call `mysql_close` on a handle. -/
  | close (h : Nat)
  /-- A line written to `stderr`. -/
  | diag (msg : CStr)
deriving DecidableEq

/-- What the client library will answer: whether `mysql_init`, `mysql_real_connect` and
`mysql_set_character_set` succeed, and the text of `mysql_error`. -/
structure Outcome where
  init_ok : Bool
  connect_ok : Bool
  charset_ok : Bool
  error : CStr

/-- The client side of the process: the live handles, the next handle and the calls made. -/
structure Client where
  live : List Nat
  next : Nat
  calls : List Call
deriving DecidableEq

/-- Function `mysql_close`: releases a live handle; `none` on a handle that is not live
(the library frees the handle a second time). -/
def mysql_close (c : Client) (h : Nat) : Option Client :=
  if h ∈ c.live then
    some { c with live := c.live.filter (fun x => decide (x ≠ h)),
                  calls := c.calls ++ [Call.close h] }
  else none

/-- Function `db_connect` of database.c: the connection (`none` for `NULL`) and the client
afterwards. -/
def db_connect (o : Outcome) (c : Client) : Option (Option Nat × Client) :=
  if !o.init_ok then
    some (none, { c with calls := c.calls ++
                    [Call.init, Call.diag (bytes "mysql_init() failed" ++ [10])] })
  else
    let conn := c.next
    let c1 : Client :=
      { live := conn :: c.live, next := c.next + 1,
        calls := c.calls ++
          [Call.init, Call.real_connect "localhost" "root" "password" "ec_site"] }
    if !o.connect_ok then
      let c2 : Client :=
        { c1 with calls := c1.calls ++
            [Call.diag (bytes "mysql_real_connect() failed: " ++ o.error ++ [10])] }
      (mysql_close c2 conn).map (fun c3 => (none, c3))
    else
      let c2 : Client :=
        { c1 with calls := c1.calls ++ [Call.set_character_set "utf8mb4"] }
      if !o.charset_ok then
        let c3 : Client :=
          { c2 with calls := c2.calls ++
              [Call.diag (bytes "mysql_set_character_set() failed: " ++ o.error ++ [10])] }
        (mysql_close c3 conn).map (fun c4 => (none, c4))
      else some (some conn, c2)

/-- Function `db_disconnect` of database.c. -/
def db_disconnect (c : Client) (conn : Option Nat) : Option Client :=
  match conn with
  | none => some c
  | some h => mysql_close c h

/-! ## Further notions used to state the properties -/

/-- A field of a record, by its kind: a text buffer with its capacity, an `int`, a `double`
or a `bool`. -/
inductive Cell (D : Type) where
  | text (cap : Nat) (field : List Nat)
  | int (v : Int)
  | dbl (v : D)
  | bool (b : Bool)

/-- The zero value of the kind: the empty string, 0, 0.0, false. -/
def Cell.is_zero {D : Type} (F : FloatOps D) : Cell D → Prop
  | Cell.text _ field => cstr field = []
  | Cell.int v => v = 0
  | Cell.dbl v => v = F.zero
  | Cell.bool b => b = false

/-- The fields of a `User` (database.h, lines 14-25) in the order of the columns the row
mappings read them from. -/
def User.cells {D : Type} (u : User) : List (Cell D) :=
  [Cell.int u.user_id, Cell.text 51 u.username, Cell.text 101 u.email,
   Cell.text 256 u.password_hash, Cell.text 51 u.first_name, Cell.text 51 u.last_name,
   Cell.text 21 u.phone, Cell.text 20 u.created_at, Cell.text 20 u.updated_at,
   Cell.bool u.is_active]

/-- The fields of a `Product` in the order of the columns. -/
def Product.cells {D : Type} (p : Product D) : List (Cell D) :=
  [Cell.int p.product_id, Cell.text 201 p.product_name, Cell.text 1024 p.description,
   Cell.dbl p.price, Cell.int p.stock_quantity, Cell.int p.category_id, Cell.text 51 p.sku,
   Cell.dbl p.weight, Cell.text 101 p.dimensions, Cell.text 20 p.created_at,
   Cell.text 20 p.updated_at, Cell.bool p.is_active]

/-- The fields of an `Order` in the order of the columns. -/
def Order.cells {D : Type} (o : Order D) : List (Cell D) :=
  [Cell.int o.order_id, Cell.int o.user_id, Cell.text 20 o.order_date, Cell.text 20 o.status,
   Cell.dbl o.total_amount, Cell.int o.shipping_address_id, Cell.int o.billing_address_id,
   Cell.text 51 o.payment_method, Cell.dbl o.shipping_cost, Cell.dbl o.tax_amount,
   Cell.text 1024 o.notes]

/-- The fields of an `OrderItem` in the order of the columns. -/
def OrderItem.cells {D : Type} (i : OrderItem D) : List (Cell D) :=
  [Cell.int i.order_item_id, Cell.int i.order_id, Cell.int i.product_id, Cell.int i.quantity,
   Cell.dbl i.unit_price, Cell.dbl i.total_price]

/-- The fields of a `CartItem` in the order of the columns. -/
def CartItem.cells {D : Type} (c : CartItem) : List (Cell D) :=
  [Cell.int c.cart_item_id, Cell.int c.user_id, Cell.int c.product_id, Cell.int c.quantity,
   Cell.text 20 c.added_at]

/-- The row mappings of the user module, one per function that has one. -/
def user_fills : List (MYSQL_ROW → (Nat → Nat) → Option User) :=
  [get_user_by_id_fill, get_user_by_username_fill, get_user_by_email_fill, get_all_users_fill]

/-- The row mappings of the product module. -/
def product_fills {D : Type} (F : FloatOps D) :
    List (MYSQL_ROW → (Nat → Nat) → Option (Product D)) :=
  [get_product_by_id_fill F, get_product_by_sku_fill F, get_all_products_fill F,
   get_products_by_category_fill F, search_products_by_name_fill F,
   get_products_by_price_range_fill F]

/-- The row mappings of orders. -/
def order_fills {D : Type} (F : FloatOps D) :
    List (MYSQL_ROW → (Nat → Nat) → Option (Order D)) :=
  [get_order_by_id_fill F, get_orders_by_user_fill F, get_all_orders_fill F,
   get_orders_by_status_fill F]

/-- The row mappings of order lines. -/
def order_item_fills {D : Type} (F : FloatOps D) :
    List (MYSQL_ROW → (Nat → Nat) → Option (OrderItem D)) :=
  [get_order_item_by_id_fill F, get_order_items_by_order_fill F]

/-- The row mappings of the cart module. -/
def cart_item_fills : List (MYSQL_ROW → (Nat → Nat) → Option CartItem) :=
  [get_cart_item_by_id_fill, get_cart_items_by_user_fill]

/-- Whether column `i` of the row is null. -/
def is_null (row : MYSQL_ROW) (i : Nat) : Prop := row.get? i = some none

instance (row : MYSQL_ROW) (i : Nat) : Decidable (is_null row i) := by
  unfold is_null; infer_instance

/-- Whether the statement `q` fails in state `w`: `mysql_query` reports an error, or
`mysql_store_result` gives no result set. -/
def no_result (w : World S) (q : CStr) : Bool :=
  match (S.exec w.db q).1 with
  | Reply.error _ => true
  | Reply.ok _ none => true
  | _ => false

/-- The field of capacity `cap` holds the first `min len (cap - 1)` bytes of the string `col`
of length `len`. -/
def copied (cap : Nat) (col : CStr) (field : List Nat) : Prop :=
  field.take (min col.length (cap - 1)) = col.take (min col.length (cap - 1))

instance (cap : Nat) (col : CStr) (field : List Nat) : Decidable (copied cap col field) := by
  unfold copied; infer_instance

/-- The field of capacity `cap` holds the first `min len (cap - 1)` bytes of the string `col`
of length `len`: all of `col` when it is shorter than `cap` bytes, its first `cap - 1` bytes
when it is longer. -/
def truncated (cap : Nat) (col : CStr) (field : List Nat) : Prop :=
  copied cap col field ∧ (col.length < cap → field.take col.length = col) ∧
    (cap ≤ col.length → field.take (cap - 1) = col.take (cap - 1))

/-- The digit `%d` prints for a `bool`. -/
def bool_digit (b : Bool) : Nat := if b then 49 else 48

/-- A product whose text fields are full and whose price and weight are 1e298 (amounts in
hundredths). -/
def big_product : Product Int :=
  { product_id := 0, product_name := List.replicate 200 97 ++ [0],
    description := List.replicate 1023 97 ++ [0], price := 10 ^ 300, stock_quantity := 1,
    category_id := 1, sku := List.replicate 50 97 ++ [0], weight := 10 ^ 300,
    dimensions := List.replicate 100 97 ++ [0], created_at := List.replicate 20 0,
    updated_at := List.replicate 20 0, is_active := true }

/-- A user row with the identifier 7 and a username of 60 bytes. -/
def long_name_row : MYSQL_ROW :=
  [some (bytes "7"), some (List.replicate 60 97), some (bytes "a@b.c"), none, none, none,
   none, none, none, some (bytes "1")]

/-- A user row whose username column holds the three bytes `a`, NUL, `b`. -/
def nul_name_row : MYSQL_ROW :=
  [some (bytes "7"), some [97, 0, 98], some (bytes "a@b.c"), none, none, none, none, none,
   none, some (bytes "1")]

/-- A row of `n` columns that holds the identifier 7 and is null in every other column. -/
def bare_row (n : Nat) : MYSQL_ROW := some (bytes "7") :: List.replicate (n - 1) none

/-- Whether user row `r` has the username `u` and the password hash `h`, texts compared
under the collation, and is_active 1. -/
def credentials_match (coll : Nat → Nat) (u h : CStr) (r : List Val) : Bool :=
  match cell r 1, cell r 3, cell r 9 with
  | Val.text x, Val.text y, Val.int a =>
      decide (x.map coll = u.map coll) && decide (y.map coll = h.map coll) && decide (a = 1)
  | _, _, _ => false

/-- What `verify_user_credentials` returns, by the reply of the store to its statement: true
exactly when the statement succeeds with a result set of at least one row. -/
def verify_spec (reply : Reply) : Bool :=
  match reply with
  | Reply.ok _ (some (_ :: _)) => true
  | _ => false

/-- What `get_cart_item_count` returns, by the reply of the store to its statement: 0 when
the statement fails, when no result set can be stored, when the result set is empty and when
the count is null; else `atoi` of the count (`none` where the row has no column). -/
def count_spec (reply : Reply) : Option Int :=
  match reply with
  | Reply.error _ => some 0
  | Reply.ok _ none => some 0
  | Reply.ok _ (some []) => some 0
  | Reply.ok _ (some (row :: _)) =>
      match row.get? 0 with
      | none => none
      | some none => some 0
      | some (some s) => some (atoi s)

/-- The status "shi" followed by a backslash and "pped". -/
def escaped_status : CStr := bytes "shi" ++ [92] ++ bytes "pped"

/-- The username "al" followed by a backslash and "ice". -/
def escaped_name : CStr := bytes "al" ++ [92] ++ bytes "ice"

/-- The store that holds the sample user as user 1, the sample order of user 1 and the sample
cart line of user 1. -/
def linked_db : DB :=
  { one_user_db with orders := one_order_db.orders, cart_items := one_cart_db.cart_items }

/-- Whether the store answered the statement `q` in state `w` without an error. -/
def executes (w : World S) (q : CStr) : Bool :=
  match (S.exec w.db q).1 with
  | Reply.error _ => false
  | Reply.ok _ _ => true

/-- The statement `q` gives nothing to read in state `w`: it fails, or it succeeds with a
result set of zero rows. -/
def reads_nothing (w : World S) (q : CStr) : Prop :=
  no_result w q = true ∨ zero_rows w q = true

instance (w : World S) (q : CStr) : Decidable (reads_nothing w q) := by
  unfold reads_nothing; infer_instance

/-- A process that has made no call of the client library. -/
def fresh_client : Client := { live := [], next := 0, calls := [] }

/-- A process that holds the one live connection 0. -/
def connected_client : Client := { live := [0], next := 1, calls := [] }

/-- The client library answering every call of `db_connect` with success. -/
def all_ok : Outcome := { init_ok := true, connect_ok := true, charset_ok := true, error := [] }

/-- Number of calls of `mysql_close` among the calls. -/
def closes (calls : List Call) : Nat :=
  (calls.filter (fun c => match c with
    | Call.close _ => true
    | _ => false)).length

/-- Number of calls of `mysql_init` among the calls. -/
def inits (calls : List Call) : Nat :=
  (calls.filter (fun c => match c with
    | Call.init => true
    | _ => false)).length

/-- Number of calls of `mysql_real_connect` among the calls. -/
def connects (calls : List Call) : Nat :=
  (calls.filter (fun c => match c with
    | Call.real_connect _ _ _ _ => true
    | _ => false)).length

/-- Number of calls of `mysql_set_character_set` with "utf8mb4" among the calls. -/
def charsets (calls : List Call) : Nat :=
  (calls.filter (fun c => decide (c = Call.set_character_set "utf8mb4"))).length

/-! ## Notions for the statements and the calls -/

/-- A value as a statement writes it: a text between quotes, or the text of a number. -/
inductive Lit where
  | text (v : CStr)
  | num (v : CStr)

/-- The bytes of a written value. -/
def Lit.show : Lit → CStr
  | Lit.text v => 39 :: (v ++ [39])
  | Lit.num v => v

/-- The texts joined with a separator between them. -/
def sep_join (sep : CStr) : List CStr → CStr
  | [] => []
  | [x] => x
  | x :: y :: xs => x ++ (sep ++ sep_join sep (y :: xs))

/-- The text `INSERT INTO t (c1, c2, ..) VALUES (v1, v2, ..)` followed by `tail`. -/
def insert_statement (table : String) (cols : List String) (vals : List Lit) (tail : CStr) :
    CStr :=
  bytes "INSERT INTO " ++ (bytes table ++ (bytes " (" ++ (sep_join (bytes ", ") (cols.map bytes)
    ++ (bytes ") VALUES (" ++ (sep_join (bytes ", ") (vals.map Lit.show)
    ++ (bytes ")" ++ tail))))))

/-- The text `UPDATE t SET c1=v1, c2=v2, .. WHERE key=k`. -/
def update_statement (table : String) (cols : List String) (vals : List Lit) (key : String)
    (k : Int) : CStr :=
  bytes "UPDATE " ++ (bytes table ++ (bytes " SET "
    ++ (sep_join (bytes ", ") (List.zipWith (fun c v => bytes c ++ (61 :: Lit.show v)) cols vals)
    ++ (bytes " WHERE " ++ (bytes key ++ (61 :: fmt_d k))))))

/-- The writable columns of the users table. -/
def User.columns : List String :=
  ["username", "email", "password_hash", "first_name", "last_name", "phone", "is_active"]

/-- The values of the writable columns of a user record. -/
def User.written (u : User) : List Lit :=
  [Lit.text (cstr u.username), Lit.text (cstr u.email), Lit.text (cstr u.password_hash),
   Lit.text (cstr u.first_name), Lit.text (cstr u.last_name), Lit.text (cstr u.phone),
   Lit.num (fmt_d (bool_int u.is_active))]

/-- The writable columns of the products table. -/
def Product.columns : List String :=
  ["product_name", "description", "price", "stock_quantity", "category_id", "sku", "weight",
   "dimensions", "is_active"]

/-- The values of the writable columns of a product record. -/
def Product.written {D : Type} (F : FloatOps D) (p : Product D) : List Lit :=
  [Lit.text (cstr p.product_name), Lit.text (cstr p.description), Lit.num (F.fmt_2f p.price),
   Lit.num (fmt_d p.stock_quantity), Lit.num (fmt_d p.category_id), Lit.text (cstr p.sku),
   Lit.num (F.fmt_2f p.weight), Lit.text (cstr p.dimensions),
   Lit.num (fmt_d (bool_int p.is_active))]

/-- The writable columns of the orders table. -/
def Order.columns : List String :=
  ["user_id", "status", "total_amount", "shipping_address_id", "billing_address_id",
   "payment_method", "shipping_cost", "tax_amount", "notes"]

/-- The values of the writable columns of an order record. -/
def Order.written {D : Type} (F : FloatOps D) (o : Order D) : List Lit :=
  [Lit.num (fmt_d o.user_id), Lit.text (cstr o.status), Lit.num (F.fmt_2f o.total_amount),
   Lit.num (fmt_d o.shipping_address_id), Lit.num (fmt_d o.billing_address_id),
   Lit.text (cstr o.payment_method), Lit.num (F.fmt_2f o.shipping_cost),
   Lit.num (F.fmt_2f o.tax_amount), Lit.text (cstr o.notes)]

/-- The writable columns of the order_items table. -/
def OrderItem.columns : List String :=
  ["order_id", "product_id", "quantity", "unit_price", "total_price"]

/-- The values of the writable columns of an order line. -/
def OrderItem.written {D : Type} (F : FloatOps D) (i : OrderItem D) : List Lit :=
  [Lit.num (fmt_d i.order_id), Lit.num (fmt_d i.product_id), Lit.num (fmt_d i.quantity),
   Lit.num (F.fmt_2f i.unit_price), Lit.num (F.fmt_2f i.total_price)]

/-- The writable columns of the cart_items table. -/
def CartItem.columns : List String := ["user_id", "product_id", "quantity"]

/-- The values of the writable columns of a cart line. -/
def CartItem.written (c : CartItem) : List Lit :=
  [Lit.num (fmt_d c.user_id), Lit.num (fmt_d c.product_id), Lit.num (fmt_d c.quantity)]

/-- The statements sent so far, in order. -/
def sent (log : List Event) : List CStr :=
  log.filterMap (fun e =>
    match e with
    | Event.query q => some q
    | _ => none)

/-- Whether a statement text starts with `INSERT`, `SELECT`, `UPDATE` or `DELETE`. -/
def is_dml (q : CStr) : Bool :=
  [bytes "INSERT", bytes "SELECT", bytes "UPDATE", bytes "DELETE"].contains (q.take 6)

/-- Between the states `w` and `w1` exactly one statement was sent, `q`, and it is no
transaction-control statement. -/
def one_statement (w w1 : World S) (q : CStr) : Prop :=
  sent w1.log = sent w.log ++ [q] ∧ is_dml q = true

/-- The allocator outcomes of a multi-row fetch in which the sequence and the first `k`
records are allocated and the next record is not. -/
def alloc_plan (k : Nat) : List Bool := true :: (List.replicate k true ++ [false])

/-- The statement `q` succeeds in state `w` with more than `k` rows, at most 2147483647, the
allocator follows `alloc_plan k`, and the rows before row `k` have defined mappings. -/
def fails_at {T : Type} (fill : MYSQL_ROW → (Nat → Nat) → Option T) (w : World S) (q : CStr)
    (k : Nat) : Prop :=
  ∃ id rows db1 rest, S.exec w.db q = (Reply.ok id (some rows), db1) ∧ k < rows.length ∧
    rows.length ≤ 2147483647 ∧ w.oracle = alloc_plan k ++ rest ∧
    ∀ r ∈ rows.take k, (fill r w.junk).isSome = true

/-- A multi-row fetch returned the null sequence with count 0 after it sent `q`, stored the
result set, allocated the sequence and `k` records and failed to allocate the next record:
it released the `k` records, then the sequence, then the result set, each once. -/
def cleans_up {T : Type} (w : World S) (q : CStr) (k : Nat)
    (out : Option (Option (List T) × Int × World S)) : Prop :=
  ∃ w1, out = some (none, 0, w1) ∧
    w1.log = w.log ++
      ([Event.query q, Event.store_result w.next_block, Event.malloc (w.next_block + 1)] ++
       ((List.range k).map (fun j => Event.malloc (w.next_block + 2 + j)) ++
        ([Event.malloc_failed] ++
         ((List.range k).map (fun j => Event.free (w.next_block + 2 + j)) ++
          [Event.free (w.next_block + 1), Event.free_result w.next_block]))))

/-- The statement `q` succeeds in state `w` with the rows `rows`, at least one and at most
2147483647, every allocation the fetch makes succeeds, and every row has a defined
mapping. -/
def fetch_ready {T : Type} (fill : MYSQL_ROW → (Nat → Nat) → Option T) (w : World S) (q : CStr)
    (rows : List MYSQL_ROW) : Prop :=
  (∃ id db1, S.exec w.db q = (Reply.ok id (some rows), db1)) ∧ rows ≠ [] ∧
    rows.length ≤ 2147483647 ∧ (∀ b ∈ w.oracle.take (rows.length + 1), b = true) ∧
    ∀ r ∈ rows, (fill r w.junk).isSome = true

/-- A multi-row fetch returned a non-null sequence of `rows.length` records, the record at
each index being the mapping of the row at that index, and that number as count. -/
def maps_rows {T : Type} (fill : MYSQL_ROW → (Nat → Nat) → Option T) (junk : Nat → Nat)
    (rows : List MYSQL_ROW) (out : Option (Option (List T) × Int × World S)) : Prop :=
  ∃ recs w1, out = some (some recs, (rows.length : Int), w1) ∧ recs.length = rows.length ∧
    ∀ i, i < rows.length → (rows.get? i).bind (fun r => fill r junk) = recs.get? i ∧
      (recs.get? i).isSome = true

/-- The sequence of a multi-row fetch is null exactly when its count is 0. -/
def null_iff_zero {T : Type} (out : Option (Option (List T) × Int × World S)) : Prop :=
  ∀ o, out = some o → (o.1 = none ↔ o.2.1 = 0)

/-- A user row with the identifier `n` and the username "u". -/
def numbered_row (n : Nat) : MYSQL_ROW :=
  [some (nat_digits n), some (bytes "u"), none, none, none, none, none, none, none,
   some (bytes "1")]

/-- A store that answers every statement with the three user rows 1, 2, 3. -/
def three_rows : Server :=
  stub_server (Reply.ok 0 (some [numbered_row 1, numbered_row 2, numbered_row 3]))

/-- A store that answers every statement with 4294967296 rows. -/
def many_rows : Server :=
  stub_server (Reply.ok 0 (some (List.replicate 4294967296 (numbered_row 1))))

/-- A username that closes the quote and adds a condition. -/
def quote_name : CStr := bytes "x" ++ [39] ++ bytes " OR " ++ [39] ++ bytes "1" ++ [39, 61, 39] ++ bytes "1"

/-- The sample cart line with the largest `int` as quantity. -/
def full_cart_item : CartItem := { sample_cart_item with quantity := 2147483647 }

/-- The sample cart line with the quantity 1. -/
def one_more_item : CartItem := { sample_cart_item with quantity := 1 }

/-- A product whose text fields are full, whose price is 1e298 and whose weight is 1e231
(amounts in hundredths). -/
def wide_product : Product Int := { big_product with weight := 10 ^ 233 }

/-! ## Theorems -/

set_option maxRecDepth 8000

theorem is_digit_iff (b : Nat) : is_digit b = true ↔ 48 ≤ b ∧ b ≤ 57 := by
  simp [is_digit]

theorem digits_val_append (xs : CStr) (y : Nat) :
    digits_val (xs ++ [y]) = 10 * digits_val xs + (y - 48) := by
  simp [digits_val, List.foldl_append]

theorem nat_digits_fuel_spec : ∀ fuel n, n < fuel →
    digits_val (nat_digits_fuel fuel n) = n ∧
    (∀ b ∈ nat_digits_fuel fuel n, is_digit b = true) ∧
    nat_digits_fuel fuel n ≠ [] := by
  intro fuel
  induction fuel with
  | zero => intro n h; omega
  | succ f ih =>
    intro n h
    unfold nat_digits_fuel
    by_cases h10 : n < 10
    · simp only [h10, if_true]
      refine ⟨?_, ?_, by simp⟩
      · simp [digits_val]
      · intro b hb
        simp at hb
        rw [is_digit_iff]; omega
    · simp only [h10, if_false]
      have hlt : n / 10 < f := by omega
      obtain ⟨h1, h2, _⟩ := ih (n / 10) hlt
      refine ⟨?_, ?_, by simp⟩
      · rw [digits_val_append, h1]; omega
      · intro b hb
        rw [List.mem_append] at hb
        rcases hb with hb | hb
        · exact h2 b hb
        · simp at hb
          rw [is_digit_iff]; omega

theorem digits_val_nat_digits (n : Nat) : digits_val (nat_digits n) = n :=
  (nat_digits_fuel_spec (n + 1) n (Nat.lt_succ_self n)).1

theorem nat_digits_all_digit (n : Nat) : ∀ b ∈ nat_digits n, is_digit b = true :=
  (nat_digits_fuel_spec (n + 1) n (Nat.lt_succ_self n)).2.1

theorem nat_digits_ne_nil (n : Nat) : nat_digits n ≠ [] :=
  (nat_digits_fuel_spec (n + 1) n (Nat.lt_succ_self n)).2.2


theorem span_digits (ds t : CStr) (hd : ∀ b ∈ ds, is_digit b = true)
    (ht : ∀ b, t.head? = some b → is_digit b = false) :
    (ds ++ t).span is_digit = (ds, t) := by
  rw [List.span_eq_take_drop, List.takeWhile_append_of_pos hd, List.dropWhile_append_of_pos hd]
  cases t with
  | nil => simp
  | cons b t =>
    have hb := ht b rfl
    simp [List.takeWhile_cons, List.dropWhile_cons, hb]

theorem nat_digits_head (n : Nat) : ∃ d ds, nat_digits n = d :: ds ∧ 48 ≤ d ∧ d ≤ 57 := by
  have h1 := nat_digits_ne_nil n
  have h2 := nat_digits_all_digit n
  cases h : nat_digits n with
  | nil => exact absurd h h1
  | cons d ds =>
    refine ⟨d, ds, rfl, ?_⟩
    have := h2 d (by rw [h]; simp)
    rwa [is_digit_iff] at this

theorem scan_int_nat (n : Nat) (t : CStr) (ht : ∀ b, t.head? = some b → is_digit b = false) :
    scan_int (nat_digits n ++ t) = some ((n : Int), t) := by
  obtain ⟨d, ds, hds, h1, h2⟩ := nat_digits_head n
  have hsp := span_digits (nat_digits n) t (nat_digits_all_digit n) ht
  have hv := digits_val_nat_digits n
  rw [hds] at hsp hv ⊢
  have hd45 : d ≠ 45 := by omega
  unfold scan_int
  simp only [List.cons_append] at hsp ⊢
  split
  · rename_i heq
    simp only [List.cons.injEq] at heq
    omega
  · rw [hsp]
    simp [hv]

theorem scan_int_fmt_d (v : Int) (t : CStr)
    (ht : ∀ b, t.head? = some b → is_digit b = false) :
    scan_int (fmt_d v ++ t) = some (v, t) := by
  unfold fmt_d
  by_cases hv : v < 0
  · simp only [hv, if_true, List.cons_append]
    have hsp := span_digits (nat_digits v.natAbs) t (nat_digits_all_digit _) ht
    obtain ⟨d, ds, hds, _, _⟩ := nat_digits_head v.natAbs
    have hval := digits_val_nat_digits v.natAbs
    unfold scan_int
    simp only [hsp]
    rw [hds] at hval ⊢
    simp only [hval]
    congr 2
    omega
  · simp only [hv, if_false]
    rw [scan_int_nat _ _ ht]
    congr 2
    omega

theorem scan_dec_abs_spec (m a b : Nat) (t : CStr) (ha : a < 10) (hb : b < 10)
    (ht : ∀ x, t.head? = some x → is_digit x = false) :
    scan_dec_abs (nat_digits m ++ 46 :: (48 + a) :: (48 + b) :: t) =
      some (100 * m + (10 * a + b), t) := by
  obtain ⟨d, ds, hds, h1, h2⟩ := nat_digits_head m
  have hsp := span_digits (nat_digits m) (46 :: (48 + a) :: (48 + b) :: t)
    (nat_digits_all_digit m) (by intro x hx; simp at hx; subst hx; simp [is_digit])
  have hsp2 := span_digits [48 + a, 48 + b] t
    (by intro x hx; simp at hx; rw [is_digit_iff]; omega) ht
  have hv := digits_val_nat_digits m
  unfold scan_dec_abs
  rw [hsp]
  rw [hds] at hv ⊢
  simp only [List.cons_append, List.nil_append] at hsp2
  simp only [hsp2, hv]
  simp

theorem scan_dec_fmt_dec (c : Int) (t : CStr)
    (ht : ∀ x, t.head? = some x → is_digit x = false) :
    scan_dec (fmt_dec c ++ t) = some (c, t) := by
  have ha : c.natAbs % 100 / 10 < 10 := by omega
  have hb : c.natAbs % 10 < 10 := by omega
  have key := scan_dec_abs_spec (c.natAbs / 100) _ _ t ha hb ht
  obtain ⟨d, ds, hds, h1, h2⟩ := nat_digits_head (c.natAbs / 100)
  unfold fmt_dec
  by_cases hc : c < 0
  · simp only [hc, if_true, List.cons_append, List.nil_append, List.append_assoc]
    unfold scan_dec
    simp only [key]
    congr 2
    omega
  · simp only [hc, if_false, List.nil_append, List.append_assoc, List.cons_append]
    unfold scan_dec
    rw [hds] at key ⊢
    simp only [List.cons_append] at key ⊢
    split
    · rename_i heq
      simp only [List.cons.injEq] at heq
      omega
    · rename_i hne
      simp only [key]
      congr 2
      omega


theorem scan_str_body_clean (v t : CStr) (hv : clean v)
    (ht : ∀ x, t.head? = some x → x ≠ 39) :
    scan_str_body (v ++ 39 :: t) = some (v, t) := by
  induction v with
  | nil =>
    simp only [List.nil_append]
    cases t with
    | nil => simp [scan_str_body]
    | cons x t =>
      have hx := ht x rfl
      unfold scan_str_body
      split
      · simp_all
      · rename_i heq
        simp only [List.cons.injEq] at heq
        omega
      · rename_i heq
        simp only [List.cons.injEq] at heq
        obtain ⟨_, h2⟩ := heq
        simp_all
      · rename_i h1 h2 h3
        simp_all
      · rename_i h1 h2 h3
        simp only [List.cons.injEq] at h3
        exact absurd h3.1.symm h2
  | cons c v ih =>
    have hc := hv c (by simp)
    have hv2 : clean v := fun b hb => hv b (by simp [hb])
    simp only [List.cons_append]
    unfold scan_str_body
    split
    · simp_all
    · rename_i heq
      simp only [List.cons.injEq] at heq
      omega
    · rename_i heq
      simp only [List.cons.injEq] at heq
      omega
    · rename_i heq
      simp only [List.cons.injEq] at heq
      omega
    · rename_i c2 t2 h1 h2 h3 heq
      simp only [List.cons.injEq] at heq
      obtain ⟨rfl, rfl⟩ := heq
      rw [ih hv2]

theorem scan_str_clean (v t : CStr) (hv : clean v) (ht : ∀ x, t.head? = some x → x ≠ 39) :
    scan_str (39 :: (v ++ 39 :: t)) = some (v, t) := by
  unfold scan_str
  simp only
  exact scan_str_body_clean v t hv ht

theorem strip_lit_append (l t : CStr) : strip_lit l (l ++ t) = some t := by
  induction l with
  | nil => cases t <;> simp [strip_lit]
  | cons a l ih => simp [strip_lit, ih]

theorem next_ok_head (bad : Nat → Bool) (ps : List Piece) (vs : List Val)
    (h : next_ok bad ps = true) : ∀ x, (render ps vs).head? = some x → bad x = false := by
  intro x hx
  cases ps with
  | nil => simp [render] at hx
  | cons p ps =>
    cases p with
    | lit l =>
      cases l with
      | nil => simp [next_ok] at h
      | cons c l =>
        simp only [next_ok, Bool.not_eq_true'] at h
        simp only [render, List.cons_append, List.head?_cons, Option.some.injEq] at hx
        rw [← hx]; exact h
    | str => simp [next_ok] at h
    | int => simp [next_ok] at h
    | dec => simp [next_ok] at h

theorem scan_render : ∀ (ps : List Piece) (vs : List Val),
    pieces_ok ps = true → fits ps vs → scan ps (render ps vs) = some vs := by
  intro ps
  induction ps with
  | nil =>
    intro vs _ hf
    cases vs with
    | nil => simp [render, scan]
    | cons v vs => simp [fits] at hf
  | cons p ps ih =>
    intro vs hok hf
    cases p with
    | lit l =>
      simp only [pieces_ok] at hok
      simp only [fits] at hf
      simp only [render, scan, strip_lit_append]
      exact ih vs hok hf
    | str =>
      simp only [pieces_ok, Bool.and_eq_true] at hok
      cases vs with
      | nil => simp [fits] at hf
      | cons v vs =>
        cases v with
        | text v =>
          simp only [fits] at hf
          have hh := next_ok_head _ ps vs hok.1
          have := scan_str_clean v (render ps vs) hf.1
            (by intro x hx; simpa using hh x hx)
          simp only [render, scan, this, ih vs hok.2 hf.2]
        | null => simp [fits] at hf
        | int v => simp [fits] at hf
        | dec v => simp [fits] at hf
    | int =>
      simp only [pieces_ok, Bool.and_eq_true] at hok
      cases vs with
      | nil => simp [fits] at hf
      | cons v vs =>
        cases v with
        | int v =>
          simp only [fits] at hf
          have hh := next_ok_head _ ps vs hok.1
          simp only [render, scan, scan_int_fmt_d v _ hh, ih vs hok.2 hf]
        | null => simp [fits] at hf
        | text v => simp [fits] at hf
        | dec v => simp [fits] at hf
    | dec =>
      simp only [pieces_ok, Bool.and_eq_true] at hok
      cases vs with
      | nil => simp [fits] at hf
      | cons v vs =>
        cases v with
        | dec v =>
          simp only [fits] at hf
          have hh := next_ok_head _ ps vs hok.1
          simp only [render, scan, scan_dec_fmt_dec v _ hh, ih vs hok.2 hf]
        | null => simp [fits] at hf
        | text v => simp [fits] at hf
        | int v => simp [fits] at hf

theorem strip_lit_apart (l m t : CStr) (h : apart l m = true) :
    strip_lit l (m ++ t) = none := by
  induction l generalizing m with
  | nil => cases m <;> simp [apart] at h
  | cons a l ih =>
    cases m with
    | nil => simp [apart] at h
    | cons b m =>
      simp only [apart] at h
      simp only [List.cons_append, strip_lit]
      by_cases hab : a = b
      · simp only [hab, if_true] at h ⊢
        exact ih m h
      · simp [hab]

/-- A statement of entry `e` is read by the reference store as that entry, when every
earlier entry of the catalogue starts with a text apart from the start of `e`. -/
theorem ref_exec_render (i : Nat) (e : Entry) (vals : List Val) (db : DB)
    (he : catalogue.get? i = some e)
    (hpre : (catalogue.take i).all (fun e2 => apart (bytes e2.head) (bytes e.head)) = true)
    (hok : pieces_ok e.pieces = true) (hf : fits e.pieces vals) :
    ref_exec db (render e.pieces vals) = e.run vals db := by
  have hsplit : catalogue = catalogue.take i ++ e :: catalogue.drop (i + 1) := by
    have hi : i < catalogue.length := by
      rcases Nat.lt_or_ge i catalogue.length with h | h
      · exact h
      · rw [List.get?_eq_none.mpr h] at he; cases he
    rw [List.get?_eq_get hi] at he
    simp only [Option.some.injEq] at he
    conv_lhs => rw [← List.take_append_drop i catalogue]
    rw [List.drop_eq_getElem_cons hi]
    simp only [List.get_eq_getElem] at he
    rw [he]
  unfold ref_exec
  rw [hsplit, List.findSome?_append]
  have hnone : (catalogue.take i).findSome? (try_entry (render e.pieces vals) db) = none := by
    rw [List.findSome?_eq_none_iff]
    intro e2 he2
    rw [List.all_eq_true] at hpre
    have hap := hpre e2 he2
    unfold try_entry
    have : scan e2.pieces (render e.pieces vals) = none := by
      simp only [Entry.pieces, render, scan]
      rw [strip_lit_apart _ _ _ hap]
    rw [this]
  rw [hnone]
  simp only [Option.none_or, Option.or, List.findSome?_cons, try_entry, scan_render _ _ hok hf]

theorem render_length_le : ∀ (ps : List Piece) (vs : List Val),
    (render ps vs).length ≤ lit_len ps + (vs.map val_len).sum := by
  intro ps
  induction ps with
  | nil => intro vs; simp [render]
  | cons p ps ih =>
    intro vs
    cases p with
    | lit l =>
      have := ih vs
      simp only [render, lit_len, List.length_append]
      omega
    | str =>
      cases vs with
      | nil => simp [render]
      | cons v vs =>
        have := ih vs
        cases v <;>
          simp only [render, lit_len, val_len, List.length_append, List.length_cons,
            List.length_nil, List.map_cons, List.sum_cons] <;> omega
    | int =>
      cases vs with
      | nil => simp [render]
      | cons v vs =>
        have := ih vs
        cases v <;>
          simp only [render, lit_len, val_len, List.length_append, List.length_cons,
            List.length_nil, List.map_cons, List.sum_cons] <;> omega
    | dec =>
      cases vs with
      | nil => simp [render]
      | cons v vs =>
        have := ih vs
        cases v <;>
          simp only [render, lit_len, val_len, List.length_append, List.length_cons,
            List.length_nil, List.map_cons, List.sum_cons] <;> omega

/-- A statement built by `snprintf` that fits its buffer is read by the reference store as
the entry whose form it has. -/
theorem exec_stmt (i : Nat) (e : Entry) (vals : List Val) (db : DB) (size : Nat)
    (fmt : String) (args : List Arg)
    (he : catalogue.get? i = some e)
    (hpre : (catalogue.take i).all (fun e2 => apart (bytes e2.head) (bytes e.head)) = true)
    (hok : pieces_ok e.pieces = true) (hf : fits e.pieces vals)
    (hfmt : vformat (bytes fmt) args = render e.pieces vals)
    (hlen : lit_len e.pieces + (vals.map val_len).sum ≤ size - 1) :
    ref_exec db (snprintf size fmt args) = e.run vals db := by
  have h1 : snprintf size fmt args = render e.pieces vals := by
    unfold snprintf
    rw [hfmt]
    apply List.take_of_length_le
    exact le_trans (render_length_le _ _) hlen
  rw [h1]
  exact ref_exec_render i e vals db he hpre hok hf

theorem nat_digits_fuel_length : ∀ fuel n k, n < 10 ^ (k + 1) →
    (nat_digits_fuel fuel n).length ≤ k + 1 := by
  intro fuel
  induction fuel with
  | zero => intro n k _; simp [nat_digits_fuel]
  | succ f ih =>
    intro n k h
    unfold nat_digits_fuel
    by_cases h10 : n < 10
    · simp [h10]
    · simp only [h10, if_false, List.length_append, List.length_cons, List.length_nil]
      cases k with
      | zero => simp at h; omega
      | succ k =>
        have : n / 10 < 10 ^ (k + 1) := by
          apply Nat.div_lt_of_lt_mul
          rw [pow_succ] at h
          omega
        have := ih (n / 10) k this
        omega

theorem fmt_d_length (v : Int) (h : is_int v) : (fmt_d v).length ≤ 11 := by
  unfold is_int at h
  unfold fmt_d nat_digits
  by_cases hv : v < 0
  · simp only [hv, if_true, List.length_cons]
    have := nat_digits_fuel_length (v.natAbs + 1) v.natAbs 9 (by norm_num; omega)
    omega
  · simp only [hv, if_false]
    have := nat_digits_fuel_length (v.toNat + 1) v.toNat 9 (by norm_num; omega)
    omega

/-! ### The calls of database.c, by the reply of the store -/

theorem execute_query_db (w : World S) (q : CStr) :
    (execute_query w q).2.db = (S.exec w.db q).2 := by
  unfold execute_query mysql_query
  rcases h : S.exec w.db q with ⟨r, db1⟩
  cases r <;> simp [fprintf_stderr]

theorem execute_query_oracle (w : World S) (q : CStr) :
    (execute_query w q).2.oracle = w.oracle := by
  unfold execute_query mysql_query
  rcases h : S.exec w.db q with ⟨r, db1⟩
  cases r <;> simp [fprintf_stderr]

theorem execute_query_junk (w : World S) (q : CStr) :
    (execute_query w q).2.junk = w.junk := by
  unfold execute_query mysql_query
  rcases h : S.exec w.db q with ⟨r, db1⟩
  cases r <;> simp [fprintf_stderr]

theorem execute_query_fst (w : World S) (q : CStr) :
    (execute_query w q).1 =
      (match (S.exec w.db q).1 with
       | Reply.error _ => false
       | Reply.ok _ _ => true) := by
  unfold execute_query mysql_query
  rcases h : S.exec w.db q with ⟨r, db1⟩
  cases r <;> simp [fprintf_stderr]

theorem execute_query_insert_id (w : World S) (q : CStr) (id : Nat)
    (res : Option (List MYSQL_ROW)) (h : (S.exec w.db q).1 = Reply.ok id res) :
    (execute_query w q).2.insert_id = id := by
  unfold execute_query mysql_query
  rcases h2 : S.exec w.db q with ⟨r, db1⟩
  rw [h2] at h
  simp only at h
  subst h
  simp

theorem alloc_ok_malloc (w : World S) :
    (malloc w).1.isSome = alloc_ok w := by
  obtain ⟨db, iid, err, pend, oracle, junk, nb, log⟩ := w
  unfold malloc alloc_ok
  rcases oracle with _ | ⟨b, o⟩
  · simp
  · cases b <;> simp

theorem fetch_one_fst {T : Type} (fill : MYSQL_ROW → (Nat → Nat) → Option T) (w : World S)
    (q : CStr) :
    (fetch_one fill w q).map Prod.fst =
      lookup_spec fill w.junk (S.exec w.db q).1 (alloc_ok w) := by
  obtain ⟨db, iid, err, pend, oracle, junk, nb, log⟩ := w
  unfold fetch_one execute_select_query mysql_query lookup_spec
  simp only
  rcases h : S.exec db q with ⟨r, db1⟩
  cases r with
  | error msg => simp [fprintf_stderr]
  | ok id res =>
    cases res with
    | none => simp [mysql_store_result, fprintf_stderr]
    | some rows =>
      cases rows with
      | nil => simp [mysql_store_result, mysql_fetch_row]
      | cons row rest =>
        simp only [mysql_store_result, mysql_fetch_row, alloc_ok, malloc]
        rcases oracle with _ | ⟨b, o⟩
        · simp
          cases fill row junk <;> simp
        · cases b
          · simp
          · simp
            cases fill row junk <;> simp

theorem create_fst (w : World S) (q : CStr) :
    (match execute_query w q with
      | (false, w1) => ((-1 : Int), w1)
      | (true, w1) => (wrap32 (mysql_insert_id w1), w1)).1 = create_spec (S.exec w.db q).1 := by
  obtain ⟨db, iid, err, pend, oracle, junk, nb, log⟩ := w
  unfold execute_query mysql_query create_spec mysql_insert_id
  simp only
  rcases h : S.exec db q with ⟨r, db1⟩
  cases r <;> simp [fprintf_stderr]

theorem create_snd (w : World S) (q : CStr) :
    (match execute_query w q with
      | (false, w1) => ((-1 : Int), w1)
      | (true, w1) => (wrap32 (mysql_insert_id w1), w1)).2 = (execute_query w q).2 := by
  rcases execute_query w q with ⟨b, w1⟩
  cases b <;> rfl

theorem create_user_fst (w : World S) (u : User) :
    (create_user w u).1 = create_spec (S.exec w.db (create_user_query u)).1 :=
  create_fst w _

theorem create_product_fst {D : Type} (F : FloatOps D) (w : World S) (p : Product D) :
    (create_product F w p).1 = create_spec (S.exec w.db (create_product_query F p)).1 :=
  create_fst w _

theorem create_order_fst {D : Type} (F : FloatOps D) (w : World S) (o : Order D) :
    (create_order F w o).1 = create_spec (S.exec w.db (create_order_query F o)).1 :=
  create_fst w _

theorem create_order_item_fst {D : Type} (F : FloatOps D) (w : World S) (i : OrderItem D) :
    (create_order_item F w i).1 = create_spec (S.exec w.db (create_order_item_query F i)).1 :=
  create_fst w _

theorem add_to_cart_fst (w : World S) (i : CartItem) :
    (add_to_cart w i).1 = create_spec (S.exec w.db (add_to_cart_query i)).1 :=
  create_fst w _

theorem create_user_world (w : World S) (u : User) :
    (create_user w u).2 = (execute_query w (create_user_query u)).2 :=
  create_snd w _

theorem create_product_world {D : Type} (F : FloatOps D) (w : World S) (p : Product D) :
    (create_product F w p).2 = (execute_query w (create_product_query F p)).2 :=
  create_snd w _

theorem create_order_world {D : Type} (F : FloatOps D) (w : World S) (o : Order D) :
    (create_order F w o).2 = (execute_query w (create_order_query F o)).2 :=
  create_snd w _

theorem create_order_item_world {D : Type} (F : FloatOps D) (w : World S) (i : OrderItem D) :
    (create_order_item F w i).2 = (execute_query w (create_order_item_query F i)).2 :=
  create_snd w _

theorem add_to_cart_world (w : World S) (item : CartItem) :
    (add_to_cart w item).2 = (execute_query w (add_to_cart_query item)).2 :=
  create_snd w _

theorem fetch_all_empty {T : Type} (fill : MYSQL_ROW → (Nat → Nat) → Option T) (w : World S)
    (q : CStr) (h : zero_rows w q = true) : returns_empty w q (fetch_all fill w q) := by
  obtain ⟨db, iid, err, pend, oracle, junk, nb, log⟩ := w
  unfold zero_rows at h
  unfold returns_empty fetch_all execute_select_query mysql_query
  simp only at h ⊢
  rcases hx : S.exec db q with ⟨r, db1⟩
  rw [hx] at h
  cases r with
  | error msg => simp at h
  | ok id res =>
    cases res with
    | none => simp at h
    | some rows =>
      cases rows with
      | cons row rest => simp at h
      | nil => simp [mysql_store_result, mysql_num_rows, wrap32, mysql_free_result]

theorem get_set (db : DB) (t : TableName) (x : Table) : (db.set t x).get t = x := by
  cases t <;> rfl

theorem coll_set (db : DB) (t : TableName) (x : Table) : (db.set t x).coll = db.coll := by
  cases t <;> rfl

theorem get_set_ne (db : DB) (t t2 : TableName) (x : Table) (h : t ≠ t2) :
    (db.set t x).get t2 = db.get t2 := by
  cases t <;> cases t2 <;> first | rfl | exact absurd rfl h

theorem bool_int_is_int (b : Bool) : is_int (bool_int b) := by
  cases b <;> simp [bool_int, is_int]

/-! ### The statements of the program, as the reference store reads them -/

theorem exec_create_user (db : DB)
    (username : CStr) (email : CStr) (password_hash : CStr) (first_name : CStr)
    (last_name : CStr) (phone : CStr) (is_active : Int)
    (hc_username : clean username) (hl_username : username.length ≤ 50)
    (hc_email : clean email) (hl_email : email.length ≤ 100)
    (hc_password_hash : clean password_hash) (hl_password_hash : password_hash.length ≤ 255)
    (hc_first_name : clean first_name) (hl_first_name : first_name.length ≤ 50)
    (hc_last_name : clean last_name) (hl_last_name : last_name.length ≤ 50)
    (hc_phone : clean phone) (hl_phone : phone.length ≤ 20) (hi_is_active : is_int is_active) :
    ref_exec db
      (snprintf 1024
        "INSERT INTO users (username, email, password_hash, first_name, last_name, phone, is_active) VALUES ('%s', '%s', '%s', '%s', '%s', '%s', %d)"
        [Arg.s username, Arg.s email, Arg.s password_hash, Arg.s first_name, Arg.s last_name,
         Arg.s phone, Arg.d is_active]) =
      run_insert TableName.users 10 [1, 2, 3, 4, 5, 6, 9]
        [Val.text username, Val.text email, Val.text password_hash, Val.text first_name,
         Val.text last_name, Val.text phone, Val.int is_active] db := by
  have hl : lit_len stmt_create_user.pieces = 125 := by decide
  have hd_is_active := fmt_d_length is_active hi_is_active
  exact exec_stmt 0 stmt_create_user
    [Val.text username, Val.text email, Val.text password_hash, Val.text first_name,
     Val.text last_name, Val.text phone, Val.int is_active] db 1024 _ _ rfl
    (by decide) (by decide)
    (by simp [stmt_create_user, Entry.pieces, fits, lit, hc_username, hc_email, hc_password_hash, hc_first_name, hc_last_name, hc_phone]) rfl
    (by rw [hl]; simp only [List.map, val_len, List.sum_cons, List.sum_nil]; omega)

theorem exec_get_user_by_id (db : DB)
    (user_id : Int)
    (hi_user_id : is_int user_id) :
    ref_exec db
      (snprintf 256
        "SELECT * FROM users WHERE user_id = %d"
        [Arg.d user_id]) =
      run_select TableName.users [0] none
        [Val.int user_id] db := by
  have hl : lit_len stmt_get_user_by_id.pieces = 36 := by decide
  have hd_user_id := fmt_d_length user_id hi_user_id
  exact exec_stmt 1 stmt_get_user_by_id
    [Val.int user_id] db 256 _ _ rfl
    (by decide) (by decide)
    (by simp [stmt_get_user_by_id, Entry.pieces, fits, lit]) rfl
    (by rw [hl]; simp only [List.map, val_len, List.sum_cons, List.sum_nil]; omega)

theorem exec_update_user (db : DB)
    (username : CStr) (email : CStr) (password_hash : CStr) (first_name : CStr)
    (last_name : CStr) (phone : CStr) (is_active : Int) (user_id : Int)
    (hc_username : clean username) (hl_username : username.length ≤ 50)
    (hc_email : clean email) (hl_email : email.length ≤ 100)
    (hc_password_hash : clean password_hash) (hl_password_hash : password_hash.length ≤ 255)
    (hc_first_name : clean first_name) (hl_first_name : first_name.length ≤ 50)
    (hc_last_name : clean last_name) (hl_last_name : last_name.length ≤ 50)
    (hc_phone : clean phone) (hl_phone : phone.length ≤ 20) (hi_is_active : is_int is_active)
    (hi_user_id : is_int user_id) :
    ref_exec db
      (snprintf 1024
        "UPDATE users SET username='%s', email='%s', password_hash='%s', first_name='%s', last_name='%s', phone='%s', is_active=%d WHERE user_id=%d"
        [Arg.s username, Arg.s email, Arg.s password_hash, Arg.s first_name, Arg.s last_name,
         Arg.s phone, Arg.d is_active, Arg.d user_id]) =
      run_update TableName.users [1, 2, 3, 4, 5, 6, 9] 0
        [Val.text username, Val.text email, Val.text password_hash, Val.text first_name,
         Val.text last_name, Val.text phone, Val.int is_active, Val.int user_id] db := by
  have hl : lit_len stmt_update_user.pieces = 122 := by decide
  have hd_is_active := fmt_d_length is_active hi_is_active
  have hd_user_id := fmt_d_length user_id hi_user_id
  exact exec_stmt 4 stmt_update_user
    [Val.text username, Val.text email, Val.text password_hash, Val.text first_name,
     Val.text last_name, Val.text phone, Val.int is_active, Val.int user_id] db 1024 _ _ rfl
    (by decide) (by decide)
    (by simp [stmt_update_user, Entry.pieces, fits, lit, hc_username, hc_email, hc_password_hash, hc_first_name, hc_last_name, hc_phone]) rfl
    (by rw [hl]; simp only [List.map, val_len, List.sum_cons, List.sum_nil]; omega)

theorem exec_delete_user (db : DB)
    (user_id : Int)
    (hi_user_id : is_int user_id) :
    ref_exec db
      (snprintf 256
        "DELETE FROM users WHERE user_id = %d"
        [Arg.d user_id]) =
      run_delete TableName.users [0]
        [Val.int user_id] db := by
  have hl : lit_len stmt_delete_user.pieces = 34 := by decide
  have hd_user_id := fmt_d_length user_id hi_user_id
  exact exec_stmt 5 stmt_delete_user
    [Val.int user_id] db 256 _ _ rfl
    (by decide) (by decide)
    (by simp [stmt_delete_user, Entry.pieces, fits, lit]) rfl
    (by rw [hl]; simp only [List.map, val_len, List.sum_cons, List.sum_nil]; omega)

theorem exec_create_product (db : DB)
    (product_name : CStr) (description : CStr) (price : Int) (stock_quantity : Int)
    (category_id : Int) (sku : CStr) (weight : Int) (dimensions : CStr) (is_active : Int)
    (hc_product_name : clean product_name) (hl_product_name : product_name.length ≤ 200)
    (hc_description : clean description) (hl_description : description.length ≤ 1023)
    (hl_price : (fmt_dec price).length ≤ 20) (hi_stock_quantity : is_int stock_quantity)
    (hi_category_id : is_int category_id) (hc_sku : clean sku) (hl_sku : sku.length ≤ 50)
    (hl_weight : (fmt_dec weight).length ≤ 20)
    (hc_dimensions : clean dimensions) (hl_dimensions : dimensions.length ≤ 100)
    (hi_is_active : is_int is_active) :
    ref_exec db
      (snprintf 2048
        "INSERT INTO products (product_name, description, price, stock_quantity, category_id, sku, weight, dimensions, is_active) VALUES ('%s', '%s', %.2f, %d, %d, '%s', %.2f, '%s', %d)"
        [Arg.s product_name, Arg.s description, Arg.f (fmt_dec price), Arg.d stock_quantity,
         Arg.d category_id, Arg.s sku, Arg.f (fmt_dec weight), Arg.s dimensions, Arg.d is_active]) =
      run_insert TableName.products 12 [1, 2, 3, 4, 5, 6, 7, 8, 11]
        [Val.text product_name, Val.text description, Val.dec price, Val.int stock_quantity,
         Val.int category_id, Val.text sku, Val.dec weight, Val.text dimensions,
         Val.int is_active] db := by
  have hl : lit_len stmt_create_product.pieces = 154 := by decide
  have hd_stock_quantity := fmt_d_length stock_quantity hi_stock_quantity
  have hd_category_id := fmt_d_length category_id hi_category_id
  have hd_is_active := fmt_d_length is_active hi_is_active
  exact exec_stmt 8 stmt_create_product
    [Val.text product_name, Val.text description, Val.dec price, Val.int stock_quantity,
     Val.int category_id, Val.text sku, Val.dec weight, Val.text dimensions, Val.int is_active] db 2048 _ _ rfl
    (by decide) (by decide)
    (by simp [stmt_create_product, Entry.pieces, fits, lit, hc_product_name, hc_description, hc_sku, hc_dimensions]) rfl
    (by rw [hl]; simp only [List.map, val_len, List.sum_cons, List.sum_nil]; omega)

theorem exec_get_product_by_id (db : DB)
    (product_id : Int)
    (hi_product_id : is_int product_id) :
    ref_exec db
      (snprintf 256
        "SELECT * FROM products WHERE product_id = %d"
        [Arg.d product_id]) =
      run_select TableName.products [0] none
        [Val.int product_id] db := by
  have hl : lit_len stmt_get_product_by_id.pieces = 42 := by decide
  have hd_product_id := fmt_d_length product_id hi_product_id
  exact exec_stmt 9 stmt_get_product_by_id
    [Val.int product_id] db 256 _ _ rfl
    (by decide) (by decide)
    (by simp [stmt_get_product_by_id, Entry.pieces, fits, lit]) rfl
    (by rw [hl]; simp only [List.map, val_len, List.sum_cons, List.sum_nil]; omega)

theorem exec_update_product (db : DB)
    (product_name : CStr) (description : CStr) (price : Int) (stock_quantity : Int)
    (category_id : Int) (sku : CStr) (weight : Int) (dimensions : CStr) (is_active : Int)
    (product_id : Int)
    (hc_product_name : clean product_name) (hl_product_name : product_name.length ≤ 200)
    (hc_description : clean description) (hl_description : description.length ≤ 1023)
    (hl_price : (fmt_dec price).length ≤ 20) (hi_stock_quantity : is_int stock_quantity)
    (hi_category_id : is_int category_id) (hc_sku : clean sku) (hl_sku : sku.length ≤ 50)
    (hl_weight : (fmt_dec weight).length ≤ 20)
    (hc_dimensions : clean dimensions) (hl_dimensions : dimensions.length ≤ 100)
    (hi_is_active : is_int is_active) (hi_product_id : is_int product_id) :
    ref_exec db
      (snprintf 2048
        "UPDATE products SET product_name='%s', description='%s', price=%.2f, stock_quantity=%d, category_id=%d, sku='%s', weight=%.2f, dimensions='%s', is_active=%d WHERE product_id=%d"
        [Arg.s product_name, Arg.s description, Arg.f (fmt_dec price), Arg.d stock_quantity,
         Arg.d category_id, Arg.s sku, Arg.f (fmt_dec weight), Arg.s dimensions, Arg.d is_active,
         Arg.d product_id]) =
      run_update TableName.products [1, 2, 3, 4, 5, 6, 7, 8, 11] 0
        [Val.text product_name, Val.text description, Val.dec price, Val.int stock_quantity,
         Val.int category_id, Val.text sku, Val.dec weight, Val.text dimensions,
         Val.int is_active, Val.int product_id] db := by
  have hl : lit_len stmt_update_product.pieces = 152 := by decide
  have hd_stock_quantity := fmt_d_length stock_quantity hi_stock_quantity
  have hd_category_id := fmt_d_length category_id hi_category_id
  have hd_is_active := fmt_d_length is_active hi_is_active
  have hd_product_id := fmt_d_length product_id hi_product_id
  exact exec_stmt 11 stmt_update_product
    [Val.text product_name, Val.text description, Val.dec price, Val.int stock_quantity,
     Val.int category_id, Val.text sku, Val.dec weight, Val.text dimensions, Val.int is_active,
     Val.int product_id] db 2048 _ _ rfl
    (by decide) (by decide)
    (by simp [stmt_update_product, Entry.pieces, fits, lit, hc_product_name, hc_description, hc_sku, hc_dimensions]) rfl
    (by rw [hl]; simp only [List.map, val_len, List.sum_cons, List.sum_nil]; omega)

theorem exec_delete_product (db : DB)
    (product_id : Int)
    (hi_product_id : is_int product_id) :
    ref_exec db
      (snprintf 256
        "DELETE FROM products WHERE product_id = %d"
        [Arg.d product_id]) =
      run_delete TableName.products [0]
        [Val.int product_id] db := by
  have hl : lit_len stmt_delete_product.pieces = 40 := by decide
  have hd_product_id := fmt_d_length product_id hi_product_id
  exact exec_stmt 12 stmt_delete_product
    [Val.int product_id] db 256 _ _ rfl
    (by decide) (by decide)
    (by simp [stmt_delete_product, Entry.pieces, fits, lit]) rfl
    (by rw [hl]; simp only [List.map, val_len, List.sum_cons, List.sum_nil]; omega)

theorem exec_update_product_stock (db : DB)
    (new_stock : Int) (product_id : Int)
    (hi_new_stock : is_int new_stock) (hi_product_id : is_int product_id) :
    ref_exec db
      (snprintf 256
        "UPDATE products SET stock_quantity = %d WHERE product_id = %d"
        [Arg.d new_stock, Arg.d product_id]) =
      run_update TableName.products [4] 0
        [Val.int new_stock, Val.int product_id] db := by
  have hl : lit_len stmt_update_product_stock.pieces = 57 := by decide
  have hd_new_stock := fmt_d_length new_stock hi_new_stock
  have hd_product_id := fmt_d_length product_id hi_product_id
  exact exec_stmt 16 stmt_update_product_stock
    [Val.int new_stock, Val.int product_id] db 256 _ _ rfl
    (by decide) (by decide)
    (by simp [stmt_update_product_stock, Entry.pieces, fits, lit]) rfl
    (by rw [hl]; simp only [List.map, val_len, List.sum_cons, List.sum_nil]; omega)

theorem exec_create_order (db : DB)
    (user_id : Int) (status : CStr) (total_amount : Int) (shipping_address_id : Int)
    (billing_address_id : Int) (payment_method : CStr) (shipping_cost : Int) (tax_amount : Int)
    (notes : CStr)
    (hi_user_id : is_int user_id) (hc_status : clean status) (hl_status : status.length ≤ 19)
    (hl_total_amount : (fmt_dec total_amount).length ≤ 20)
    (hi_shipping_address_id : is_int shipping_address_id)
    (hi_billing_address_id : is_int billing_address_id)
    (hc_payment_method : clean payment_method) (hl_payment_method : payment_method.length ≤ 50)
    (hl_shipping_cost : (fmt_dec shipping_cost).length ≤ 20)
    (hl_tax_amount : (fmt_dec tax_amount).length ≤ 20)
    (hc_notes : clean notes) (hl_notes : notes.length ≤ 1023) :
    ref_exec db
      (snprintf 2048
        "INSERT INTO orders (user_id, status, total_amount, shipping_address_id, billing_address_id, payment_method, shipping_cost, tax_amount, notes) VALUES (%d, '%s', %.2f, %d, %d, '%s', %.2f, %.2f, '%s')"
        [Arg.d user_id, Arg.s status, Arg.f (fmt_dec total_amount), Arg.d shipping_address_id,
         Arg.d billing_address_id, Arg.s payment_method, Arg.f (fmt_dec shipping_cost),
         Arg.f (fmt_dec tax_amount), Arg.s notes]) =
      run_insert TableName.orders 11 [1, 3, 4, 5, 6, 7, 8, 9, 10]
        [Val.int user_id, Val.text status, Val.dec total_amount, Val.int shipping_address_id,
         Val.int billing_address_id, Val.text payment_method, Val.dec shipping_cost,
         Val.dec tax_amount, Val.text notes] db := by
  have hl : lit_len stmt_create_order.pieces = 173 := by decide
  have hd_user_id := fmt_d_length user_id hi_user_id
  have hd_shipping_address_id := fmt_d_length shipping_address_id hi_shipping_address_id
  have hd_billing_address_id := fmt_d_length billing_address_id hi_billing_address_id
  exact exec_stmt 18 stmt_create_order
    [Val.int user_id, Val.text status, Val.dec total_amount, Val.int shipping_address_id,
     Val.int billing_address_id, Val.text payment_method, Val.dec shipping_cost,
     Val.dec tax_amount, Val.text notes] db 2048 _ _ rfl
    (by decide) (by decide)
    (by simp [stmt_create_order, Entry.pieces, fits, lit, hc_status, hc_payment_method, hc_notes]) rfl
    (by rw [hl]; simp only [List.map, val_len, List.sum_cons, List.sum_nil]; omega)

theorem exec_get_order_by_id (db : DB)
    (order_id : Int)
    (hi_order_id : is_int order_id) :
    ref_exec db
      (snprintf 256
        "SELECT * FROM orders WHERE order_id = %d"
        [Arg.d order_id]) =
      run_select TableName.orders [0] none
        [Val.int order_id] db := by
  have hl : lit_len stmt_get_order_by_id.pieces = 38 := by decide
  have hd_order_id := fmt_d_length order_id hi_order_id
  exact exec_stmt 19 stmt_get_order_by_id
    [Val.int order_id] db 256 _ _ rfl
    (by decide) (by decide)
    (by simp [stmt_get_order_by_id, Entry.pieces, fits, lit]) rfl
    (by rw [hl]; simp only [List.map, val_len, List.sum_cons, List.sum_nil]; omega)

theorem exec_update_order (db : DB)
    (user_id : Int) (status : CStr) (total_amount : Int) (shipping_address_id : Int)
    (billing_address_id : Int) (payment_method : CStr) (shipping_cost : Int) (tax_amount : Int)
    (notes : CStr) (order_id : Int)
    (hi_user_id : is_int user_id) (hc_status : clean status) (hl_status : status.length ≤ 19)
    (hl_total_amount : (fmt_dec total_amount).length ≤ 20)
    (hi_shipping_address_id : is_int shipping_address_id)
    (hi_billing_address_id : is_int billing_address_id)
    (hc_payment_method : clean payment_method) (hl_payment_method : payment_method.length ≤ 50)
    (hl_shipping_cost : (fmt_dec shipping_cost).length ≤ 20)
    (hl_tax_amount : (fmt_dec tax_amount).length ≤ 20)
    (hc_notes : clean notes) (hl_notes : notes.length ≤ 1023) (hi_order_id : is_int order_id) :
    ref_exec db
      (snprintf 2048
        "UPDATE orders SET user_id=%d, status='%s', total_amount=%.2f, shipping_address_id=%d, billing_address_id=%d, payment_method='%s', shipping_cost=%.2f, tax_amount=%.2f, notes='%s' WHERE order_id=%d"
        [Arg.d user_id, Arg.s status, Arg.f (fmt_dec total_amount), Arg.d shipping_address_id,
         Arg.d billing_address_id, Arg.s payment_method, Arg.f (fmt_dec shipping_cost),
         Arg.f (fmt_dec tax_amount), Arg.s notes, Arg.d order_id]) =
      run_update TableName.orders [1, 3, 4, 5, 6, 7, 8, 9, 10] 0
        [Val.int user_id, Val.text status, Val.dec total_amount, Val.int shipping_address_id,
         Val.int billing_address_id, Val.text payment_method, Val.dec shipping_cost,
         Val.dec tax_amount, Val.text notes, Val.int order_id] db := by
  have hl : lit_len stmt_update_order.pieces = 169 := by decide
  have hd_user_id := fmt_d_length user_id hi_user_id
  have hd_shipping_address_id := fmt_d_length shipping_address_id hi_shipping_address_id
  have hd_billing_address_id := fmt_d_length billing_address_id hi_billing_address_id
  have hd_order_id := fmt_d_length order_id hi_order_id
  exact exec_stmt 20 stmt_update_order
    [Val.int user_id, Val.text status, Val.dec total_amount, Val.int shipping_address_id,
     Val.int billing_address_id, Val.text payment_method, Val.dec shipping_cost,
     Val.dec tax_amount, Val.text notes, Val.int order_id] db 2048 _ _ rfl
    (by decide) (by decide)
    (by simp [stmt_update_order, Entry.pieces, fits, lit, hc_status, hc_payment_method, hc_notes]) rfl
    (by rw [hl]; simp only [List.map, val_len, List.sum_cons, List.sum_nil]; omega)

theorem exec_delete_order (db : DB)
    (order_id : Int)
    (hi_order_id : is_int order_id) :
    ref_exec db
      (snprintf 256
        "DELETE FROM orders WHERE order_id = %d"
        [Arg.d order_id]) =
      run_delete TableName.orders [0]
        [Val.int order_id] db := by
  have hl : lit_len stmt_delete_order.pieces = 36 := by decide
  have hd_order_id := fmt_d_length order_id hi_order_id
  exact exec_stmt 21 stmt_delete_order
    [Val.int order_id] db 256 _ _ rfl
    (by decide) (by decide)
    (by simp [stmt_delete_order, Entry.pieces, fits, lit]) rfl
    (by rw [hl]; simp only [List.map, val_len, List.sum_cons, List.sum_nil]; omega)

theorem exec_create_order_item (db : DB)
    (order_id : Int) (product_id : Int) (quantity : Int) (unit_price : Int) (total_price : Int)
    (hi_order_id : is_int order_id) (hi_product_id : is_int product_id)
    (hi_quantity : is_int quantity) (hl_unit_price : (fmt_dec unit_price).length ≤ 20)
    (hl_total_price : (fmt_dec total_price).length ≤ 20) :
    ref_exec db
      (snprintf 512
        "INSERT INTO order_items (order_id, product_id, quantity, unit_price, total_price) VALUES (%d, %d, %d, %.2f, %.2f)"
        [Arg.d order_id, Arg.d product_id, Arg.d quantity, Arg.f (fmt_dec unit_price),
         Arg.f (fmt_dec total_price)]) =
      run_insert TableName.order_items 6 [1, 2, 3, 4, 5]
        [Val.int order_id, Val.int product_id, Val.int quantity, Val.dec unit_price,
         Val.dec total_price] db := by
  have hl : lit_len stmt_create_order_item.pieces = 99 := by decide
  have hd_order_id := fmt_d_length order_id hi_order_id
  have hd_product_id := fmt_d_length product_id hi_product_id
  have hd_quantity := fmt_d_length quantity hi_quantity
  exact exec_stmt 26 stmt_create_order_item
    [Val.int order_id, Val.int product_id, Val.int quantity, Val.dec unit_price,
     Val.dec total_price] db 512 _ _ rfl
    (by decide) (by decide)
    (by simp [stmt_create_order_item, Entry.pieces, fits, lit]) rfl
    (by rw [hl]; simp only [List.map, val_len, List.sum_cons, List.sum_nil]; omega)

theorem exec_get_order_item_by_id (db : DB)
    (order_item_id : Int)
    (hi_order_item_id : is_int order_item_id) :
    ref_exec db
      (snprintf 256
        "SELECT * FROM order_items WHERE order_item_id = %d"
        [Arg.d order_item_id]) =
      run_select TableName.order_items [0] none
        [Val.int order_item_id] db := by
  have hl : lit_len stmt_get_order_item_by_id.pieces = 48 := by decide
  have hd_order_item_id := fmt_d_length order_item_id hi_order_item_id
  exact exec_stmt 27 stmt_get_order_item_by_id
    [Val.int order_item_id] db 256 _ _ rfl
    (by decide) (by decide)
    (by simp [stmt_get_order_item_by_id, Entry.pieces, fits, lit]) rfl
    (by rw [hl]; simp only [List.map, val_len, List.sum_cons, List.sum_nil]; omega)

theorem exec_update_order_item (db : DB)
    (order_id : Int) (product_id : Int) (quantity : Int) (unit_price : Int) (total_price : Int)
    (order_item_id : Int)
    (hi_order_id : is_int order_id) (hi_product_id : is_int product_id)
    (hi_quantity : is_int quantity) (hl_unit_price : (fmt_dec unit_price).length ≤ 20)
    (hl_total_price : (fmt_dec total_price).length ≤ 20)
    (hi_order_item_id : is_int order_item_id) :
    ref_exec db
      (snprintf 512
        "UPDATE order_items SET order_id=%d, product_id=%d, quantity=%d, unit_price=%.2f, total_price=%.2f WHERE order_item_id=%d"
        [Arg.d order_id, Arg.d product_id, Arg.d quantity, Arg.f (fmt_dec unit_price),
         Arg.f (fmt_dec total_price), Arg.d order_item_id]) =
      run_update TableName.order_items [1, 2, 3, 4, 5] 0
        [Val.int order_id, Val.int product_id, Val.int quantity, Val.dec unit_price,
         Val.dec total_price, Val.int order_item_id] db := by
  have hl : lit_len stmt_update_order_item.pieces = 104 := by decide
  have hd_order_id := fmt_d_length order_id hi_order_id
  have hd_product_id := fmt_d_length product_id hi_product_id
  have hd_quantity := fmt_d_length quantity hi_quantity
  have hd_order_item_id := fmt_d_length order_item_id hi_order_item_id
  exact exec_stmt 28 stmt_update_order_item
    [Val.int order_id, Val.int product_id, Val.int quantity, Val.dec unit_price,
     Val.dec total_price, Val.int order_item_id] db 512 _ _ rfl
    (by decide) (by decide)
    (by simp [stmt_update_order_item, Entry.pieces, fits, lit]) rfl
    (by rw [hl]; simp only [List.map, val_len, List.sum_cons, List.sum_nil]; omega)

theorem exec_delete_order_item (db : DB)
    (order_item_id : Int)
    (hi_order_item_id : is_int order_item_id) :
    ref_exec db
      (snprintf 256
        "DELETE FROM order_items WHERE order_item_id = %d"
        [Arg.d order_item_id]) =
      run_delete TableName.order_items [0]
        [Val.int order_item_id] db := by
  have hl : lit_len stmt_delete_order_item.pieces = 46 := by decide
  have hd_order_item_id := fmt_d_length order_item_id hi_order_item_id
  exact exec_stmt 29 stmt_delete_order_item
    [Val.int order_item_id] db 256 _ _ rfl
    (by decide) (by decide)
    (by simp [stmt_delete_order_item, Entry.pieces, fits, lit]) rfl
    (by rw [hl]; simp only [List.map, val_len, List.sum_cons, List.sum_nil]; omega)

theorem exec_add_to_cart (db : DB)
    (user_id : Int) (product_id : Int) (quantity : Int) (added : Int)
    (hi_user_id : is_int user_id) (hi_product_id : is_int product_id)
    (hi_quantity : is_int quantity) (hi_added : is_int added) :
    ref_exec db
      (snprintf 512
        "INSERT INTO cart_items (user_id, product_id, quantity) VALUES (%d, %d, %d) ON DUPLICATE KEY UPDATE quantity = quantity + %d"
        [Arg.d user_id, Arg.d product_id, Arg.d quantity, Arg.d added]) =
      run_upsert
        [Val.int user_id, Val.int product_id, Val.int quantity, Val.int added] db := by
  have hl : lit_len stmt_add_to_cart.pieces = 115 := by decide
  have hd_user_id := fmt_d_length user_id hi_user_id
  have hd_product_id := fmt_d_length product_id hi_product_id
  have hd_quantity := fmt_d_length quantity hi_quantity
  have hd_added := fmt_d_length added hi_added
  exact exec_stmt 31 stmt_add_to_cart
    [Val.int user_id, Val.int product_id, Val.int quantity, Val.int added] db 512 _ _ rfl
    (by decide) (by decide)
    (by simp [stmt_add_to_cart, Entry.pieces, fits, lit]) rfl
    (by rw [hl]; simp only [List.map, val_len, List.sum_cons, List.sum_nil]; omega)

theorem exec_get_cart_item_by_id (db : DB)
    (cart_item_id : Int)
    (hi_cart_item_id : is_int cart_item_id) :
    ref_exec db
      (snprintf 256
        "SELECT * FROM cart_items WHERE cart_item_id = %d"
        [Arg.d cart_item_id]) =
      run_select TableName.cart_items [0] none
        [Val.int cart_item_id] db := by
  have hl : lit_len stmt_get_cart_item_by_id.pieces = 46 := by decide
  have hd_cart_item_id := fmt_d_length cart_item_id hi_cart_item_id
  exact exec_stmt 32 stmt_get_cart_item_by_id
    [Val.int cart_item_id] db 256 _ _ rfl
    (by decide) (by decide)
    (by simp [stmt_get_cart_item_by_id, Entry.pieces, fits, lit]) rfl
    (by rw [hl]; simp only [List.map, val_len, List.sum_cons, List.sum_nil]; omega)

theorem exec_update_cart_item (db : DB)
    (user_id : Int) (product_id : Int) (quantity : Int) (cart_item_id : Int)
    (hi_user_id : is_int user_id) (hi_product_id : is_int product_id)
    (hi_quantity : is_int quantity) (hi_cart_item_id : is_int cart_item_id) :
    ref_exec db
      (snprintf 512
        "UPDATE cart_items SET user_id=%d, product_id=%d, quantity=%d WHERE cart_item_id=%d"
        [Arg.d user_id, Arg.d product_id, Arg.d quantity, Arg.d cart_item_id]) =
      run_update TableName.cart_items [1, 2, 3] 0
        [Val.int user_id, Val.int product_id, Val.int quantity, Val.int cart_item_id] db := by
  have hl : lit_len stmt_update_cart_item.pieces = 74 := by decide
  have hd_user_id := fmt_d_length user_id hi_user_id
  have hd_product_id := fmt_d_length product_id hi_product_id
  have hd_quantity := fmt_d_length quantity hi_quantity
  have hd_cart_item_id := fmt_d_length cart_item_id hi_cart_item_id
  exact exec_stmt 33 stmt_update_cart_item
    [Val.int user_id, Val.int product_id, Val.int quantity, Val.int cart_item_id] db 512 _ _ rfl
    (by decide) (by decide)
    (by simp [stmt_update_cart_item, Entry.pieces, fits, lit]) rfl
    (by rw [hl]; simp only [List.map, val_len, List.sum_cons, List.sum_nil]; omega)

theorem exec_remove_from_cart (db : DB)
    (cart_item_id : Int)
    (hi_cart_item_id : is_int cart_item_id) :
    ref_exec db
      (snprintf 256
        "DELETE FROM cart_items WHERE cart_item_id = %d"
        [Arg.d cart_item_id]) =
      run_delete TableName.cart_items [0]
        [Val.int cart_item_id] db := by
  have hl : lit_len stmt_remove_from_cart.pieces = 44 := by decide
  have hd_cart_item_id := fmt_d_length cart_item_id hi_cart_item_id
  exact exec_stmt 34 stmt_remove_from_cart
    [Val.int cart_item_id] db 256 _ _ rfl
    (by decide) (by decide)
    (by simp [stmt_remove_from_cart, Entry.pieces, fits, lit]) rfl
    (by rw [hl]; simp only [List.map, val_len, List.sum_cons, List.sum_nil]; omega)

theorem exec_calculate_cart_total (db : DB)
    (user_id : Int)
    (hi_user_id : is_int user_id) :
    ref_exec db
      (snprintf 512
        "SELECT SUM(c.quantity * p.price) FROM cart_items c JOIN products p ON c.product_id = p.product_id WHERE c.user_id = %d"
        [Arg.d user_id]) =
      run_cart_total
        [Val.int user_id] db := by
  have hl : lit_len stmt_calculate_cart_total.pieces = 116 := by decide
  have hd_user_id := fmt_d_length user_id hi_user_id
  exact exec_stmt 37 stmt_calculate_cart_total
    [Val.int user_id] db 512 _ _ rfl
    (by decide) (by decide)
    (by simp [stmt_calculate_cart_total, Entry.pieces, fits, lit]) rfl
    (by rw [hl]; simp only [List.map, val_len, List.sum_cons, List.sum_nil]; omega)

theorem takeWhile_all (p : Nat → Bool) (l : List Nat) (h : ∀ b ∈ l, p b = true) :
    l.takeWhile p = l := by
  induction l with
  | nil => rfl
  | cons a l ih =>
    have ha := h a (by simp)
    simp only [List.takeWhile_cons, ha, if_true]
    rw [ih (fun b hb => h b (by simp [hb]))]

theorem strtol_nat_digits (n : Nat) :
    strtol (nat_digits n) = clamp_long n := by
  obtain ⟨d, ds, hds, h1, h2⟩ := nat_digits_head n
  have hall := nat_digits_all_digit n
  have hv := digits_val_nat_digits n
  rw [hds] at hall hv ⊢
  have hsp : is_space d = false := by
    simp only [is_space, Bool.or_eq_false_iff, Bool.and_eq_false_iff, decide_eq_false_iff_not]
    omega
  unfold strtol
  simp only [List.dropWhile_cons, hsp]
  split
  · rename_i heq
    simp only [Bool.false_eq_true, if_false, List.cons.injEq] at heq
    omega
  · rename_i heq
    simp only [Bool.false_eq_true, if_false, List.cons.injEq] at heq
    omega
  · rename_i t h45 h43
    simp only [Bool.false_eq_true, if_false]
    rw [takeWhile_all is_digit _ hall, hv]

theorem strtol_fmt_d (v : Int) : strtol (fmt_d v) = clamp_long v := by
  unfold fmt_d
  by_cases hv : v < 0
  · simp only [hv, if_true]
    unfold strtol
    have hsp : is_space 45 = false := by decide
    simp only [List.dropWhile_cons, hsp]
    simp only [Bool.false_eq_true, if_false]
    rw [takeWhile_all is_digit _ (nat_digits_all_digit _), digits_val_nat_digits]
    congr 1
    omega
  · simp only [hv, if_false]
    rw [strtol_nat_digits]
    congr 1
    omega

theorem atoi_fmt_d (v : Int) (h : is_int v) : atoi (fmt_d v) = v := by
  unfold is_int at h
  unfold atoi
  rw [strtol_fmt_d]
  unfold clamp_long wrap32
  split_ifs <;> omega

theorem cstr_no_nul (field : List Nat) : ∀ b ∈ cstr field, b ≠ 0 := by
  intro b hb
  unfold cstr at hb
  have := List.mem_takeWhile_imp hb
  simpa using this

theorem cstr_eq_self (src : List Nat) (h0 : ∀ b ∈ src, b ≠ 0) : cstr src = src := by
  unfold cstr
  rw [List.takeWhile_eq_self_iff]
  intro b hb
  simpa using h0 b hb

theorem cstr_strncpy (dest src : List Nat) (n : Nat) (h0 : ∀ b ∈ src, b ≠ 0)
    (hl : src.length < n) : cstr (strncpy dest src n) = src := by
  unfold strncpy
  rw [cstr_eq_self src h0]
  unfold cstr
  have htake : src.take n = src := List.take_of_length_le (by omega)
  rw [htake]
  obtain ⟨m, hm⟩ : ∃ m, n - src.length = m + 1 := ⟨n - src.length - 1, by omega⟩
  rw [hm, List.replicate_succ, List.append_assoc, List.cons_append]
  rw [List.takeWhile_append_of_pos (by intro b hb; simpa using h0 b hb)]
  simp

theorem col_bool_int (b : Bool) : decide (atoi (fmt_d (bool_int b)) = 1) = b := by
  rw [atoi_fmt_d _ (bool_int_is_int b)]
  cases b <;> simp [bool_int]

theorem ref_server_exec (db : DB) (q : CStr) : ref_server.exec db q = ref_exec db q := rfl

theorem delete_then_select (db : DB) (t : TableName) (k : Val) :
    (run_select t [0] none [k] (run_delete t [0] [k] db).2).1 = Reply.ok 0 (some []) := by
  simp [run_select, run_delete, get_set, coll_set, reply_rows, order_rows, Table.delete,
    List.filter_filter]

theorem lookup_after_delete {T : Type} (fill : MYSQL_ROW → (Nat → Nat) → Option T)
    (w : World ref_server) (qd qg : CStr) (t : TableName) (k : Val)
    (hd : ref_exec w.db qd = run_delete t [0] [k] w.db)
    (hg : ∀ db, ref_exec db qg = run_select t [0] none [k] db) :
    (fetch_one fill (execute_query w qd).2 qg).map Prod.fst = some none := by
  rw [fetch_one_fst, execute_query_db, ref_server_exec, ref_server_exec, hd, hg,
    delete_then_select]
  rfl

/-- C3: in every module, after delete(k) has returned true, get_by_id(k) returns absent. -/
theorem delete_then_get_absent {D : Type} (F : FloatOps D) (w : World ref_server) (k : Int)
    (hk : is_int k) :
    ((delete_user w k).1 = true →
      (get_user_by_id (delete_user w k).2 k).map Prod.fst = some none) ∧
    ((delete_product w k).1 = true →
      (get_product_by_id F (delete_product w k).2 k).map Prod.fst = some none) ∧
    ((delete_order w k).1 = true →
      (get_order_by_id F (delete_order w k).2 k).map Prod.fst = some none) ∧
    ((delete_order_item w k).1 = true →
      (get_order_item_by_id F (delete_order_item w k).2 k).map Prod.fst = some none) ∧
    ((remove_from_cart w k).1 = true →
      (get_cart_item_by_id (remove_from_cart w k).2 k).map Prod.fst = some none) := by
  refine ⟨fun _ => ?_, fun _ => ?_, fun _ => ?_, fun _ => ?_, fun _ => ?_⟩
  · exact lookup_after_delete _ w _ _ TableName.users (Val.int k)
      (exec_delete_user w.db k hk) (fun db => exec_get_user_by_id db k hk)
  · exact lookup_after_delete _ w _ _ TableName.products (Val.int k)
      (exec_delete_product w.db k hk) (fun db => exec_get_product_by_id db k hk)
  · exact lookup_after_delete _ w _ _ TableName.orders (Val.int k)
      (exec_delete_order w.db k hk) (fun db => exec_get_order_by_id db k hk)
  · exact lookup_after_delete _ w _ _ TableName.order_items (Val.int k)
      (exec_delete_order_item w.db k hk) (fun db => exec_get_order_item_by_id db k hk)
  · exact lookup_after_delete _ w _ _ TableName.cart_items (Val.int k)
      (exec_remove_from_cart w.db k hk) (fun db => exec_get_cart_item_by_id db k hk)

theorem row_ok_set (n i : Nat) (row : MYSQL_ROW) (x : Option CStr) :
    row_ok n (row.set (i + 1) x) = row_ok n row := by
  cases row with
  | nil => simp [row_ok]
  | cons a l => cases a <;> simp [row_ok]

theorem row_ok_length (n : Nat) (row : MYSQL_ROW) (h : row_ok n row = true) : n ≤ row.length := by
  unfold row_ok at h
  simp only [Bool.and_eq_true, decide_eq_true_eq] at h
  exact h.1

theorem get_product_by_id_fill_set_stock {D : Type} (F : FloatOps D) (row : MYSQL_ROW)
    (junk : Nat → Nat) (p : Product D) (n : Int) (hn : is_int n)
    (h : get_product_by_id_fill F row junk = some p) :
    get_product_by_id_fill F (row.set 4 (some (fmt_d n))) junk
      = some { p with stock_quantity := n } := by
  unfold get_product_by_id_fill at h ⊢
  by_cases hok : row_ok 12 row = true
  · have hlen := row_ok_length _ _ hok
    simp only [hok, if_true, Option.some.injEq] at h
    simp only [row_ok_set, hok, if_true, Option.some.injEq]
    subst h
    have h4 : 4 < row.length := by omega
    simp [col_atoi, col_str, col_dbl, col_int, col_bool, List.getElem?_set, h4,
      atoi_fmt_d n hn]
  · simp [hok] at h

theorem cell_set_ne (r : List Val) (i j : Nat) (v : Val) (h : i ≠ j) :
    cell (r.set i v) j = cell r j := by
  unfold cell
  simp [List.getD_eq_getElem?_getD, List.getElem?_set_ne h]

theorem cell_set_cols_zero (assign : List (Nat × Val)) (r : List Val)
    (h : ∀ a ∈ assign, a.1 ≠ 0) : cell (set_cols assign r) 0 = cell r 0 := by
  unfold set_cols
  induction assign generalizing r with
  | nil => rfl
  | cons a assign ih =>
    simp only [List.foldl_cons]
    rw [ih _ (fun b hb => h b (by simp [hb]))]
    exact cell_set_ne r a.1 0 a.2 (h a (by simp))

theorem conds_hold_key (coll : Nat → Nat) (k : Val) :
    conds_hold coll [(0, k)] = fun r => val_eq coll (cell r 0) k := by
  funext r
  simp [conds_hold]

theorem filter_update_same (t : Table) (coll : Nat → Nat) (k : Val)
    (f : List Val → List Val) (hf : ∀ r, cell (f r) 0 = cell r 0) :
    (t.update (fun r => val_eq coll (cell r 0) k) f).rows.filter (conds_hold coll [(0, k)])
      = (t.rows.filter (conds_hold coll [(0, k)])).map f := by
  unfold Table.update
  rw [conds_hold_key]
  simp only
  induction t.rows with
  | nil => rfl
  | cons r rows ih =>
    by_cases hr : val_eq coll (cell r 0) k = true
    · simp [List.filter_cons, hr, hf, ih]
    · simp [List.filter_cons, hr, ih]

theorem val_eq_int (coll : Nat → Nat) (v : Val) (k : Int) :
    val_eq coll v (Val.int k) = true ↔ v = Val.int k := by
  cases v <;> simp [val_eq]

theorem filter_update_other (t : Table) (coll : Nat → Nat) (k j : Int) (hjk : j ≠ k)
    (f : List Val → List Val) (hf : ∀ r, cell (f r) 0 = cell r 0) :
    (t.update (fun r => val_eq coll (cell r 0) (Val.int k)) f).rows.filter
        (conds_hold coll [(0, Val.int j)])
      = t.rows.filter (conds_hold coll [(0, Val.int j)]) := by
  unfold Table.update
  rw [conds_hold_key]
  simp only
  induction t.rows with
  | nil => rfl
  | cons r rows ih =>
    by_cases hr : val_eq coll (cell r 0) (Val.int k) = true
    · have h1 := (val_eq_int coll _ k).mp hr
      have h2 : val_eq coll (cell r 0) (Val.int j) = false := by
        rw [h1]; simp [val_eq]; exact fun h => hjk h.symm
      simp [List.filter_cons, hr, hf, h2, ih]
    · simp [List.filter_cons, hr, ih]

theorem alloc_ok_congr {S : Server} (w1 w2 : World S) (h : w1.oracle = w2.oracle) :
    alloc_ok w1 = alloc_ok w2 := by
  unfold alloc_ok
  rw [h]

theorem show_row_set (r : List Val) (i : Nat) (v : Val) :
    show_row (r.set i v) = (show_row r).set i v.show := by
  unfold show_row
  exact List.map_set

theorem lookup_spec_rows {T : Type} (fill : MYSQL_ROW → (Nat → Nat) → Option T)
    (junk : Nat → Nat) (r : List Val) (rest : List (List Val)) (a : Bool) :
    lookup_spec fill junk (reply_rows (r :: rest)) a =
      if a then
        match fill (show_row r) junk with
        | none => none
        | some t => some (some t)
      else some none := by
  rfl

theorem lookup_spec_nil {T : Type} (fill : MYSQL_ROW → (Nat → Nat) → Option T)
    (junk : Nat → Nat) (a : Bool) :
    lookup_spec fill junk (reply_rows []) a = some none := by
  simp [lookup_spec, reply_rows]

theorem filter_update_rest (t : Table) (p : List Val → Bool) (f : List Val → List Val)
    (hf : ∀ r, p (f r) = p r) :
    (t.update p f).rows.filter (fun r => !p r) = t.rows.filter (fun r => !p r) := by
  unfold Table.update
  simp only
  induction t.rows with
  | nil => rfl
  | cons r rows ih =>
    by_cases hr : p r = true
    · simp [List.filter_cons, hr, hf, ih]
    · simp [List.filter_cons, hr, ih]

/-- C7: after update_product_stock(k, n) has returned true on a store that holds product k,
get_product_by_id(k) returns the record it returned before with stock_quantity n and every
other field as before; the lookup of every other product, the other product rows and the
other tables are unchanged. -/
theorem update_product_stock_frame {D : Type} (F : FloatOps D) (w : World ref_server)
    (k n : Int) (p : Product D) (hk : is_int k) (hn : is_int n)
    (hget : (get_product_by_id F w k).map Prod.fst = some (some p))
    (_hupd : (update_product_stock w k n).1 = true) :
    (get_product_by_id F (update_product_stock w k n).2 k).map Prod.fst
      = some (some { p with stock_quantity := n }) ∧
    (∀ j, is_int j → j ≠ k →
      (get_product_by_id F (update_product_stock w k n).2 j).map Prod.fst
        = (get_product_by_id F w j).map Prod.fst) ∧
    ((update_product_stock w k n).2.db.products.rows.filter
        (fun r => !val_eq w.db.coll (cell r 0) (Val.int k))
      = w.db.products.rows.filter (fun r => !val_eq w.db.coll (cell r 0) (Val.int k))) ∧
    (update_product_stock w k n).2.db.users = w.db.users ∧
    (update_product_stock w k n).2.db.orders = w.db.orders ∧
    (update_product_stock w k n).2.db.order_items = w.db.order_items ∧
    (update_product_stock w k n).2.db.cart_items = w.db.cart_items := by
  have hq : ∀ (db : DB) (j : Int), is_int j → ref_exec db (get_product_by_id_query j)
      = run_select TableName.products [0] none [Val.int j] db :=
    fun db j hj => exec_get_product_by_id db j hj
  have hu : ref_exec w.db (update_product_stock_query k n)
      = run_update TableName.products [4] 0 [Val.int n, Val.int k] w.db :=
    exec_update_product_stock w.db n k hn hk
  have hdb : (update_product_stock w k n).2.db
      = (run_update TableName.products [4] 0 [Val.int n, Val.int k] w.db).2 := by
    unfold update_product_stock
    rw [execute_query_db, ref_server_exec, hu]
  have hjunk : (update_product_stock w k n).2.junk = w.junk := execute_query_junk w _
  have hall : alloc_ok (update_product_stock w k n).2 = alloc_ok w :=
    alloc_ok_congr _ _ (execute_query_oracle w _)
  have hf0 : ∀ r, cell (set_cols [(4, Val.int n)] r) 0 = cell r 0 :=
    fun r => cell_set_cols_zero _ r (by simp)
  have hrun : (run_update TableName.products [4] 0 [Val.int n, Val.int k] w.db).2
      = w.db.set TableName.products (w.db.products.update
          (fun r => val_eq w.db.coll (cell r 0) (Val.int k)) (set_cols [(4, Val.int n)])) := by
    simp [run_update, DB.get]
  refine ⟨?_, ?_, ?_, ?_, ?_, ?_, ?_⟩
  · unfold get_product_by_id at hget ⊢
    rw [fetch_one_fst, ref_server_exec, hq _ _ hk] at hget ⊢
    rw [hjunk, hall, hdb, hrun]
    simp only [run_select, List.length_cons, List.length_nil, if_true, get_set, coll_set,
      order_rows, List.zip_cons_cons, List.zip_nil_right] at hget ⊢
    rw [show w.db.get TableName.products = w.db.products from rfl] at hget
    rw [filter_update_same _ _ _ _ hf0]
    cases hrows : w.db.products.rows.filter (conds_hold w.db.coll [(0, Val.int k)]) with
    | nil =>
      rw [hrows, lookup_spec_nil] at hget
      simp at hget
    | cons r rest =>
      rw [hrows, lookup_spec_rows] at hget
      rw [List.map_cons, lookup_spec_rows]
      by_cases ha : alloc_ok w = true
      · simp only [ha, if_true] at hget ⊢
        cases hfill : get_product_by_id_fill F (show_row r) w.junk with
        | none => rw [hfill] at hget; simp at hget
        | some p0 =>
          rw [hfill] at hget
          simp only [Option.some.injEq] at hget
          subst hget
          have := get_product_by_id_fill_set_stock F (show_row r) w.junk p0 n hn hfill
          simp only [set_cols, List.foldl_cons, List.foldl_nil, show_row_set, Val.show, this]
      · simp [ha] at hget
  · intro j hj hjk
    unfold get_product_by_id
    rw [fetch_one_fst, fetch_one_fst, ref_server_exec, ref_server_exec, hq _ _ hj, hq _ _ hj,
      hjunk, hall, hdb, hrun]
    simp only [run_select, List.length_cons, List.length_nil, if_true, get_set, coll_set,
      order_rows, List.zip_cons_cons, List.zip_nil_right]
    rw [show w.db.get TableName.products = w.db.products from rfl]
    rw [filter_update_other _ _ _ _ hjk _ hf0]
  · rw [hdb, hrun]
    simp only [DB.set]
    exact filter_update_rest _ _ _ (fun r => by rw [hf0])
  · rw [hdb, hrun]; rfl
  · rw [hdb, hrun]; rfl
  · rw [hdb, hrun]; rfl
  · rw [hdb, hrun]; rfl

theorem new_row_cart (t : Table) (u p a : Val) :
    new_row t 5 [(1, u), (2, p), (3, a)]
      = [Val.int t.next_id, u, p, a, t.dflt.getD 4 Val.null] := by
  have h5 : List.range 5 = [0, 1, 2, 3, 4] := by decide
  simp [new_row, h5, List.lookup]

theorem find_none_of_forall {α : Type} (p : α → Bool) (l : List α)
    (h : ∀ r ∈ l, p r = false) : l.find? p = none := by
  rw [List.find?_eq_none]
  intro r hr
  simp [h r hr]

theorem map_id_of_forall {α : Type} (p : α → Bool) (f : α → α) (l : List α)
    (h : ∀ r ∈ l, p r = false) : l.map (fun r => if p r = true then f r else r) = l := by
  induction l with
  | nil => rfl
  | cons a l ih =>
    simp only [List.map_cons, h a (by simp), Bool.false_eq_true, if_false]
    rw [ih (fun r hr => h r (by simp [hr]))]

theorem filter_nil_of_forall {α : Type} (p : α → Bool) (l : List α)
    (h : ∀ r ∈ l, p r = false) : l.filter p = [] := by
  rw [List.filter_eq_nil_iff]
  intro r hr
  simp [h r hr]

theorem upsert_fresh (db : DB) (u p a : Int)
    (hold : ∀ r ∈ db.cart_items.rows,
      decide (cell r 1 = Val.int u ∧ cell r 2 = Val.int p) = false) :
    run_upsert [Val.int u, Val.int p, Val.int a, Val.int a] db
      = (Reply.ok db.cart_items.next_id none,
         { db with cart_items :=
             { db.cart_items with
               rows := db.cart_items.rows ++
                 [[Val.int db.cart_items.next_id, Val.int u, Val.int p, Val.int a,
                   db.cart_items.dflt.getD 4 Val.null]],
               auto_inc := db.cart_items.next_id + 1 } }) := by
  have hdup : ∀ (coll : Nat → Nat) (r : List Val),
      (val_eq coll (cell r 1) (Val.int u) && val_eq coll (cell r 2) (Val.int p))
      = decide (cell r 1 = Val.int u ∧ cell r 2 = Val.int p) := by
    intro coll r
    rw [Bool.eq_iff_iff]
    simp [val_eq_int]
  unfold run_upsert
  simp only [hdup]
  rw [find_none_of_forall _ _ hold]
  simp only [Table.insert, new_row_cart]

/-- The second `add_to_cart` of a pair: the statement on a store whose only cart row of the
pair (u, p) is the last row, with quantity `a`. -/
theorem upsert_again (db : DB) (u p a b : Int) (id : Nat) (d : Val) (rows : List (List Val))
    (hrows : db.cart_items.rows = rows ++ [[Val.int id, Val.int u, Val.int p, Val.int a, d]])
    (hold : ∀ r ∈ rows, decide (cell r 1 = Val.int u ∧ cell r 2 = Val.int p) = false) :
    run_upsert [Val.int u, Val.int p, Val.int b, Val.int b] db
      = if is_int (a + b) then
          (Reply.ok id none,
           { db with cart_items :=
               { db.cart_items with
                 rows := rows ++ [[Val.int id, Val.int u, Val.int p, Val.int (a + b), d]] } })
        else (Reply.error (bytes "Out of range value for column 'quantity' at row 1"), db) := by
  have hdup : ∀ (coll : Nat → Nat) (r : List Val),
      (val_eq coll (cell r 1) (Val.int u) && val_eq coll (cell r 2) (Val.int p))
      = decide (cell r 1 = Val.int u ∧ cell r 2 = Val.int p) := by
    intro coll r
    rw [Bool.eq_iff_iff]
    simp [val_eq_int]
  have hnew : decide (cell [Val.int id, Val.int u, Val.int p, Val.int a, d] 1 = Val.int u ∧
      cell [Val.int id, Val.int u, Val.int p, Val.int a, d] 2 = Val.int p) = true := by
    simp [cell]
  have hc3 : cell [Val.int (id : Int), Val.int u, Val.int p, Val.int a, d] 3 = Val.int a := by
    simp [cell]
  have hc0 : cell [Val.int (id : Int), Val.int u, Val.int p, Val.int a, d] 0 = Val.int id := by
    simp [cell]
  unfold run_upsert
  simp only [hdup, hrows, Table.update]
  rw [List.find?_append, find_none_of_forall _ _ hold]
  simp only [Option.none_or, List.find?_cons, hnew, List.filter_append,
    filter_nil_of_forall _ _ hold, List.nil_append, List.filter_cons, List.filter_nil,
    if_true, List.all_cons, List.all_nil, Bool.and_true, hc3, hc0, val_add,
    List.map_append, map_id_of_forall _ _ rows hold, List.map_cons, List.map_nil]
  by_cases hab : is_int (a + b)
  · simp [hab]
  · simp [hab]

theorem foldl_next_ge (l : List (List Val)) (init : Nat) :
    init ≤ l.foldl (fun m r => match cell r 0 with
      | Val.int v => max m (v.toNat + 1)
      | _ => m) init := by
  induction l generalizing init with
  | nil => exact le_refl _
  | cons r l ih =>
    simp only [List.foldl_cons]
    refine le_trans ?_ (ih _)
    split
    · exact le_max_left _ _
    · exact le_refl _

theorem foldl_next_mem (l : List (List Val)) (init : Nat) (r : List Val) (v : Int)
    (hr : r ∈ l) (hv : cell r 0 = Val.int v) :
    v.toNat + 1 ≤ l.foldl (fun m r => match cell r 0 with
      | Val.int v => max m (v.toNat + 1)
      | _ => m) init := by
  induction l generalizing init with
  | nil => cases hr
  | cons a l ih =>
    simp only [List.foldl_cons]
    rcases List.mem_cons.mp hr with h | h
    · subst h
      refine le_trans ?_ (foldl_next_ge _ _)
      rw [hv]
      exact le_max_right _ _
    · exact ih _ h

theorem next_id_pos (t : Table) : 1 ≤ t.next_id := by
  unfold Table.next_id
  exact le_trans (le_max_right _ _) (foldl_next_ge _ _)

theorem next_id_fresh (t : Table) (coll : Nat → Nat) (r : List Val) (hr : r ∈ t.rows) :
    val_eq coll (cell r 0) (Val.int t.next_id) = false := by
  cases hc : cell r 0 with
  | int v =>
    have : v.toNat + 1 ≤ t.next_id := foldl_next_mem t.rows (max t.auto_inc 1) r v hr hc
    simp only [val_eq, decide_eq_false_iff_not]
    intro hv
    omega
  | null => simp [val_eq]
  | dec v => simp [val_eq]
  | text v => simp [val_eq]

theorem select_after_insert (db : DB) (t : TableName) (n : Nat) (assign : List (Nat × Val))
    (hc : cell (new_row (db.get t) n assign) 0 = Val.int (db.get t).next_id) :
    (run_select t [0] none [Val.int (db.get t).next_id]
        (db.set t ((db.get t).insert n assign))).1
      = reply_rows [new_row (db.get t) n assign] := by
  simp only [run_select, List.length_cons, List.length_nil, if_true, get_set, coll_set,
    order_rows, List.zip_cons_cons, List.zip_nil_right, Table.insert, conds_hold_key]
  rw [List.filter_append, filter_nil_of_forall _ _ (fun r hr => next_id_fresh _ db.coll r hr)]
  simp [hc, val_eq]

theorem new_row_users (t : Table) (a b c d e f g : Val) :
    new_row t 10 [(1, a), (2, b), (3, c), (4, d), (5, e), (6, f), (9, g)]
      = [Val.int t.next_id, a, b, c, d, e, f, t.dflt.getD 7 Val.null,
         t.dflt.getD 8 Val.null, g] := by
  have h : List.range 10 = [0, 1, 2, 3, 4, 5, 6, 7, 8, 9] := by decide
  simp [new_row, h, List.lookup]

theorem text_ok_len {cap : Nat} {field : List Nat} (h : text_ok cap field) (n : Nat)
    (hn : cap ≤ n + 1) : (cstr field).length ≤ n := by
  unfold text_ok at h
  omega

theorem cstr_strncpy_field (dest field : List Nat) (cap n : Nat) (h : text_ok cap field)
    (hn : cap ≤ n + 1) : cstr (strncpy dest (cstr field) n) = cstr field := by
  apply cstr_strncpy _ _ _ (cstr_no_nul field)
  unfold text_ok at h
  omega

/-- Round trip of a user record through `create_user` and `get_user_by_id`. -/
theorem create_then_get_user (w : World ref_server) (u : User) (hv : u.valid)
    (hid : w.db.users.next_id ≤ 2147483647) (ha : alloc_ok w = true) :
    (create_user w u).1 = w.db.users.next_id ∧
    ∃ g, (get_user_by_id (create_user w u).2 (create_user w u).1).map Prod.fst
        = some (some g) ∧
      g.user_id = (create_user w u).1 ∧ User.written_eq u g := by
  obtain ⟨h1, h2, h3, h4, h5, h6⟩ := hv
  have hex : ref_exec w.db (create_user_query u) = _ :=
    exec_create_user w.db _ _ _ _ _ _ _ h1.2 (text_ok_len h1 50 (by omega))
      h2.2 (text_ok_len h2 100 (by omega)) h3.2 (text_ok_len h3 255 (by omega))
      h4.2 (text_ok_len h4 50 (by omega)) h5.2 (text_ok_len h5 50 (by omega))
      h6.2 (text_ok_len h6 20 (by omega)) (bool_int_is_int u.is_active)
  have hk : is_int (w.db.users.next_id : Int) := by
    have := next_id_pos w.db.users
    unfold is_int; omega
  have hres : (create_user w u).1 = w.db.users.next_id := by
    rw [create_user_fst, ref_server_exec, hex]
    simp only [run_insert, List.length_cons, List.length_nil, if_true, create_spec,
      show w.db.get TableName.users = w.db.users from rfl]
    unfold wrap32; omega
  have hq : ∀ db, ref_exec db (get_user_by_id_query w.db.users.next_id)
      = run_select TableName.users [0] none [Val.int w.db.users.next_id] db :=
    fun db => exec_get_user_by_id db _ hk
  refine ⟨hres, ?_⟩
  rw [hres]
  unfold get_user_by_id
  rw [fetch_one_fst, ref_server_exec, hq, create_user_world,
    execute_query_db, execute_query_junk, alloc_ok_congr _ w (execute_query_oracle w _), ha,
    ref_server_exec, hex]
  simp only [run_insert, List.length_cons, List.length_nil, if_true]
  have hsel := select_after_insert w.db TableName.users 10
    ([1, 2, 3, 4, 5, 6, 9].zip
      [Val.text (cstr u.username), Val.text (cstr u.email), Val.text (cstr u.password_hash),
       Val.text (cstr u.first_name), Val.text (cstr u.last_name), Val.text (cstr u.phone),
       Val.int (bool_int u.is_active)])
    (by simp only [List.zip_cons_cons, List.zip_nil_right, new_row_users]; rfl)
  simp only [DB.get] at hsel ⊢
  rw [hsel]
  simp only [List.zip_cons_cons, List.zip_nil_right, new_row_users, lookup_spec_rows, if_true]
  simp only [show_row, List.map_cons, List.map_nil, Val.show, get_user_by_id_fill, row_ok,
    List.length_cons, List.length_nil]
  simp only [col_atoi, col_str, col_bool, List.get?_cons_succ, List.get?_cons_zero]
  refine ⟨_, rfl, ?_, ?_⟩
  · exact atoi_fmt_d _ hk
  · simp only [User.written_eq, fresh_user]
    refine ⟨cstr_strncpy_field _ _ _ _ h1 (by omega), cstr_strncpy_field _ _ _ _ h2 (by omega),
      cstr_strncpy_field _ _ _ _ h3 (by omega), cstr_strncpy_field _ _ _ _ h4 (by omega),
      cstr_strncpy_field _ _ _ _ h5 (by omega), cstr_strncpy_field _ _ _ _ h6 (by omega), ?_⟩
    exact col_bool_int u.is_active

theorem new_row_products (t : Table) (a b c d e f g h i : Val) :
    new_row t 12 [(1, a), (2, b), (3, c), (4, d), (5, e), (6, f), (7, g), (8, h), (11, i)]
      = [Val.int t.next_id, a, b, c, d, e, f, g, h, t.dflt.getD 9 Val.null,
         t.dflt.getD 10 Val.null, i] := by
  have h : List.range 12 = [0, 1, 2, 3, 4, 5, 6, 7, 8, 9, 10, 11] := by decide
  simp [new_row, h, List.lookup]

theorem new_row_orders (t : Table) (a b c d e f g h i : Val) :
    new_row t 11 [(1, a), (3, b), (4, c), (5, d), (6, e), (7, f), (8, g), (9, h), (10, i)]
      = [Val.int t.next_id, a, t.dflt.getD 2 Val.null, b, c, d, e, f, g, h, i] := by
  have h : List.range 11 = [0, 1, 2, 3, 4, 5, 6, 7, 8, 9, 10] := by decide
  simp [new_row, h, List.lookup]

theorem new_row_order_items (t : Table) (a b c d e : Val) :
    new_row t 6 [(1, a), (2, b), (3, c), (4, d), (5, e)]
      = [Val.int t.next_id, a, b, c, d, e] := by
  have h : List.range 6 = [0, 1, 2, 3, 4, 5] := by decide
  simp [new_row, h, List.lookup]

theorem next_id_is_int (t : Table) (h : t.next_id ≤ 2147483647) : is_int (t.next_id : Int) := by
  have := next_id_pos t
  unfold is_int; omega

theorem create_spec_ok (id : Nat) (res : Option (List MYSQL_ROW)) (h : id ≤ 2147483647) :
    create_spec (Reply.ok id res) = id := by
  simp only [create_spec, wrap32]; omega

/-- Round trip of a product record through `create_product` and `get_product_by_id`. -/
theorem create_then_get_product {D : Type} (F : FloatOps D) (w : World ref_server)
    (p : Product D) (hv : p.valid F) (hid : w.db.products.next_id ≤ 2147483647)
    (ha : alloc_ok w = true) :
    (create_product F w p).1 = w.db.products.next_id ∧
    ∃ g, (get_product_by_id F (create_product F w p).2 (create_product F w p).1).map Prod.fst
        = some (some g) ∧
      g.product_id = (create_product F w p).1 ∧ Product.written_eq p g := by
  obtain ⟨h1, h2, ⟨c3, e3, l3, r3⟩, h4, h5, h6, ⟨c7, e7, l7, r7⟩, h8⟩ := hv
  have hex : ref_exec w.db (create_product_query F p)
      = run_insert TableName.products 12 [1, 2, 3, 4, 5, 6, 7, 8, 11]
          [Val.text (cstr p.product_name), Val.text (cstr p.description), Val.dec c3,
           Val.int p.stock_quantity, Val.int p.category_id, Val.text (cstr p.sku), Val.dec c7,
           Val.text (cstr p.dimensions), Val.int (bool_int p.is_active)] w.db := by
    unfold create_product_query
    rw [e3, e7]
    exact exec_create_product w.db _ _ _ _ _ _ _ _ _
      h1.2 (text_ok_len h1 200 (by omega)) h2.2 (text_ok_len h2 1023 (by omega)) l3 h4 h5
      h6.2 (text_ok_len h6 50 (by omega)) l7 h8.2 (text_ok_len h8 100 (by omega))
      (bool_int_is_int p.is_active)
  have hk := next_id_is_int _ hid
  have hres : (create_product F w p).1 = w.db.products.next_id := by
    rw [create_product_fst, ref_server_exec, hex]
    simp only [run_insert, List.length_cons, List.length_nil, if_true, DB.get]
    exact create_spec_ok _ _ hid
  have hq : ∀ db, ref_exec db (get_product_by_id_query w.db.products.next_id)
      = run_select TableName.products [0] none [Val.int w.db.products.next_id] db :=
    fun db => exec_get_product_by_id db _ hk
  refine ⟨hres, ?_⟩
  rw [hres]
  unfold get_product_by_id
  rw [fetch_one_fst, ref_server_exec, hq, create_product_world,
    execute_query_db, execute_query_junk, alloc_ok_congr _ w (execute_query_oracle w _), ha,
    ref_server_exec, hex]
  simp only [run_insert, List.length_cons, List.length_nil, if_true]
  have hsel := select_after_insert w.db TableName.products 12
    ([1, 2, 3, 4, 5, 6, 7, 8, 11].zip
      [Val.text (cstr p.product_name), Val.text (cstr p.description), Val.dec c3,
       Val.int p.stock_quantity, Val.int p.category_id, Val.text (cstr p.sku), Val.dec c7,
       Val.text (cstr p.dimensions), Val.int (bool_int p.is_active)])
    (by simp only [List.zip_cons_cons, List.zip_nil_right, new_row_products]; rfl)
  simp only [DB.get] at hsel ⊢
  rw [hsel]
  simp only [List.zip_cons_cons, List.zip_nil_right, new_row_products, lookup_spec_rows,
    if_true]
  simp only [show_row, List.map_cons, List.map_nil, Val.show, get_product_by_id_fill, row_ok,
    List.length_cons, List.length_nil]
  simp only [col_atoi, col_str, col_bool, col_int, col_dbl, List.get?_cons_succ,
    List.get?_cons_zero]
  refine ⟨_, rfl, ?_, ?_⟩
  · exact atoi_fmt_d _ hk
  · simp only [Product.written_eq, fresh_product]
    exact ⟨cstr_strncpy_field _ _ _ _ h1 (by omega), cstr_strncpy_field _ _ _ _ h2 (by omega),
      r3, atoi_fmt_d _ h4, atoi_fmt_d _ h5, cstr_strncpy_field _ _ _ _ h6 (by omega), r7,
      cstr_strncpy_field _ _ _ _ h8 (by omega), col_bool_int p.is_active⟩

/-- Round trip of an order record through `create_order` and `get_order_by_id`. -/
theorem create_then_get_order {D : Type} (F : FloatOps D) (w : World ref_server)
    (o : Order D) (hv : o.valid F) (hid : w.db.orders.next_id ≤ 2147483647)
    (ha : alloc_ok w = true) :
    (create_order F w o).1 = w.db.orders.next_id ∧
    ∃ g, (get_order_by_id F (create_order F w o).2 (create_order F w o).1).map Prod.fst
        = some (some g) ∧
      g.order_id = (create_order F w o).1 ∧ Order.written_eq o g := by
  obtain ⟨h1, h2, ⟨c3, e3, l3, r3⟩, h4, h5, h6, ⟨c7, e7, l7, r7⟩, ⟨c8, e8, l8, r8⟩, h9⟩ := hv
  have hex : ref_exec w.db (create_order_query F o)
      = run_insert TableName.orders 11 [1, 3, 4, 5, 6, 7, 8, 9, 10]
          [Val.int o.user_id, Val.text (cstr o.status), Val.dec c3,
           Val.int o.shipping_address_id, Val.int o.billing_address_id,
           Val.text (cstr o.payment_method), Val.dec c7, Val.dec c8,
           Val.text (cstr o.notes)] w.db := by
    unfold create_order_query
    rw [e3, e7, e8]
    exact exec_create_order w.db _ _ _ _ _ _ _ _ _
      h1 h2.2 (text_ok_len h2 19 (by omega)) l3 h4 h5
      h6.2 (text_ok_len h6 50 (by omega)) l7 l8 h9.2 (text_ok_len h9 1023 (by omega))
  have hk := next_id_is_int _ hid
  have hres : (create_order F w o).1 = w.db.orders.next_id := by
    rw [create_order_fst, ref_server_exec, hex]
    simp only [run_insert, List.length_cons, List.length_nil, if_true, DB.get]
    exact create_spec_ok _ _ hid
  have hq : ∀ db, ref_exec db (get_order_by_id_query w.db.orders.next_id)
      = run_select TableName.orders [0] none [Val.int w.db.orders.next_id] db :=
    fun db => exec_get_order_by_id db _ hk
  refine ⟨hres, ?_⟩
  rw [hres]
  unfold get_order_by_id
  rw [fetch_one_fst, ref_server_exec, hq, create_order_world,
    execute_query_db, execute_query_junk, alloc_ok_congr _ w (execute_query_oracle w _), ha,
    ref_server_exec, hex]
  simp only [run_insert, List.length_cons, List.length_nil, if_true]
  have hsel := select_after_insert w.db TableName.orders 11
    ([1, 3, 4, 5, 6, 7, 8, 9, 10].zip
      [Val.int o.user_id, Val.text (cstr o.status), Val.dec c3,
       Val.int o.shipping_address_id, Val.int o.billing_address_id,
       Val.text (cstr o.payment_method), Val.dec c7, Val.dec c8, Val.text (cstr o.notes)])
    (by simp only [List.zip_cons_cons, List.zip_nil_right, new_row_orders]; rfl)
  simp only [DB.get] at hsel ⊢
  rw [hsel]
  simp only [List.zip_cons_cons, List.zip_nil_right, new_row_orders, lookup_spec_rows,
    if_true]
  simp only [show_row, List.map_cons, List.map_nil, Val.show, get_order_by_id_fill, row_ok,
    List.length_cons, List.length_nil]
  simp only [col_atoi, col_str, col_bool, col_int, col_dbl, List.get?_cons_succ,
    List.get?_cons_zero]
  refine ⟨_, rfl, ?_, ?_⟩
  · exact atoi_fmt_d _ hk
  · simp only [Order.written_eq, fresh_order]
    exact ⟨atoi_fmt_d _ h1, cstr_strncpy_field _ _ _ _ h2 (by omega), r3, atoi_fmt_d _ h4,
      atoi_fmt_d _ h5, cstr_strncpy_field _ _ _ _ h6 (by omega), r7, r8,
      cstr_strncpy_field _ _ _ _ h9 (by omega)⟩

/-- Round trip of an order line through `create_order_item` and `get_order_item_by_id`. -/
theorem create_then_get_order_item {D : Type} (F : FloatOps D) (w : World ref_server)
    (i : OrderItem D) (hv : i.valid F) (hid : w.db.order_items.next_id ≤ 2147483647)
    (ha : alloc_ok w = true) :
    (create_order_item F w i).1 = w.db.order_items.next_id ∧
    ∃ g, (get_order_item_by_id F (create_order_item F w i).2
          (create_order_item F w i).1).map Prod.fst = some (some g) ∧
      g.order_item_id = (create_order_item F w i).1 ∧ OrderItem.written_eq i g := by
  obtain ⟨h1, h2, h3, ⟨c4, e4, l4, r4⟩, ⟨c5, e5, l5, r5⟩⟩ := hv
  have hex : ref_exec w.db (create_order_item_query F i)
      = run_insert TableName.order_items 6 [1, 2, 3, 4, 5]
          [Val.int i.order_id, Val.int i.product_id, Val.int i.quantity, Val.dec c4,
           Val.dec c5] w.db := by
    unfold create_order_item_query
    rw [e4, e5]
    exact exec_create_order_item w.db _ _ _ _ _ h1 h2 h3 l4 l5
  have hk := next_id_is_int _ hid
  have hres : (create_order_item F w i).1 = w.db.order_items.next_id := by
    rw [create_order_item_fst, ref_server_exec, hex]
    simp only [run_insert, List.length_cons, List.length_nil, if_true, DB.get]
    exact create_spec_ok _ _ hid
  have hq : ∀ db, ref_exec db (get_order_item_by_id_query w.db.order_items.next_id)
      = run_select TableName.order_items [0] none [Val.int w.db.order_items.next_id] db :=
    fun db => exec_get_order_item_by_id db _ hk
  refine ⟨hres, ?_⟩
  rw [hres]
  unfold get_order_item_by_id
  rw [fetch_one_fst, ref_server_exec, hq, create_order_item_world,
    execute_query_db, execute_query_junk, alloc_ok_congr _ w (execute_query_oracle w _), ha,
    ref_server_exec, hex]
  simp only [run_insert, List.length_cons, List.length_nil, if_true]
  have hsel := select_after_insert w.db TableName.order_items 6
    ([1, 2, 3, 4, 5].zip
      [Val.int i.order_id, Val.int i.product_id, Val.int i.quantity, Val.dec c4, Val.dec c5])
    (by simp only [List.zip_cons_cons, List.zip_nil_right, new_row_order_items]; rfl)
  simp only [DB.get] at hsel ⊢
  rw [hsel]
  simp only [List.zip_cons_cons, List.zip_nil_right, new_row_order_items, lookup_spec_rows,
    if_true]
  simp only [show_row, List.map_cons, List.map_nil, Val.show, get_order_item_by_id_fill,
    row_ok, List.length_cons, List.length_nil]
  simp only [col_atoi, col_str, col_bool, col_int, col_dbl, List.get?_cons_succ,
    List.get?_cons_zero]
  refine ⟨_, rfl, ?_, ?_⟩
  · exact atoi_fmt_d _ hk
  · simp only [OrderItem.written_eq]
    exact ⟨atoi_fmt_d _ h1, atoi_fmt_d _ h2, atoi_fmt_d _ h3, r4, r5⟩

theorem mem_filter_key (coll : Nat → Nat) (k : Int) (rows : List (List Val)) (r : List Val)
    (rest : List (List Val))
    (h : rows.filter (conds_hold coll [(0, Val.int k)]) = r :: rest) :
    cell r 0 = Val.int k := by
  have hr : r ∈ rows.filter (conds_hold coll [(0, Val.int k)]) := by rw [h]; simp
  rw [List.mem_filter, conds_hold_key] at hr
  exact (val_eq_int coll _ k).mp hr.2

/-- A lookup by identifier after an update keyed by the same identifier reads the first
matching row of before, with the assignments of the update applied. -/
theorem lookup_after_update {T : Type} (fill : MYSQL_ROW → (Nat → Nat) → Option T)
    (w : World ref_server) (qu qg : CStr) (t : TableName) (assign : List (Nat × Val))
    (k : Int) (g0 : T)
    (hu : (ref_exec w.db qu).2 = w.db.set t ((w.db.get t).update
      (fun r => val_eq w.db.coll (cell r 0) (Val.int k)) (set_cols assign)))
    (hg : ∀ db, ref_exec db qg = run_select t [0] none [Val.int k] db)
    (h0 : ∀ a ∈ assign, a.1 ≠ 0)
    (hget : (fetch_one fill w qg).map Prod.fst = some (some g0)) :
    ∃ r, fill (show_row r) w.junk = some g0 ∧ cell r 0 = Val.int k ∧
      (fetch_one fill (execute_query w qu).2 qg).map Prod.fst
        = (match fill (show_row (set_cols assign r)) w.junk with
           | none => none
           | some g => some (some g)) := by
  have hf0 : ∀ r, cell (set_cols assign r) 0 = cell r 0 :=
    fun r => cell_set_cols_zero _ r h0
  rw [fetch_one_fst, ref_server_exec, hg] at hget
  rw [fetch_one_fst, ref_server_exec, hg, execute_query_db, execute_query_junk,
    alloc_ok_congr _ w (execute_query_oracle w _), ref_server_exec, hu]
  simp only [run_select, List.length_cons, List.length_nil, if_true, get_set, coll_set,
    order_rows, List.zip_cons_cons, List.zip_nil_right] at hget ⊢
  rw [filter_update_same _ _ _ _ hf0]
  cases hrows : (w.db.get t).rows.filter (conds_hold w.db.coll [(0, Val.int k)]) with
  | nil =>
    rw [hrows, lookup_spec_nil] at hget
    simp at hget
  | cons r rest =>
    rw [hrows, lookup_spec_rows] at hget
    rw [List.map_cons, lookup_spec_rows]
    by_cases ha : alloc_ok w = true
    · simp only [ha, if_true] at hget ⊢
      cases hfill : fill (show_row r) w.junk with
      | none => rw [hfill] at hget; simp at hget
      | some p0 =>
        rw [hfill] at hget
        simp only [Option.some.injEq] at hget
        subst hget
        exact ⟨r, hfill, mem_filter_key _ _ _ _ _ hrows, rfl⟩
    · simp [ha] at hget

theorem show_cell_zero (r : List Val) (k : Int) (h : cell r 0 = Val.int k) :
    (show_row r).get? 0 = some (some (fmt_d k)) := by
  cases r with
  | nil => simp [cell] at h
  | cons a r =>
    simp only [cell, List.getD_cons_zero] at h
    subst h
    simp [show_row, Val.show]

theorem col_atoi_zero (r : List Val) (k : Int) (hk : is_int k) (h : cell r 0 = Val.int k) :
    col_atoi (show_row r) 0 = k := by
  unfold col_atoi
  rw [show_cell_zero r k h]
  exact atoi_fmt_d k hk

theorem row_ok_set_iff (n i : Nat) (row : MYSQL_ROW) (x : Option CStr) (hi : i ≠ 0) :
    row_ok n (row.set i x) = row_ok n row := by
  obtain ⟨j, rfl⟩ : ∃ j, i = j + 1 := ⟨i - 1, by omega⟩
  exact row_ok_set n j row x

theorem get_user_by_id_fill_set (row : MYSQL_ROW) (junk : Nat → Nat) (g0 : User)
    (a b c d e f x : CStr) (h : get_user_by_id_fill row junk = some g0) :
    get_user_by_id_fill
      (((((((row.set 1 (some a)).set 2 (some b)).set 3 (some c)).set 4 (some d)).set 5
        (some e)).set 6 (some f)).set 9 (some x)) junk
      = some { g0 with
          username := strncpy (junk_buf junk 51) a 50
          email := strncpy (junk_buf junk 101) b 100
          password_hash := strncpy (junk_buf junk 256) c 255
          first_name := strncpy (junk_buf junk 51) d 50
          last_name := strncpy (junk_buf junk 51) e 50
          phone := strncpy (junk_buf junk 21) f 20
          is_active := decide (atoi x = 1) } := by
  unfold get_user_by_id_fill at h ⊢
  by_cases hok : row_ok 10 row = true
  · have hlen := row_ok_length _ _ hok
    simp only [hok, if_true, Option.some.injEq] at h
    rw [row_ok_set_iff _ 9 _ _ (by decide), row_ok_set_iff _ 6 _ _ (by decide),
      row_ok_set_iff _ 5 _ _ (by decide), row_ok_set_iff _ 4 _ _ (by decide),
      row_ok_set_iff _ 3 _ _ (by decide), row_ok_set_iff _ 2 _ _ (by decide),
      row_ok_set_iff _ 1 _ _ (by decide)]
    simp only [hok, if_true, Option.some.injEq]
    subst h
    have h1 : 1 < row.length := by omega
    have h2 : 2 < row.length := by omega
    have h3 : 3 < row.length := by omega
    have h4 : 4 < row.length := by omega
    have h5 : 5 < row.length := by omega
    have h6 : 6 < row.length := by omega
    have h9 : 9 < row.length := by omega
    simp [col_atoi, col_str, col_bool, List.getElem?_set, h1, h2, h3, h4, h5, h6, h9,
      fresh_user]
  · simp [hok] at h

/-- An update of a user record followed by a lookup of its identifier. -/
theorem update_then_get_user (w : World ref_server) (u g0 : User) (hv : u.valid)
    (hk : is_int u.user_id)
    (hget : (get_user_by_id w u.user_id).map Prod.fst = some (some g0))
    (_hupd : (update_user w u).1 = true) :
    ∃ g, (get_user_by_id (update_user w u).2 u.user_id).map Prod.fst = some (some g) ∧
      g.user_id = u.user_id ∧ User.written_eq u g ∧
      g.created_at = g0.created_at ∧ g.updated_at = g0.updated_at := by
  obtain ⟨h1, h2, h3, h4, h5, h6⟩ := hv
  have hex : ref_exec w.db (update_user_query u)
      = run_update TableName.users [1, 2, 3, 4, 5, 6, 9] 0
          [Val.text (cstr u.username), Val.text (cstr u.email),
           Val.text (cstr u.password_hash), Val.text (cstr u.first_name),
           Val.text (cstr u.last_name), Val.text (cstr u.phone),
           Val.int (bool_int u.is_active), Val.int u.user_id] w.db :=
    exec_update_user w.db _ _ _ _ _ _ _ _ h1.2 (text_ok_len h1 50 (by omega))
      h2.2 (text_ok_len h2 100 (by omega)) h3.2 (text_ok_len h3 255 (by omega))
      h4.2 (text_ok_len h4 50 (by omega)) h5.2 (text_ok_len h5 50 (by omega))
      h6.2 (text_ok_len h6 20 (by omega)) (bool_int_is_int u.is_active) hk
  have hu : (ref_exec w.db (update_user_query u)).2
      = w.db.set TableName.users ((w.db.get TableName.users).update
          (fun r => val_eq w.db.coll (cell r 0) (Val.int u.user_id))
          (set_cols [(1, Val.text (cstr u.username)), (2, Val.text (cstr u.email)),
            (3, Val.text (cstr u.password_hash)), (4, Val.text (cstr u.first_name)),
            (5, Val.text (cstr u.last_name)), (6, Val.text (cstr u.phone)),
            (9, Val.int (bool_int u.is_active))])) := by
    rw [hex]
    simp [run_update]
  obtain ⟨r, hfill, hc0, hres⟩ := lookup_after_update get_user_by_id_fill w
    (update_user_query u) (get_user_by_id_query u.user_id) TableName.users _ u.user_id g0 hu
    (fun db => exec_get_user_by_id db _ hk) (by simp) hget
  have hset := get_user_by_id_fill_set (show_row r) w.junk g0 (cstr u.username) (cstr u.email)
    (cstr u.password_hash) (cstr u.first_name) (cstr u.last_name) (cstr u.phone)
    (fmt_d (bool_int u.is_active)) hfill
  have hid : g0.user_id = u.user_id := by
    unfold get_user_by_id_fill at hfill
    by_cases hok : row_ok 10 (show_row r) = true
    · simp only [hok, if_true, Option.some.injEq] at hfill
      rw [← hfill]
      exact col_atoi_zero r _ hk hc0
    · simp [hok] at hfill
  unfold get_user_by_id update_user
  rw [hres]
  simp only [set_cols, List.foldl_cons, List.foldl_nil, show_row_set, Val.show, hset]
  refine ⟨_, rfl, hid, ?_, rfl, rfl⟩
  simp only [User.written_eq]
  exact ⟨cstr_strncpy_field _ _ _ _ h1 (by omega), cstr_strncpy_field _ _ _ _ h2 (by omega),
    cstr_strncpy_field _ _ _ _ h3 (by omega), cstr_strncpy_field _ _ _ _ h4 (by omega),
    cstr_strncpy_field _ _ _ _ h5 (by omega), cstr_strncpy_field _ _ _ _ h6 (by omega),
    col_bool_int u.is_active⟩

theorem get_product_by_id_fill_set {D : Type} (F : FloatOps D) (row : MYSQL_ROW)
    (junk : Nat → Nat) (g0 : Product D) (a b c d e f g h x : CStr)
    (hfill : get_product_by_id_fill F row junk = some g0) :
    get_product_by_id_fill F
      (((((((((row.set 1 (some a)).set 2 (some b)).set 3 (some c)).set 4 (some d)).set 5
        (some e)).set 6 (some f)).set 7 (some g)).set 8 (some h)).set 11 (some x)) junk
      = some { g0 with
          product_name := strncpy (junk_buf junk 201) a 200
          description := strncpy (junk_buf junk 1024) b 1023
          price := F.atof c
          stock_quantity := atoi d
          category_id := atoi e
          sku := strncpy (junk_buf junk 51) f 50
          weight := F.atof g
          dimensions := strncpy (junk_buf junk 101) h 100
          is_active := decide (atoi x = 1) } := by
  unfold get_product_by_id_fill at hfill ⊢
  by_cases hok : row_ok 12 row = true
  · have hlen := row_ok_length _ _ hok
    simp only [hok, if_true, Option.some.injEq] at hfill
    rw [row_ok_set_iff _ 11 _ _ (by decide), row_ok_set_iff _ 8 _ _ (by decide),
      row_ok_set_iff _ 7 _ _ (by decide), row_ok_set_iff _ 6 _ _ (by decide),
      row_ok_set_iff _ 5 _ _ (by decide), row_ok_set_iff _ 4 _ _ (by decide),
      row_ok_set_iff _ 3 _ _ (by decide), row_ok_set_iff _ 2 _ _ (by decide),
      row_ok_set_iff _ 1 _ _ (by decide)]
    simp only [hok, if_true, Option.some.injEq]
    subst hfill
    have h1 : 1 < row.length := by omega
    have h2 : 2 < row.length := by omega
    have h3 : 3 < row.length := by omega
    have h4 : 4 < row.length := by omega
    have h5 : 5 < row.length := by omega
    have h6 : 6 < row.length := by omega
    have h7 : 7 < row.length := by omega
    have h8 : 8 < row.length := by omega
    have h11 : 11 < row.length := by omega
    simp [col_atoi, col_str, col_bool, col_int, col_dbl, List.getElem?_set, h1, h2, h3, h4,
      h5, h6, h7, h8, h11, fresh_product]
  · simp [hok] at hfill

/-- An update of a product record followed by a lookup of its identifier. -/
theorem update_then_get_product {D : Type} (F : FloatOps D) (w : World ref_server)
    (p g0 : Product D) (hv : p.valid F) (hk : is_int p.product_id)
    (hget : (get_product_by_id F w p.product_id).map Prod.fst = some (some g0))
    (_hupd : (update_product F w p).1 = true) :
    ∃ g, (get_product_by_id F (update_product F w p).2 p.product_id).map Prod.fst
        = some (some g) ∧
      g.product_id = p.product_id ∧ Product.written_eq p g ∧
      g.created_at = g0.created_at ∧ g.updated_at = g0.updated_at := by
  obtain ⟨h1, h2, ⟨c3, e3, l3, r3⟩, h4, h5, h6, ⟨c7, e7, l7, r7⟩, h8⟩ := hv
  have hex : ref_exec w.db (update_product_query F p)
      = run_update TableName.products [1, 2, 3, 4, 5, 6, 7, 8, 11] 0
          [Val.text (cstr p.product_name), Val.text (cstr p.description), Val.dec c3,
           Val.int p.stock_quantity, Val.int p.category_id, Val.text (cstr p.sku), Val.dec c7,
           Val.text (cstr p.dimensions), Val.int (bool_int p.is_active),
           Val.int p.product_id] w.db := by
    unfold update_product_query
    rw [e3, e7]
    exact exec_update_product w.db _ _ _ _ _ _ _ _ _ _
      h1.2 (text_ok_len h1 200 (by omega)) h2.2 (text_ok_len h2 1023 (by omega)) l3 h4 h5
      h6.2 (text_ok_len h6 50 (by omega)) l7 h8.2 (text_ok_len h8 100 (by omega))
      (bool_int_is_int p.is_active) hk
  have hu : (ref_exec w.db (update_product_query F p)).2
      = w.db.set TableName.products ((w.db.get TableName.products).update
          (fun r => val_eq w.db.coll (cell r 0) (Val.int p.product_id))
          (set_cols [(1, Val.text (cstr p.product_name)), (2, Val.text (cstr p.description)),
            (3, Val.dec c3), (4, Val.int p.stock_quantity), (5, Val.int p.category_id),
            (6, Val.text (cstr p.sku)), (7, Val.dec c7), (8, Val.text (cstr p.dimensions)),
            (11, Val.int (bool_int p.is_active))])) := by
    rw [hex]
    simp [run_update]
  obtain ⟨r, hfill, hc0, hres⟩ := lookup_after_update (get_product_by_id_fill F) w
    (update_product_query F p) (get_product_by_id_query p.product_id) TableName.products _
    p.product_id g0 hu (fun db => exec_get_product_by_id db _ hk) (by simp) hget
  have hset := get_product_by_id_fill_set F (show_row r) w.junk g0 (cstr p.product_name)
    (cstr p.description) (fmt_dec c3) (fmt_d p.stock_quantity) (fmt_d p.category_id)
    (cstr p.sku) (fmt_dec c7) (cstr p.dimensions) (fmt_d (bool_int p.is_active)) hfill
  have hid : g0.product_id = p.product_id := by
    unfold get_product_by_id_fill at hfill
    by_cases hok : row_ok 12 (show_row r) = true
    · simp only [hok, if_true, Option.some.injEq] at hfill
      rw [← hfill]
      exact col_atoi_zero r _ hk hc0
    · simp [hok] at hfill
  unfold get_product_by_id update_product
  rw [hres]
  simp only [set_cols, List.foldl_cons, List.foldl_nil, show_row_set, Val.show, hset]
  refine ⟨_, rfl, hid, ?_, rfl, rfl⟩
  simp only [Product.written_eq]
  exact ⟨cstr_strncpy_field _ _ _ _ h1 (by omega), cstr_strncpy_field _ _ _ _ h2 (by omega),
    r3, atoi_fmt_d _ h4, atoi_fmt_d _ h5, cstr_strncpy_field _ _ _ _ h6 (by omega), r7,
    cstr_strncpy_field _ _ _ _ h8 (by omega), col_bool_int p.is_active⟩

theorem get_order_by_id_fill_set {D : Type} (F : FloatOps D) (row : MYSQL_ROW)
    (junk : Nat → Nat) (g0 : Order D) (a b c d e f g h x : CStr)
    (hfill : get_order_by_id_fill F row junk = some g0) :
    get_order_by_id_fill F
      (((((((((row.set 1 (some a)).set 3 (some b)).set 4 (some c)).set 5 (some d)).set 6
        (some e)).set 7 (some f)).set 8 (some g)).set 9 (some h)).set 10 (some x)) junk
      = some { g0 with
          user_id := atoi a
          status := strncpy (junk_buf junk 20) b 19
          total_amount := F.atof c
          shipping_address_id := atoi d
          billing_address_id := atoi e
          payment_method := strncpy (junk_buf junk 51) f 50
          shipping_cost := F.atof g
          tax_amount := F.atof h
          notes := strncpy (junk_buf junk 1024) x 1023 } := by
  unfold get_order_by_id_fill at hfill ⊢
  by_cases hok : row_ok 11 row = true
  · have hlen := row_ok_length _ _ hok
    simp only [hok, if_true, Option.some.injEq] at hfill
    rw [row_ok_set_iff _ 10 _ _ (by decide), row_ok_set_iff _ 9 _ _ (by decide),
      row_ok_set_iff _ 8 _ _ (by decide), row_ok_set_iff _ 7 _ _ (by decide),
      row_ok_set_iff _ 6 _ _ (by decide), row_ok_set_iff _ 5 _ _ (by decide),
      row_ok_set_iff _ 4 _ _ (by decide), row_ok_set_iff _ 3 _ _ (by decide),
      row_ok_set_iff _ 1 _ _ (by decide)]
    simp only [hok, if_true, Option.some.injEq]
    subst hfill
    have h1 : 1 < row.length := by omega
    have h3 : 3 < row.length := by omega
    have h4 : 4 < row.length := by omega
    have h5 : 5 < row.length := by omega
    have h6 : 6 < row.length := by omega
    have h7 : 7 < row.length := by omega
    have h8 : 8 < row.length := by omega
    have h9 : 9 < row.length := by omega
    have h10 : 10 < row.length := by omega
    simp [col_atoi, col_str, col_bool, col_int, col_dbl, List.getElem?_set, h1, h3, h4,
      h5, h6, h7, h8, h9, h10, fresh_order]
  · simp [hok] at hfill

/-- An update of an order record followed by a lookup of its identifier. -/
theorem update_then_get_order {D : Type} (F : FloatOps D) (w : World ref_server)
    (o g0 : Order D) (hv : o.valid F) (hk : is_int o.order_id)
    (hget : (get_order_by_id F w o.order_id).map Prod.fst = some (some g0))
    (_hupd : (update_order F w o).1 = true) :
    ∃ g, (get_order_by_id F (update_order F w o).2 o.order_id).map Prod.fst
        = some (some g) ∧
      g.order_id = o.order_id ∧ Order.written_eq o g ∧ g.order_date = g0.order_date := by
  obtain ⟨h1, h2, ⟨c3, e3, l3, r3⟩, h4, h5, h6, ⟨c7, e7, l7, r7⟩, ⟨c8, e8, l8, r8⟩, h9⟩ := hv
  have hex : ref_exec w.db (update_order_query F o)
      = run_update TableName.orders [1, 3, 4, 5, 6, 7, 8, 9, 10] 0
          [Val.int o.user_id, Val.text (cstr o.status), Val.dec c3,
           Val.int o.shipping_address_id, Val.int o.billing_address_id,
           Val.text (cstr o.payment_method), Val.dec c7, Val.dec c8,
           Val.text (cstr o.notes), Val.int o.order_id] w.db := by
    unfold update_order_query
    rw [e3, e7, e8]
    exact exec_update_order w.db _ _ _ _ _ _ _ _ _ _
      h1 h2.2 (text_ok_len h2 19 (by omega)) l3 h4 h5
      h6.2 (text_ok_len h6 50 (by omega)) l7 l8 h9.2 (text_ok_len h9 1023 (by omega)) hk
  have hu : (ref_exec w.db (update_order_query F o)).2
      = w.db.set TableName.orders ((w.db.get TableName.orders).update
          (fun r => val_eq w.db.coll (cell r 0) (Val.int o.order_id))
          (set_cols [(1, Val.int o.user_id), (3, Val.text (cstr o.status)), (4, Val.dec c3),
            (5, Val.int o.shipping_address_id), (6, Val.int o.billing_address_id),
            (7, Val.text (cstr o.payment_method)), (8, Val.dec c7), (9, Val.dec c8),
            (10, Val.text (cstr o.notes))])) := by
    rw [hex]
    simp [run_update]
  obtain ⟨r, hfill, hc0, hres⟩ := lookup_after_update (get_order_by_id_fill F) w
    (update_order_query F o) (get_order_by_id_query o.order_id) TableName.orders _
    o.order_id g0 hu (fun db => exec_get_order_by_id db _ hk) (by simp) hget
  have hset := get_order_by_id_fill_set F (show_row r) w.junk g0 (fmt_d o.user_id)
    (cstr o.status) (fmt_dec c3) (fmt_d o.shipping_address_id) (fmt_d o.billing_address_id)
    (cstr o.payment_method) (fmt_dec c7) (fmt_dec c8) (cstr o.notes) hfill
  have hid : g0.order_id = o.order_id := by
    unfold get_order_by_id_fill at hfill
    by_cases hok : row_ok 11 (show_row r) = true
    · simp only [hok, if_true, Option.some.injEq] at hfill
      rw [← hfill]
      exact col_atoi_zero r _ hk hc0
    · simp [hok] at hfill
  unfold get_order_by_id update_order
  rw [hres]
  simp only [set_cols, List.foldl_cons, List.foldl_nil, show_row_set, Val.show, hset]
  refine ⟨_, rfl, hid, ?_, rfl⟩
  simp only [Order.written_eq]
  exact ⟨atoi_fmt_d _ h1, cstr_strncpy_field _ _ _ _ h2 (by omega), r3, atoi_fmt_d _ h4,
    atoi_fmt_d _ h5, cstr_strncpy_field _ _ _ _ h6 (by omega), r7, r8,
    cstr_strncpy_field _ _ _ _ h9 (by omega)⟩

theorem get_order_item_by_id_fill_set {D : Type} (F : FloatOps D) (row : MYSQL_ROW)
    (junk : Nat → Nat) (g0 : OrderItem D) (a b c d e : CStr)
    (hfill : get_order_item_by_id_fill F row junk = some g0) :
    get_order_item_by_id_fill F
      (((((row.set 1 (some a)).set 2 (some b)).set 3 (some c)).set 4 (some d)).set 5
        (some e)) junk
      = some { g0 with
          order_id := atoi a
          product_id := atoi b
          quantity := atoi c
          unit_price := F.atof d
          total_price := F.atof e } := by
  unfold get_order_item_by_id_fill at hfill ⊢
  by_cases hok : row_ok 6 row = true
  · have hlen := row_ok_length _ _ hok
    simp only [hok, if_true, Option.some.injEq] at hfill
    rw [row_ok_set_iff _ 5 _ _ (by decide), row_ok_set_iff _ 4 _ _ (by decide),
      row_ok_set_iff _ 3 _ _ (by decide), row_ok_set_iff _ 2 _ _ (by decide),
      row_ok_set_iff _ 1 _ _ (by decide)]
    simp only [hok, if_true, Option.some.injEq]
    subst hfill
    have h1 : 1 < row.length := by omega
    have h2 : 2 < row.length := by omega
    have h3 : 3 < row.length := by omega
    have h4 : 4 < row.length := by omega
    have h5 : 5 < row.length := by omega
    simp [col_atoi, col_int, col_dbl, List.getElem?_set, h1, h2, h3, h4, h5]
  · simp [hok] at hfill

/-- An update of an order line followed by a lookup of its identifier. -/
theorem update_then_get_order_item {D : Type} (F : FloatOps D) (w : World ref_server)
    (i g0 : OrderItem D) (hv : i.valid F) (hk : is_int i.order_item_id)
    (hget : (get_order_item_by_id F w i.order_item_id).map Prod.fst = some (some g0))
    (_hupd : (update_order_item F w i).1 = true) :
    ∃ g, (get_order_item_by_id F (update_order_item F w i).2 i.order_item_id).map Prod.fst
        = some (some g) ∧
      g.order_item_id = i.order_item_id ∧ OrderItem.written_eq i g := by
  obtain ⟨h1, h2, h3, ⟨c4, e4, l4, r4⟩, ⟨c5, e5, l5, r5⟩⟩ := hv
  have hex : ref_exec w.db (update_order_item_query F i)
      = run_update TableName.order_items [1, 2, 3, 4, 5] 0
          [Val.int i.order_id, Val.int i.product_id, Val.int i.quantity, Val.dec c4,
           Val.dec c5, Val.int i.order_item_id] w.db := by
    unfold update_order_item_query
    rw [e4, e5]
    exact exec_update_order_item w.db _ _ _ _ _ _ h1 h2 h3 l4 l5 hk
  have hu : (ref_exec w.db (update_order_item_query F i)).2
      = w.db.set TableName.order_items ((w.db.get TableName.order_items).update
          (fun r => val_eq w.db.coll (cell r 0) (Val.int i.order_item_id))
          (set_cols [(1, Val.int i.order_id), (2, Val.int i.product_id),
            (3, Val.int i.quantity), (4, Val.dec c4), (5, Val.dec c5)])) := by
    rw [hex]
    simp [run_update]
  obtain ⟨r, hfill, hc0, hres⟩ := lookup_after_update (get_order_item_by_id_fill F) w
    (update_order_item_query F i) (get_order_item_by_id_query i.order_item_id)
    TableName.order_items _ i.order_item_id g0 hu
    (fun db => exec_get_order_item_by_id db _ hk) (by simp) hget
  have hset := get_order_item_by_id_fill_set F (show_row r) w.junk g0 (fmt_d i.order_id)
    (fmt_d i.product_id) (fmt_d i.quantity) (fmt_dec c4) (fmt_dec c5) hfill
  have hid : g0.order_item_id = i.order_item_id := by
    unfold get_order_item_by_id_fill at hfill
    by_cases hok : row_ok 6 (show_row r) = true
    · simp only [hok, if_true, Option.some.injEq] at hfill
      rw [← hfill]
      exact col_atoi_zero r _ hk hc0
    · simp [hok] at hfill
  unfold get_order_item_by_id update_order_item
  rw [hres]
  simp only [set_cols, List.foldl_cons, List.foldl_nil, show_row_set, Val.show, hset]
  refine ⟨_, rfl, hid, ?_⟩
  simp only [OrderItem.written_eq]
  exact ⟨atoi_fmt_d _ h1, atoi_fmt_d _ h2, atoi_fmt_d _ h3, r4, r5⟩

theorem get_cart_item_by_id_fill_set (row : MYSQL_ROW) (junk : Nat → Nat) (g0 : CartItem)
    (a b c : CStr) (hfill : get_cart_item_by_id_fill row junk = some g0) :
    get_cart_item_by_id_fill (((row.set 1 (some a)).set 2 (some b)).set 3 (some c)) junk
      = some { g0 with user_id := atoi a, product_id := atoi b, quantity := atoi c } := by
  unfold get_cart_item_by_id_fill at hfill ⊢
  by_cases hok : row_ok 5 row = true
  · have hlen := row_ok_length _ _ hok
    simp only [hok, if_true, Option.some.injEq] at hfill
    rw [row_ok_set_iff _ 3 _ _ (by decide), row_ok_set_iff _ 2 _ _ (by decide),
      row_ok_set_iff _ 1 _ _ (by decide)]
    simp only [hok, if_true, Option.some.injEq]
    subst hfill
    have h1 : 1 < row.length := by omega
    have h2 : 2 < row.length := by omega
    have h3 : 3 < row.length := by omega
    simp [col_atoi, col_int, col_str, List.getElem?_set, h1, h2, h3, fresh_cart_item]
  · simp [hok] at hfill

/-- An update of a cart line followed by a lookup of its identifier. -/
theorem update_then_get_cart_item (w : World ref_server) (c g0 : CartItem) (hv : c.valid)
    (hk : is_int c.cart_item_id)
    (hget : (get_cart_item_by_id w c.cart_item_id).map Prod.fst = some (some g0))
    (_hupd : (update_cart_item w c).1 = true) :
    ∃ g, (get_cart_item_by_id (update_cart_item w c).2 c.cart_item_id).map Prod.fst
        = some (some g) ∧
      g.cart_item_id = c.cart_item_id ∧ CartItem.written_eq c g ∧
      g.added_at = g0.added_at := by
  obtain ⟨h1, h2, h3⟩ := hv
  have hex : ref_exec w.db (update_cart_item_query c)
      = run_update TableName.cart_items [1, 2, 3] 0
          [Val.int c.user_id, Val.int c.product_id, Val.int c.quantity,
           Val.int c.cart_item_id] w.db :=
    exec_update_cart_item w.db _ _ _ _ h1 h2 h3 hk
  have hu : (ref_exec w.db (update_cart_item_query c)).2
      = w.db.set TableName.cart_items ((w.db.get TableName.cart_items).update
          (fun r => val_eq w.db.coll (cell r 0) (Val.int c.cart_item_id))
          (set_cols [(1, Val.int c.user_id), (2, Val.int c.product_id),
            (3, Val.int c.quantity)])) := by
    rw [hex]
    simp [run_update]
  obtain ⟨r, hfill, hc0, hres⟩ := lookup_after_update get_cart_item_by_id_fill w
    (update_cart_item_query c) (get_cart_item_by_id_query c.cart_item_id)
    TableName.cart_items _ c.cart_item_id g0 hu
    (fun db => exec_get_cart_item_by_id db _ hk) (by simp) hget
  have hset := get_cart_item_by_id_fill_set (show_row r) w.junk g0 (fmt_d c.user_id)
    (fmt_d c.product_id) (fmt_d c.quantity) hfill
  have hid : g0.cart_item_id = c.cart_item_id := by
    unfold get_cart_item_by_id_fill at hfill
    by_cases hok : row_ok 5 (show_row r) = true
    · simp only [hok, if_true, Option.some.injEq] at hfill
      rw [← hfill]
      exact col_atoi_zero r _ hk hc0
    · simp [hok] at hfill
  unfold get_cart_item_by_id update_cart_item
  rw [hres]
  simp only [set_cols, List.foldl_cons, List.foldl_nil, show_row_set, Val.show, hset]
  refine ⟨_, rfl, hid, ?_, rfl⟩
  simp only [CartItem.written_eq]
  exact ⟨atoi_fmt_d _ h1, atoi_fmt_d _ h2, atoi_fmt_d _ h3⟩

theorem calculate_cart_total_fst {D : Type} (F : FloatOps D) (w : World S) (u : Int) :
    (calculate_cart_total F w u).map Prod.fst
      = total_spec F (S.exec w.db (calculate_cart_total_query u)).1 := by
  obtain ⟨db, iid, err, pend, oracle, junk, nb, log⟩ := w
  unfold calculate_cart_total execute_select_query mysql_query total_spec
  simp only
  rcases h : S.exec db (calculate_cart_total_query u) with ⟨r, db1⟩
  cases r with
  | error msg => simp [fprintf_stderr]
  | ok id res =>
    cases res with
    | none => simp [mysql_store_result, fprintf_stderr]
    | some rows =>
      cases rows with
      | nil => simp [mysql_store_result, mysql_fetch_row]
      | cons row rest =>
        simp only [mysql_store_result, mysql_fetch_row]
        cases row with
        | nil => simp
        | cons x row => cases x <;> simp

theorem cart_rows_filter (db : DB) (u : Int) :
    db.cart_items.rows.filter (fun c => val_eq db.coll (cell c 1) (Val.int u))
      = cart_rows_of db u := by
  unfold cart_rows_of
  congr 1
  funext c
  rw [Bool.eq_iff_iff]
  simp [val_eq_int]

theorem cart_terms_eq (db : DB) (u : Int) :
    cart_terms db (Val.int u) = ((cart_rows_of db u).map (line_terms db)).flatten := by
  unfold cart_terms
  rw [cart_rows_filter]
  rfl

theorem flatten_map_eq_nil {α β : Type} (f : α → List β) (l : List α) :
    (l.map f).flatten = [] ↔ l.any (fun c => !(f c).isEmpty) = false := by
  induction l with
  | nil => simp
  | cons c l ih =>
    simp only [List.map_cons, List.flatten_cons, List.append_eq_nil, ih, List.any_cons,
      Bool.or_eq_false_iff, Bool.not_eq_false', List.isEmpty_iff]

theorem sum_flatten_map {α : Type} (f : α → List Int) (l : List α) :
    ((l.map f).flatten).sum = (l.map (fun c => (f c).sum)).sum := by
  induction l with
  | nil => rfl
  | cons c l ih => simp [List.sum_append, ih]

theorem line_total_single (db : DB) (c p : List Val) (q x : Int)
    (hq : cell c 3 = Val.int q) (hp : products_of db c = [p]) (hx : cell p 3 = Val.dec x) :
    line_total db c = q * x := by
  unfold line_total line_terms
  rw [hp]
  simp [hq, hx]

theorem has_line_of_wf (db : DB) (u : Int) (hwf : cart_wf db u = true)
    (hne : cart_rows_of db u ≠ []) : has_line db u = true := by
  unfold cart_wf at hwf
  unfold has_line
  cases hrows : cart_rows_of db u with
  | nil => exact absurd hrows hne
  | cons c l =>
    rw [hrows, List.all_cons, Bool.and_eq_true, Bool.and_eq_true] at hwf
    obtain ⟨⟨hq, hp⟩, _⟩ := hwf
    rw [List.any_cons, Bool.or_eq_true]
    left
    unfold line_terms
    cases hc3 : cell c 3 with
    | int q =>
      cases hps : products_of db c with
      | nil => rw [hps] at hp; simp at hp
      | cons p ps =>
        cases ps with
        | cons p2 ps => rw [hps] at hp; simp at hp
        | nil =>
          rw [hps] at hp
          simp only at hp
          cases hp3 : cell p 3 with
          | dec x => simp [hp3]
          | null => rw [hp3] at hp; simp at hp
          | int v => rw [hp3] at hp; simp at hp
          | text v => rw [hp3] at hp; simp at hp
    | null => rw [hc3] at hq; simp at hq
    | dec v => rw [hc3] at hq; simp at hq
    | text v => rw [hc3] at hq; simp at hq

/-- C5 (amended): on every state of the store, calculate_cart_total(u) is the sum, over the
cart rows of user u, of the quantity times the price of the product row the cart row
references, read by `atof` from the decimal text of the sum; a cart row that references no
product row adds nothing, and the total is 0.0 when no cart row of u references a product
row, in particular for a user with no cart rows.  Where every cart row of u references
exactly one product row, every cart row counts. -/
theorem cart_total_is_sum {D : Type} (F : FloatOps D) (w : World ref_server) (u : Int)
    (hu : is_int u) :
    (calculate_cart_total F w u).map Prod.fst
      = some (if has_line w.db u = true then F.atof (fmt_dec (cart_sum w.db u))
              else F.zero) ∧
    (cart_rows_of w.db u = [] → (calculate_cart_total F w u).map Prod.fst = some F.zero) ∧
    (∀ c, products_of w.db c = [] → line_total w.db c = 0) ∧
    (∀ c p q x, cell c 3 = Val.int q → products_of w.db c = [p] → cell p 3 = Val.dec x →
      line_total w.db c = q * x) ∧
    (cart_wf w.db u = true → cart_rows_of w.db u ≠ [] → has_line w.db u = true) := by
  have main : (calculate_cart_total F w u).map Prod.fst
      = some (if has_line w.db u = true then F.atof (fmt_dec (cart_sum w.db u))
              else F.zero) := by
    rw [calculate_cart_total_fst, ref_server_exec,
      show ref_exec w.db (calculate_cart_total_query u) = run_cart_total [Val.int u] w.db from
        exec_calculate_cart_total w.db u hu]
    have hsum : (cart_terms w.db (Val.int u)).sum = cart_sum w.db u := by
      rw [cart_terms_eq, sum_flatten_map]
      rfl
    by_cases hl : has_line w.db u = true
    · have hne : ¬ cart_terms w.db (Val.int u) = [] := by
        rw [cart_terms_eq, flatten_map_eq_nil]
        unfold has_line at hl
        rw [hl]
        simp
      simp only [run_cart_total, hne, if_false, hsum, total_spec, reply_rows, List.map_cons,
        List.map_nil, show_row, hl, if_true]
      simp [Val.show]
    · have hnil : cart_terms w.db (Val.int u) = [] := by
        rw [cart_terms_eq, flatten_map_eq_nil]
        unfold has_line at hl
        simpa using hl
      simp only [run_cart_total, hnil, if_true, total_spec, reply_rows, List.map_cons,
        List.map_nil, show_row, hl]
      simp [Val.show]
  refine ⟨main, fun hnil => ?_, fun c hc => ?_,
    fun c p q x hq hp hx => line_total_single w.db c p q x hq hp hx,
    fun hwf hne => has_line_of_wf w.db u hwf hne⟩
  · rw [main]
    simp [has_line, hnil]
  · unfold line_total line_terms
    rw [hc]
    rfl

theorem like_plain_cons (coll : Nat → Nat) (c : Nat) (p s : CStr)
    (h1 : c ≠ 37) (h2 : c ≠ 95) (h3 : c ≠ 92) :
    like_match coll (c :: p) s =
      (match s with
       | [] => false
       | x :: t => decide (coll x = coll c) && like_match coll p t) := by
  conv_lhs => unfold like_match
  split
  · rename_i h; cases h
  · rename_i h; simp only [List.cons.injEq] at h; exact absurd h.1 h1
  · rename_i h; simp only [List.cons.injEq] at h; exact absurd h.1 h2
  · rename_i h; simp only [List.cons.injEq] at h; exact absurd h.1 h3
  · rename_i h; simp only [List.cons.injEq] at h; obtain ⟨rfl, rfl⟩ := h; rfl

theorem like_percent (coll : Nat → Nat) (p s : CStr) :
    like_match coll (37 :: p) s = s.tails.any (fun t => like_match coll p t) := by
  conv_lhs => unfold like_match

theorem like_nil (coll : Nat → Nat) (s : CStr) : like_match coll [] s = s.isEmpty := by
  conv_lhs => unfold like_match

theorem like_plain_percent (coll : Nat → Nat) (t u : CStr) (ht : plain t) :
    like_match coll (t ++ [37]) u = true ↔ t.map coll <+: u.map coll := by
  induction t generalizing u with
  | nil =>
    simp only [List.nil_append, like_percent, List.map_nil, List.nil_prefix, iff_true,
      List.any_eq_true]
    exact ⟨[], by simp, by simp [like_nil]⟩
  | cons c t ih =>
    have hc := ht c (by simp)
    have ht2 : plain t := fun b hb => ht b (by simp [hb])
    rw [List.cons_append, like_plain_cons coll c _ u hc.2.2.1 hc.2.2.2 hc.2.1]
    cases u with
    | nil => simp
    | cons x u =>
      simp only [Bool.and_eq_true, decide_eq_true_eq, List.map_cons, ih u ht2]
      rw [List.cons_prefix_cons]
      constructor
      · rintro ⟨h1, h2⟩; exact ⟨h1.symm, h2⟩
      · rintro ⟨h1, h2⟩; exact ⟨h1.symm, h2⟩

theorem suffix_map_iff (coll : Nat → Nat) (s v : CStr) :
    v <:+ s.map coll ↔ ∃ u, u <:+ s ∧ u.map coll = v := by
  constructor
  · rintro ⟨a, ha⟩
    refine ⟨s.drop a.length, List.drop_suffix _ _, ?_⟩
    rw [List.map_drop, ← ha]
    simp
  · rintro ⟨u, hu, rfl⟩
    obtain ⟨a, rfl⟩ := hu
    exact ⟨a.map coll, by simp⟩

theorem like_contains (coll : Nat → Nat) (t s : CStr) (ht : plain t) :
    like_match coll (37 :: (t ++ [37])) s = true ↔ t.map coll <:+: s.map coll := by
  rw [like_percent, List.any_eq_true, List.infix_iff_prefix_suffix]
  constructor
  · rintro ⟨u, hu, hl⟩
    rw [List.mem_tails] at hu
    exact ⟨u.map coll, (like_plain_percent coll t u ht).mp hl,
      (suffix_map_iff coll s _).mpr ⟨u, hu, rfl⟩⟩
  · rintro ⟨v, hv, hs⟩
    obtain ⟨u, hu, rfl⟩ := (suffix_map_iff coll s v).mp hs
    exact ⟨u, (List.mem_tails _ _).mpr hu, (like_plain_percent coll t u ht).mpr hv⟩

theorem val_like_contains (coll : Nat → Nat) (t : CStr) (r : List Val) (ht : plain t) :
    val_like coll (cell r 1) (Val.text (37 :: (t ++ [37]))) = name_contains coll t r := by
  unfold val_like name_contains
  cases cell r 1 with
  | text x =>
    simp only
    rw [Bool.eq_iff_iff, like_contains coll t x ht]
    simp
  | null => rfl
  | int v => rfl
  | dec v => rfl

theorem plain_clean (t : CStr) (h : plain t) : clean (37 :: (t ++ [37])) := by
  intro b hb
  simp only [List.mem_cons, List.mem_append, List.mem_singleton, List.not_mem_nil,
    or_false] at hb
  rcases hb with rfl | hb | rfl
  · decide
  · exact ⟨(h b hb).1, (h b hb).2.1⟩
  · decide

theorem exec_search_products_by_name (db : DB) (t : CStr) (ht : plain t)
    (hl : t.length ≤ 440) :
    ref_exec db (search_products_by_name_query t)
      = run_search [Val.text (37 :: (t ++ [37]))] db := by
  have hlit : lit_len stmt_search_products_by_name.pieces = 69 := by decide
  have e1 : vformat
      (bytes "SELECT * FROM products WHERE product_name LIKE '%%%s%%' ORDER BY product_id")
      [Arg.s t]
      = bytes "SELECT * FROM products WHERE product_name LIKE '%"
          ++ (t ++ bytes "%' ORDER BY product_id") := rfl
  have e2 : render stmt_search_products_by_name.pieces [Val.text (37 :: (t ++ [37]))]
      = bytes "SELECT * FROM products WHERE product_name LIKE '%"
          ++ ((t ++ [37]) ++ bytes "' ORDER BY product_id") := rfl
  have e3 : bytes "%' ORDER BY product_id" = 37 :: bytes "' ORDER BY product_id" := by decide
  unfold search_products_by_name_query
  exact exec_stmt 15 stmt_search_products_by_name [Val.text (37 :: (t ++ [37]))] db 512 _ _ rfl
    (by decide) (by decide)
    (by simp [stmt_search_products_by_name, Entry.pieces, fits, lit, plain_clean t ht])
    (by rw [e1, e2, e3]; simp)
    (by rw [hlit]; simp only [List.map, val_len, List.sum_cons, List.sum_nil,
          List.length_cons, List.length_append, List.length_nil]; omega)

theorem malloc_ok (w : World S) (h : w.oracle = []) :
    malloc w = (some w.next_block, { w with next_block := w.next_block + 1,
                                            log := w.log ++ [Event.malloc w.next_block] }) := by
  obtain ⟨db, iid, err, pend, oracle, junk, nb, log⟩ := w
  simp only at h
  subst h
  rfl

theorem fetch_loop_ok {T : Type} (fill : MYSQL_ROW → (Nat → Nat) → Option T) (arr : Nat)
    (result : MYSQL_RES) (junk : Nat → Nat) :
    ∀ (rows : List MYSQL_ROW) (w : World S) (blks : List Nat) (acc : List T),
      w.oracle = [] → w.junk = junk → (∀ r ∈ rows, (fill r junk).isSome = true) →
      (fetch_loop fill arr result w rows blks acc).map Prod.fst
        = some (some (acc ++ rows.filterMap (fun r => fill r junk))) := by
  intro rows
  induction rows with
  | nil => intro w blks acc _ _ _; simp [fetch_loop]
  | cons r rows ih =>
    intro w blks acc ho hj hf
    subst hj
    have hr := hf r (by simp)
    obtain ⟨t, ht⟩ := Option.isSome_iff_exists.mp hr
    have h := ih { w with next_block := w.next_block + 1,
                          log := w.log ++ [Event.malloc w.next_block] }
      (blks ++ [w.next_block]) (acc ++ [t]) ho rfl (fun x hx => hf x (by simp [hx]))
    unfold fetch_loop
    rw [malloc_ok w ho]
    simp only [ht]
    refine h.trans ?_
    simp [List.filterMap_cons, ht]

/-- A multi-row fetch whose statement gives at least one row, with every allocation
succeeding and every row mapping defined, returns the records of the rows in order. -/
theorem fetch_all_ok {T : Type} (fill : MYSQL_ROW → (Nat → Nat) → Option T) (w : World S)
    (q : CStr) (id : Nat) (rows : List MYSQL_ROW) (db1 : S.State)
    (hex : S.exec w.db q = (Reply.ok id (some rows), db1)) (ho : w.oracle = [])
    (hf : ∀ r ∈ rows, (fill r w.junk).isSome = true) (hn : rows ≠ [])
    (hlen : rows.length ≤ 2147483647) :
    (fetch_all fill w q).map (fun o => (o.1, o.2.1))
      = some (some (rows.filterMap (fun r => fill r w.junk)), (rows.length : Int)) := by
  obtain ⟨db, iid, err, pend, oracle, junk, nb, log⟩ := w
  simp only at hex ho hf
  subst ho
  have hpos : 0 < rows.length := List.length_pos.mpr hn
  have hw : wrap32 (rows.length : Int) = rows.length := by unfold wrap32; omega
  unfold fetch_all execute_select_query mysql_query
  simp only [hex, mysql_store_result, mysql_num_rows, hw]
  have hne : ¬ ((rows.length : Int) = 0) := by omega
  simp only [ne_eq, not_true_eq_false, if_false, hne]
  rw [if_neg (by rw [hw]; exact hne)]
  have key : ∀ (arr : Nat) (res : MYSQL_RES) (w : World S), w.oracle = [] → w.junk = junk →
      (fetch_loop fill arr res w rows [] []).map Prod.fst
        = some (some (rows.filterMap (fun r => fill r junk))) := by
    intro arr res w h1 h2
    simpa using fetch_loop_ok fill arr res junk rows w [] [] h1 h2 hf
  rw [malloc_ok _ rfl]
  simp only
  split
  · rename_i hx
    have := congrArg (Option.map Prod.fst) hx
    rw [key _ _ _ rfl rfl] at this
    simp at this
  · rename_i w3 hx
    have := congrArg (Option.map Prod.fst) hx
    rw [key _ _ _ rfl rfl] at this
    simp at this
  · rename_i recs w3 hx
    have := congrArg (Option.map Prod.fst) hx
    rw [key _ _ _ rfl rfl] at this
    simp at this
    subst this
    simp [hw]

/-- C8: each of the ten multi-row fetches, when its statement succeeds with zero rows,
returns the null sequence and sets count to 0; it stores and releases the result set and
writes no diagnostic. -/
theorem multi_row_fetch_empty {D : Type} (F : FloatOps D) (w : World S)
    (category_id user_id order_id : Int) (status search_term : CStr) (min_price max_price : D) :
    (zero_rows w (bytes "SELECT * FROM users ORDER BY user_id") = true →
      returns_empty w (bytes "SELECT * FROM users ORDER BY user_id") (get_all_users w)) ∧
    (zero_rows w (bytes "SELECT * FROM products ORDER BY product_id") = true →
      returns_empty w (bytes "SELECT * FROM products ORDER BY product_id")
        (get_all_products F w)) ∧
    (zero_rows w (bytes "SELECT * FROM orders ORDER BY order_date DESC") = true →
      returns_empty w (bytes "SELECT * FROM orders ORDER BY order_date DESC")
        (get_all_orders F w)) ∧
    (zero_rows w (get_orders_by_user_query user_id) = true →
      returns_empty w (get_orders_by_user_query user_id) (get_orders_by_user F w user_id)) ∧
    (zero_rows w (get_orders_by_status_query status) = true →
      returns_empty w (get_orders_by_status_query status)
        (get_orders_by_status F w status)) ∧
    (zero_rows w (get_order_items_by_order_query order_id) = true →
      returns_empty w (get_order_items_by_order_query order_id)
        (get_order_items_by_order F w order_id)) ∧
    (zero_rows w (get_cart_items_by_user_query user_id) = true →
      returns_empty w (get_cart_items_by_user_query user_id)
        (get_cart_items_by_user w user_id)) ∧
    (zero_rows w (get_products_by_category_query category_id) = true →
      returns_empty w (get_products_by_category_query category_id)
        (get_products_by_category F w category_id)) ∧
    (zero_rows w (get_products_by_price_range_query F min_price max_price) = true →
      returns_empty w (get_products_by_price_range_query F min_price max_price)
        (get_products_by_price_range F w min_price max_price)) ∧
    (zero_rows w (search_products_by_name_query search_term) = true →
      returns_empty w (search_products_by_name_query search_term)
        (search_products_by_name F w search_term)) :=
  ⟨fetch_all_empty _ w _, fetch_all_empty _ w _, fetch_all_empty _ w _, fetch_all_empty _ w _,
   fetch_all_empty _ w _, fetch_all_empty _ w _, fetch_all_empty _ w _, fetch_all_empty _ w _,
   fetch_all_empty _ w _, fetch_all_empty _ w _⟩

/-- C9 (as stated) fails: the store reports the identifier 4294967295 for a successful
insert, and `create_user` returns -1 although executing the statement did not fail. -/
theorem create_minus_one_without_failure :
    (execute_query (boot (S := stub_server (Reply.ok 4294967295 none)) () [])
        (create_user_query sample_user)).1 = true ∧
    (create_user (boot (S := stub_server (Reply.ok 4294967295 none)) () []) sample_user).1
      = -1 := by
  decide

/-- C9 (amended): each create operation returns -1 when executing its insert statement
fails, and otherwise the identifier the store reports, converted to `int`; the conversion
keeps every identifier below 2^31, so that for these the result is the identifier and is
not -1. -/
theorem create_result {D : Type} (F : FloatOps D) (w : World S) (user : User)
    (product : Product D) (order : Order D) (item : OrderItem D) (cart : CartItem) :
    (create_user w user).1 = create_spec (S.exec w.db (create_user_query user)).1 ∧
    (create_product F w product).1
      = create_spec (S.exec w.db (create_product_query F product)).1 ∧
    (create_order F w order).1 = create_spec (S.exec w.db (create_order_query F order)).1 ∧
    (create_order_item F w item).1
      = create_spec (S.exec w.db (create_order_item_query F item)).1 ∧
    (add_to_cart w cart).1 = create_spec (S.exec w.db (add_to_cart_query cart)).1 ∧
    (∀ (id : Nat) (res : Option (List MYSQL_ROW)), id < 2147483648 →
      create_spec (Reply.ok id res) = id ∧ create_spec (Reply.ok id res) ≠ -1) := by
  refine ⟨create_fst w _, create_fst w _, create_fst w _, create_fst w _, create_fst w _, ?_⟩
  intro id res h
  simp only [create_spec, wrap32]
  omega

/-- Witness of C9 (amended): the identifier 42. -/
theorem create_result_witness :
    (42 : Nat) < 2147483648 ∧ create_spec (Reply.ok 42 none) = (42 : Nat) ∧
      create_spec (Reply.ok 42 none) ≠ -1 :=
  ⟨by decide,
   (create_result fixed_point (boot (S := ref_server) empty_db []) sample_user sample_product
      sample_order sample_order_item sample_cart_item).2.2.2.2.2 42 none (by decide)⟩

/-- C10 (as stated) fails: the statement succeeds and one row matches the identifier 1, yet
`get_user_by_id` returns absent, because `malloc` returned `NULL`. -/
theorem lookup_absent_on_alloc_failure :
    one_row (boot (S := ref_server) one_user_db [false]) (get_user_by_id_query 1) = true ∧
    (get_user_by_id (boot (S := ref_server) one_user_db [false]) 1).map Prod.fst
      = some none := by
  decide

/-- C10 (amended): each get_by_id operation returns absent when its statement fails, when
the result set cannot be stored, when no row matches, and when the record cannot be
allocated; otherwise it returns the record its row mapping makes of the first row of the
result set. -/
theorem lookup_result {D : Type} (F : FloatOps D) (w : World S) (k : Int) :
    (get_user_by_id w k).map Prod.fst
      = lookup_spec get_user_by_id_fill w.junk (S.exec w.db (get_user_by_id_query k)).1
          (alloc_ok w) ∧
    (get_product_by_id F w k).map Prod.fst
      = lookup_spec (get_product_by_id_fill F) w.junk
          (S.exec w.db (get_product_by_id_query k)).1 (alloc_ok w) ∧
    (get_order_by_id F w k).map Prod.fst
      = lookup_spec (get_order_by_id_fill F) w.junk
          (S.exec w.db (get_order_by_id_query k)).1 (alloc_ok w) ∧
    (get_order_item_by_id F w k).map Prod.fst
      = lookup_spec (get_order_item_by_id_fill F) w.junk
          (S.exec w.db (get_order_item_by_id_query k)).1 (alloc_ok w) ∧
    (get_cart_item_by_id w k).map Prod.fst
      = lookup_spec get_cart_item_by_id_fill w.junk
          (S.exec w.db (get_cart_item_by_id_query k)).1 (alloc_ok w) :=
  ⟨fetch_one_fst _ w _, fetch_one_fst _ w _, fetch_one_fst _ w _, fetch_one_fst _ w _,
   fetch_one_fst _ w _⟩

theorem mem_order_rows (ord : Option (Nat × Bool)) (rows : List (List Val)) (r : List Val) :
    r ∈ order_rows ord rows ↔ r ∈ rows := by
  unfold order_rows
  split
  · rfl
  · exact (List.perm_insertionSort _ _).mem_iff
  · exact (List.perm_insertionSort _ _).mem_iff

theorem order_rows_length (ord : Option (Nat × Bool)) (rows : List (List Val)) :
    (order_rows ord rows).length = rows.length := by
  unfold order_rows
  split
  · rfl
  · exact List.length_insertionSort _ _
  · exact List.length_insertionSort _ _

theorem filterMap_map_some {α β : Type} (f : α → Option β) :
    ∀ (l : List α), (∀ x ∈ l, (f x).isSome = true) → (l.filterMap f).map some = l.map f
  | [], _ => rfl
  | r :: rows, h => by
    obtain ⟨x, hx⟩ := Option.isSome_iff_exists.mp (h r (by simp))
    rw [List.filterMap_cons, hx]
    simp only [List.map_cons, hx]
    rw [filterMap_map_some f rows (fun y hy => h y (by simp [hy]))]

theorem search_reply (db : DB) (t : CStr) (ht : plain t) (hl : t.length ≤ 440) :
    ref_exec db (search_products_by_name_query t)
      = (Reply.ok 0 (some ((search_rows db t).map show_row)), db) := by
  rw [exec_search_products_by_name db t ht hl]
  have : (fun r => val_like db.coll (cell r 1) (Val.text (37 :: (t ++ [37]))))
      = name_contains db.coll t := funext (fun r => val_like_contains db.coll t r ht)
  simp only [run_search, reply_rows, search_rows, this]

/-- C6 (as stated) fails: the store holds one product, named Widget; the name does not
contain the search term "%", and `search_products_by_name` returns the product. -/
theorem search_percent_matches_all :
    widget_db.products.rows.filter (name_contains widget_db.coll (bytes "%")) = [] ∧
    (search_products_by_name fixed_point (boot (S := ref_server) widget_db []) (bytes "%")).map
        (fun o => o.1.map (fun l => l.map (fun p => cstr p.product_name)))
      = some (some [bytes "Widget"]) := by
  decide

/-- C6 (amended): for a search term without quote, backslash, percent sign and underscore,
of at most 440 bytes, with every allocation succeeding and every product row complete,
`search_products_by_name` returns the records of exactly the product rows whose
product_name contains the term (bytes compared under the collation of the store), in the
order of product_id, with their number as count, and the null sequence with count 0 when
there is none. -/
theorem search_matches_substring {D : Type} (F : FloatOps D) (w : World ref_server) (t : CStr)
    (ht : plain t) (hl : t.length ≤ 440) (ho : w.oracle = [])
    (hrows : ∀ r ∈ w.db.products.rows, row_ok 12 (show_row r) = true)
    (hcount : w.db.products.rows.length ≤ 2147483647) :
    (search_products_by_name F w t).map (fun o => (o.1, o.2.1))
      = some (if search_rows w.db t = [] then (none, 0)
              else (some ((search_rows w.db t).filterMap
                      (fun r => search_products_by_name_fill F (show_row r) w.junk)),
                    ((search_rows w.db t).length : Int))) ∧
    ((search_rows w.db t).filterMap
        (fun r => search_products_by_name_fill F (show_row r) w.junk)).map some
      = (search_rows w.db t).map
          (fun r => search_products_by_name_fill F (show_row r) w.junk) ∧
    (∀ r, r ∈ search_rows w.db t ↔
      r ∈ w.db.products.rows ∧ name_contains w.db.coll t r = true) := by
  have hmem : ∀ r, r ∈ search_rows w.db t ↔
      r ∈ w.db.products.rows ∧ name_contains w.db.coll t r = true := by
    intro r
    unfold search_rows
    rw [mem_order_rows, List.mem_filter]
  have hsome : ∀ r ∈ search_rows w.db t,
      (search_products_by_name_fill F (show_row r) w.junk).isSome = true := by
    intro r hr
    have := hrows r ((hmem r).mp hr).1
    simp [search_products_by_name_fill, this]
  refine ⟨?_, ?_, hmem⟩
  · have hex := search_reply w.db t ht hl
    unfold search_products_by_name
    by_cases he : search_rows w.db t = []
    · rw [if_pos he]
      have hz : zero_rows w (search_products_by_name_query t) = true := by
        unfold zero_rows
        rw [ref_server_exec, hex, he]
        rfl
      obtain ⟨w1, h1, _⟩ := fetch_all_empty (search_products_by_name_fill F) w _ hz
      rw [h1]
      rfl
    · rw [if_neg he]
      have hlen : (search_rows w.db t).length ≤ 2147483647 := by
        unfold search_rows
        rw [order_rows_length]
        exact le_trans (List.length_filter_le _ _) hcount
      have := fetch_all_ok (search_products_by_name_fill F) w
        (search_products_by_name_query t) 0 ((search_rows w.db t).map show_row) w.db
        (by rw [ref_server_exec, hex]) ho
        (by
          intro r hr
          obtain ⟨x, hx, rfl⟩ := List.mem_map.mp hr
          exact hsome x hx)
        (by simpa using he)
        (by simpa using hlen)
      rw [this]
      simp [List.filterMap_map, Function.comp_def]
  · exact filterMap_map_some _ _ hsome

/-- Witness of C6 (amended): the search term "idg" on the store that holds the product
Widget. -/
theorem search_matches_substring_witness :
    plain (bytes "idg") ∧ (bytes "idg").length ≤ 440 ∧
    (search_products_by_name fixed_point (boot (S := ref_server) widget_db []) (bytes "idg")).map
        (fun o => (o.1, o.2.1))
      = some (if search_rows widget_db (bytes "idg") = [] then (none, 0)
              else (some ((search_rows widget_db (bytes "idg")).filterMap
                      (fun r => search_products_by_name_fill fixed_point (show_row r)
                        (fun _ => 170))),
                    ((search_rows widget_db (bytes "idg")).length : Int))) :=
  ⟨by decide, by decide,
   (search_matches_substring fixed_point (boot (S := ref_server) widget_db []) (bytes "idg")
      (by decide) (by decide) rfl (by decide) (by decide)).1⟩

/-- C1 (as stated) fails: the sample user is valid and has created_at "2020-01-01 00:00:00";
`create_user` builds the same statement for it as for the record with an empty created_at,
it returns the identifier 1, and `get_user_by_id` of 1 returns a record whose created_at is
the empty string. -/
theorem create_drops_created_at :
    cstr sample_user.created_at = bytes "2020-01-01 00:00:00" ∧
    create_user_query sample_user
      = create_user_query { sample_user with created_at := buf 20 "" } ∧
    (create_user (boot (S := ref_server) empty_db []) sample_user).1 = 1 ∧
    (get_user_by_id (create_user (boot (S := ref_server) empty_db []) sample_user).2 1).map
        (fun r => r.1.map (fun u => cstr u.created_at)) = some (some []) := by
  decide

/-- C1 (amended): for every record whose text fields are clean strings that leave two bytes
of their capacity free, whose integers are `int` values and whose amounts are kept by `%.2f`,
on every store whose next identifier is at most 2147483647 and with the allocation
succeeding, create returns the identifier the store assigns and get_by_id of that identifier
returns a record that has this identifier and equals the input on every field the insert
statement writes (every field but the identifier, created_at, updated_at and order_date). -/
theorem create_then_get {D : Type} (F : FloatOps D) (w : World ref_server) (u : User)
    (p : Product D) (o : Order D) (i : OrderItem D) (ha : alloc_ok w = true) :
    (u.valid → w.db.users.next_id ≤ 2147483647 →
      (create_user w u).1 = w.db.users.next_id ∧
      ∃ g, (get_user_by_id (create_user w u).2 (create_user w u).1).map Prod.fst
          = some (some g) ∧
        g.user_id = (create_user w u).1 ∧ User.written_eq u g) ∧
    (p.valid F → w.db.products.next_id ≤ 2147483647 →
      (create_product F w p).1 = w.db.products.next_id ∧
      ∃ g, (get_product_by_id F (create_product F w p).2 (create_product F w p).1).map Prod.fst
          = some (some g) ∧
        g.product_id = (create_product F w p).1 ∧ Product.written_eq p g) ∧
    (o.valid F → w.db.orders.next_id ≤ 2147483647 →
      (create_order F w o).1 = w.db.orders.next_id ∧
      ∃ g, (get_order_by_id F (create_order F w o).2 (create_order F w o).1).map Prod.fst
          = some (some g) ∧
        g.order_id = (create_order F w o).1 ∧ Order.written_eq o g) ∧
    (i.valid F → w.db.order_items.next_id ≤ 2147483647 →
      (create_order_item F w i).1 = w.db.order_items.next_id ∧
      ∃ g, (get_order_item_by_id F (create_order_item F w i).2
            (create_order_item F w i).1).map Prod.fst = some (some g) ∧
        g.order_item_id = (create_order_item F w i).1 ∧ OrderItem.written_eq i g) :=
  ⟨fun hv hid => create_then_get_user w u hv hid ha,
   fun hv hid => create_then_get_product F w p hv hid ha,
   fun hv hid => create_then_get_order F w o hv hid ha,
   fun hv hid => create_then_get_order_item F w i hv hid ha⟩

theorem sample_user_valid : sample_user.valid := by
  unfold User.valid; decide

theorem dec_ok_fixed (c : Int) (h : (fmt_dec c).length ≤ 20) (h2 : scan_dec (fmt_dec c) = some (c, [])) :
    dec_ok fixed_point c :=
  ⟨c, rfl, h, by simp [fixed_point, h2]⟩

theorem sample_product_valid : sample_product.valid fixed_point := by
  unfold Product.valid
  exact ⟨by decide, by decide, dec_ok_fixed 999 (by decide) (by decide), by decide, by decide,
    by decide, dec_ok_fixed 250 (by decide) (by decide), by decide⟩

theorem sample_order_valid : sample_order.valid fixed_point := by
  unfold Order.valid
  exact ⟨by decide, by decide, dec_ok_fixed 1998 (by decide) (by decide), by decide, by decide,
    by decide, dec_ok_fixed 500 (by decide) (by decide),
    dec_ok_fixed 160 (by decide) (by decide), by decide⟩

theorem sample_order_item_valid : sample_order_item.valid fixed_point := by
  unfold OrderItem.valid
  exact ⟨by decide, by decide, by decide, dec_ok_fixed 999 (by decide) (by decide),
    dec_ok_fixed 1998 (by decide) (by decide)⟩

/-- Witness of C1 (amended): the four sample records on the store without rows. -/
theorem create_then_get_witness :
    alloc_ok (boot (S := ref_server) empty_db []) = true ∧
    (sample_user.valid ∧ empty_db.users.next_id ≤ 2147483647 ∧
      (create_user (boot (S := ref_server) empty_db []) sample_user).1
        = empty_db.users.next_id ∧
      ∃ g, (get_user_by_id (create_user (boot (S := ref_server) empty_db []) sample_user).2
            (create_user (boot (S := ref_server) empty_db []) sample_user).1).map Prod.fst
          = some (some g) ∧
        g.user_id = (create_user (boot (S := ref_server) empty_db []) sample_user).1 ∧
        User.written_eq sample_user g) ∧
    (sample_product.valid fixed_point ∧ empty_db.products.next_id ≤ 2147483647 ∧
      (create_product fixed_point (boot (S := ref_server) empty_db []) sample_product).1
        = empty_db.products.next_id ∧
      ∃ g, (get_product_by_id fixed_point
            (create_product fixed_point (boot (S := ref_server) empty_db []) sample_product).2
            (create_product fixed_point (boot (S := ref_server) empty_db [])
              sample_product).1).map Prod.fst = some (some g) ∧
        g.product_id
          = (create_product fixed_point (boot (S := ref_server) empty_db [])
              sample_product).1 ∧
        Product.written_eq sample_product g) ∧
    (sample_order.valid fixed_point ∧ empty_db.orders.next_id ≤ 2147483647 ∧
      (create_order fixed_point (boot (S := ref_server) empty_db []) sample_order).1
        = empty_db.orders.next_id ∧
      ∃ g, (get_order_by_id fixed_point
            (create_order fixed_point (boot (S := ref_server) empty_db []) sample_order).2
            (create_order fixed_point (boot (S := ref_server) empty_db [])
              sample_order).1).map Prod.fst = some (some g) ∧
        g.order_id
          = (create_order fixed_point (boot (S := ref_server) empty_db []) sample_order).1 ∧
        Order.written_eq sample_order g) ∧
    (sample_order_item.valid fixed_point ∧ empty_db.order_items.next_id ≤ 2147483647 ∧
      (create_order_item fixed_point (boot (S := ref_server) empty_db [])
          sample_order_item).1 = empty_db.order_items.next_id ∧
      ∃ g, (get_order_item_by_id fixed_point
            (create_order_item fixed_point (boot (S := ref_server) empty_db [])
              sample_order_item).2
            (create_order_item fixed_point (boot (S := ref_server) empty_db [])
              sample_order_item).1).map Prod.fst = some (some g) ∧
        g.order_item_id
          = (create_order_item fixed_point (boot (S := ref_server) empty_db [])
              sample_order_item).1 ∧
        OrderItem.written_eq sample_order_item g) :=
  ⟨rfl,
   ⟨sample_user_valid, by decide,
    (create_then_get fixed_point (boot (S := ref_server) empty_db []) sample_user
      sample_product sample_order sample_order_item rfl).1 sample_user_valid (by decide)⟩,
   ⟨sample_product_valid, by decide,
    (create_then_get fixed_point (boot (S := ref_server) empty_db []) sample_user
      sample_product sample_order sample_order_item rfl).2.1 sample_product_valid
      (by decide)⟩,
   ⟨sample_order_valid, by decide,
    (create_then_get fixed_point (boot (S := ref_server) empty_db []) sample_user
      sample_product sample_order sample_order_item rfl).2.2.1 sample_order_valid
      (by decide)⟩,
   ⟨sample_order_item_valid, by decide,
    (create_then_get fixed_point (boot (S := ref_server) empty_db []) sample_user
      sample_product sample_order sample_order_item rfl).2.2.2 sample_order_item_valid
      (by decide)⟩⟩

/-- C2 (as stated) fails: the store holds user 1, whose created_at reads as the empty string;
`update_user` of a record with identifier 1 and created_at "2021-01-01 00:00:00" returns
true, and `get_user_by_id` of 1 still returns the empty created_at: the field the record
changed does not have the value of the record. -/
theorem update_drops_created_at :
    (get_user_by_id (boot (S := ref_server) one_user_db []) 1).map
        (fun r => r.1.map (fun u => cstr u.created_at)) = some (some []) ∧
    (update_user (boot (S := ref_server) one_user_db [])
        { sample_user with user_id := 1, created_at := buf 20 "2021-01-01 00:00:00" }).1
      = true ∧
    (get_user_by_id
        (update_user (boot (S := ref_server) one_user_db [])
          { sample_user with user_id := 1, created_at := buf 20 "2021-01-01 00:00:00" }).2
        1).map (fun r => r.1.map (fun u => cstr u.created_at)) = some (some []) := by
  decide

/-- C2 (amended): on a store where get_by_id(k) returns a record, for every record r with
identifier k whose text fields are clean strings that leave two bytes of their capacity
free, whose integers are `int` values and whose amounts are kept by `%.2f`, after update(r)
has returned true get_by_id(k) returns a record that has r's value in every field the update
statement writes, and the value from before the update in every other field (created_at,
updated_at, order_date, added_at). -/
theorem update_then_get {D : Type} (F : FloatOps D) (w : World ref_server) :
    (∀ u g0 : User, u.valid → is_int u.user_id →
      (get_user_by_id w u.user_id).map Prod.fst = some (some g0) →
      (update_user w u).1 = true →
      ∃ g, (get_user_by_id (update_user w u).2 u.user_id).map Prod.fst = some (some g) ∧
        g.user_id = u.user_id ∧ User.written_eq u g ∧
        g.created_at = g0.created_at ∧ g.updated_at = g0.updated_at) ∧
    (∀ p g0 : Product D, p.valid F → is_int p.product_id →
      (get_product_by_id F w p.product_id).map Prod.fst = some (some g0) →
      (update_product F w p).1 = true →
      ∃ g, (get_product_by_id F (update_product F w p).2 p.product_id).map Prod.fst
          = some (some g) ∧
        g.product_id = p.product_id ∧ Product.written_eq p g ∧
        g.created_at = g0.created_at ∧ g.updated_at = g0.updated_at) ∧
    (∀ o g0 : Order D, o.valid F → is_int o.order_id →
      (get_order_by_id F w o.order_id).map Prod.fst = some (some g0) →
      (update_order F w o).1 = true →
      ∃ g, (get_order_by_id F (update_order F w o).2 o.order_id).map Prod.fst
          = some (some g) ∧
        g.order_id = o.order_id ∧ Order.written_eq o g ∧ g.order_date = g0.order_date) ∧
    (∀ i g0 : OrderItem D, i.valid F → is_int i.order_item_id →
      (get_order_item_by_id F w i.order_item_id).map Prod.fst = some (some g0) →
      (update_order_item F w i).1 = true →
      ∃ g, (get_order_item_by_id F (update_order_item F w i).2 i.order_item_id).map Prod.fst
          = some (some g) ∧
        g.order_item_id = i.order_item_id ∧ OrderItem.written_eq i g) ∧
    (∀ c g0 : CartItem, c.valid → is_int c.cart_item_id →
      (get_cart_item_by_id w c.cart_item_id).map Prod.fst = some (some g0) →
      (update_cart_item w c).1 = true →
      ∃ g, (get_cart_item_by_id (update_cart_item w c).2 c.cart_item_id).map Prod.fst
          = some (some g) ∧
        g.cart_item_id = c.cart_item_id ∧ CartItem.written_eq c g ∧
        g.added_at = g0.added_at) :=
  ⟨fun u g0 hv hk hget hupd => update_then_get_user w u g0 hv hk hget hupd,
   fun p g0 hv hk hget hupd => update_then_get_product F w p g0 hv hk hget hupd,
   fun o g0 hv hk hget hupd => update_then_get_order F w o g0 hv hk hget hupd,
   fun i g0 hv hk hget hupd => update_then_get_order_item F w i g0 hv hk hget hupd,
   fun c g0 hv hk hget hupd => update_then_get_cart_item w c g0 hv hk hget hupd⟩

theorem bob_valid :
    User.valid { sample_user with user_id := 1, username := buf 51 "bob" } := by
  unfold User.valid; decide

theorem gadget_valid :
    Product.valid fixed_point
      { sample_product with product_id := 42, product_name := buf 201 "Gadget" } := by
  unfold Product.valid
  exact ⟨by decide, by decide, dec_ok_fixed 999 (by decide) (by decide), by decide, by decide,
    by decide, dec_ok_fixed 250 (by decide) (by decide), by decide⟩

theorem shipped_valid :
    Order.valid fixed_point
      { sample_order with order_id := 1, status := buf 20 "shipped" } := by
  unfold Order.valid
  exact ⟨by decide, by decide, dec_ok_fixed 1998 (by decide) (by decide), by decide, by decide,
    by decide, dec_ok_fixed 500 (by decide) (by decide),
    dec_ok_fixed 160 (by decide) (by decide), by decide⟩

theorem three_pieces_valid :
    OrderItem.valid fixed_point
      { sample_order_item with order_item_id := 1, quantity := 3, total_price := 2997 } := by
  unfold OrderItem.valid
  exact ⟨by decide, by decide, by decide, dec_ok_fixed 999 (by decide) (by decide),
    dec_ok_fixed 2997 (by decide) (by decide)⟩

theorem seven_pieces_valid :
    CartItem.valid { sample_cart_item with cart_item_id := 1, quantity := 7 } := by
  unfold CartItem.valid; decide

/-- Witness of C2 (amended): on the stores that hold one sample record, the update of user 1
to the username "bob", of product 42 to the name "Gadget", of order 1 to the status
"shipped", of order line 1 to 3 pieces and of cart line 1 to 7 pieces. -/
theorem update_then_get_witness :
    (∃ g0, (get_user_by_id (boot (S := ref_server) one_user_db []) 1).map Prod.fst
        = some (some g0) ∧
      (update_user (boot (S := ref_server) one_user_db [])
        { sample_user with user_id := 1, username := buf 51 "bob" }).1 = true ∧
      ∃ g, (get_user_by_id
            (update_user (boot (S := ref_server) one_user_db [])
              { sample_user with user_id := 1, username := buf 51 "bob" }).2 1).map Prod.fst
          = some (some g) ∧
        g.user_id = 1 ∧
        User.written_eq { sample_user with user_id := 1, username := buf 51 "bob" } g ∧
        g.created_at = g0.created_at ∧ g.updated_at = g0.updated_at) ∧
    (∃ g0, (get_product_by_id fixed_point (boot (S := ref_server) widget_db []) 42).map
          Prod.fst = some (some g0) ∧
      (update_product fixed_point (boot (S := ref_server) widget_db [])
        { sample_product with product_id := 42, product_name := buf 201 "Gadget" }).1
        = true ∧
      ∃ g, (get_product_by_id fixed_point
            (update_product fixed_point (boot (S := ref_server) widget_db [])
              { sample_product with product_id := 42, product_name := buf 201 "Gadget" }).2
            42).map Prod.fst = some (some g) ∧
        g.product_id = 42 ∧
        Product.written_eq
          { sample_product with product_id := 42, product_name := buf 201 "Gadget" } g ∧
        g.created_at = g0.created_at ∧ g.updated_at = g0.updated_at) ∧
    (∃ g0, (get_order_by_id fixed_point (boot (S := ref_server) one_order_db []) 1).map
          Prod.fst = some (some g0) ∧
      (update_order fixed_point (boot (S := ref_server) one_order_db [])
        { sample_order with order_id := 1, status := buf 20 "shipped" }).1 = true ∧
      ∃ g, (get_order_by_id fixed_point
            (update_order fixed_point (boot (S := ref_server) one_order_db [])
              { sample_order with order_id := 1, status := buf 20 "shipped" }).2
            1).map Prod.fst = some (some g) ∧
        g.order_id = 1 ∧
        Order.written_eq { sample_order with order_id := 1, status := buf 20 "shipped" } g ∧
        g.order_date = g0.order_date) ∧
    (∃ g0, (get_order_item_by_id fixed_point (boot (S := ref_server) one_item_db []) 1).map
          Prod.fst = some (some g0) ∧
      (update_order_item fixed_point (boot (S := ref_server) one_item_db [])
        { sample_order_item with order_item_id := 1, quantity := 3, total_price := 2997 }).1
        = true ∧
      ∃ g, (get_order_item_by_id fixed_point
            (update_order_item fixed_point (boot (S := ref_server) one_item_db [])
              { sample_order_item with
                order_item_id := 1, quantity := 3, total_price := 2997 }).2
            1).map Prod.fst = some (some g) ∧
        g.order_item_id = 1 ∧
        OrderItem.written_eq
          { sample_order_item with order_item_id := 1, quantity := 3, total_price := 2997 }
          g) ∧
    (∃ g0, (get_cart_item_by_id (boot (S := ref_server) one_cart_db []) 1).map Prod.fst
        = some (some g0) ∧
      (update_cart_item (boot (S := ref_server) one_cart_db [])
        { sample_cart_item with cart_item_id := 1, quantity := 7 }).1 = true ∧
      ∃ g, (get_cart_item_by_id
            (update_cart_item (boot (S := ref_server) one_cart_db [])
              { sample_cart_item with cart_item_id := 1, quantity := 7 }).2 1).map Prod.fst
          = some (some g) ∧
        g.cart_item_id = 1 ∧
        CartItem.written_eq { sample_cart_item with cart_item_id := 1, quantity := 7 } g ∧
        g.added_at = g0.added_at) :=
  ⟨⟨_, rfl, rfl,
    (update_then_get fixed_point (boot (S := ref_server) one_user_db [])).1
      { sample_user with user_id := 1, username := buf 51 "bob" } _ bob_valid (by decide)
      rfl rfl⟩,
   ⟨_, rfl, rfl,
    (update_then_get fixed_point (boot (S := ref_server) widget_db [])).2.1
      { sample_product with product_id := 42, product_name := buf 201 "Gadget" } _
      gadget_valid (by decide) rfl rfl⟩,
   ⟨_, rfl, rfl,
    (update_then_get fixed_point (boot (S := ref_server) one_order_db [])).2.2.1
      { sample_order with order_id := 1, status := buf 20 "shipped" } _
      shipped_valid (by decide) rfl rfl⟩,
   ⟨_, rfl, rfl,
    (update_then_get fixed_point (boot (S := ref_server) one_item_db [])).2.2.2.1
      { sample_order_item with order_item_id := 1, quantity := 3, total_price := 2997 } _
      three_pieces_valid (by decide) rfl rfl⟩,
   ⟨_, rfl, rfl,
    (update_then_get fixed_point (boot (S := ref_server) one_cart_db [])).2.2.2.2
      { sample_cart_item with cart_item_id := 1, quantity := 7 } _
      seven_pieces_valid (by decide) rfl rfl⟩⟩

/-- Witness of C3: in each module the one sample record of the store is deleted and looked
up. -/
theorem delete_then_get_absent_witness :
    is_int 1 ∧ is_int 42 ∧
    ((delete_user (boot (S := ref_server) one_user_db []) 1).1 = true ∧
      (get_user_by_id (delete_user (boot (S := ref_server) one_user_db []) 1).2 1).map
        Prod.fst = some none) ∧
    ((delete_product (boot (S := ref_server) widget_db []) 42).1 = true ∧
      (get_product_by_id fixed_point
        (delete_product (boot (S := ref_server) widget_db []) 42).2 42).map Prod.fst
        = some none) ∧
    ((delete_order (boot (S := ref_server) one_order_db []) 1).1 = true ∧
      (get_order_by_id fixed_point
        (delete_order (boot (S := ref_server) one_order_db []) 1).2 1).map Prod.fst
        = some none) ∧
    ((delete_order_item (boot (S := ref_server) one_item_db []) 1).1 = true ∧
      (get_order_item_by_id fixed_point
        (delete_order_item (boot (S := ref_server) one_item_db []) 1).2 1).map Prod.fst
        = some none) ∧
    ((remove_from_cart (boot (S := ref_server) one_cart_db []) 1).1 = true ∧
      (get_cart_item_by_id
        (remove_from_cart (boot (S := ref_server) one_cart_db []) 1).2 1).map Prod.fst
        = some none) :=
  ⟨by decide, by decide,
   ⟨rfl, (delete_then_get_absent fixed_point (boot (S := ref_server) one_user_db []) 1
      (by decide)).1 rfl⟩,
   ⟨rfl, (delete_then_get_absent fixed_point (boot (S := ref_server) widget_db []) 42
      (by decide)).2.1 rfl⟩,
   ⟨rfl, (delete_then_get_absent fixed_point (boot (S := ref_server) one_order_db []) 1
      (by decide)).2.2.1 rfl⟩,
   ⟨rfl, (delete_then_get_absent fixed_point (boot (S := ref_server) one_item_db []) 1
      (by decide)).2.2.2.1 rfl⟩,
   ⟨rfl, (delete_then_get_absent fixed_point (boot (S := ref_server) one_cart_db []) 1
      (by decide)).2.2.2.2 rfl⟩⟩

/-- Witness of C5: user 1 has cart lines of 2 and of 3 pieces of the product priced 9.99: the
total is 49.95; user 2 has no cart line: the total is 0; and on the store where the product
of the second cart line of user 1 was deleted the total is that of the first line, 19.98. -/
theorem cart_total_is_sum_witness :
    is_int 1 ∧ is_int 2 ∧
    (calculate_cart_total fixed_point (boot (S := ref_server) cart_db []) 1).map Prod.fst
      = some 4995 ∧
    (calculate_cart_total fixed_point (boot (S := ref_server) cart_db []) 2).map Prod.fst
      = some 0 ∧
    (calculate_cart_total fixed_point (boot (S := ref_server) orphan_db []) 1).map Prod.fst
      = some 1998 :=
  ⟨by decide, by decide,
   (cart_total_is_sum fixed_point (boot (S := ref_server) cart_db []) 1 (by decide)).1.trans
     (by decide),
   (cart_total_is_sum fixed_point (boot (S := ref_server) cart_db []) 2 (by decide)).2.1
     (by decide),
   (cart_total_is_sum fixed_point (boot (S := ref_server) orphan_db []) 1 (by decide)).1.trans
     (by decide)⟩

/-- Witness of C7: the product Widget with price 9.99 and stock 100 at identifier 42, and
the new stock 50. -/
theorem update_product_stock_frame_witness :
    is_int 42 ∧ is_int 50 ∧
    (get_product_by_id fixed_point (boot (S := ref_server) widget_db []) 42).map Prod.fst
      = some (some widget) ∧
    (update_product_stock (boot (S := ref_server) widget_db []) 42 50).1 = true ∧
    (get_product_by_id fixed_point
        (update_product_stock (boot (S := ref_server) widget_db []) 42 50).2 42).map Prod.fst
      = some (some { widget with stock_quantity := 50 }) :=
  ⟨by decide, by decide, rfl, rfl,
   (update_product_stock_frame fixed_point (boot (S := ref_server) widget_db []) 42 50
      widget (by decide) (by decide) rfl rfl).1⟩

/-- Witness of C8: the ten fetches on the store without rows. -/
theorem multi_row_fetch_empty_witness :
    returns_empty (boot (S := ref_server) empty_db [])
      (bytes "SELECT * FROM users ORDER BY user_id")
      (get_all_users (boot (S := ref_server) empty_db [])) ∧
    returns_empty (boot (S := ref_server) empty_db [])
      (bytes "SELECT * FROM products ORDER BY product_id")
      (get_all_products fixed_point (boot (S := ref_server) empty_db [])) ∧
    returns_empty (boot (S := ref_server) empty_db [])
      (bytes "SELECT * FROM orders ORDER BY order_date DESC")
      (get_all_orders fixed_point (boot (S := ref_server) empty_db [])) ∧
    returns_empty (boot (S := ref_server) empty_db []) (get_orders_by_user_query 1)
      (get_orders_by_user fixed_point (boot (S := ref_server) empty_db []) 1) ∧
    returns_empty (boot (S := ref_server) empty_db [])
      (get_orders_by_status_query (bytes "pending"))
      (get_orders_by_status fixed_point (boot (S := ref_server) empty_db [])
        (bytes "pending")) ∧
    returns_empty (boot (S := ref_server) empty_db []) (get_order_items_by_order_query 1)
      (get_order_items_by_order fixed_point (boot (S := ref_server) empty_db []) 1) ∧
    returns_empty (boot (S := ref_server) empty_db []) (get_cart_items_by_user_query 1)
      (get_cart_items_by_user (boot (S := ref_server) empty_db []) 1) ∧
    returns_empty (boot (S := ref_server) empty_db []) (get_products_by_category_query 3)
      (get_products_by_category fixed_point (boot (S := ref_server) empty_db []) 3) ∧
    returns_empty (boot (S := ref_server) empty_db [])
      (get_products_by_price_range_query fixed_point 100 5000)
      (get_products_by_price_range fixed_point (boot (S := ref_server) empty_db [])
        100 5000) ∧
    returns_empty (boot (S := ref_server) empty_db [])
      (search_products_by_name_query (bytes "shirt"))
      (search_products_by_name fixed_point (boot (S := ref_server) empty_db [])
        (bytes "shirt")) :=
  ⟨(multi_row_fetch_empty fixed_point (boot (S := ref_server) empty_db []) 3 1 1
      (bytes "pending") (bytes "shirt") 100 5000).1 (by decide),
   (multi_row_fetch_empty fixed_point (boot (S := ref_server) empty_db []) 3 1 1
      (bytes "pending") (bytes "shirt") 100 5000).2.1 (by decide),
   (multi_row_fetch_empty fixed_point (boot (S := ref_server) empty_db []) 3 1 1
      (bytes "pending") (bytes "shirt") 100 5000).2.2.1 (by decide),
   (multi_row_fetch_empty fixed_point (boot (S := ref_server) empty_db []) 3 1 1
      (bytes "pending") (bytes "shirt") 100 5000).2.2.2.1 (by decide),
   (multi_row_fetch_empty fixed_point (boot (S := ref_server) empty_db []) 3 1 1
      (bytes "pending") (bytes "shirt") 100 5000).2.2.2.2.1 (by decide),
   (multi_row_fetch_empty fixed_point (boot (S := ref_server) empty_db []) 3 1 1
      (bytes "pending") (bytes "shirt") 100 5000).2.2.2.2.2.1 (by decide),
   (multi_row_fetch_empty fixed_point (boot (S := ref_server) empty_db []) 3 1 1
      (bytes "pending") (bytes "shirt") 100 5000).2.2.2.2.2.2.1 (by decide),
   (multi_row_fetch_empty fixed_point (boot (S := ref_server) empty_db []) 3 1 1
      (bytes "pending") (bytes "shirt") 100 5000).2.2.2.2.2.2.2.1 (by decide),
   (multi_row_fetch_empty fixed_point (boot (S := ref_server) empty_db []) 3 1 1
      (bytes "pending") (bytes "shirt") 100 5000).2.2.2.2.2.2.2.2.1 (by decide),
   (multi_row_fetch_empty fixed_point (boot (S := ref_server) empty_db []) 3 1 1
      (bytes "pending") (bytes "shirt") 100 5000).2.2.2.2.2.2.2.2.2 (by decide)⟩

theorem col_str_null (row : MYSQL_ROW) (i : Nat) (h : is_null row i) : col_str row i = [] := by
  unfold is_null at h
  unfold col_str
  rw [h]

theorem col_int_null (row : MYSQL_ROW) (i : Nat) (h : is_null row i) : col_int row i = 0 := by
  unfold is_null at h
  unfold col_int
  rw [h]

theorem col_dbl_null {D : Type} (F : FloatOps D) (row : MYSQL_ROW) (i : Nat)
    (h : is_null row i) : col_dbl F row i = F.zero := by
  unfold is_null at h
  unfold col_dbl
  rw [h]

theorem col_bool_null (row : MYSQL_ROW) (i : Nat) (h : is_null row i) :
    col_bool row i = false := by
  unfold is_null at h
  unfold col_bool
  rw [h]

theorem cstr_strncpy_nil (dest : List Nat) (n : Nat) (h : 0 < n) :
    cstr (strncpy dest [] n) = [] := by
  obtain ⟨m, rfl⟩ : ∃ m, n = m + 1 := ⟨n - 1, by omega⟩
  simp [cstr, strncpy, List.replicate_succ]

theorem text_null_zero {D : Type} (F : FloatOps D) (cap : Nat) (dest : List Nat)
    (row : MYSQL_ROW) (i n : Nat) (h : is_null row i) (hn : 0 < n) :
    Cell.is_zero F (Cell.text cap (strncpy dest (col_str row i) n)) := by
  simp only [Cell.is_zero, col_str_null row i h]
  exact cstr_strncpy_nil dest n hn

theorem row_ok_not_null (n : Nat) (row : MYSQL_ROW) (h : is_null row 0) :
    row_ok n row = false := by
  unfold is_null at h
  cases row with
  | nil => simp at h
  | cons x rest =>
    simp only [List.get?_cons_zero, Option.some.injEq] at h
    subst h
    simp [row_ok]

/-- The zero values of the user mappings. -/
theorem user_null_zero {D : Type} (F : FloatOps D) (row : MYSQL_ROW) (junk : Nat → Nat)
    (fill : MYSQL_ROW → (Nat → Nat) → Option (User)) (hf : fill ∈ user_fills) :
    (fill row junk).isSome = row_ok 10 row ∧
    ∀ g, fill row junk = some g → ∀ i c, 0 < i → is_null row i →
      (User.cells g).get? i = some c → Cell.is_zero F c := by
  simp only [user_fills, List.mem_cons, List.mem_singleton, List.not_mem_nil, or_false] at hf
  have key : fill row junk = get_user_by_id_fill row junk := by
    rcases hf with rfl | rfl | rfl | rfl <;> rfl
  rw [key]
  unfold get_user_by_id_fill
  by_cases hok : row_ok 10 row
  · simp only [hok, if_true, Option.isSome_some, true_and]
    intro g hg i c hi hnull hc
    simp only [Option.some.injEq] at hg
    subst hg
    rcases i with _ | _ | _ | _ | _ | _ | _ | _ | _ | _ | i
    · omega
    all_goals
      simp only [User.cells, List.get?_cons_succ, List.get?_cons_zero, List.get?_nil,
        Option.some.injEq, reduceCtorEq] at hc
    all_goals try subst hc
    · exact text_null_zero F _ _ row _ _ hnull (by decide)
    · exact text_null_zero F _ _ row _ _ hnull (by decide)
    · exact text_null_zero F _ _ row _ _ hnull (by decide)
    · exact text_null_zero F _ _ row _ _ hnull (by decide)
    · exact text_null_zero F _ _ row _ _ hnull (by decide)
    · exact text_null_zero F _ _ row _ _ hnull (by decide)
    · exact text_null_zero F _ _ row _ _ hnull (by decide)
    · exact text_null_zero F _ _ row _ _ hnull (by decide)
    · exact col_bool_null row _ hnull
  · simp [hok]

/-- The zero values of the product mappings. -/
theorem product_null_zero {D : Type} (F : FloatOps D) (row : MYSQL_ROW) (junk : Nat → Nat)
    (fill : MYSQL_ROW → (Nat → Nat) → Option (Product D)) (hf : fill ∈ product_fills F) :
    (fill row junk).isSome = row_ok 12 row ∧
    ∀ g, fill row junk = some g → ∀ i c, 0 < i → is_null row i →
      (Product.cells g).get? i = some c → Cell.is_zero F c := by
  simp only [product_fills, List.mem_cons, List.mem_singleton, List.not_mem_nil, or_false] at hf
  have key : fill row junk = get_product_by_id_fill F row junk := by
    rcases hf with rfl | rfl | rfl | rfl | rfl | rfl <;> rfl
  rw [key]
  unfold get_product_by_id_fill
  by_cases hok : row_ok 12 row
  · simp only [hok, if_true, Option.isSome_some, true_and]
    intro g hg i c hi hnull hc
    simp only [Option.some.injEq] at hg
    subst hg
    rcases i with _ | _ | _ | _ | _ | _ | _ | _ | _ | _ | _ | _ | i
    · omega
    all_goals
      simp only [Product.cells, List.get?_cons_succ, List.get?_cons_zero, List.get?_nil,
        Option.some.injEq, reduceCtorEq] at hc
    all_goals try subst hc
    · exact text_null_zero F _ _ row _ _ hnull (by decide)
    · exact text_null_zero F _ _ row _ _ hnull (by decide)
    · exact col_dbl_null F row _ hnull
    · exact col_int_null row _ hnull
    · exact col_int_null row _ hnull
    · exact text_null_zero F _ _ row _ _ hnull (by decide)
    · exact col_dbl_null F row _ hnull
    · exact text_null_zero F _ _ row _ _ hnull (by decide)
    · exact text_null_zero F _ _ row _ _ hnull (by decide)
    · exact text_null_zero F _ _ row _ _ hnull (by decide)
    · exact col_bool_null row _ hnull
  · simp [hok]

/-- The zero values of the order mappings. -/
theorem order_null_zero {D : Type} (F : FloatOps D) (row : MYSQL_ROW) (junk : Nat → Nat)
    (fill : MYSQL_ROW → (Nat → Nat) → Option (Order D)) (hf : fill ∈ order_fills F) :
    (fill row junk).isSome = row_ok 11 row ∧
    ∀ g, fill row junk = some g → ∀ i c, 0 < i → is_null row i →
      (Order.cells g).get? i = some c → Cell.is_zero F c := by
  simp only [order_fills, List.mem_cons, List.mem_singleton, List.not_mem_nil, or_false] at hf
  have key : fill row junk = get_order_by_id_fill F row junk := by
    rcases hf with rfl | rfl | rfl | rfl <;> rfl
  rw [key]
  unfold get_order_by_id_fill
  by_cases hok : row_ok 11 row
  · simp only [hok, if_true, Option.isSome_some, true_and]
    intro g hg i c hi hnull hc
    simp only [Option.some.injEq] at hg
    subst hg
    rcases i with _ | _ | _ | _ | _ | _ | _ | _ | _ | _ | _ | i
    · omega
    all_goals
      simp only [Order.cells, List.get?_cons_succ, List.get?_cons_zero, List.get?_nil,
        Option.some.injEq, reduceCtorEq] at hc
    all_goals try subst hc
    · exact col_int_null row _ hnull
    · exact text_null_zero F _ _ row _ _ hnull (by decide)
    · exact text_null_zero F _ _ row _ _ hnull (by decide)
    · exact col_dbl_null F row _ hnull
    · exact col_int_null row _ hnull
    · exact col_int_null row _ hnull
    · exact text_null_zero F _ _ row _ _ hnull (by decide)
    · exact col_dbl_null F row _ hnull
    · exact col_dbl_null F row _ hnull
    · exact text_null_zero F _ _ row _ _ hnull (by decide)
  · simp [hok]

/-- The zero values of the order item mappings. -/
theorem order_item_null_zero {D : Type} (F : FloatOps D) (row : MYSQL_ROW) (junk : Nat → Nat)
    (fill : MYSQL_ROW → (Nat → Nat) → Option (OrderItem D)) (hf : fill ∈ order_item_fills F) :
    (fill row junk).isSome = row_ok 6 row ∧
    ∀ g, fill row junk = some g → ∀ i c, 0 < i → is_null row i →
      (OrderItem.cells g).get? i = some c → Cell.is_zero F c := by
  simp only [order_item_fills, List.mem_cons, List.mem_singleton, List.not_mem_nil, or_false] at hf
  have key : fill row junk = get_order_item_by_id_fill F row junk := by
    rcases hf with rfl | rfl <;> rfl
  rw [key]
  unfold get_order_item_by_id_fill
  by_cases hok : row_ok 6 row
  · simp only [hok, if_true, Option.isSome_some, true_and]
    intro g hg i c hi hnull hc
    simp only [Option.some.injEq] at hg
    subst hg
    rcases i with _ | _ | _ | _ | _ | _ | i
    · omega
    all_goals
      simp only [OrderItem.cells, List.get?_cons_succ, List.get?_cons_zero, List.get?_nil,
        Option.some.injEq, reduceCtorEq] at hc
    all_goals try subst hc
    · exact col_int_null row _ hnull
    · exact col_int_null row _ hnull
    · exact col_int_null row _ hnull
    · exact col_dbl_null F row _ hnull
    · exact col_dbl_null F row _ hnull
  · simp [hok]

/-- The zero values of the cart item mappings. -/
theorem cart_item_null_zero {D : Type} (F : FloatOps D) (row : MYSQL_ROW) (junk : Nat → Nat)
    (fill : MYSQL_ROW → (Nat → Nat) → Option (CartItem)) (hf : fill ∈ cart_item_fills) :
    (fill row junk).isSome = row_ok 5 row ∧
    ∀ g, fill row junk = some g → ∀ i c, 0 < i → is_null row i →
      (CartItem.cells g).get? i = some c → Cell.is_zero F c := by
  simp only [cart_item_fills, List.mem_cons, List.mem_singleton, List.not_mem_nil, or_false] at hf
  have key : fill row junk = get_cart_item_by_id_fill row junk := by
    rcases hf with rfl | rfl <;> rfl
  rw [key]
  unfold get_cart_item_by_id_fill
  by_cases hok : row_ok 5 row
  · simp only [hok, if_true, Option.isSome_some, true_and]
    intro g hg i c hi hnull hc
    simp only [Option.some.injEq] at hg
    subst hg
    rcases i with _ | _ | _ | _ | _ | i
    · omega
    all_goals
      simp only [CartItem.cells, List.get?_cons_succ, List.get?_cons_zero, List.get?_nil,
        Option.some.injEq, reduceCtorEq] at hc
    all_goals try subst hc
    · exact col_int_null row _ hnull
    · exact col_int_null row _ hnull
    · exact col_int_null row _ hnull
    · exact text_null_zero F _ _ row _ _ hnull (by decide)
  · simp [hok]

/-- C11 (as stated) fails: for a user row whose identifier column is null the row mapping
hands a null pointer to `atoi`; no record results, so user_id is not the zero value. -/
theorem null_identifier_unmapped :
    is_null [none, some (bytes "alice"), none, none, none, none, none, none, none,
             some (bytes "1")] 0 ∧
    get_user_by_id_fill [none, some (bytes "alice"), none, none, none, none, none, none, none,
                         some (bytes "1")] (fun _ => 170) = none := by
  decide

/-- C11 (amended): every row mapping of the five entities is defined exactly on the rows that
have all columns of the entity and a non-null identifier column, and then, for every column
position other than 0, a null column gives the zero value of the field: the empty string for
text, 0 for integers, 0.0 for decimals, false for booleans. -/
theorem null_maps_to_zero {D : Type} (F : FloatOps D) (row : MYSQL_ROW) (junk : Nat → Nat) :
    (∀ fill ∈ user_fills, (fill row junk).isSome = row_ok 10 row ∧
      ∀ g, fill row junk = some g → ∀ i c, 0 < i → is_null row i →
        (User.cells g).get? i = some c → Cell.is_zero F c) ∧
    (∀ fill ∈ product_fills F, (fill row junk).isSome = row_ok 12 row ∧
      ∀ g, fill row junk = some g → ∀ i c, 0 < i → is_null row i →
        (Product.cells g).get? i = some c → Cell.is_zero F c) ∧
    (∀ fill ∈ order_fills F, (fill row junk).isSome = row_ok 11 row ∧
      ∀ g, fill row junk = some g → ∀ i c, 0 < i → is_null row i →
        (Order.cells g).get? i = some c → Cell.is_zero F c) ∧
    (∀ fill ∈ order_item_fills F, (fill row junk).isSome = row_ok 6 row ∧
      ∀ g, fill row junk = some g → ∀ i c, 0 < i → is_null row i →
        (OrderItem.cells g).get? i = some c → Cell.is_zero F c) ∧
    (∀ fill ∈ cart_item_fills, (fill row junk).isSome = row_ok 5 row ∧
      ∀ g, fill row junk = some g → ∀ i c, 0 < i → is_null row i →
        (CartItem.cells g).get? i = some c → Cell.is_zero F c) ∧
    (∀ n, is_null row 0 → row_ok n row = false) :=
  ⟨fun fill hf => user_null_zero F row junk fill hf,
   fun fill hf => product_null_zero F row junk fill hf,
   fun fill hf => order_null_zero F row junk fill hf,
   fun fill hf => order_item_null_zero F row junk fill hf,
   fun fill hf => cart_item_null_zero F row junk fill hf,
   fun n h => row_ok_not_null n row h⟩

/-- Witness of C11 (amended): a row of each entity that has only its identifier: the text
fields read as the empty string, the numbers as 0 and the booleans as false. -/
theorem null_maps_to_zero_witness :
    (∃ g, get_user_by_id_fill (bare_row 10) (fun _ => 170) = some g ∧
      Cell.is_zero fixed_point (Cell.text 51 g.username) ∧
      Cell.is_zero fixed_point (Cell.bool g.is_active)) ∧
    (∃ g, get_product_by_id_fill fixed_point (bare_row 12) (fun _ => 170) = some g ∧
      Cell.is_zero fixed_point (Cell.dbl g.price) ∧
      Cell.is_zero fixed_point (Cell.int g.stock_quantity)) ∧
    (∃ g, get_order_by_id_fill fixed_point (bare_row 11) (fun _ => 170) = some g ∧
      Cell.is_zero fixed_point (Cell.text 20 g.status) ∧
      Cell.is_zero fixed_point (Cell.dbl g.total_amount)) ∧
    (∃ g, get_order_item_by_id_fill fixed_point (bare_row 6) (fun _ => 170) = some g ∧
      Cell.is_zero fixed_point (Cell.int g.quantity) ∧
      Cell.is_zero fixed_point (Cell.dbl g.unit_price)) ∧
    (∃ g, get_cart_item_by_id_fill (bare_row 5) (fun _ => 170) = some g ∧
      Cell.is_zero fixed_point (Cell.int g.quantity) ∧
      Cell.is_zero fixed_point (Cell.text 20 g.added_at)) :=
  ⟨⟨_, rfl,
    ((null_maps_to_zero fixed_point (bare_row 10) (fun _ => 170)).1 get_user_by_id_fill
      (List.mem_cons_self _ _)).2 _ rfl 1 _ (by decide) (by decide) rfl,
    ((null_maps_to_zero fixed_point (bare_row 10) (fun _ => 170)).1 get_user_by_id_fill
      (List.mem_cons_self _ _)).2 _ rfl 9 _ (by decide) (by decide) rfl⟩,
   ⟨_, rfl,
    ((null_maps_to_zero fixed_point (bare_row 12) (fun _ => 170)).2.1
      (get_product_by_id_fill fixed_point) (List.mem_cons_self _ _)).2 _ rfl 3 _
      (by decide) (by decide) rfl,
    ((null_maps_to_zero fixed_point (bare_row 12) (fun _ => 170)).2.1
      (get_product_by_id_fill fixed_point) (List.mem_cons_self _ _)).2 _ rfl 4 _
      (by decide) (by decide) rfl⟩,
   ⟨_, rfl,
    ((null_maps_to_zero fixed_point (bare_row 11) (fun _ => 170)).2.2.1
      (get_order_by_id_fill fixed_point) (List.mem_cons_self _ _)).2 _ rfl 3 _
      (by decide) (by decide) rfl,
    ((null_maps_to_zero fixed_point (bare_row 11) (fun _ => 170)).2.2.1
      (get_order_by_id_fill fixed_point) (List.mem_cons_self _ _)).2 _ rfl 4 _
      (by decide) (by decide) rfl⟩,
   ⟨_, rfl,
    ((null_maps_to_zero fixed_point (bare_row 6) (fun _ => 170)).2.2.2.1
      (get_order_item_by_id_fill fixed_point) (List.mem_cons_self _ _)).2 _ rfl 3 _
      (by decide) (by decide) rfl,
    ((null_maps_to_zero fixed_point (bare_row 6) (fun _ => 170)).2.2.2.1
      (get_order_item_by_id_fill fixed_point) (List.mem_cons_self _ _)).2 _ rfl 4 _
      (by decide) (by decide) rfl⟩,
   ⟨_, rfl,
    ((null_maps_to_zero fixed_point (bare_row 5) (fun _ => 170)).2.2.2.2.1
      get_cart_item_by_id_fill (List.mem_cons_self _ _)).2 _ rfl 3 _
      (by decide) (by decide) rfl,
    ((null_maps_to_zero fixed_point (bare_row 5) (fun _ => 170)).2.2.2.2.1
      get_cart_item_by_id_fill (List.mem_cons_self _ _)).2 _ rfl 4 _
      (by decide) (by decide) rfl⟩⟩

theorem strncpy_copied (dest : List Nat) (col : List Nat) (cap : Nat) :
    copied cap (cstr col) (strncpy dest col (cap - 1)) := by
  unfold copied strncpy
  rw [List.append_assoc, List.take_append_of_le_length (by simp)]
  rw [List.take_take]
  congr 1
  simp

/-- The text fields of the user mappings. -/
theorem user_text_copied {D : Type} (row : MYSQL_ROW) (junk : Nat → Nat)
    (fill : MYSQL_ROW → (Nat → Nat) → Option (User)) (hf : fill ∈ user_fills)
    (g : User) (hg : fill row junk = some g) (i cap : Nat) (field : List Nat)
    (hc : (User.cells (D := D) g).get? i = some (Cell.text cap field)) :
    copied cap (cstr (col_str row i)) field := by
  simp only [user_fills, List.mem_cons, List.mem_singleton, List.not_mem_nil, or_false] at hf
  have key : fill row junk = get_user_by_id_fill row junk := by
    rcases hf with rfl | rfl | rfl | rfl <;> rfl
  rw [key] at hg
  unfold get_user_by_id_fill at hg
  by_cases hok : row_ok 10 row
  · simp only [hok, if_true, Option.some.injEq] at hg
    subst hg
    rcases i with _ | _ | _ | _ | _ | _ | _ | _ | _ | _ | i
    all_goals
      simp only [User.cells, List.get?_cons_succ, List.get?_cons_zero, List.get?_nil,
        Option.some.injEq, Cell.text.injEq, reduceCtorEq] at hc
    all_goals
      obtain ⟨rfl, rfl⟩ := hc
      exact strncpy_copied _ _ _
  · simp [hok] at hg

/-- The text fields of the product mappings. -/
theorem product_text_copied {D : Type} (F : FloatOps D) (row : MYSQL_ROW) (junk : Nat → Nat)
    (fill : MYSQL_ROW → (Nat → Nat) → Option (Product D)) (hf : fill ∈ product_fills F)
    (g : Product D) (hg : fill row junk = some g) (i cap : Nat) (field : List Nat)
    (hc : (Product.cells (D := D) g).get? i = some (Cell.text cap field)) :
    copied cap (cstr (col_str row i)) field := by
  simp only [product_fills, List.mem_cons, List.mem_singleton, List.not_mem_nil, or_false] at hf
  have key : fill row junk = get_product_by_id_fill F row junk := by
    rcases hf with rfl | rfl | rfl | rfl | rfl | rfl <;> rfl
  rw [key] at hg
  unfold get_product_by_id_fill at hg
  by_cases hok : row_ok 12 row
  · simp only [hok, if_true, Option.some.injEq] at hg
    subst hg
    rcases i with _ | _ | _ | _ | _ | _ | _ | _ | _ | _ | _ | _ | i
    all_goals
      simp only [Product.cells, List.get?_cons_succ, List.get?_cons_zero, List.get?_nil,
        Option.some.injEq, Cell.text.injEq, reduceCtorEq] at hc
    all_goals
      obtain ⟨rfl, rfl⟩ := hc
      exact strncpy_copied _ _ _
  · simp [hok] at hg

/-- The text fields of the order mappings. -/
theorem order_text_copied {D : Type} (F : FloatOps D) (row : MYSQL_ROW) (junk : Nat → Nat)
    (fill : MYSQL_ROW → (Nat → Nat) → Option (Order D)) (hf : fill ∈ order_fills F)
    (g : Order D) (hg : fill row junk = some g) (i cap : Nat) (field : List Nat)
    (hc : (Order.cells (D := D) g).get? i = some (Cell.text cap field)) :
    copied cap (cstr (col_str row i)) field := by
  simp only [order_fills, List.mem_cons, List.mem_singleton, List.not_mem_nil, or_false] at hf
  have key : fill row junk = get_order_by_id_fill F row junk := by
    rcases hf with rfl | rfl | rfl | rfl <;> rfl
  rw [key] at hg
  unfold get_order_by_id_fill at hg
  by_cases hok : row_ok 11 row
  · simp only [hok, if_true, Option.some.injEq] at hg
    subst hg
    rcases i with _ | _ | _ | _ | _ | _ | _ | _ | _ | _ | _ | i
    all_goals
      simp only [Order.cells, List.get?_cons_succ, List.get?_cons_zero, List.get?_nil,
        Option.some.injEq, Cell.text.injEq, reduceCtorEq] at hc
    all_goals
      obtain ⟨rfl, rfl⟩ := hc
      exact strncpy_copied _ _ _
  · simp [hok] at hg

/-- The text fields of the cart item mappings. -/
theorem cart_item_text_copied {D : Type} (row : MYSQL_ROW) (junk : Nat → Nat)
    (fill : MYSQL_ROW → (Nat → Nat) → Option (CartItem)) (hf : fill ∈ cart_item_fills)
    (g : CartItem) (hg : fill row junk = some g) (i cap : Nat) (field : List Nat)
    (hc : (CartItem.cells (D := D) g).get? i = some (Cell.text cap field)) :
    copied cap (cstr (col_str row i)) field := by
  simp only [cart_item_fills, List.mem_cons, List.mem_singleton, List.not_mem_nil, or_false] at hf
  have key : fill row junk = get_cart_item_by_id_fill row junk := by
    rcases hf with rfl | rfl <;> rfl
  rw [key] at hg
  unfold get_cart_item_by_id_fill at hg
  by_cases hok : row_ok 5 row
  · simp only [hok, if_true, Option.some.injEq] at hg
    subst hg
    rcases i with _ | _ | _ | _ | _ | i
    all_goals
      simp only [CartItem.cells, List.get?_cons_succ, List.get?_cons_zero, List.get?_nil,
        Option.some.injEq, Cell.text.injEq, reduceCtorEq] at hc
    all_goals
      obtain ⟨rfl, rfl⟩ := hc
      exact strncpy_copied _ _ _
  · simp [hok] at hg

theorem truncated_of_copied (cap : Nat) (col : CStr) (field : List Nat)
    (h : copied cap col field) : truncated cap col field := by
  refine ⟨h, fun hlt => ?_, fun hge => ?_⟩
  · unfold copied at h
    rw [Nat.min_eq_left (by omega)] at h
    rw [h, List.take_length]
  · unfold copied at h
    rw [Nat.min_eq_right (by omega)] at h
    exact h

theorem cstr_of_not_mem (col : List Nat) (h : 0 ∉ col) : cstr col = col :=
  cstr_eq_self col (fun _ hb h0 => h (h0 ▸ hb))

theorem fmt_d_bool (b : Bool) : fmt_d (bool_int b) = [bool_digit b] := by
  cases b <;> decide

theorem create_user_expand (u : User) :
    vformat (bytes "INSERT INTO users (username, email, password_hash, first_name, last_name, phone, is_active) VALUES ('%s', '%s', '%s', '%s', '%s', '%s', %d)")
        [Arg.s (cstr u.username), Arg.s (cstr u.email), Arg.s (cstr u.password_hash),
         Arg.s (cstr u.first_name), Arg.s (cstr u.last_name), Arg.s (cstr u.phone),
         Arg.d (bool_int u.is_active)]
      = bytes "INSERT INTO users (username, email, password_hash, first_name, last_name, phone, is_active) VALUES ('" ++ (cstr u.username ++ (bytes "', '" ++ (cstr u.email ++ (bytes "', '" ++ (cstr u.password_hash ++ (bytes "', '" ++ (cstr u.first_name ++ (bytes "', '" ++ (cstr u.last_name ++ (bytes "', '" ++ (cstr u.phone ++ (bytes "', " ++ (fmt_d (bool_int u.is_active) ++ (bytes ")")))))))))))))) := rfl

theorem update_user_expand (u : User) :
    vformat (bytes "UPDATE users SET username='%s', email='%s', password_hash='%s', first_name='%s', last_name='%s', phone='%s', is_active=%d WHERE user_id=%d")
        [Arg.s (cstr u.username), Arg.s (cstr u.email), Arg.s (cstr u.password_hash),
         Arg.s (cstr u.first_name), Arg.s (cstr u.last_name), Arg.s (cstr u.phone),
         Arg.d (bool_int u.is_active), Arg.d u.user_id]
      = bytes "UPDATE users SET username='" ++ (cstr u.username ++ (bytes "', email='" ++ (cstr u.email ++ (bytes "', password_hash='" ++ (cstr u.password_hash ++ (bytes "', first_name='" ++ (cstr u.first_name ++ (bytes "', last_name='" ++ (cstr u.last_name ++ (bytes "', phone='" ++ (cstr u.phone ++ (bytes "', is_active=" ++ (fmt_d (bool_int u.is_active) ++ (bytes " WHERE user_id=" ++ ((fmt_d u.user_id ++ [])))))))))))))))) := rfl

theorem create_product_expand {D : Type} (F : FloatOps D) (p : Product D) :
    vformat (bytes "INSERT INTO products (product_name, description, price, stock_quantity, category_id, sku, weight, dimensions, is_active) VALUES ('%s', '%s', %.2f, %d, %d, '%s', %.2f, '%s', %d)")
        [Arg.s (cstr p.product_name), Arg.s (cstr p.description), Arg.f (F.fmt_2f p.price),
         Arg.d p.stock_quantity, Arg.d p.category_id, Arg.s (cstr p.sku),
         Arg.f (F.fmt_2f p.weight), Arg.s (cstr p.dimensions), Arg.d (bool_int p.is_active)]
      = bytes "INSERT INTO products (product_name, description, price, stock_quantity, category_id, sku, weight, dimensions, is_active) VALUES ('" ++ (cstr p.product_name ++ (bytes "', '" ++ (cstr p.description ++ (bytes "', " ++ (F.fmt_2f p.price ++ (bytes ", " ++ (fmt_d p.stock_quantity ++ (bytes ", " ++ (fmt_d p.category_id ++ (bytes ", '" ++ (cstr p.sku ++ (bytes "', " ++ (F.fmt_2f p.weight ++ (bytes ", '" ++ (cstr p.dimensions ++ (bytes "', " ++ (fmt_d (bool_int p.is_active) ++ (bytes ")")))))))))))))))))) := rfl

theorem update_product_expand {D : Type} (F : FloatOps D) (p : Product D) :
    vformat (bytes "UPDATE products SET product_name='%s', description='%s', price=%.2f, stock_quantity=%d, category_id=%d, sku='%s', weight=%.2f, dimensions='%s', is_active=%d WHERE product_id=%d")
        [Arg.s (cstr p.product_name), Arg.s (cstr p.description), Arg.f (F.fmt_2f p.price),
         Arg.d p.stock_quantity, Arg.d p.category_id, Arg.s (cstr p.sku),
         Arg.f (F.fmt_2f p.weight), Arg.s (cstr p.dimensions), Arg.d (bool_int p.is_active),
         Arg.d p.product_id]
      = bytes "UPDATE products SET product_name='" ++ (cstr p.product_name ++ (bytes "', description='" ++ (cstr p.description ++ (bytes "', price=" ++ (F.fmt_2f p.price ++ (bytes ", stock_quantity=" ++ (fmt_d p.stock_quantity ++ (bytes ", category_id=" ++ (fmt_d p.category_id ++ (bytes ", sku='" ++ (cstr p.sku ++ (bytes "', weight=" ++ (F.fmt_2f p.weight ++ (bytes ", dimensions='" ++ (cstr p.dimensions ++ (bytes "', is_active=" ++ (fmt_d (bool_int p.is_active) ++ (bytes " WHERE product_id=" ++ ((fmt_d p.product_id ++ [])))))))))))))))))))) := rfl

theorem cstr_replicate (n b : Nat) (hb : b ≠ 0) (rest : List Nat) :
    cstr (List.replicate n b ++ 0 :: rest) = List.replicate n b := by
  unfold cstr
  rw [List.takeWhile_append_of_pos (by intro a ha; simp [List.eq_of_mem_replicate ha, hb])]
  simp

theorem wide_text : fmt_dec (10 ^ 300) = 49 :: (List.replicate 298 48 ++ [46, 48, 48]) := by
  decide

/-- C13 (as stated) fails: for the product with full text fields and price and weight
1e298, `create_product` builds a statement of 2134 bytes, of which the buffer keeps the first
2047: what is sent ends inside the text of dimensions, and the digit of is_active is not in
it. -/
theorem create_product_cuts_is_active :
    (create_product_query fixed_point big_product).length = 2047 ∧
    (create_product_query fixed_point big_product).getLast? = some 97 ∧
    ¬ ∃ pre, create_product_query fixed_point big_product
        = pre ++ (bool_digit big_product.is_active :: bytes ")") := by
  have e := create_product_expand fixed_point big_product
  have h1 : cstr big_product.product_name = List.replicate 200 97 :=
    cstr_replicate 200 97 (by decide) []
  have h2 : cstr big_product.description = List.replicate 1023 97 :=
    cstr_replicate 1023 97 (by decide) []
  have h3 : cstr big_product.sku = List.replicate 50 97 :=
    cstr_replicate 50 97 (by decide) []
  have h4 : cstr big_product.dimensions = List.replicate 100 97 :=
    cstr_replicate 100 97 (by decide) []
  have h5 : fixed_point.fmt_2f big_product.price
      = 49 :: (List.replicate 298 48 ++ [46, 48, 48]) := wide_text
  have h6 : fixed_point.fmt_2f big_product.weight
      = 49 :: (List.replicate 298 48 ++ [46, 48, 48]) := wide_text
  have d1 : fmt_d big_product.stock_quantity = [49] := by decide
  have d2 : fmt_d big_product.category_id = [49] := by decide
  have d3 : fmt_d (bool_int big_product.is_active) = [49] := by decide
  have l0 : (bytes "INSERT INTO products (product_name, description, price, stock_quantity, category_id, sku, weight, dimensions, is_active) VALUES ('").length = 130 := by decide
  have l1 : (bytes "', '").length = 4 := by decide
  have l2 : (bytes "', ").length = 3 := by decide
  have l3 : (bytes ", ").length = 2 := by decide
  have l4 : (bytes ", '").length = 3 := by decide
  unfold create_product_query snprintf
  rw [e, h1, h2, h3, h4, h5, h6, d1, d2, d3]
  have hsplit :
      bytes "INSERT INTO products (product_name, description, price, stock_quantity, category_id, sku, weight, dimensions, is_active) VALUES ('" ++
      (List.replicate 200 97 ++
        (bytes "', '" ++
          (List.replicate 1023 97 ++
            (bytes "', " ++
              (49 :: (List.replicate 298 48 ++ [46, 48, 48]) ++
                (bytes ", " ++
                  ([49] ++
                    (bytes ", " ++
                      ([49] ++
                        (bytes ", '" ++
                          (List.replicate 50 97 ++
                            (bytes "', " ++
                              (49 :: (List.replicate 298 48 ++ [46, 48, 48]) ++
                                (bytes ", '" ++
                                  (List.replicate 100 97 ++
                                    (bytes "', " ++ ([49] ++ bytes ")")))))))))))))))))
      = (bytes "INSERT INTO products (product_name, description, price, stock_quantity, category_id, sku, weight, dimensions, is_active) VALUES ('" ++
      (List.replicate 200 97 ++
        (bytes "', '" ++
          (List.replicate 1023 97 ++
            (bytes "', " ++
              (49 :: (List.replicate 298 48 ++ [46, 48, 48]) ++
                (bytes ", " ++
                  ([49] ++
                    (bytes ", " ++
                      ([49] ++
                        (bytes ", '" ++
                          (List.replicate 50 97 ++
                            (bytes "', " ++
                              (49 :: (List.replicate 298 48 ++ [46, 48, 48]) ++
                                bytes ", '"))))))))))))))
        ++ (List.replicate 100 97 ++ (bytes "', " ++ ([49] ++ bytes ")"))) := by
    simp only [List.append_assoc, List.cons_append]
  rw [hsplit]
  generalize hX : (bytes "INSERT INTO products (product_name, description, price, stock_quantity, category_id, sku, weight, dimensions, is_active) VALUES ('" ++
      (List.replicate 200 97 ++
        (bytes "', '" ++
          (List.replicate 1023 97 ++
            (bytes "', " ++
              (49 :: (List.replicate 298 48 ++ [46, 48, 48]) ++
                (bytes ", " ++
                  ([49] ++
                    (bytes ", " ++
                      ([49] ++
                        (bytes ", '" ++
                          (List.replicate 50 97 ++
                            (bytes "', " ++
                              (49 :: (List.replicate 298 48 ++ [46, 48, 48]) ++
                                bytes ", '")))))))))))))) = X
  have hlen : X.length = 2029 := by
    rw [← hX]
    simp only [List.length_append, List.length_replicate, List.length_cons, List.length_nil,
      l0, l1, l2, l3, l4]
  have htake : List.take (2048 - 1) (X ++ (List.replicate 100 97 ++ (bytes "', " ++ ([49] ++ bytes ")"))))
      = X ++ List.replicate 18 97 := by
    rw [List.take_append_eq_append_take, hlen, List.take_of_length_le (by omega),
      List.take_append_of_le_length (by simp), List.take_replicate]
    rfl
  rw [htake]
  refine ⟨by simp [hlen], by simp [List.getLast?_append, List.replicate_succ'], ?_⟩
  rintro ⟨pre, h⟩
  have := congrArg List.getLast? h
  simp [List.getLast?_append, List.replicate_succ', bytes] at this

theorem col_bool_iff (row : MYSQL_ROW) (i : Nat) :
    col_bool row i = true ↔ ∃ s, row.get? i = some (some s) ∧ atoi s = 1 := by
  unfold col_bool
  rcases h : row.get? i with _ | _ | s <;> simp

theorem user_is_active (row : MYSQL_ROW) (junk : Nat → Nat)
    (fill : MYSQL_ROW → (Nat → Nat) → Option User) (hf : fill ∈ user_fills) (g : User)
    (hg : fill row junk = some g) : g.is_active = col_bool row 9 := by
  simp only [user_fills, List.mem_cons, List.mem_singleton, List.not_mem_nil, or_false] at hf
  have key : fill row junk = get_user_by_id_fill row junk := by
    rcases hf with rfl | rfl | rfl | rfl <;> rfl
  rw [key] at hg
  unfold get_user_by_id_fill at hg
  by_cases hok : row_ok 10 row
  · simp only [hok, if_true, Option.some.injEq] at hg
    rw [← hg]
  · simp [hok] at hg

theorem product_is_active {D : Type} (F : FloatOps D) (row : MYSQL_ROW) (junk : Nat → Nat)
    (fill : MYSQL_ROW → (Nat → Nat) → Option (Product D)) (hf : fill ∈ product_fills F)
    (g : Product D) (hg : fill row junk = some g) : g.is_active = col_bool row 11 := by
  simp only [product_fills, List.mem_cons, List.mem_singleton, List.not_mem_nil,
    or_false] at hf
  have key : fill row junk = get_product_by_id_fill F row junk := by
    rcases hf with rfl | rfl | rfl | rfl | rfl | rfl <;> rfl
  rw [key] at hg
  unfold get_product_by_id_fill at hg
  by_cases hok : row_ok 12 row
  · simp only [hok, if_true, Option.some.injEq] at hg
    rw [← hg]
  · simp [hok] at hg

theorem exec_verify_user_credentials (db : DB)
    (username : CStr) (password_hash : CStr)
    (hc_username : clean username) (hl_username : username.length ≤ 200)
    (hc_password_hash : clean password_hash) (hl_password_hash : password_hash.length ≤ 200) :
    ref_exec db
      (snprintf 512
        "SELECT user_id FROM users WHERE username = '%s' AND password_hash = '%s' AND is_active = 1"
        [Arg.s username, Arg.s password_hash]) =
      run_verify
        [Val.text username, Val.text password_hash] db := by
  have hl : lit_len stmt_verify_user_credentials.pieces = 86 := by decide
  exact exec_stmt 7 stmt_verify_user_credentials
    [Val.text username, Val.text password_hash] db 512 _ _ rfl
    (by decide) (by decide)
    (by simp [stmt_verify_user_credentials, Entry.pieces, fits, lit, hc_username, hc_password_hash]) rfl
    (by rw [hl]; simp only [List.map, val_len, List.sum_cons, List.sum_nil]; omega)

theorem exec_get_cart_item_count (db : DB)
    (user_id : Int)
    (hi_user_id : is_int user_id) :
    ref_exec db
      (snprintf 256
        "SELECT COUNT(*) FROM cart_items WHERE user_id = %d"
        [Arg.d user_id]) =
      run_cart_count
        [Val.int user_id] db := by
  have hl : lit_len stmt_get_cart_item_count.pieces = 48 := by decide
  have hd_user_id := fmt_d_length user_id hi_user_id
  exact exec_stmt 38 stmt_get_cart_item_count
    [Val.int user_id] db 256 _ _ rfl
    (by decide) (by decide)
    (by simp [stmt_get_cart_item_count, Entry.pieces, fits, lit]) rfl
    (by rw [hl]; simp only [List.map, val_len, List.sum_cons, List.sum_nil]; omega)

theorem exec_update_order_status (db : DB)
    (status : CStr) (order_id : Int)
    (hc_status : clean status) (hl_status : status.length ≤ 190) (hi_order_id : is_int order_id) :
    ref_exec db
      (snprintf 256
        "UPDATE orders SET status = '%s' WHERE order_id = %d"
        [Arg.s status, Arg.d order_id]) =
      run_update TableName.orders [3] 0
        [Val.text status, Val.int order_id] db := by
  have hl : lit_len stmt_update_order_status.pieces = 47 := by decide
  have hd_order_id := fmt_d_length order_id hi_order_id
  exact exec_stmt 24 stmt_update_order_status
    [Val.text status, Val.int order_id] db 256 _ _ rfl
    (by decide) (by decide)
    (by simp [stmt_update_order_status, Entry.pieces, fits, lit, hc_status]) rfl
    (by rw [hl]; simp only [List.map, val_len, List.sum_cons, List.sum_nil]; omega)

theorem verify_fst (w : World S) (u h : CStr) :
    (verify_user_credentials w u h).1
      = verify_spec (S.exec w.db (verify_user_credentials_query u h)).1 := by
  obtain ⟨db, iid, err, pend, oracle, junk, nb, log⟩ := w
  unfold verify_user_credentials execute_select_query mysql_query
  simp only
  rcases hx : S.exec db (verify_user_credentials_query u h) with ⟨r, db1⟩
  cases r with
  | error msg => simp [verify_spec]
  | ok id res =>
    cases res with
    | none => simp [verify_spec, mysql_store_result]
    | some rows =>
      cases rows with
      | nil => simp [verify_spec, mysql_store_result, mysql_fetch_row]
      | cons r rs => simp [verify_spec, mysql_store_result, mysql_fetch_row]

theorem conds_hold_credentials (coll : Nat → Nat) (u h : CStr) (r : List Val) :
    conds_hold coll [(1, Val.text u), (3, Val.text h), (9, Val.int 1)] r
      = credentials_match coll u h r := by
  unfold conds_hold credentials_match
  simp only [List.all_cons, List.all_nil, Bool.and_true]
  cases h1 : cell r 1 <;> cases h3 : cell r 3 <;> cases h9 : cell r 9 <;>
    simp [val_eq, Bool.and_assoc]

/-- C14 (as stated) fails: the store holds the one user alice with password hash 5f4dcc3b; no
row has the username "al", backslash, "ice", and `verify_user_credentials` of that username
and the hash returns true, because the server reads the backslash as an escape. -/
theorem verify_accepts_escaped_name :
    one_user_db.users.rows.any
        (credentials_match one_user_db.coll escaped_name (bytes "5f4dcc3b")) = false ∧
    (verify_user_credentials (boot (S := ref_server) one_user_db []) escaped_name
        (bytes "5f4dcc3b")).1 = true := by
  decide

/-- C14 (amended): for a username u and a password hash h without quote and backslash, of at
most 200 bytes each, `verify_user_credentials` returns true if and only if the store holds a
user row whose username equals u and whose password_hash equals h, compared under the
collation of the store, and whose is_active is 1. -/
theorem verify_iff_row (w : World ref_server) (u h : CStr) (hu : clean u)
    (hlu : u.length ≤ 200) (hh : clean h) (hlh : h.length ≤ 200) :
    ((verify_user_credentials w u h).1 = true ↔
      ∃ r ∈ w.db.users.rows, credentials_match w.db.coll u h r = true) := by
  rw [verify_fst, ref_server_exec]
  unfold verify_user_credentials_query
  rw [exec_verify_user_credentials w.db u h hu hlu hh hlh]
  simp only [run_verify, reply_rows]
  have : conds_hold w.db.coll [(1, Val.text u), (3, Val.text h), (9, Val.int 1)]
      = credentials_match w.db.coll u h := funext (conds_hold_credentials w.db.coll u h)
  rw [this]
  rcases hf : w.db.users.rows.filter (credentials_match w.db.coll u h) with _ | ⟨r, rs⟩
  · simp only [List.map_nil, verify_spec]
    constructor
    · intro hc; cases hc
    · rintro ⟨r, hr, hm⟩
      have : r ∈ w.db.users.rows.filter (credentials_match w.db.coll u h) :=
        List.mem_filter.mpr ⟨hr, hm⟩
      rw [hf] at this
      cases this
  · simp only [List.map_cons, verify_spec, true_iff]
    have : r ∈ w.db.users.rows.filter (credentials_match w.db.coll u h) := by
      rw [hf]; exact List.mem_cons_self _ _
    exact ⟨r, (List.mem_filter.mp this).1, (List.mem_filter.mp this).2⟩

/-- Witness of C14 (amended): on the store that holds the user alice with password hash
5f4dcc3b, the credentials of alice are accepted and a wrong hash is refused. -/
theorem verify_iff_row_witness :
    (clean (bytes "alice") ∧ clean (bytes "5f4dcc3b") ∧
      (∃ r ∈ one_user_db.users.rows,
        credentials_match one_user_db.coll (bytes "alice") (bytes "5f4dcc3b") r = true) ∧
      (verify_user_credentials (boot (S := ref_server) one_user_db []) (bytes "alice")
        (bytes "5f4dcc3b")).1 = true) ∧
    ((verify_user_credentials (boot (S := ref_server) one_user_db []) (bytes "alice")
        (bytes "5f4dcc3c")).1 = false ∧
      ¬ ∃ r ∈ one_user_db.users.rows,
        credentials_match one_user_db.coll (bytes "alice") (bytes "5f4dcc3c") r = true) :=
  ⟨⟨by decide, by decide, by decide,
    (verify_iff_row (boot (S := ref_server) one_user_db []) (bytes "alice")
      (bytes "5f4dcc3b") (by decide) (by decide) (by decide) (by decide)).mpr (by decide)⟩,
   ⟨by decide,
    fun hx => absurd
      ((verify_iff_row (boot (S := ref_server) one_user_db []) (bytes "alice")
        (bytes "5f4dcc3c") (by decide) (by decide) (by decide) (by decide)).mpr hx)
      (by decide)⟩⟩

theorem execute_query_executes (w : World S) (q : CStr) :
    (execute_query w q).1 = executes w q := by
  rw [execute_query_fst]
  unfold executes
  cases (S.exec w.db q).1 <;> rfl

theorem delete_frame (w : World ref_server) (q : CStr) (t : TableName) (k : Int)
    (hd : ref_exec w.db q = run_delete t [0] [Val.int k] w.db) :
    (execute_query w q).1 = true ∧
    ((execute_query w q).2.db.get t).rows
      = (w.db.get t).rows.filter (fun r => decide (cell r 0 ≠ Val.int k)) ∧
    ∀ t2, t2 ≠ t → (execute_query w q).2.db.get t2 = w.db.get t2 := by
  have hdb : (execute_query w q).2.db = (run_delete t [0] [Val.int k] w.db).2 := by
    rw [execute_query_db, ref_server_exec, hd]
  refine ⟨?_, ?_, ?_⟩
  · rw [execute_query_fst, ref_server_exec, hd]
    simp [run_delete]
  · rw [hdb]
    simp only [run_delete, List.length_cons, List.length_nil, if_true, get_set, Table.delete,
      conds_hold_key, List.zip_cons_cons, List.zip_nil_right]
    congr 1
    funext r
    by_cases h : cell r 0 = Val.int k
    · simp [h, val_eq]
    · have : val_eq w.db.coll (cell r 0) (Val.int k) = false := by
        rw [Bool.eq_false_iff]
        exact fun hx => h ((val_eq_int w.db.coll _ k).mp hx)
      simp [h, this]
  · intro t2 ht
    rw [hdb]
    simp only [run_delete, List.length_cons, List.length_nil, if_true]
    exact get_set_ne _ _ _ _ (Ne.symm ht)

/-- C15: each delete(k) returns true whenever the store executes its DELETE statement; on the
reference store it returns true for every identifier, also when no row has it, the rows left
in the table of the entity are those whose identifier is not k, in their order, and every
other table is unchanged. -/
theorem delete_no_cascade (v : World S) (w : World ref_server) (k : Int) (hk : is_int k) :
    ((delete_user v k).1 = executes v (delete_user_query k) ∧
      (delete_product v k).1 = executes v (delete_product_query k) ∧
      (delete_order v k).1 = executes v (delete_order_query k) ∧
      (delete_order_item v k).1 = executes v (delete_order_item_query k) ∧
      (remove_from_cart v k).1 = executes v (remove_from_cart_query k)) ∧
    ((delete_user w k).1 = true ∧
      (delete_user w k).2.db.users.rows
        = w.db.users.rows.filter (fun r => decide (cell r 0 ≠ Val.int k)) ∧
      ∀ t, t ≠ TableName.users → (delete_user w k).2.db.get t = w.db.get t) ∧
    ((delete_product w k).1 = true ∧
      (delete_product w k).2.db.products.rows
        = w.db.products.rows.filter (fun r => decide (cell r 0 ≠ Val.int k)) ∧
      ∀ t, t ≠ TableName.products → (delete_product w k).2.db.get t = w.db.get t) ∧
    ((delete_order w k).1 = true ∧
      (delete_order w k).2.db.orders.rows
        = w.db.orders.rows.filter (fun r => decide (cell r 0 ≠ Val.int k)) ∧
      ∀ t, t ≠ TableName.orders → (delete_order w k).2.db.get t = w.db.get t) ∧
    ((delete_order_item w k).1 = true ∧
      (delete_order_item w k).2.db.order_items.rows
        = w.db.order_items.rows.filter (fun r => decide (cell r 0 ≠ Val.int k)) ∧
      ∀ t, t ≠ TableName.order_items → (delete_order_item w k).2.db.get t = w.db.get t) ∧
    ((remove_from_cart w k).1 = true ∧
      (remove_from_cart w k).2.db.cart_items.rows
        = w.db.cart_items.rows.filter (fun r => decide (cell r 0 ≠ Val.int k)) ∧
      ∀ t, t ≠ TableName.cart_items → (remove_from_cart w k).2.db.get t = w.db.get t) := by
  refine ⟨⟨execute_query_executes v _, execute_query_executes v _,
    execute_query_executes v _, execute_query_executes v _, execute_query_executes v _⟩,
    ?_, ?_, ?_, ?_, ?_⟩
  · have h := delete_frame w (delete_user_query k) TableName.users k
      (exec_delete_user w.db k hk)
    simp only [DB.get] at h
    unfold delete_user
    exact h
  · have h := delete_frame w (delete_product_query k) TableName.products k
      (exec_delete_product w.db k hk)
    simp only [DB.get] at h
    unfold delete_product
    exact h
  · have h := delete_frame w (delete_order_query k) TableName.orders k
      (exec_delete_order w.db k hk)
    simp only [DB.get] at h
    unfold delete_order
    exact h
  · have h := delete_frame w (delete_order_item_query k) TableName.order_items k
      (exec_delete_order_item w.db k hk)
    simp only [DB.get] at h
    unfold delete_order_item
    exact h
  · have h := delete_frame w (remove_from_cart_query k) TableName.cart_items k
      (exec_remove_from_cart w.db k hk)
    simp only [DB.get] at h
    unfold remove_from_cart
    exact h

/-- Witness of C15: on the store that holds user 1 with an order and a cart line, deleting
user 1 empties the users table and leaves the order and the cart line; deleting user 2, who
is not there, returns true and leaves the user. -/
theorem delete_no_cascade_witness :
    is_int 1 ∧ is_int 2 ∧
    ((delete_user (boot (S := ref_server) linked_db []) 1).1 = true ∧
      (delete_user (boot (S := ref_server) linked_db []) 1).2.db.users.rows
        = linked_db.users.rows.filter (fun r => decide (cell r 0 ≠ Val.int 1)) ∧
      (delete_user (boot (S := ref_server) linked_db []) 1).2.db.get TableName.orders
        = linked_db.get TableName.orders ∧
      (delete_user (boot (S := ref_server) linked_db []) 1).2.db.get TableName.cart_items
        = linked_db.get TableName.cart_items) ∧
    ((delete_user (boot (S := ref_server) linked_db []) 2).1 = true ∧
      (delete_user (boot (S := ref_server) linked_db []) 2).2.db.users.rows
        = linked_db.users.rows.filter (fun r => decide (cell r 0 ≠ Val.int 2))) ∧
    linked_db.users.rows.filter (fun r => decide (cell r 0 ≠ Val.int 1)) = [] ∧
    linked_db.users.rows.filter (fun r => decide (cell r 0 ≠ Val.int 2))
      = linked_db.users.rows ∧
    linked_db.orders.rows.map (fun r => cell r 1) = [Val.int 1] ∧
    linked_db.cart_items.rows.map (fun r => cell r 1) = [Val.int 1] :=
  ⟨by decide, by decide,
   ⟨(delete_no_cascade (boot (S := ref_server) linked_db [])
       (boot (S := ref_server) linked_db []) 1 (by decide)).2.1.1,
    (delete_no_cascade (boot (S := ref_server) linked_db [])
       (boot (S := ref_server) linked_db []) 1 (by decide)).2.1.2.1,
    (delete_no_cascade (boot (S := ref_server) linked_db [])
       (boot (S := ref_server) linked_db []) 1 (by decide)).2.1.2.2 TableName.orders
       (by decide),
    (delete_no_cascade (boot (S := ref_server) linked_db [])
       (boot (S := ref_server) linked_db []) 1 (by decide)).2.1.2.2 TableName.cart_items
       (by decide)⟩,
   ⟨(delete_no_cascade (boot (S := ref_server) linked_db [])
       (boot (S := ref_server) linked_db []) 2 (by decide)).2.1.1,
    (delete_no_cascade (boot (S := ref_server) linked_db [])
       (boot (S := ref_server) linked_db []) 2 (by decide)).2.1.2.1⟩,
   by decide, by decide, by decide, by decide⟩

theorem reads_nothing_cases (w : World S) (q : CStr) (h : reads_nothing w q) :
    (∃ msg, (S.exec w.db q).1 = Reply.error msg) ∨ (∃ id, (S.exec w.db q).1 = Reply.ok id none) ∨
    (∃ id, (S.exec w.db q).1 = Reply.ok id (some [])) := by
  unfold reads_nothing no_result zero_rows at h
  rcases hx : (S.exec w.db q).1 with msg | ⟨id, res⟩
  · exact Or.inl ⟨msg, rfl⟩
  · rw [hx] at h
    cases res with
    | none => exact Or.inr (Or.inl ⟨id, rfl⟩)
    | some rows =>
      cases rows with
      | nil => exact Or.inr (Or.inr ⟨id, rfl⟩)
      | cons r rs => simp at h

theorem fetch_one_nothing {T : Type} (fill : MYSQL_ROW → (Nat → Nat) → Option T) (w : World S)
    (q : CStr) (h : reads_nothing w q) : (fetch_one fill w q).map Prod.fst = some none := by
  rw [fetch_one_fst]
  rcases reads_nothing_cases w q h with ⟨msg, hx⟩ | ⟨id, hx⟩ | ⟨id, hx⟩ <;>
    rw [hx] <;> rfl

theorem fetch_all_nothing {T : Type} (fill : MYSQL_ROW → (Nat → Nat) → Option T) (w : World S)
    (q : CStr) (h : reads_nothing w q) :
    (fetch_all fill w q).map (fun o => (o.1, o.2.1)) = some (none, 0) := by
  obtain ⟨db, iid, err, pend, oracle, junk, nb, log⟩ := w
  have hc := reads_nothing_cases _ q h
  simp only at hc
  unfold fetch_all execute_select_query mysql_query
  simp only
  rcases hx : S.exec db q with ⟨r, db1⟩
  rw [hx] at hc
  simp only at hc
  rcases hc with ⟨msg, rfl⟩ | ⟨id, rfl⟩ | ⟨id, rfl⟩
  · simp [fprintf_stderr]
  · simp [fprintf_stderr, mysql_store_result]
  · simp [fprintf_stderr, mysql_store_result, mysql_num_rows, wrap32]

theorem total_nothing {D : Type} (F : FloatOps D) (w : World S) (u : Int)
    (h : reads_nothing w (calculate_cart_total_query u)) :
    (calculate_cart_total F w u).map Prod.fst = some F.zero := by
  rw [calculate_cart_total_fst]
  rcases reads_nothing_cases w _ h with ⟨msg, hx⟩ | ⟨id, hx⟩ | ⟨id, hx⟩ <;>
    rw [hx] <;> rfl

theorem get_cart_item_count_fst (w : World S) (u : Int) :
    (get_cart_item_count w u).map Prod.fst
      = count_spec (S.exec w.db (get_cart_item_count_query u)).1 := by
  obtain ⟨db, iid, err, pend, oracle, junk, nb, log⟩ := w
  unfold get_cart_item_count execute_select_query mysql_query count_spec
  simp only
  rcases h : S.exec db (get_cart_item_count_query u) with ⟨r, db1⟩
  cases r with
  | error msg => simp [fprintf_stderr]
  | ok id res =>
    cases res with
    | none => simp [fprintf_stderr, mysql_store_result]
    | some rows =>
      cases rows with
      | nil => simp [mysql_store_result, mysql_fetch_row]
      | cons row rs =>
        simp only [mysql_store_result, mysql_fetch_row]
        cases row with
        | nil => simp
        | cons x xs => cases x <;> simp

theorem count_nothing (w : World S) (u : Int)
    (h : reads_nothing w (get_cart_item_count_query u)) :
    (get_cart_item_count w u).map Prod.fst = some 0 := by
  rw [get_cart_item_count_fst]
  rcases reads_nothing_cases w _ h with ⟨msg, hx⟩ | ⟨id, hx⟩ | ⟨id, hx⟩ <;>
    rw [hx] <;> rfl

theorem verify_nothing (w : World S) (u h : CStr)
    (hn : reads_nothing w (verify_user_credentials_query u h)) :
    (verify_user_credentials w u h).1 = false := by
  rw [verify_fst]
  rcases reads_nothing_cases w _ hn with ⟨msg, hx⟩ | ⟨id, hx⟩ | ⟨id, hx⟩ <;>
    rw [hx] <;> rfl

theorem total_no_rows {D : Type} (F : FloatOps D) (w : World ref_server) (u : Int)
    (hu : is_int u) (hn : cart_rows_of w.db u = []) :
    (calculate_cart_total F w u).map Prod.fst = some F.zero := by
  rw [calculate_cart_total_fst, ref_server_exec,
    show ref_exec w.db (calculate_cart_total_query u) = run_cart_total [Val.int u] w.db from
      exec_calculate_cart_total w.db u hu]
  have : cart_terms w.db (Val.int u) = [] := by
    unfold cart_terms
    rw [cart_rows_filter, hn]
    rfl
  simp [run_cart_total, this, total_spec, reply_rows, show_row, Val.show]

theorem count_no_rows (w : World ref_server) (u : Int) (hu : is_int u)
    (hn : cart_rows_of w.db u = []) :
    (get_cart_item_count w u).map Prod.fst = some 0 := by
  rw [get_cart_item_count_fst, ref_server_exec,
    show ref_exec w.db (get_cart_item_count_query u) = run_cart_count [Val.int u] w.db from
      exec_get_cart_item_count w.db u hu]
  simp only [run_cart_count, cart_rows_filter, hn, List.length_nil]
  decide

/-- C16: each read operation returns the same value when its statement fails (an error of
`mysql_query`, or no result set from `mysql_store_result`) as when it succeeds with zero
rows: absent for the single-row lookups, the null sequence with count 0 for the multi-row
fetches, 0.0 for calculate_cart_total, 0 for get_cart_item_count, false for
verify_user_credentials; on the reference store the two aggregates also give 0.0 and 0 for a
user without cart rows. -/
theorem failure_reads_as_empty {D : Type} (F : FloatOps D) (w : World S) (k : Int)
    (t : CStr) (h : CStr) (lo hi : D) :
    (reads_nothing w (get_user_by_id_query k) →
      (get_user_by_id w k).map Prod.fst = some none) ∧
    (reads_nothing w (get_user_by_username_query t) →
      (get_user_by_username w t).map Prod.fst = some none) ∧
    (reads_nothing w (get_user_by_email_query t) →
      (get_user_by_email w t).map Prod.fst = some none) ∧
    (reads_nothing w (get_product_by_id_query k) →
      (get_product_by_id F w k).map Prod.fst = some none) ∧
    (reads_nothing w (get_product_by_sku_query t) →
      (get_product_by_sku F w t).map Prod.fst = some none) ∧
    (reads_nothing w (get_order_by_id_query k) →
      (get_order_by_id F w k).map Prod.fst = some none) ∧
    (reads_nothing w (get_order_item_by_id_query k) →
      (get_order_item_by_id F w k).map Prod.fst = some none) ∧
    (reads_nothing w (get_cart_item_by_id_query k) →
      (get_cart_item_by_id w k).map Prod.fst = some none) ∧
    (reads_nothing w (bytes "SELECT * FROM users ORDER BY user_id") →
      (get_all_users w).map (fun o => (o.1, o.2.1)) = some (none, 0)) ∧
    (reads_nothing w (bytes "SELECT * FROM products ORDER BY product_id") →
      (get_all_products F w).map (fun o => (o.1, o.2.1)) = some (none, 0)) ∧
    (reads_nothing w (bytes "SELECT * FROM orders ORDER BY order_date DESC") →
      (get_all_orders F w).map (fun o => (o.1, o.2.1)) = some (none, 0)) ∧
    (reads_nothing w (get_orders_by_user_query k) →
      (get_orders_by_user F w k).map (fun o => (o.1, o.2.1)) = some (none, 0)) ∧
    (reads_nothing w (get_orders_by_status_query t) →
      (get_orders_by_status F w t).map (fun o => (o.1, o.2.1)) = some (none, 0)) ∧
    (reads_nothing w (get_order_items_by_order_query k) →
      (get_order_items_by_order F w k).map (fun o => (o.1, o.2.1)) = some (none, 0)) ∧
    (reads_nothing w (get_cart_items_by_user_query k) →
      (get_cart_items_by_user w k).map (fun o => (o.1, o.2.1)) = some (none, 0)) ∧
    (reads_nothing w (get_products_by_category_query k) →
      (get_products_by_category F w k).map (fun o => (o.1, o.2.1)) = some (none, 0)) ∧
    (reads_nothing w (get_products_by_price_range_query F lo hi) →
      (get_products_by_price_range F w lo hi).map (fun o => (o.1, o.2.1))
        = some (none, 0)) ∧
    (reads_nothing w (search_products_by_name_query t) →
      (search_products_by_name F w t).map (fun o => (o.1, o.2.1)) = some (none, 0)) ∧
    (reads_nothing w (calculate_cart_total_query k) →
      (calculate_cart_total F w k).map Prod.fst = some F.zero) ∧
    (reads_nothing w (get_cart_item_count_query k) →
      (get_cart_item_count w k).map Prod.fst = some 0) ∧
    (reads_nothing w (verify_user_credentials_query t h) →
      (verify_user_credentials w t h).1 = false) ∧
    (∀ v : World ref_server, is_int k → cart_rows_of v.db k = [] →
      (calculate_cart_total F v k).map Prod.fst = some F.zero ∧
      (get_cart_item_count v k).map Prod.fst = some 0) :=
  ⟨fetch_one_nothing _ w _, fetch_one_nothing _ w _, fetch_one_nothing _ w _,
   fetch_one_nothing _ w _, fetch_one_nothing _ w _, fetch_one_nothing _ w _,
   fetch_one_nothing _ w _, fetch_one_nothing _ w _,
   fetch_all_nothing _ w _, fetch_all_nothing _ w _, fetch_all_nothing _ w _,
   fetch_all_nothing _ w _, fetch_all_nothing _ w _, fetch_all_nothing _ w _,
   fetch_all_nothing _ w _, fetch_all_nothing _ w _, fetch_all_nothing _ w _,
   fetch_all_nothing _ w _,
   total_nothing F w k, count_nothing w k, verify_nothing w t h,
   fun v hk hn => ⟨total_no_rows F v k hk hn, count_no_rows v k hk hn⟩⟩

/-- Witness of C16: a store that rejects every statement and the store without rows give the
same answers: no user 1, no users at all, the cart total 0.0, the cart count 0, credentials
refused. -/
theorem failure_reads_as_empty_witness :
    (reads_nothing (boot (S := stub_server (Reply.error (bytes "gone away"))) () [])
        (get_user_by_id_query 1) ∧
      (get_user_by_id (boot (S := stub_server (Reply.error (bytes "gone away"))) () [])
        1).map Prod.fst = some none) ∧
    (reads_nothing (boot (S := ref_server) empty_db []) (get_user_by_id_query 1) ∧
      (get_user_by_id (boot (S := ref_server) empty_db []) 1).map Prod.fst = some none) ∧
    (reads_nothing (boot (S := stub_server (Reply.error (bytes "gone away"))) () [])
        (bytes "SELECT * FROM users ORDER BY user_id") ∧
      (get_all_users (boot (S := stub_server (Reply.error (bytes "gone away"))) () [])).map
        (fun o => (o.1, o.2.1)) = some (none, 0)) ∧
    (reads_nothing (boot (S := ref_server) empty_db [])
        (bytes "SELECT * FROM users ORDER BY user_id") ∧
      (get_all_users (boot (S := ref_server) empty_db [])).map (fun o => (o.1, o.2.1))
        = some (none, 0)) ∧
    (reads_nothing (boot (S := stub_server (Reply.error (bytes "gone away"))) () [])
        (calculate_cart_total_query 1) ∧
      (calculate_cart_total fixed_point
        (boot (S := stub_server (Reply.error (bytes "gone away"))) () []) 1).map Prod.fst
        = some fixed_point.zero) ∧
    (is_int 1 ∧ cart_rows_of empty_db 1 = [] ∧
      (calculate_cart_total fixed_point (boot (S := ref_server) empty_db []) 1).map Prod.fst
        = some fixed_point.zero ∧
      (get_cart_item_count (boot (S := ref_server) empty_db []) 1).map Prod.fst = some 0) ∧
    (reads_nothing (boot (S := stub_server (Reply.error (bytes "gone away"))) () [])
        (verify_user_credentials_query (bytes "alice") (bytes "5f4dcc3b")) ∧
      (verify_user_credentials
        (boot (S := stub_server (Reply.error (bytes "gone away"))) () []) (bytes "alice")
        (bytes "5f4dcc3b")).1 = false) ∧
    (reads_nothing (boot (S := ref_server) empty_db [])
        (verify_user_credentials_query (bytes "alice") (bytes "5f4dcc3b")) ∧
      (verify_user_credentials (boot (S := ref_server) empty_db []) (bytes "alice")
        (bytes "5f4dcc3b")).1 = false) :=
  ⟨⟨by decide,
    (failure_reads_as_empty fixed_point
      (boot (S := stub_server (Reply.error (bytes "gone away"))) () []) 1 (bytes "alice")
      (bytes "5f4dcc3b") 0 0).1 (by decide)⟩,
   ⟨by decide,
    (failure_reads_as_empty fixed_point (boot (S := ref_server) empty_db []) 1
      (bytes "alice") (bytes "5f4dcc3b") 0 0).1 (by decide)⟩,
   ⟨by decide,
    (failure_reads_as_empty fixed_point
      (boot (S := stub_server (Reply.error (bytes "gone away"))) () []) 1 (bytes "alice")
      (bytes "5f4dcc3b") 0 0).2.2.2.2.2.2.2.2.1 (by decide)⟩,
   ⟨by decide,
    (failure_reads_as_empty fixed_point (boot (S := ref_server) empty_db []) 1
      (bytes "alice") (bytes "5f4dcc3b") 0 0).2.2.2.2.2.2.2.2.1 (by decide)⟩,
   ⟨by decide,
    (failure_reads_as_empty fixed_point
      (boot (S := stub_server (Reply.error (bytes "gone away"))) () []) 1 (bytes "alice")
      (bytes "5f4dcc3b") 0 0).2.2.2.2.2.2.2.2.2.2.2.2.2.2.2.2.2.2.1 (by decide)⟩,
   ⟨by decide, by decide,
    (failure_reads_as_empty fixed_point (boot (S := ref_server) empty_db []) 1
      (bytes "alice") (bytes "5f4dcc3b") 0 0).2.2.2.2.2.2.2.2.2.2.2.2.2.2.2.2.2.2.2.2.2
      (boot (S := ref_server) empty_db []) (by decide) (by decide)⟩,
   ⟨by decide,
    (failure_reads_as_empty fixed_point
      (boot (S := stub_server (Reply.error (bytes "gone away"))) () []) 1 (bytes "alice")
      (bytes "5f4dcc3b") 0 0).2.2.2.2.2.2.2.2.2.2.2.2.2.2.2.2.2.2.2.2.1 (by decide)⟩,
   ⟨by decide,
    (failure_reads_as_empty fixed_point (boot (S := ref_server) empty_db []) 1
      (bytes "alice") (bytes "5f4dcc3b") 0 0).2.2.2.2.2.2.2.2.2.2.2.2.2.2.2.2.2.2.2.2.1
      (by decide)⟩⟩

theorem get_order_by_id_fill_set_status {D : Type} (F : FloatOps D) (row : MYSQL_ROW)
    (junk : Nat → Nat) (o : Order D) (s : CStr)
    (h : get_order_by_id_fill F row junk = some o) :
    get_order_by_id_fill F (row.set 3 (some s)) junk
      = some { o with status := strncpy (junk_buf junk 20) s 19 } := by
  unfold get_order_by_id_fill at h ⊢
  by_cases hok : row_ok 11 row = true
  · have hlen := row_ok_length _ _ hok
    simp only [hok, if_true, Option.some.injEq] at h
    simp only [row_ok_set, hok, if_true, Option.some.injEq]
    subst h
    have h3 : 3 < row.length := by omega
    simp [col_atoi, col_str, col_dbl, col_int, List.getElem?_set, h3, fresh_order]
  · simp [hok] at h

/-- C17 (as stated) fails: the store holds order 1; `update_order_status` of order 1 to the
status "shi", backslash, "pped" returns true, and the order then has the status "shipped",
because the server reads the backslash as an escape. -/
theorem status_escape_is_dropped :
    (update_order_status (boot (S := ref_server) one_order_db []) 1 escaped_status).1 = true ∧
    (update_order_status (boot (S := ref_server) one_order_db []) 1
        escaped_status).2.db.orders.rows.map (fun r => (cell r 0, cell r 3))
      = [(Val.int 1, Val.text (bytes "shipped"))] ∧
    escaped_status ≠ bytes "shipped" := by
  decide

/-- C17 (amended): for a status text s without quote and backslash, of at most 190 bytes, on
a store where get_order_by_id(k) returns a record, after update_order_status(k, s) has
returned true get_order_by_id(k) returns that record with the status field rewritten from s
(the string s itself when s has at most 18 bytes) and every other field as before; the
lookup of every other order, the other order rows and the other tables are unchanged. -/
theorem update_order_status_frame {D : Type} (F : FloatOps D) (w : World ref_server)
    (k : Int) (s : CStr) (o : Order D) (hk : is_int k) (hs : clean s) (hl : s.length ≤ 190)
    (hget : (get_order_by_id F w k).map Prod.fst = some (some o))
    (_hupd : (update_order_status w k s).1 = true) :
    (get_order_by_id F (update_order_status w k s).2 k).map Prod.fst
      = some (some { o with status := strncpy (junk_buf w.junk 20) s 19 }) ∧
    (s.length ≤ 18 → (∀ b ∈ s, b ≠ 0) → cstr (strncpy (junk_buf w.junk 20) s 19) = s) ∧
    (∀ j, is_int j → j ≠ k →
      (get_order_by_id F (update_order_status w k s).2 j).map Prod.fst
        = (get_order_by_id F w j).map Prod.fst) ∧
    ((update_order_status w k s).2.db.orders.rows.filter
        (fun r => !val_eq w.db.coll (cell r 0) (Val.int k))
      = w.db.orders.rows.filter (fun r => !val_eq w.db.coll (cell r 0) (Val.int k))) ∧
    (update_order_status w k s).2.db.users = w.db.users ∧
    (update_order_status w k s).2.db.products = w.db.products ∧
    (update_order_status w k s).2.db.order_items = w.db.order_items ∧
    (update_order_status w k s).2.db.cart_items = w.db.cart_items := by
  have hq : ∀ (db : DB) (j : Int), is_int j → ref_exec db (get_order_by_id_query j)
      = run_select TableName.orders [0] none [Val.int j] db :=
    fun db j hj => exec_get_order_by_id db j hj
  have hu : ref_exec w.db (update_order_status_query k s)
      = run_update TableName.orders [3] 0 [Val.text s, Val.int k] w.db :=
    exec_update_order_status w.db s k hs hl hk
  have hdb : (update_order_status w k s).2.db
      = (run_update TableName.orders [3] 0 [Val.text s, Val.int k] w.db).2 := by
    unfold update_order_status
    rw [execute_query_db, ref_server_exec, hu]
  have hjunk : (update_order_status w k s).2.junk = w.junk := execute_query_junk w _
  have hall : alloc_ok (update_order_status w k s).2 = alloc_ok w :=
    alloc_ok_congr _ _ (execute_query_oracle w _)
  have hf0 : ∀ r, cell (set_cols [(3, Val.text s)] r) 0 = cell r 0 :=
    fun r => cell_set_cols_zero _ r (by simp)
  have hrun : (run_update TableName.orders [3] 0 [Val.text s, Val.int k] w.db).2
      = w.db.set TableName.orders (w.db.orders.update
          (fun r => val_eq w.db.coll (cell r 0) (Val.int k)) (set_cols [(3, Val.text s)])) := by
    simp [run_update, DB.get]
  refine ⟨?_, ?_, ?_, ?_, ?_, ?_, ?_, ?_⟩
  · unfold get_order_by_id at hget ⊢
    rw [fetch_one_fst, ref_server_exec, hq _ _ hk] at hget ⊢
    rw [hjunk, hall, hdb, hrun]
    simp only [run_select, List.length_cons, List.length_nil, if_true, get_set, coll_set,
      order_rows, List.zip_cons_cons, List.zip_nil_right] at hget ⊢
    rw [show w.db.get TableName.orders = w.db.orders from rfl] at hget
    rw [filter_update_same _ _ _ _ hf0]
    cases hrows : w.db.orders.rows.filter (conds_hold w.db.coll [(0, Val.int k)]) with
    | nil =>
      rw [hrows, lookup_spec_nil] at hget
      simp at hget
    | cons r rest =>
      rw [hrows, lookup_spec_rows] at hget
      rw [List.map_cons, lookup_spec_rows]
      by_cases ha : alloc_ok w = true
      · simp only [ha, if_true] at hget ⊢
        cases hfill : get_order_by_id_fill F (show_row r) w.junk with
        | none => rw [hfill] at hget; simp at hget
        | some p0 =>
          rw [hfill] at hget
          simp only [Option.some.injEq] at hget
          subst hget
          have := get_order_by_id_fill_set_status F (show_row r) w.junk p0 s hfill
          simp only [set_cols, List.foldl_cons, List.foldl_nil, show_row_set, Val.show, this]
      · simp [ha] at hget
  · intro h18 h0
    exact cstr_strncpy _ _ _ h0 (by omega)
  · intro j hj hjk
    unfold get_order_by_id
    rw [fetch_one_fst, fetch_one_fst, ref_server_exec, ref_server_exec, hq _ _ hj, hq _ _ hj,
      hjunk, hall, hdb, hrun]
    simp only [run_select, List.length_cons, List.length_nil, if_true, get_set, coll_set,
      order_rows, List.zip_cons_cons, List.zip_nil_right]
    rw [show w.db.get TableName.orders = w.db.orders from rfl]
    rw [filter_update_other _ _ _ _ hjk _ hf0]
  · rw [hdb, hrun]
    simp only [DB.set]
    exact filter_update_rest _ _ _ (fun r => by rw [hf0])
  · rw [hdb, hrun]; rfl
  · rw [hdb, hrun]; rfl
  · rw [hdb, hrun]; rfl
  · rw [hdb, hrun]; rfl

/-- Witness of C17 (amended): on the store that holds the sample order as order 1, the status
"shipped". -/
theorem update_order_status_frame_witness :
    ∃ o, (get_order_by_id fixed_point (boot (S := ref_server) one_order_db []) 1).map Prod.fst
        = some (some o) ∧
      is_int 1 ∧ clean (bytes "shipped") ∧
      (update_order_status (boot (S := ref_server) one_order_db []) 1 (bytes "shipped")).1
        = true ∧
      (get_order_by_id fixed_point
          (update_order_status (boot (S := ref_server) one_order_db []) 1
            (bytes "shipped")).2 1).map Prod.fst
        = some (some { o with status := strncpy (junk_buf (fun _ => 170) 20)
                                          (bytes "shipped") 19 }) ∧
      cstr (strncpy (junk_buf (fun _ => 170) 20) (bytes "shipped") 19) = bytes "shipped" :=
  ⟨_, rfl, by decide, by decide, rfl,
   (update_order_status_frame fixed_point (boot (S := ref_server) one_order_db []) 1
      (bytes "shipped") _ (by decide) (by decide) (by decide) rfl rfl).1,
   (update_order_status_frame fixed_point (boot (S := ref_server) one_order_db []) 1
      (bytes "shipped") _ (by decide) (by decide) (by decide) rfl rfl).2.1 (by decide)
      (by decide)⟩

/-- C18: for each create operation, two input records that differ only in their identifier
give the same insert statement, hence the same call of the store and the same result: the
identifier supplied by the caller is not sent. -/
theorem identifier_never_sent {D : Type} (F : FloatOps D) (w : World S) (u : User)
    (p : Product D) (o : Order D) (i : OrderItem D) (c : CartItem) (k : Int) :
    create_user_query { u with user_id := k } = create_user_query u ∧
    create_product_query F { p with product_id := k } = create_product_query F p ∧
    create_order_query F { o with order_id := k } = create_order_query F o ∧
    create_order_item_query F { i with order_item_id := k } = create_order_item_query F i ∧
    add_to_cart_query { c with cart_item_id := k } = add_to_cart_query c ∧
    create_user w { u with user_id := k } = create_user w u ∧
    create_product F w { p with product_id := k } = create_product F w p ∧
    create_order F w { o with order_id := k } = create_order F w o ∧
    create_order_item F w { i with order_item_id := k } = create_order_item F w i ∧
    add_to_cart w { c with cart_item_id := k } = add_to_cart w c :=
  ⟨rfl, rfl, rfl, rfl, rfl, rfl, rfl, rfl, rfl, rfl⟩

/-- C19: `db_connect` returns a connection exactly when `mysql_init`, `mysql_real_connect`
and `mysql_set_character_set` with "utf8mb4" all succeed; it calls `mysql_init` once,
`mysql_real_connect` once if the handle was made and `mysql_set_character_set` once if the
connect call succeeded; it calls `mysql_close` once, as its last call and on the handle it
made, when the connect call or the character-set call fails, and not at all otherwise. -/
theorem db_connect_result (o : Outcome) (c : Client) :
    ∃ calls, (db_connect o c).map (fun x => (x.1, x.2.calls))
        = some (if o.init_ok && o.connect_ok && o.charset_ok then some c.next else none,
                c.calls ++ calls) ∧
      inits calls = 1 ∧
      connects calls = (if o.init_ok then 1 else 0) ∧
      charsets calls = (if o.init_ok && o.connect_ok then 1 else 0) ∧
      closes calls = (if o.init_ok && !(o.connect_ok && o.charset_ok) then 1 else 0) ∧
      (if o.init_ok && !(o.connect_ok && o.charset_ok)
        then calls.getLast? = some (Call.close c.next) else True) ∧
      (if o.init_ok && o.connect_ok && o.charset_ok
        then (db_connect o c).map (fun x => x.2.live) = some (c.next :: c.live) else True) := by
  obtain ⟨i, co, ch, err⟩ := o
  cases i
  · refine ⟨[Call.init, Call.diag (bytes "mysql_init() failed" ++ [10])], ?_⟩
    simp [db_connect, inits, connects, charsets, closes]
  · cases co
    · refine ⟨[Call.init, Call.real_connect "localhost" "root" "password" "ec_site",
        Call.diag (bytes "mysql_real_connect() failed: " ++ err ++ [10]),
        Call.close c.next], ?_⟩
      simp [db_connect, mysql_close, inits, connects, charsets, closes]
    · cases ch
      · refine ⟨[Call.init, Call.real_connect "localhost" "root" "password" "ec_site",
          Call.set_character_set "utf8mb4",
          Call.diag (bytes "mysql_set_character_set() failed: " ++ err ++ [10]),
          Call.close c.next], ?_⟩
        simp [db_connect, mysql_close, inits, connects, charsets, closes]
      · refine ⟨[Call.init, Call.real_connect "localhost" "root" "password" "ec_site",
          Call.set_character_set "utf8mb4"], ?_⟩
        simp [db_connect, inits, connects, charsets, closes]

/-- C20 (as stated) fails: after `db_connect` has returned the connection 0, the first
`db_disconnect` of it closes the session, and the second one hands the released handle to
`mysql_close` again: it is not a no-op, and what it does is undefined. -/
theorem disconnect_twice_closes_twice :
    (db_connect all_ok fresh_client).map Prod.fst = some (some 0) ∧
    (db_disconnect connected_client (some 0)).map (fun c => (c.live, c.calls))
      = some ([], [Call.close 0]) ∧
    (db_disconnect connected_client (some 0)).bind (fun c => db_disconnect c (some 0))
      = none := by
  decide

/-- C20 (amended): `db_disconnect` of a live connection releases it with exactly one call of
`mysql_close`, and `db_disconnect` of the null connection calls nothing; only the null
connection makes it a no-op: a second `db_disconnect` of the same connection hands the
released handle to `mysql_close` again, which is undefined. -/
theorem db_disconnect_result (c : Client) (h : Nat) (hl : h ∈ c.live) :
    (∃ c1, db_disconnect c (some h) = some c1 ∧ c1.calls = c.calls ++ [Call.close h] ∧
      h ∉ c1.live ∧ (∀ x ∈ c.live, x ≠ h → x ∈ c1.live)) ∧
    db_disconnect c none = some c ∧
    (db_disconnect c (some h)).bind (fun c1 => db_disconnect c1 (some h)) = none := by
  refine ⟨⟨{ c with live := c.live.filter (fun x => decide (x ≠ h)),
                     calls := c.calls ++ [Call.close h] }, ?_, rfl, ?_, ?_⟩, rfl, ?_⟩
  · simp [db_disconnect, mysql_close, hl]
  · simp
  · intro x hx hne
    simp [hx, hne]
  · simp [db_disconnect, mysql_close, hl]

/-- Witness of C20 (amended): the process that holds the live connection 0. -/
theorem db_disconnect_result_witness :
    (0 : Nat) ∈ connected_client.live ∧
    (∃ c1, db_disconnect connected_client (some 0) = some c1 ∧
      c1.calls = connected_client.calls ++ [Call.close 0] ∧
      0 ∉ c1.live ∧ (∀ x ∈ connected_client.live, x ≠ 0 → x ∈ c1.live)) ∧
    db_disconnect connected_client none = some connected_client :=
  ⟨by decide,
   (db_disconnect_result connected_client 0 (by decide)).1,
   (db_disconnect_result connected_client 0 (by decide)).2.1⟩

/-- The statements of `create_user` and `update_user` are the `INSERT` and the `UPDATE`
written from the columns and the values of the record, cut to the buffer. -/
theorem user_statements_cut (u : User) :
    create_user_query u
        = (insert_statement "users" User.columns (User.written u) []).take 1023 ∧
      update_user_query u
        = (update_statement "users" User.columns (User.written u) "user_id"
            u.user_id).take 1023 := by
  refine ⟨?_, ?_⟩
  · unfold create_user_query snprintf; congr 1
    simp [vformat, insert_statement, sep_join, User.columns, User.written, Lit.show, bytes]
  · unfold update_user_query snprintf; congr 1
    simp [vformat, update_statement, sep_join, User.columns, User.written, Lit.show, bytes]

/-- The statements of `create_product` and `update_product`, cut to the buffer. -/
theorem product_statements_cut {D : Type} (F : FloatOps D) (p : Product D) :
    create_product_query F p
        = (insert_statement "products" Product.columns (Product.written F p) []).take 2047 ∧
      update_product_query F p
        = (update_statement "products" Product.columns (Product.written F p) "product_id"
            p.product_id).take 2047 := by
  refine ⟨?_, ?_⟩
  · unfold create_product_query snprintf; congr 1
    simp [vformat, insert_statement, sep_join, Product.columns, Product.written, Lit.show, bytes]
  · unfold update_product_query snprintf; congr 1
    simp [vformat, update_statement, sep_join, Product.columns, Product.written, Lit.show, bytes]

/-- The statements of `create_order` and `update_order`, cut to the buffer. -/
theorem order_statements_cut {D : Type} (F : FloatOps D) (o : Order D) :
    create_order_query F o
        = (insert_statement "orders" Order.columns (Order.written F o) []).take 2047 ∧
      update_order_query F o
        = (update_statement "orders" Order.columns (Order.written F o) "order_id"
            o.order_id).take 2047 := by
  refine ⟨?_, ?_⟩
  · unfold create_order_query snprintf; congr 1
    simp [vformat, insert_statement, sep_join, Order.columns, Order.written, Lit.show, bytes]
  · unfold update_order_query snprintf; congr 1
    simp [vformat, update_statement, sep_join, Order.columns, Order.written, Lit.show, bytes]

/-- The statements of `create_order_item` and `update_order_item`, cut to the buffer. -/
theorem order_item_statements_cut {D : Type} (F : FloatOps D) (i : OrderItem D) :
    create_order_item_query F i
        = (insert_statement "order_items" OrderItem.columns (OrderItem.written F i)
            []).take 511 ∧
      update_order_item_query F i
        = (update_statement "order_items" OrderItem.columns (OrderItem.written F i)
            "order_item_id" i.order_item_id).take 511 := by
  refine ⟨?_, ?_⟩
  · unfold create_order_item_query snprintf; congr 1
    simp [vformat, insert_statement, sep_join, OrderItem.columns, OrderItem.written, Lit.show, bytes]
  · unfold update_order_item_query snprintf; congr 1
    simp [vformat, update_statement, sep_join, OrderItem.columns, OrderItem.written, Lit.show, bytes]

/-- The statements of `add_to_cart` and `update_cart_item`, cut to the buffer. -/
theorem cart_item_statements_cut (c : CartItem) :
    add_to_cart_query c
        = (insert_statement "cart_items" CartItem.columns (CartItem.written c)
            (bytes " ON DUPLICATE KEY UPDATE quantity = quantity + "
              ++ fmt_d c.quantity)).take 511 ∧
      update_cart_item_query c
        = (update_statement "cart_items" CartItem.columns (CartItem.written c) "cart_item_id"
            c.cart_item_id).take 511 := by
  refine ⟨?_, ?_⟩
  · unfold add_to_cart_query snprintf; congr 1
    simp [vformat, insert_statement, sep_join, CartItem.columns, CartItem.written, Lit.show,
      bytes]
  · unfold update_cart_item_query snprintf; congr 1
    simp [vformat, update_statement, sep_join, CartItem.columns, CartItem.written, Lit.show,
      bytes]

theorem snprintf_fits (size : Nat) (fmt : String) (args : List Arg) (t : CStr)
    (ht : vformat (bytes fmt) args = t) (h : t.length ≤ size - 1) :
    snprintf size fmt args = t := by
  unfold snprintf
  rw [ht]
  exact List.take_of_length_le h

/-- C23: each statement with a text argument is the fixed text of its format with the
argument in its place, byte for byte, whenever the whole fits the buffer; for a username of
at most 216 bytes `get_user_by_username` builds "SELECT * FROM users WHERE username = '",
the username, "'", whatever bytes the username holds. -/
theorem text_is_interpolated (u h : CStr) (k : Int) :
    (u.length ≤ 216 →
      get_user_by_username_query u
        = bytes "SELECT * FROM users WHERE username = '" ++ (u ++ bytes "'")) ∧
    (u.length ≤ 219 →
      get_user_by_email_query u
        = bytes "SELECT * FROM users WHERE email = '" ++ (u ++ bytes "'")) ∧
    (u.length ≤ 218 →
      get_product_by_sku_query u
        = bytes "SELECT * FROM products WHERE sku = '" ++ (u ++ bytes "'")) ∧
    (u.length ≤ 192 →
      get_orders_by_status_query u
        = bytes "SELECT * FROM orders WHERE status = '"
            ++ (u ++ bytes "' ORDER BY order_date DESC")) ∧
    (u.length ≤ 440 →
      search_products_by_name_query u
        = bytes "SELECT * FROM products WHERE product_name LIKE '%"
            ++ (u ++ bytes "%' ORDER BY product_id")) ∧
    (u.length + h.length ≤ 425 →
      verify_user_credentials_query u h
        = bytes "SELECT user_id FROM users WHERE username = '"
            ++ (u ++ (bytes "' AND password_hash = '" ++ (h ++ bytes "' AND is_active = 1")))) ∧
    (u.length + (fmt_d k).length ≤ 208 →
      update_order_status_query k u
        = bytes "UPDATE orders SET status = '"
            ++ (u ++ (bytes "' WHERE order_id = " ++ fmt_d k))) := by
  have l1 : (bytes "SELECT * FROM users WHERE username = '").length = 38 := by decide
  have l2 : (bytes "SELECT * FROM users WHERE email = '").length = 35 := by decide
  have l3 : (bytes "SELECT * FROM products WHERE sku = '").length = 36 := by decide
  have l4 : (bytes "SELECT * FROM orders WHERE status = '").length = 37 := by decide
  have l5 : (bytes "' ORDER BY order_date DESC").length = 26 := by decide
  have l6 : (bytes "SELECT * FROM products WHERE product_name LIKE '%").length = 49 := by
    decide
  have l7 : (bytes "%' ORDER BY product_id").length = 22 := by decide
  have l8 : (bytes "SELECT user_id FROM users WHERE username = '").length = 44 := by decide
  have l9 : (bytes "' AND password_hash = '").length = 23 := by decide
  have l10 : (bytes "' AND is_active = 1").length = 19 := by decide
  have l11 : (bytes "UPDATE orders SET status = '").length = 28 := by decide
  have l12 : (bytes "' WHERE order_id = ").length = 19 := by decide
  have l13 : (bytes "'").length = 1 := by decide
  refine ⟨fun hl => ?_, fun hl => ?_, fun hl => ?_, fun hl => ?_, fun hl => ?_, fun hl => ?_,
    fun hl => ?_⟩
  · exact snprintf_fits _ _ _ _ rfl (by simp only [List.length_append, l1, l13]; omega)
  · exact snprintf_fits _ _ _ _ rfl (by simp only [List.length_append, l2, l13]; omega)
  · exact snprintf_fits _ _ _ _ rfl (by simp only [List.length_append, l3, l13]; omega)
  · exact snprintf_fits _ _ _ _ rfl (by simp only [List.length_append, l4, l5]; omega)
  · exact snprintf_fits _ _ _ _ rfl (by simp only [List.length_append, l6, l7]; omega)
  · exact snprintf_fits _ _ _ _ rfl
      (by simp only [List.length_append, l8, l9, l10]; omega)
  · refine snprintf_fits _ _ _ _ ?_ (by simp only [List.length_append, l11, l12]; omega)
    show _ = bytes "UPDATE orders SET status = '"
            ++ (u ++ (bytes "' WHERE order_id = " ++ fmt_d k))
    rw [← List.append_nil (fmt_d k)]
    rfl

/-- Witness of C23: a username that holds single quotes. -/
theorem text_is_interpolated_witness :
    quote_name.length ≤ 216 ∧ 39 ∈ quote_name ∧
    get_user_by_username_query quote_name
      = bytes "SELECT * FROM users WHERE username = '" ++ (quote_name ++ bytes "'") :=
  ⟨by decide, by decide, (text_is_interpolated quote_name [] 0).1 (by decide)⟩

/-- C27: the row mappings written out in several functions of one entity are the same
function of the row and the fresh record. -/
theorem duplicated_mappings_agree {D : Type} (F : FloatOps D) (row : MYSQL_ROW)
    (junk : Nat → Nat) :
    (get_user_by_username_fill row junk = get_user_by_id_fill row junk ∧
      get_user_by_email_fill row junk = get_user_by_id_fill row junk ∧
      get_all_users_fill row junk = get_user_by_id_fill row junk) ∧
    (get_product_by_sku_fill F row junk = get_product_by_id_fill F row junk ∧
      get_all_products_fill F row junk = get_product_by_id_fill F row junk ∧
      get_products_by_category_fill F row junk = get_product_by_id_fill F row junk ∧
      search_products_by_name_fill F row junk = get_product_by_id_fill F row junk ∧
      get_products_by_price_range_fill F row junk = get_product_by_id_fill F row junk) ∧
    (get_orders_by_user_fill F row junk = get_order_by_id_fill F row junk ∧
      get_all_orders_fill F row junk = get_order_by_id_fill F row junk ∧
      get_orders_by_status_fill F row junk = get_order_by_id_fill F row junk) ∧
    get_order_items_by_order_fill F row junk = get_order_item_by_id_fill F row junk ∧
    get_cart_items_by_user_fill row junk = get_cart_item_by_id_fill row junk :=
  ⟨⟨rfl, rfl, rfl⟩, ⟨rfl, rfl, rfl, rfl, rfl⟩, ⟨rfl, rfl, rfl⟩, rfl, rfl⟩

/-- The user row with a username of 60 bytes, mapped into memory whose bytes are 170: the
username field has 51 bytes, none of them NUL. -/
theorem long_username_not_terminated :
    ∃ g, get_user_by_id_fill long_name_row (fun _ => 170) = some g ∧
      (col_str long_name_row 1).length = 60 ∧ g.username.length = 51 ∧ 0 ∉ g.username :=
  ⟨_, rfl, by decide, by decide, by decide⟩

theorem create_user_text (u : User) :
    vformat
        (bytes "INSERT INTO users (username, email, password_hash, first_name, last_name, phone, is_active) VALUES ('%s', '%s', '%s', '%s', '%s', '%s', %d)")
        [Arg.s (cstr u.username), Arg.s (cstr u.email), Arg.s (cstr u.password_hash),
         Arg.s (cstr u.first_name), Arg.s (cstr u.last_name), Arg.s (cstr u.phone),
         Arg.d (bool_int u.is_active)]
      = insert_statement "users" User.columns (User.written u) [] := by
  simp [vformat, insert_statement, sep_join, User.columns, User.written, Lit.show, bytes]

theorem update_user_text (u : User) :
    vformat
        (bytes "UPDATE users SET username='%s', email='%s', password_hash='%s', first_name='%s', last_name='%s', phone='%s', is_active=%d WHERE user_id=%d")
        [Arg.s (cstr u.username), Arg.s (cstr u.email), Arg.s (cstr u.password_hash),
         Arg.s (cstr u.first_name), Arg.s (cstr u.last_name), Arg.s (cstr u.phone),
         Arg.d (bool_int u.is_active), Arg.d u.user_id]
      = update_statement "users" User.columns (User.written u) "user_id" u.user_id := by
  simp [vformat, update_statement, sep_join, User.columns, User.written, Lit.show, bytes]

theorem insert_user_length (u : User) :
    (insert_statement "users" User.columns (User.written u) []).length
      = 125 + ((cstr u.username).length + (cstr u.email).length
          + (cstr u.password_hash).length + (cstr u.first_name).length
          + (cstr u.last_name).length + (cstr u.phone).length) + 1 := by
  have hb : (fmt_d (bool_int u.is_active)).length = 1 := by rw [fmt_d_bool]; rfl
  simp [insert_statement, sep_join, User.columns, User.written, Lit.show, bytes, hb]
  omega

theorem update_user_length (u : User) :
    (update_statement "users" User.columns (User.written u) "user_id" u.user_id).length
      = 122 + ((cstr u.username).length + (cstr u.email).length
          + (cstr u.password_hash).length + (cstr u.first_name).length
          + (cstr u.last_name).length + (cstr u.phone).length) + 1
        + (fmt_d u.user_id).length := by
  have hb : (fmt_d (bool_int u.is_active)).length = 1 := by rw [fmt_d_bool]; rfl
  simp [update_statement, sep_join, User.columns, User.written, Lit.show, bytes, hb]
  omega

/-- C28: for a user whose text fields hold strings within their capacities (username, first
and last name at most 50 bytes, email at most 100, password_hash at most 255, phone at most
20) and whose identifier is an `int`, the statements of `create_user` and `update_user` have
at most 651 and 659 bytes: they are shorter than the buffer of 1024 bytes and are sent
whole. -/
theorem user_statements_fit (u : User) (h1 : (cstr u.username).length ≤ 50)
    (h2 : (cstr u.email).length ≤ 100) (h3 : (cstr u.password_hash).length ≤ 255)
    (h4 : (cstr u.first_name).length ≤ 50) (h5 : (cstr u.last_name).length ≤ 50)
    (h6 : (cstr u.phone).length ≤ 20) (hid : is_int u.user_id) :
    (insert_statement "users" User.columns (User.written u) []).length ≤ 651 ∧
    create_user_query u = insert_statement "users" User.columns (User.written u) [] ∧
    (create_user_query u).length < 1024 ∧
    (update_statement "users" User.columns (User.written u) "user_id" u.user_id).length
      ≤ 659 ∧
    update_user_query u
      = update_statement "users" User.columns (User.written u) "user_id" u.user_id ∧
    (update_user_query u).length < 1024 := by
  have hd := fmt_d_length u.user_id hid
  have hi := insert_user_length u
  have hu := update_user_length u
  have e1 : create_user_query u = insert_statement "users" User.columns (User.written u) [] :=
    snprintf_fits _ _ _ _ (create_user_text u) (by omega)
  have e2 : update_user_query u
      = update_statement "users" User.columns (User.written u) "user_id" u.user_id :=
    snprintf_fits _ _ _ _ (update_user_text u) (by omega)
  refine ⟨by omega, e1, ?_, by omega, e2, ?_⟩
  · rw [e1]; omega
  · rw [e2]; omega

/-- Witness of C28: the sample user. -/
theorem user_statements_fit_witness :
    (cstr sample_user.username).length ≤ 50 ∧ is_int sample_user.user_id ∧
    create_user_query sample_user
      = insert_statement "users" User.columns (User.written sample_user) [] ∧
    (create_user_query sample_user).length < 1024 ∧
    (update_user_query sample_user).length < 1024 :=
  ⟨by decide, by decide,
   (user_statements_fit sample_user (by decide) (by decide) (by decide) (by decide)
      (by decide) (by decide) (by decide)).2.1,
   (user_statements_fit sample_user (by decide) (by decide) (by decide) (by decide)
      (by decide) (by decide) (by decide)).2.2.1,
   (user_statements_fit sample_user (by decide) (by decide) (by decide) (by decide)
      (by decide) (by decide) (by decide)).2.2.2.2.2⟩

theorem foldl_free_log (blks : List Nat) :
    ∀ w : World S, (blks.foldl free w).log = w.log ++ blks.map Event.free := by
  induction blks with
  | nil => intro w; simp
  | cons b blks ih =>
    intro w
    rw [List.foldl_cons, ih]
    simp [free]

theorem range_succ_map {α : Type} (f : Nat → α) (k : Nat) :
    (List.range (k + 1)).map f = f 0 :: (List.range k).map (fun j => f (j + 1)) := by
  rw [List.range_succ_eq_map, List.map_cons, List.map_map]
  rfl

/-- The loop of a multi-row fetch whose allocator gives `k` records and then fails. -/
theorem fetch_loop_fail {T : Type} (fill : MYSQL_ROW → (Nat → Nat) → Option T) (arr : Nat)
    (result : MYSQL_RES) :
    ∀ (k : Nat) (rows : List MYSQL_ROW) (w : World S) (blks : List Nat) (acc : List T)
      (rest : List Bool),
      k < rows.length → w.oracle = List.replicate k true ++ false :: rest →
      (∀ r ∈ rows.take k, (fill r w.junk).isSome = true) →
      ∃ w1, fetch_loop fill arr result w rows blks acc = some (none, w1) ∧
        w1.log = w.log ++
          ((List.range k).map (fun j => Event.malloc (w.next_block + j)) ++
           ([Event.malloc_failed] ++
            ((blks ++ (List.range k).map (fun j => w.next_block + j)).map Event.free ++
             [Event.free arr, Event.free_result result.id]))) := by
  intro k
  induction k with
  | zero =>
    intro rows w blks acc rest hk ho _
    obtain ⟨db, iid, err, pend, oracle, junk, nb, log⟩ := w
    simp only [List.replicate_zero, List.nil_append] at ho
    subst ho
    cases rows with
    | nil => simp at hk
    | cons r rs =>
      refine ⟨_, rfl, ?_⟩
      simp [malloc, mysql_free_result, free, foldl_free_log]
  | succ k ih =>
    intro rows w blks acc rest hk ho hf
    obtain ⟨db, iid, err, pend, oracle, junk, nb, log⟩ := w
    simp only [List.replicate_succ, List.cons_append] at ho
    subst ho
    cases rows with
    | nil => simp at hk
    | cons r rs =>
      have hr := hf r (by simp)
      obtain ⟨t, ht⟩ := Option.isSome_iff_exists.mp hr
      have hk2 : k < rs.length := by simpa using hk
      obtain ⟨w1, h1, h2⟩ := ih rs
        ({ db := db, insert_id := iid, error := err, pending := pend,
           oracle := List.replicate k true ++ false :: rest, junk := junk,
           next_block := nb + 1, log := log ++ [Event.malloc nb] } : World S)
        (blks ++ [nb]) (acc ++ [t]) rest hk2 rfl
        (fun x hx => hf x (by simp [hx]))
      refine ⟨w1, ?_, ?_⟩
      · unfold fetch_loop
        simp only [malloc, ht]
        exact h1
      · rw [h2]
        simp only [range_succ_map, List.append_assoc, List.map_append, List.map_cons,
          List.map_nil, List.cons_append, List.nil_append, List.map_map, Nat.add_zero,
          Function.comp_def]
        simp [Nat.add_assoc, Nat.add_comm 1]

/-- A multi-row fetch whose allocator follows `alloc_plan k` releases what it allocated. -/
theorem fetch_all_fail {T : Type} (fill : MYSQL_ROW → (Nat → Nat) → Option T) (w : World S)
    (q : CStr) (k : Nat) (h : fails_at fill w q k) : cleans_up w q k (fetch_all fill w q) := by
  obtain ⟨id, rows, db1, rest, hex, hk, hlen, ho, hf⟩ := h
  obtain ⟨db, iid, err, pend, oracle, junk, nb, log⟩ := w
  simp only at hex ho hf
  subst ho
  have hw : wrap32 (rows.length : Int) = rows.length := by unfold wrap32; omega
  have hne : ¬ ((rows.length : Int) = 0) := by omega
  obtain ⟨w1, h1, h2⟩ := fetch_loop_fail fill (nb + 1)
    ({ id := nb, rows := rows, rest := rows } : MYSQL_RES) k rows
    ({ db := db1, insert_id := id, error := err, pending := none,
       oracle := List.replicate k true ++ false :: rest, junk := junk,
       next_block := nb + 1 + 1, log := log ++ [Event.query q] ++ [Event.store_result nb]
         ++ [Event.malloc (nb + 1)] } : World S)
    [] [] rest hk rfl hf
  refine ⟨w1, ?_, ?_⟩
  · unfold fetch_all execute_select_query mysql_query
    simp only [hex, mysql_store_result, mysql_num_rows, hw, ne_eq, not_true_eq_false, if_false]
    rw [if_neg hne]
    simp only [alloc_plan, malloc, List.cons_append, List.append_assoc, List.singleton_append]
    simp only [List.append_assoc, List.singleton_append, List.cons_append,
      List.nil_append] at h1 ⊢
    rw [h1]
  · rw [h2]
    simp [List.map_map, Function.comp_def, Nat.add_assoc]

/-- Claim C22: in each of the ten multi-row fetches, for every `k`, when the statement
succeeds with more than `k` rows, the sequence and the first `k` records are allocated and
the allocation of the record for row `k` fails, the fetch releases exactly those `k`
records, then the sequence, then the result set, each exactly once and nothing else, stores
0 in count and returns the null sequence. -/
theorem partial_failure_releases {D : Type} (F : FloatOps D) (w : World S) (k : Nat)
    (category_id user_id order_id : Int) (search_term status : CStr) (min_price max_price : D) :
    (fails_at (get_all_users_fill) w (bytes "SELECT * FROM users ORDER BY user_id") k →
      cleans_up w (bytes "SELECT * FROM users ORDER BY user_id") k (get_all_users w)) ∧
    (fails_at (get_all_products_fill F) w (bytes "SELECT * FROM products ORDER BY product_id") k →
      cleans_up w (bytes "SELECT * FROM products ORDER BY product_id") k (get_all_products F w)) ∧
    (fails_at (get_products_by_category_fill F) w (get_products_by_category_query category_id) k →
      cleans_up w (get_products_by_category_query category_id) k (get_products_by_category F w category_id)) ∧
    (fails_at (search_products_by_name_fill F) w (search_products_by_name_query search_term) k →
      cleans_up w (search_products_by_name_query search_term) k (search_products_by_name F w search_term)) ∧
    (fails_at (get_products_by_price_range_fill F) w (get_products_by_price_range_query F min_price max_price) k →
      cleans_up w (get_products_by_price_range_query F min_price max_price) k (get_products_by_price_range F w min_price max_price)) ∧
    (fails_at (get_orders_by_user_fill F) w (get_orders_by_user_query user_id) k →
      cleans_up w (get_orders_by_user_query user_id) k (get_orders_by_user F w user_id)) ∧
    (fails_at (get_all_orders_fill F) w (bytes "SELECT * FROM orders ORDER BY order_date DESC") k →
      cleans_up w (bytes "SELECT * FROM orders ORDER BY order_date DESC") k (get_all_orders F w)) ∧
    (fails_at (get_orders_by_status_fill F) w (get_orders_by_status_query status) k →
      cleans_up w (get_orders_by_status_query status) k (get_orders_by_status F w status)) ∧
    (fails_at (get_order_items_by_order_fill F) w (get_order_items_by_order_query order_id) k →
      cleans_up w (get_order_items_by_order_query order_id) k (get_order_items_by_order F w order_id)) ∧
    (fails_at (get_cart_items_by_user_fill) w (get_cart_items_by_user_query user_id) k →
      cleans_up w (get_cart_items_by_user_query user_id) k (get_cart_items_by_user w user_id)) :=
  ⟨fetch_all_fail _ w _ k, fetch_all_fail _ w _ k, fetch_all_fail _ w _ k,
   fetch_all_fail _ w _ k, fetch_all_fail _ w _ k, fetch_all_fail _ w _ k,
   fetch_all_fail _ w _ k, fetch_all_fail _ w _ k, fetch_all_fail _ w _ k,
   fetch_all_fail _ w _ k⟩

/-- Claim C22 at a store with three user rows, where the allocation for row 1 fails: the
fetch of all users returns the null sequence and its events are the statement, the stored
result set 0, the sequence 1, the record 2, the failed allocation, and the releases of 2, 1
and the result set 0. -/
theorem partial_failure_releases_witness :
    fails_at get_all_users_fill (boot (S := three_rows) () (alloc_plan 1))
        (bytes "SELECT * FROM users ORDER BY user_id") 1 ∧
      cleans_up (boot (S := three_rows) () (alloc_plan 1))
        (bytes "SELECT * FROM users ORDER BY user_id") 1
        (get_all_users (boot (S := three_rows) () (alloc_plan 1))) :=
  have h : fails_at get_all_users_fill (boot (S := three_rows) () (alloc_plan 1))
      (bytes "SELECT * FROM users ORDER BY user_id") 1 :=
    ⟨0, [numbered_row 1, numbered_row 2, numbered_row 3], (), [], rfl, by decide, by decide,
      by simp [boot], by decide⟩
  ⟨h, (partial_failure_releases fixed_point (boot (S := three_rows) () (alloc_plan 1)) 1
        0 0 0 [] [] 0 0).1 h⟩

theorem malloc_true (w : World S) (h : ∀ b ∈ w.oracle.take 1, b = true) :
    malloc w = (some w.next_block, { w with oracle := w.oracle.drop 1,
                                            next_block := w.next_block + 1,
                                            log := w.log ++ [Event.malloc w.next_block] }) := by
  obtain ⟨db, iid, err, pend, oracle, junk, nb, log⟩ := w
  cases oracle with
  | nil => rfl
  | cons b o =>
    have hb : b = true := h b (by simp)
    subst hb
    rfl

theorem mem_take_drop_one {α : Type} (l : List α) (n : Nat) (b : α)
    (h : b ∈ (l.drop 1).take n) : b ∈ l.take (n + 1) := by
  cases l with
  | nil => simp at h
  | cons x l => simp at h ⊢; exact Or.inr h

/-- The loop of a multi-row fetch whose allocations succeed. -/
theorem fetch_loop_maps {T : Type} (fill : MYSQL_ROW → (Nat → Nat) → Option T) (arr : Nat)
    (result : MYSQL_RES) (junk : Nat → Nat) :
    ∀ (rows : List MYSQL_ROW) (w : World S) (blks : List Nat) (acc : List T),
      (∀ b ∈ w.oracle.take rows.length, b = true) → w.junk = junk →
      (∀ r ∈ rows, (fill r junk).isSome = true) →
      (fetch_loop fill arr result w rows blks acc).map Prod.fst
        = some (some (acc ++ rows.filterMap (fun r => fill r junk))) := by
  intro rows
  induction rows with
  | nil => intro w blks acc _ _ _; simp [fetch_loop]
  | cons r rows ih =>
    intro w blks acc ho hj hf
    subst hj
    have hr := hf r (by simp)
    obtain ⟨t, ht⟩ := Option.isSome_iff_exists.mp hr
    have h1 : ∀ b ∈ w.oracle.take 1, b = true := fun b hb =>
      ho b ((List.take_subset_take_left _ (by simp : 1 ≤ (r :: rows).length)) hb)
    have h := ih { w with oracle := w.oracle.drop 1, next_block := w.next_block + 1,
                          log := w.log ++ [Event.malloc w.next_block] }
      (blks ++ [w.next_block]) (acc ++ [t])
      (fun b hb => ho b (mem_take_drop_one _ _ _ hb)) rfl (fun x hx => hf x (by simp [hx]))
    unfold fetch_loop
    rw [malloc_true w h1]
    simp only [ht]
    refine h.trans ?_
    simp [List.filterMap_cons, ht]

/-- A multi-row fetch whose statement gives at least one row, with the allocations it makes
succeeding and every row mapping defined, returns the records of the rows in order. -/
theorem fetch_all_value {T : Type} (fill : MYSQL_ROW → (Nat → Nat) → Option T) (w : World S)
    (q : CStr) (rows : List MYSQL_ROW) (h : fetch_ready fill w q rows) :
    (fetch_all fill w q).map (fun o => (o.1, o.2.1))
      = some (some (rows.filterMap (fun r => fill r w.junk)), (rows.length : Int)) := by
  obtain ⟨⟨id, db1, hex⟩, hn, hlen, ho, hf⟩ := h
  obtain ⟨db, iid, err, pend, oracle, junk, nb, log⟩ := w
  simp only at hex ho hf
  have hpos : 0 < rows.length := List.length_pos.mpr hn
  have hw : wrap32 (rows.length : Int) = rows.length := by unfold wrap32; omega
  unfold fetch_all execute_select_query mysql_query
  simp only [hex, mysql_store_result, mysql_num_rows, hw]
  have hne : ¬ ((rows.length : Int) = 0) := by omega
  simp only [ne_eq, not_true_eq_false, if_false, hne]
  rw [if_neg (by rw [hw]; exact hne)]
  have key : ∀ (arr : Nat) (res : MYSQL_RES) (w : World S),
      w.oracle = oracle.drop 1 → w.junk = junk →
      (fetch_loop fill arr res w rows [] []).map Prod.fst
        = some (some (rows.filterMap (fun r => fill r junk))) := by
    intro arr res w h1 h2
    simpa using fetch_loop_maps fill arr res junk rows w [] []
      (by rw [h1]; exact fun b hb => ho b (mem_take_drop_one _ _ _ hb)) h2 hf
  rw [malloc_true _ (fun b hb => ho b (by
    have : List.take 1 oracle ⊆ List.take (rows.length + 1) oracle :=
      List.take_subset_take_left _ (by omega)
    exact this hb))]
  simp only
  split
  · rename_i hx
    have := congrArg (Option.map Prod.fst) hx
    rw [key _ _ _ rfl rfl] at this
    simp at this
  · rename_i w3 hx
    have := congrArg (Option.map Prod.fst) hx
    rw [key _ _ _ rfl rfl] at this
    simp at this
  · rename_i recs w3 hx
    have := congrArg (Option.map Prod.fst) hx
    rw [key _ _ _ rfl rfl] at this
    simp at this
    subst this
    simp [hw]

theorem fetch_all_maps {T : Type} (fill : MYSQL_ROW → (Nat → Nat) → Option T) (w : World S)
    (q : CStr) (rows : List MYSQL_ROW) (h : fetch_ready fill w q rows) :
    maps_rows fill w.junk rows (fetch_all fill w q) := by
  have hv := fetch_all_value fill w q rows h
  have hf := h.2.2.2.2
  have hm := filterMap_map_some (fun r => fill r w.junk) rows hf
  obtain ⟨o, ho, he⟩ := Option.map_eq_some'.mp hv
  obtain ⟨a, b, w1⟩ := o
  simp only [Prod.mk.injEq] at he
  obtain ⟨ha, hb⟩ := he
  subst ha hb
  refine ⟨_, w1, ho, ?_, ?_⟩
  · have := congrArg List.length hm
    simpa using this
  · intro i hi
    have hg := congrArg (fun l => l.get? i) hm
    simp only [List.get?_eq_getElem?, List.getElem?_map] at hg ⊢
    rw [List.getElem?_eq_getElem hi] at hg ⊢
    simp only [Option.map_some'] at hg
    cases hx : (List.filterMap (fun r => fill r w.junk) rows)[i]? with
    | none => rw [hx] at hg; simp at hg
    | some t =>
      rw [hx] at hg
      simp only [Option.map_some', Option.some.injEq] at hg
      simp [← hg]

theorem fetch_all_null_iff_zero {T : Type} (fill : MYSQL_ROW → (Nat → Nat) → Option T)
    (w : World S) (q : CStr) : null_iff_zero (fetch_all fill w q) := by
  intro o ho
  unfold fetch_all at ho
  split at ho
  · cases ho; simp
  · split at ho
    · cases ho; simp
    · rename_i hz
      split at ho
      · cases ho; simp
      · split at ho
        · cases ho
        · cases ho; simp
        · cases ho; simp [hz]

/-- A multi-row fetch whose number of rows converts to the `int` 0 returns the null
sequence. -/
theorem fetch_all_wrap_zero {T : Type} (fill : MYSQL_ROW → (Nat → Nat) → Option T)
    (w : World S) (q : CStr) (id : Nat) (rows : List MYSQL_ROW) (db1 : S.State)
    (hex : S.exec w.db q = (Reply.ok id (some rows), db1))
    (hw : wrap32 (rows.length : Int) = 0) :
    (fetch_all fill w q).map (fun o => (o.1, o.2.1)) = some (none, 0) := by
  unfold fetch_all execute_select_query mysql_query
  simp only [hex, mysql_store_result, mysql_num_rows, hw,
    ne_eq, not_true_eq_false, if_false, if_true, Option.map_some']

/-- Claim C26 as stated fails: a store answers the statement of `get_all_users` with
4294967296 rows, each with a defined mapping, and no allocation fails; the conversion of the
number of rows to `int` gives 0 and the fetch returns the null sequence with count 0. -/
theorem fetch_of_many_rows_is_null :
    (∃ rows : List MYSQL_ROW,
        many_rows.exec () (bytes "SELECT * FROM users ORDER BY user_id")
          = (Reply.ok 0 (some rows), ()) ∧
        rows.length = 4294967296 ∧
        (∀ r ∈ rows, (get_all_users_fill r (fun _ => 170)).isSome = true)) ∧
      (boot (S := many_rows) () []).oracle = [] ∧
      (get_all_users (boot (S := many_rows) () [])).map (fun o => (o.1, o.2.1))
        = some (none, 0) := by
  refine ⟨⟨_, rfl, List.length_replicate _ _, ?_⟩, rfl, ?_⟩
  · intro r hr
    rw [List.eq_of_mem_replicate hr]
    decide
  · exact fetch_all_wrap_zero get_all_users_fill (boot (S := many_rows) () []) _ 0
      (List.replicate 4294967296 (numbered_row 1)) () rfl
      (by rw [List.length_replicate]; decide)

/-- Claim C26, amended: in each of the ten multi-row fetches, when the statement succeeds
with `n` rows, `1 ≤ n ≤ 2147483647`, every allocation the fetch makes succeeds and every
row has a defined mapping, the fetch returns a non-null sequence of `n` records and the
count `n`, and for every `i < n` the record at index `i` is the mapping of the row at index
`i`; and in every outcome of each fetch the sequence is null exactly when the count is 0. -/
theorem fetch_maps_rows_in_order {D : Type} (F : FloatOps D) (w : World S)
    (rows : List MYSQL_ROW) (category_id user_id order_id : Int) (search_term status : CStr)
    (min_price max_price : D) :
    ((fetch_ready (get_all_users_fill) w (bytes "SELECT * FROM users ORDER BY user_id") rows →
        maps_rows (get_all_users_fill) w.junk rows (get_all_users w)) ∧
      null_iff_zero (get_all_users w)) ∧
    ((fetch_ready (get_all_products_fill F) w (bytes "SELECT * FROM products ORDER BY product_id") rows →
        maps_rows (get_all_products_fill F) w.junk rows (get_all_products F w)) ∧
      null_iff_zero (get_all_products F w)) ∧
    ((fetch_ready (get_products_by_category_fill F) w (get_products_by_category_query category_id) rows →
        maps_rows (get_products_by_category_fill F) w.junk rows (get_products_by_category F w category_id)) ∧
      null_iff_zero (get_products_by_category F w category_id)) ∧
    ((fetch_ready (search_products_by_name_fill F) w (search_products_by_name_query search_term) rows →
        maps_rows (search_products_by_name_fill F) w.junk rows (search_products_by_name F w search_term)) ∧
      null_iff_zero (search_products_by_name F w search_term)) ∧
    ((fetch_ready (get_products_by_price_range_fill F) w (get_products_by_price_range_query F min_price max_price) rows →
        maps_rows (get_products_by_price_range_fill F) w.junk rows (get_products_by_price_range F w min_price max_price)) ∧
      null_iff_zero (get_products_by_price_range F w min_price max_price)) ∧
    ((fetch_ready (get_orders_by_user_fill F) w (get_orders_by_user_query user_id) rows →
        maps_rows (get_orders_by_user_fill F) w.junk rows (get_orders_by_user F w user_id)) ∧
      null_iff_zero (get_orders_by_user F w user_id)) ∧
    ((fetch_ready (get_all_orders_fill F) w (bytes "SELECT * FROM orders ORDER BY order_date DESC") rows →
        maps_rows (get_all_orders_fill F) w.junk rows (get_all_orders F w)) ∧
      null_iff_zero (get_all_orders F w)) ∧
    ((fetch_ready (get_orders_by_status_fill F) w (get_orders_by_status_query status) rows →
        maps_rows (get_orders_by_status_fill F) w.junk rows (get_orders_by_status F w status)) ∧
      null_iff_zero (get_orders_by_status F w status)) ∧
    ((fetch_ready (get_order_items_by_order_fill F) w (get_order_items_by_order_query order_id) rows →
        maps_rows (get_order_items_by_order_fill F) w.junk rows (get_order_items_by_order F w order_id)) ∧
      null_iff_zero (get_order_items_by_order F w order_id)) ∧
    ((fetch_ready (get_cart_items_by_user_fill) w (get_cart_items_by_user_query user_id) rows →
        maps_rows (get_cart_items_by_user_fill) w.junk rows (get_cart_items_by_user w user_id)) ∧
      null_iff_zero (get_cart_items_by_user w user_id)) :=
  ⟨⟨fetch_all_maps _ w _ rows, fetch_all_null_iff_zero _ w _⟩,
   ⟨fetch_all_maps _ w _ rows, fetch_all_null_iff_zero _ w _⟩,
   ⟨fetch_all_maps _ w _ rows, fetch_all_null_iff_zero _ w _⟩,
   ⟨fetch_all_maps _ w _ rows, fetch_all_null_iff_zero _ w _⟩,
   ⟨fetch_all_maps _ w _ rows, fetch_all_null_iff_zero _ w _⟩,
   ⟨fetch_all_maps _ w _ rows, fetch_all_null_iff_zero _ w _⟩,
   ⟨fetch_all_maps _ w _ rows, fetch_all_null_iff_zero _ w _⟩,
   ⟨fetch_all_maps _ w _ rows, fetch_all_null_iff_zero _ w _⟩,
   ⟨fetch_all_maps _ w _ rows, fetch_all_null_iff_zero _ w _⟩,
   ⟨fetch_all_maps _ w _ rows, fetch_all_null_iff_zero _ w _⟩⟩

/-- Claim C26 at a store with three user rows: the fetch of all users returns three
records, the mappings of the rows 1, 2, 3 in this order, and the count 3. -/
theorem fetch_maps_rows_in_order_witness :
    fetch_ready get_all_users_fill (boot (S := three_rows) () [])
        (bytes "SELECT * FROM users ORDER BY user_id")
        [numbered_row 1, numbered_row 2, numbered_row 3] ∧
      maps_rows get_all_users_fill (fun _ => 170)
        [numbered_row 1, numbered_row 2, numbered_row 3]
        (get_all_users (boot (S := three_rows) () [])) :=
  have h : fetch_ready get_all_users_fill (boot (S := three_rows) () [])
      (bytes "SELECT * FROM users ORDER BY user_id")
      [numbered_row 1, numbered_row 2, numbered_row 3] :=
    ⟨⟨0, (), rfl⟩, by decide, by decide, by simp [boot], by decide⟩
  ⟨h, (fetch_maps_rows_in_order fixed_point (boot (S := three_rows) () [])
        [numbered_row 1, numbered_row 2, numbered_row 3] 0 0 0 [] [] 0 0).1.1 h⟩

theorem sent_append (l1 l2 : List Event) : sent (l1 ++ l2) = sent l1 ++ sent l2 := by
  unfold sent; exact List.filterMap_append _ _ _

theorem sent_query (q : CStr) : sent [Event.query q] = [q] := rfl

theorem sent_diag (m : CStr) : sent [Event.diag m] = [] := rfl

theorem sent_store_result (n : Nat) : sent [Event.store_result n] = [] := rfl

theorem sent_free_result (n : Nat) : sent [Event.free_result n] = [] := rfl

theorem sent_malloc (n : Nat) : sent [Event.malloc n] = [] := rfl

theorem sent_malloc_failed : sent [Event.malloc_failed] = [] := rfl

theorem sent_free (n : Nat) : sent [Event.free n] = [] := rfl

theorem mysql_query_sent (w : World S) (q : CStr) :
    sent (mysql_query w q).2.log = sent w.log ++ [q] := by
  unfold mysql_query
  split <;> simp only [fprintf_stderr, free, mysql_free_result, sent_append, sent_query, sent_diag, sent_store_result, sent_free_result, sent_malloc, sent_malloc_failed, sent_free, List.append_nil]

theorem execute_query_sent (w : World S) (q : CStr) :
    sent (execute_query w q).2.log = sent w.log ++ [q] := by
  have h := mysql_query_sent w q
  unfold execute_query
  split
  · rename_i rc w1 hq
    rw [hq] at h
    simp only at h
    split
    · simp only [fprintf_stderr, free, mysql_free_result, sent_append, sent_query, sent_diag, sent_store_result, sent_free_result, sent_malloc, sent_malloc_failed, sent_free, List.append_nil]; exact h
    · exact h

theorem mysql_store_result_sent (w : World S) :
    sent (mysql_store_result w).2.log = sent w.log := by
  unfold mysql_store_result
  split
  · rfl
  · simp only [fprintf_stderr, free, mysql_free_result, sent_append, sent_query, sent_diag, sent_store_result, sent_free_result, sent_malloc, sent_malloc_failed, sent_free, List.append_nil]

theorem execute_select_query_sent (w : World S) (q : CStr) :
    sent (execute_select_query w q).2.log = sent w.log ++ [q] := by
  have h := mysql_query_sent w q
  unfold execute_select_query
  split
  · rename_i rc w1 hq
    rw [hq] at h
    simp only at h
    split
    · simp only [fprintf_stderr, free, mysql_free_result, sent_append, sent_query, sent_diag, sent_store_result, sent_free_result, sent_malloc, sent_malloc_failed, sent_free, List.append_nil]; exact h
    · have hs := mysql_store_result_sent w1
      split
      · rename_i w2 hq2
        rw [hq2] at hs
        simp only [fprintf_stderr, free, mysql_free_result, sent_append, sent_query, sent_diag, sent_store_result, sent_free_result, sent_malloc, sent_malloc_failed, sent_free, List.append_nil]
        exact hs.trans h
      · rename_i res w2 hq2
        rw [hq2] at hs
        exact hs.trans h

theorem malloc_sent (w : World S) : sent (malloc w).2.log = sent w.log := by
  unfold malloc
  split <;> simp only [fprintf_stderr, free, mysql_free_result, sent_append, sent_query, sent_diag, sent_store_result, sent_free_result, sent_malloc, sent_malloc_failed, sent_free, List.append_nil]

theorem free_sent (w : World S) (b : Nat) : sent (free w b).log = sent w.log := by
  simp only [fprintf_stderr, free, mysql_free_result, sent_append, sent_query, sent_diag, sent_store_result, sent_free_result, sent_malloc, sent_malloc_failed, sent_free, List.append_nil]

theorem mysql_free_result_sent (w : World S) (r : MYSQL_RES) :
    sent (mysql_free_result w r).log = sent w.log := by
  simp only [fprintf_stderr, free, mysql_free_result, sent_append, sent_query, sent_diag, sent_store_result, sent_free_result, sent_malloc, sent_malloc_failed, sent_free, List.append_nil]

theorem foldl_free_sent (blks : List Nat) (w : World S) :
    sent (blks.foldl free w).log = sent w.log := by
  rw [foldl_free_log, sent_append]
  have : sent (blks.map Event.free) = [] := by
    unfold sent
    induction blks with
    | nil => rfl
    | cons b bs ih => simp
  rw [this, List.append_nil]

theorem fetch_loop_sent {T : Type} (fill : MYSQL_ROW → (Nat → Nat) → Option T) (arr : Nat)
    (result : MYSQL_RES) :
    ∀ (rows : List MYSQL_ROW) (w : World S) (blks : List Nat) (acc : List T)
      (out : Option (List T) × World S),
      fetch_loop fill arr result w rows blks acc = some out → sent out.2.log = sent w.log := by
  intro rows
  induction rows with
  | nil =>
    intro w blks acc out h
    simp only [fetch_loop, Option.some.injEq] at h
    subst h; rfl
  | cons r rows ih =>
    intro w blks acc out h
    have hm := malloc_sent w
    unfold fetch_loop at h
    split at h
    · rename_i w1 hq
      rw [hq] at hm
      simp only [Option.some.injEq] at h
      subst h
      simp only [mysql_free_result_sent, free_sent, foldl_free_sent]
      exact hm
    · rename_i blk w1 hq
      rw [hq] at hm
      split at h
      · cases h
      · exact (ih _ _ _ _ h).trans hm

theorem fetch_all_sent {T : Type} (fill : MYSQL_ROW → (Nat → Nat) → Option T) (w : World S)
    (q : CStr) (out : Option (List T) × Int × World S) (h : fetch_all fill w q = some out) :
    sent out.2.2.log = sent w.log ++ [q] := by
  have he := execute_select_query_sent w q
  unfold fetch_all at h
  split at h
  · rename_i w1 hq
    rw [hq] at he
    cases h; exact he
  · rename_i result w1 hq
    rw [hq] at he
    simp only at he
    split at h
    · cases h
      simp only [mysql_free_result_sent]; exact he
    · have hm := malloc_sent w1
      split at h
      · rename_i w2 hq2
        rw [hq2] at hm
        cases h
        simp only [mysql_free_result_sent]; exact hm.trans he
      · rename_i arr w2 hq2
        rw [hq2] at hm
        split at h
        · cases h
        · rename_i w3 hl
          cases h
          exact (fetch_loop_sent fill _ _ _ _ _ _ _ hl).trans (hm.trans he)
        · rename_i recs w3 hl
          cases h
          simp only [mysql_free_result_sent]
          exact (fetch_loop_sent fill _ _ _ _ _ _ _ hl).trans (hm.trans he)

theorem fetch_one_sent {T : Type} (fill : MYSQL_ROW → (Nat → Nat) → Option T) (w : World S)
    (q : CStr) (out : Option T × World S) (h : fetch_one fill w q = some out) :
    sent out.2.log = sent w.log ++ [q] := by
  have he := execute_select_query_sent w q
  unfold fetch_one at h
  split at h
  · rename_i w1 hq
    rw [hq] at he
    cases h; exact he
  · rename_i result w1 hq
    rw [hq] at he
    simp only at he
    split at h
    · cases h
      simp only [mysql_free_result_sent]; exact he
    · have hm := malloc_sent w1
      split at h
      · rename_i w2 hq2
        rw [hq2] at hm
        cases h
        simp only [mysql_free_result_sent]; exact hm.trans he
      · rename_i arr w2 hq2
        rw [hq2] at hm
        split at h
        · cases h
        · cases h
          simp only [mysql_free_result_sent]; exact hm.trans he

theorem calculate_cart_total_sent {D : Type} (F : FloatOps D) (w : World S) (user_id : Int)
    (out : D × World S) (h : calculate_cart_total F w user_id = some out) :
    sent out.2.log = sent w.log ++ [calculate_cart_total_query user_id] := by
  have he := execute_select_query_sent w (calculate_cart_total_query user_id)
  unfold calculate_cart_total at h
  split at h
  · rename_i w1 hq
    rw [hq] at he
    cases h; exact he
  · rename_i result w1 hq
    rw [hq] at he
    simp only at he
    split at h
    · cases h
      simp only [mysql_free_result_sent]; exact he
    · split at h
      · cases h
      · cases h
        simp only [mysql_free_result_sent]; exact he
      · cases h
        simp only [mysql_free_result_sent]; exact he

theorem get_cart_item_count_sent (w : World S) (user_id : Int)
    (out : Int × World S) (h : get_cart_item_count w user_id = some out) :
    sent out.2.log = sent w.log ++ [get_cart_item_count_query user_id] := by
  have he := execute_select_query_sent w (get_cart_item_count_query user_id)
  unfold get_cart_item_count at h
  split at h
  · rename_i w1 hq
    rw [hq] at he
    cases h; exact he
  · rename_i result w1 hq
    rw [hq] at he
    simp only at he
    split at h
    · cases h
      simp only [mysql_free_result_sent]; exact he
    · split at h
      · cases h
      · cases h
        simp only [mysql_free_result_sent]; exact he
      · cases h
        simp only [mysql_free_result_sent]; exact he

theorem verify_user_credentials_sent (w : World S) (u p : CStr) :
    sent (verify_user_credentials w u p).2.log
      = sent w.log ++ [verify_user_credentials_query u p] := by
  have he := execute_select_query_sent w (verify_user_credentials_query u p)
  unfold verify_user_credentials
  split
  · rename_i w1 hq
    rw [hq] at he
    exact he
  · rename_i result w1 hq
    rw [hq] at he
    simp only [mysql_free_result_sent]; exact he

/-- The world after a create operation. -/
theorem create_sent (w : World S) (q : CStr) :
    sent (match execute_query w q with
          | (false, w1) => ((-1 : Int), w1)
          | (true, w1) => (wrap32 (mysql_insert_id w1), w1)).2.log = sent w.log ++ [q] := by
  have he := execute_query_sent w q
  split
  · rename_i w1 hq; rw [hq] at he; exact he
  · rename_i w1 hq; rw [hq] at he; exact he

theorem is_dml_snprintf (size : Nat) (fmt : String) (args : List Arg) (h6 : 6 ≤ size - 1)
    (h : is_dml ((vformat (bytes fmt) args).take 6) = true) :
    is_dml (snprintf size fmt args) = true := by
  unfold is_dml at h ⊢
  unfold snprintf
  rw [List.take_take] at h ⊢
  rw [Nat.min_eq_left h6]
  simpa using h

/-- C5 (as stated) fails: user 1 has two cart rows, 2 pieces of product 42 (price 9.99) and
3 pieces of product 43; after delete_product(43), which leaves the cart row in place, the
second cart row references no product row and the total is 19.98, the first row alone. -/
theorem cart_total_skips_orphan_row :
    (calculate_cart_total fixed_point (boot (S := ref_server) two_product_db []) 1).map
        Prod.fst = some 4995 ∧
    (delete_product (boot (S := ref_server) two_product_db []) 43).1 = true ∧
    (delete_product (boot (S := ref_server) two_product_db []) 43).2.db.cart_items.rows
      = [[Val.int 1, Val.int 1, Val.int 42, Val.int 2, Val.null],
         [Val.int 2, Val.int 1, Val.int 43, Val.int 3, Val.null]] ∧
    products_of (delete_product (boot (S := ref_server) two_product_db []) 43).2.db
      [Val.int 2, Val.int 1, Val.int 43, Val.int 3, Val.null] = [] ∧
    (calculate_cart_total fixed_point
        (delete_product (boot (S := ref_server) two_product_db []) 43).2 1).map Prod.fst
      = some 1998 := by
  refine ⟨?_, ?_, ?_, ?_, ?_⟩
  · rfl
  · rfl
  · rfl
  · rfl
  · rfl

theorem create_product_text {D : Type} (F : FloatOps D) (p : Product D) :
    vformat (bytes "INSERT INTO products (product_name, description, price, stock_quantity, category_id, sku, weight, dimensions, is_active) VALUES ('%s', '%s', %.2f, %d, %d, '%s', %.2f, '%s', %d)")
        [Arg.s (cstr p.product_name), Arg.s (cstr p.description), Arg.f (F.fmt_2f p.price),
         Arg.d p.stock_quantity, Arg.d p.category_id, Arg.s (cstr p.sku),
         Arg.f (F.fmt_2f p.weight), Arg.s (cstr p.dimensions), Arg.d (bool_int p.is_active)]
      = insert_statement "products" Product.columns (Product.written F p) [] := by
  simp [vformat, insert_statement, sep_join, Product.columns, Product.written, Lit.show, bytes]

theorem update_product_text {D : Type} (F : FloatOps D) (p : Product D) :
    vformat (bytes "UPDATE products SET product_name='%s', description='%s', price=%.2f, stock_quantity=%d, category_id=%d, sku='%s', weight=%.2f, dimensions='%s', is_active=%d WHERE product_id=%d")
        [Arg.s (cstr p.product_name), Arg.s (cstr p.description), Arg.f (F.fmt_2f p.price),
         Arg.d p.stock_quantity, Arg.d p.category_id, Arg.s (cstr p.sku),
         Arg.f (F.fmt_2f p.weight), Arg.s (cstr p.dimensions), Arg.d (bool_int p.is_active),
         Arg.d p.product_id]
      = update_statement "products" Product.columns (Product.written F p) "product_id"
          p.product_id := by
  simp [vformat, update_statement, sep_join, Product.columns, Product.written, Lit.show, bytes]

/-- The whole `INSERT` of a user ends with the digit of is_active and the closing bracket. -/
theorem insert_user_ends (u : User) :
    ∃ pre, insert_statement "users" User.columns (User.written u) []
      = pre ++ (bool_digit u.is_active :: bytes ")") := by
  rw [← create_user_text, create_user_expand, fmt_d_bool]
  exact ⟨bytes "INSERT INTO users (username, email, password_hash, first_name, last_name, phone, is_active) VALUES ('" ++ (cstr u.username ++ (bytes "', '" ++ (cstr u.email ++ (bytes "', '" ++ (cstr u.password_hash ++ (bytes "', '" ++ (cstr u.first_name ++ (bytes "', '" ++ (cstr u.last_name ++ (bytes "', '" ++ (cstr u.phone ++ (bytes "', ")))))))))))),
    by simp only [List.append_assoc, List.singleton_append, List.append_nil]⟩

/-- The whole `UPDATE` of a user holds the digit of is_active before the `WHERE` clause. -/
theorem update_user_ends (u : User) :
    ∃ pre, update_statement "users" User.columns (User.written u) "user_id" u.user_id
      = pre ++ (bool_digit u.is_active :: (bytes " WHERE user_id=" ++ fmt_d u.user_id)) := by
  rw [← update_user_text, update_user_expand, fmt_d_bool]
  exact ⟨bytes "UPDATE users SET username='" ++ (cstr u.username ++ (bytes "', email='" ++ (cstr u.email ++ (bytes "', password_hash='" ++ (cstr u.password_hash ++ (bytes "', first_name='" ++ (cstr u.first_name ++ (bytes "', last_name='" ++ (cstr u.last_name ++ (bytes "', phone='" ++ (cstr u.phone ++ (bytes "', is_active=")))))))))))),
    by simp only [List.append_assoc, List.singleton_append, List.append_nil]⟩

/-- The whole `INSERT` of a product ends with the digit of is_active and the closing
bracket. -/
theorem insert_product_ends {D : Type} (F : FloatOps D) (p : Product D) :
    ∃ pre, insert_statement "products" Product.columns (Product.written F p) []
      = pre ++ (bool_digit p.is_active :: bytes ")") := by
  rw [← create_product_text, create_product_expand, fmt_d_bool]
  exact ⟨bytes "INSERT INTO products (product_name, description, price, stock_quantity, category_id, sku, weight, dimensions, is_active) VALUES ('" ++ (cstr p.product_name ++ (bytes "', '" ++ (cstr p.description ++ (bytes "', " ++ (F.fmt_2f p.price ++ (bytes ", " ++ (fmt_d p.stock_quantity ++ (bytes ", " ++ (fmt_d p.category_id ++ (bytes ", '" ++ (cstr p.sku ++ (bytes "', " ++ (F.fmt_2f p.weight ++ (bytes ", '" ++ (cstr p.dimensions ++ (bytes "', ")))))))))))))))),
    by simp only [List.append_assoc, List.singleton_append, List.append_nil]⟩

/-- The whole `UPDATE` of a product holds the digit of is_active before the `WHERE`
clause. -/
theorem update_product_ends {D : Type} (F : FloatOps D) (p : Product D) :
    ∃ pre, update_statement "products" Product.columns (Product.written F p) "product_id"
        p.product_id
      = pre ++ (bool_digit p.is_active ::
          (bytes " WHERE product_id=" ++ fmt_d p.product_id)) := by
  rw [← update_product_text, update_product_expand, fmt_d_bool]
  exact ⟨bytes "UPDATE products SET product_name='" ++ (cstr p.product_name ++ (bytes "', description='" ++ (cstr p.description ++ (bytes "', price=" ++ (F.fmt_2f p.price ++ (bytes ", stock_quantity=" ++ (fmt_d p.stock_quantity ++ (bytes ", category_id=" ++ (fmt_d p.category_id ++ (bytes ", sku='" ++ (cstr p.sku ++ (bytes "', weight=" ++ (F.fmt_2f p.weight ++ (bytes ", dimensions='" ++ (cstr p.dimensions ++ (bytes "', is_active=")))))))))))))))),
    by simp only [List.append_assoc, List.singleton_append, List.append_nil]⟩

theorem take_fits (n : Nat) (t : CStr) (h : t.length < n + 1) : t.take n = t :=
  List.take_of_length_le (by omega)

/-- C13 (amended): whenever the statement of create or update of a User or Product fits its
buffer with its terminator (1024 bytes for users, 2048 for products), the statement sent
holds is_active as the digit 0 or 1 (last before the closing bracket in create, last before
the WHERE clause in update); every row mapping sets is_active to true exactly when the
column is non-null and `atoi` of it is 1; the digit of a boolean b is read as b; and on the
reference store, for a valid record, a next identifier of at most 2147483647 and a
succeeding allocation, the record created with is_active b is read back with is_active b. -/
theorem is_active_written_and_read {D : Type} (F : FloatOps D) :
    (∀ u : User, (insert_statement "users" User.columns (User.written u) []).length < 1024 →
      ∃ pre, create_user_query u = pre ++ (bool_digit u.is_active :: bytes ")")) ∧
    (∀ u : User,
      (update_statement "users" User.columns (User.written u) "user_id" u.user_id).length
        < 1024 →
      ∃ pre, update_user_query u
        = pre ++ (bool_digit u.is_active :: (bytes " WHERE user_id=" ++ fmt_d u.user_id))) ∧
    (∀ p : Product D,
      (insert_statement "products" Product.columns (Product.written F p) []).length < 2048 →
      ∃ pre, create_product_query F p = pre ++ (bool_digit p.is_active :: bytes ")")) ∧
    (∀ p : Product D,
      (update_statement "products" Product.columns (Product.written F p) "product_id"
        p.product_id).length < 2048 →
      ∃ pre, update_product_query F p
        = pre ++ (bool_digit p.is_active ::
            (bytes " WHERE product_id=" ++ fmt_d p.product_id))) ∧
    (∀ (row : MYSQL_ROW) (junk : Nat → Nat), ∀ fill ∈ user_fills, ∀ g,
      fill row junk = some g →
      (g.is_active = true ↔ ∃ s, row.get? 9 = some (some s) ∧ atoi s = 1)) ∧
    (∀ (row : MYSQL_ROW) (junk : Nat → Nat), ∀ fill ∈ product_fills F, ∀ g,
      fill row junk = some g →
      (g.is_active = true ↔ ∃ s, row.get? 11 = some (some s) ∧ atoi s = 1)) ∧
    (∀ b : Bool, col_bool [some [bool_digit b]] 0 = b) ∧
    (∀ (w : World ref_server) (u : User), u.valid → w.db.users.next_id ≤ 2147483647 →
      alloc_ok w = true →
      ∃ g, (get_user_by_id (create_user w u).2 (create_user w u).1).map Prod.fst
          = some (some g) ∧ g.is_active = u.is_active) ∧
    (∀ (w : World ref_server) (p : Product D), p.valid F →
      w.db.products.next_id ≤ 2147483647 → alloc_ok w = true →
      ∃ g, (get_product_by_id F (create_product F w p).2 (create_product F w p).1).map
            Prod.fst = some (some g) ∧ g.is_active = p.is_active) := by
  refine ⟨fun u h => ?_, fun u h => ?_, fun p h => ?_, fun p h => ?_, ?_, ?_, ?_, ?_, ?_⟩
  · rw [(user_statements_cut u).1, take_fits _ _ h]
    exact insert_user_ends u
  · rw [(user_statements_cut u).2, take_fits _ _ h]
    exact update_user_ends u
  · rw [(product_statements_cut F p).1, take_fits _ _ h]
    exact insert_product_ends F p
  · rw [(product_statements_cut F p).2, take_fits _ _ h]
    exact update_product_ends F p
  · intro row junk fill hf g hg
    rw [user_is_active row junk fill hf g hg, col_bool_iff]
  · intro row junk fill hf g hg
    rw [product_is_active F row junk fill hf g hg, col_bool_iff]
  · intro b
    cases b <;> decide
  · intro w u hv hid ha
    obtain ⟨_, g, hg, _, hw⟩ := create_then_get_user w u hv hid ha
    exact ⟨g, hg, hw.2.2.2.2.2.2⟩
  · intro w p hv hid ha
    obtain ⟨_, g, hg, _, hw⟩ := create_then_get_product F w p hv hid ha
    exact ⟨g, hg, hw.2.2.2.2.2.2.2.2⟩

/-- The whole `UPDATE` of a product: the assignments up to dimensions, the assignment of
is_active, and the `WHERE` clause. -/
theorem update_product_split {D : Type} (F : FloatOps D) (p : Product D) :
    ∃ pre, update_statement "products" Product.columns (Product.written F p) "product_id"
        p.product_id
      = (pre ++ (bytes "', is_active=" ++ fmt_d (bool_int p.is_active)))
          ++ (bytes " WHERE product_id=" ++ fmt_d p.product_id) ∧
      pre.length = 121 + ((cstr p.product_name).length + (cstr p.description).length
        + (F.fmt_2f p.price).length + (fmt_d p.stock_quantity).length
        + (fmt_d p.category_id).length + (cstr p.sku).length + (F.fmt_2f p.weight).length
        + (cstr p.dimensions).length) := by
  have k0 : (bytes "UPDATE products SET product_name='").length = 34 := by decide
  have k1 : (bytes "', description='").length = 16 := by decide
  have k2 : (bytes "', price=").length = 9 := by decide
  have k3 : (bytes ", stock_quantity=").length = 17 := by decide
  have k4 : (bytes ", category_id=").length = 14 := by decide
  have k5 : (bytes ", sku='").length = 7 := by decide
  have k6 : (bytes "', weight=").length = 10 := by decide
  have k7 : (bytes ", dimensions='").length = 14 := by decide
  rw [← update_product_text, update_product_expand]
  refine ⟨bytes "UPDATE products SET product_name='" ++ (cstr p.product_name ++ (bytes "', description='" ++ (cstr p.description ++ (bytes "', price=" ++ (F.fmt_2f p.price ++ (bytes ", stock_quantity=" ++ (fmt_d p.stock_quantity ++ (bytes ", category_id=" ++ (fmt_d p.category_id ++ (bytes ", sku='" ++ (cstr p.sku ++ (bytes "', weight=" ++ (F.fmt_2f p.weight ++ (bytes ", dimensions='" ++ cstr p.dimensions)))))))))))))), ?_, ?_⟩
  · simp only [List.append_assoc, List.append_nil]
  · simp only [List.length_append, k0, k1, k2, k3, k4, k5, k6, k7]
    omega

/-- Witness of C13 (amended): the statements of the sample user and the sample product, the
row of an active user, and the sample user created on the store without rows. -/
theorem is_active_written_and_read_witness :
    ((insert_statement "users" User.columns (User.written sample_user) []).length < 1024 ∧
      ∃ pre, create_user_query sample_user
        = pre ++ (bool_digit sample_user.is_active :: bytes ")")) ∧
    ((update_statement "products" Product.columns (Product.written fixed_point sample_product)
        "product_id" sample_product.product_id).length < 2048 ∧
      ∃ pre, update_product_query fixed_point sample_product
        = pre ++ (bool_digit sample_product.is_active ::
            (bytes " WHERE product_id=" ++ fmt_d sample_product.product_id))) ∧
    (∃ g, get_user_by_id_fill long_name_row (fun _ => 170) = some g ∧
      (g.is_active = true ↔ ∃ s, long_name_row.get? 9 = some (some s) ∧ atoi s = 1)) ∧
    (sample_user.valid ∧ empty_db.users.next_id ≤ 2147483647 ∧
      ∃ g, (get_user_by_id (create_user (boot (S := ref_server) empty_db []) sample_user).2
            (create_user (boot (S := ref_server) empty_db []) sample_user).1).map Prod.fst
          = some (some g) ∧ g.is_active = sample_user.is_active) :=
  ⟨⟨by decide, (is_active_written_and_read fixed_point).1 sample_user (by decide)⟩,
   ⟨by decide,
    (is_active_written_and_read fixed_point).2.2.2.1 sample_product (by decide)⟩,
   ⟨_, rfl,
    (is_active_written_and_read fixed_point).2.2.2.2.1 long_name_row (fun _ => 170)
      get_user_by_id_fill (List.mem_cons_self _ _) _ rfl⟩,
   ⟨sample_user_valid, by decide,
    (is_active_written_and_read fixed_point).2.2.2.2.2.2.2.1
      (boot (S := ref_server) empty_db []) sample_user sample_user_valid (by decide) rfl⟩⟩

end Shop
